import Mathlib

/-! # CLRX GCN assembler / disassembler: shallow embedding and verified properties

The definitions below are a shallow embedding of parts of

* `amdasm/GCNDisasm.cpp`   (`decodeGCNOperand`, `beforeDisassemble`, `disassemble`,
  `initializeGCNDisassembler`),
* `amdasm/GCNAssembler.cpp` (`parseSOP2Encoding`, `parseSOPPEncoding`, the instruction-word
  emission of every `parse*Encoding` routine, `tryPromoteConstImmToLiteral`, `resolveCode`,
  the encoding parts of the VOP2, VOP1, VOPC and VOP3 routines, the suffix handling of
  `assemble` and `checkMnemonic`, the register-usage records of the MUBUF, MIMG and FLAT
  routines, `getRwFlags`, `getRegPair`, `initializeGCNAssembler`, the lookup of a mnemonic in
  `assemble`, `parseSOP1Encoding`, `parseSOPCEncoding`, `getInstructionSize`,
  `fillAlignment`).

Conventions.

* Machine integers are natural numbers or integers with explicit reduction modulo `2^w`.
* A `char` buffer is a list of byte values (`List Nat`); `cc 'x'` is the byte of a character.
* A C++ exception is the `Except.error` case carrying the exception text.
* Loops that advance through the code buffer are driven by a fuel argument that is
  instantiated with the number of words of the buffer, which bounds the number of iterations
  because every iteration consumes at least one word.
* Parts of the program that are not in the verified sources (the instruction table, the mode
  flag constants, number formatting helpers, the operand parser) are parameters or carry a
  doc comment stating that they are modelled from the specification.
-/

namespace CLRX

/-! ## Machine integers and characters -/

/-- Conversion `int64_t(x)` of an unsigned 64-bit value (two's complement). -/
def toInt64 (x : Nat) : Int :=
  if x % 2 ^ 64 < 2 ^ 63 then ((x % 2 ^ 64 : Nat) : Int) else ((x % 2 ^ 64 : Nat) : Int) - 2 ^ 64

/-- Result of a signed 64-bit operation, reduced to the `int64_t` range. -/
def wrapInt64 (i : Int) : Int :=
  if i % 2 ^ 64 < 2 ^ 63 then i % 2 ^ 64 else i % 2 ^ 64 - 2 ^ 64

/-- Conversion `int16_t(x)` of the low 16 bits of `x`. -/
def int16_t (x : Nat) : Int :=
  if x % 65536 < 32768 then ((x % 65536 : Nat) : Int) else ((x % 65536 : Nat) : Int) - 65536

/-- Conversion of an integer to `uint16_t`. -/
def toUInt16 (i : Int) : Nat := (i % 65536).toNat

/-- Conversion of an integer to `uint32_t` (`cxuint`). -/
def toUInt32 (i : Int) : Nat := (i % 2 ^ 32).toNat

/-- Conversion of an integer to `size_t` (64 bit). -/
def toSizeT (i : Int) : Nat := (i % 2 ^ 64).toNat

/-- Conversion of an unsigned value to a stored `char` / `cxbyte`. -/
def toByte (n : Nat) : Nat := n % 256

/-- Conversion of a (possibly negative) integer to a stored `char` / `cxbyte`. -/
def toByteI (i : Int) : Nat := (i % 256).toNat

/-- Byte value of a character literal. -/
def cc (c : Char) : Nat := c.toNat

/-- Bytes of a C string literal. -/
def cstr (s : String) : List Nat := s.toList.map Char.toNat

/-! ## Number formatting helpers (CLRX/Utilities) -/

/-- Digit character of a digit value below 16 (lower-case hexadecimal). -/
def digitChar (d : Nat) : Nat := if d < 10 then 48 + d else 87 + d

/-- Digits of `n` in the given radix, most significant first, at most `fuel` digits,
the empty list for zero. -/
def digitsAux (radix : Nat) : Nat → Nat → List Nat → List Nat
  | 0, _, acc => acc
  | fuel + 1, n, acc => if n = 0 then acc else digitsAux radix fuel (n / radix) (digitChar (n % radix) :: acc)

/-- Modelled from the spec: `u32tocstrCStyle(value, buf, maxSize, radix, width, prefix)` of
CLRX/Utilities, which is not among the verified sources. The specification says that
literals "format as hexadecimal" (the tests show `0x0`, `0x11110000`) and that jump operands
format as the decimal address; the value is a 32-bit unsigned number, `pfx` selects the
`0x` radix marker for radix 16, and the result is the list of characters written (the C
function returns their number). The arguments `maxSize` and `width` (always 0) are not
modelled. -/
def u32tocstrCStyle (value radix : Nat) (pfx : Bool) : List Nat :=
  let v := value % 2 ^ 32
  (if pfx && radix == 16 then [cc '0', cc 'x'] else []) ++
    (if v = 0 then [cc '0'] else digitsAux radix 32 v [])

/-! ## decodeGCNOperand (GCNDisasm.cpp) -/

/-- The table `gcnOperandFloatTable`. -/
def gcnOperandFloatTable : List String :=
  ["0.5", "-0.5", "1.0", "-1.0", "2.0", "-2.0", "4.0", "-4.0"]

/-- The digit block of `decodeGCNOperand` that prints a register number `val`
(it occurs twice in the function, for the first and for the last register of a range):
an optional hundreds digit, a tens digit that is printed only when it is not zero, and the
units digit. -/
def regNumberChars (val0 : Nat) : List Nat :=
  let hundreds := if val0 ≥ 100 then [toByte (val0 / 100 + 48)] else []
  let val := if val0 ≥ 100 then val0 - (val0 / 100) * 100 else val0
  let digit1 := val / 10
  hundreds ++ (if digit1 ≠ 0 then [toByte (digit1 + 48)] else []) ++
    [toByte (val - digit1 * 10 + 48)]

/-- The function `decodeGCNOperand(op, vregNum, buf, literal, floatLit)`; the result is the
list of characters written to `buf` (its length is the C return value, except in the `vcc`
pair case where the function returns 3 whatever it wrote, which is kept by truncating to three
characters). `ftoa` stands for `ftocstrCStyle` applied to the float with the given bits; the
C default arguments `literal = 0` and `floatLit = false` are written out at the call sites. -/
def decodeGCNOperand (ftoa : Nat → List Nat) (op0 vregNum : Nat) (literal : Nat)
    (floatLit : Bool) : List Nat :=
  let op : Nat := op0 % 2 ^ 32
  if op < 104 ∨ (op ≥ 256 ∧ op < 512) then
    -- scalar or vector register
    let first := if op ≥ 256 then cc 'v' else cc 's'
    let op1 : Nat := if op ≥ 256 then op - 256 else op
    let opening := if vregNum ≠ 1 then [cc '['] else []
    let lastReg := toUInt32 ((op1 : Int) + (vregNum : Int) - 1)
    let closing :=
      if vregNum ≠ 1 then [cc ':'] ++ regNumberChars lastReg ++ [cc ']'] else []
    [first] ++ opening ++ regNumberChars op1 ++ closing
  else
    let op2 : Nat := op - op % 2
    if op2 = 106 ∨ op2 = 108 ∨ op2 = 110 ∨ op2 = 126 then
      let name :=
        if op2 = 106 then cstr "vcc" else if op2 = 108 then cstr "tba"
        else if op2 = 110 then cstr "tma" else cstr "exec"
      if vregNum = 2 then
        if op = 107 then name ++ cstr "_u!"
        else name.take 3
      else
        name ++ [cc '_'] ++ (if op % 2 = 0 then cstr "lo" else cstr "hi")
    else if op = 255 then
      u32tocstrCStyle literal 16 true ++
        (if floatLit then cstr " /* " ++ ftoa (literal % 2 ^ 32) ++ cstr " */" else [])
    else if op ≥ 112 ∧ op < 124 then
      cstr "ttmp" ++
        (if op ≥ 122 then [cc '1', toByte (op - 122 + 48)] else [toByte (op - 112 + 48)])
    else if op = 124 then cstr "m0"
    else if op ≥ 128 ∧ op ≤ 192 then
      let k : Nat := op - 128
      let digit1 := k / 10
      (if digit1 ≠ 0 then [toByte (digit1 + 48)] else []) ++ [toByte (k - digit1 * 10 + 48)]
    else if op > 192 ∧ op ≤ 208 then
      [cc '-'] ++
        (if op ≥ 122 then [cc '1', toByteI ((op : Int) - 202 + 48)]
         else [toByteI ((op : Int) - 192 + 48)])
    else if op ≥ 240 ∧ op < 248 then
      cstr (gcnOperandFloatTable.getD (op - 240) "")
    else if op = 251 then cstr "vccz"
    else if op = 252 then cstr "execz"
    else if op = 253 then cstr "scc"
    else if op = 254 then cstr "lds"
    else
      -- reserved value (illegal)
      cstr "ill_" ++ [toByte (48 + op / 100), toByte (48 + (op / 10) % 10), toByte (48 + op % 10)]

/-! ## Instruction descriptors and the static tables of GCNDisasm.cpp -/

/-- Encoding families (`GCNENC_*`), in the order in which the per-family tables of
GCNDisasm.cpp list them. -/
inductive GCNEncoding
  | GCNENC_NONE | GCNENC_SOPC | GCNENC_SOPP | GCNENC_SOP1 | GCNENC_SOP2 | GCNENC_SOPK
  | GCNENC_SMRD | GCNENC_VOPC | GCNENC_VOP1 | GCNENC_VOP2 | GCNENC_VOP3A | GCNENC_VOP3B
  | GCNENC_VINTRP | GCNENC_DS | GCNENC_MUBUF | GCNENC_MTBUF | GCNENC_MIMG | GCNENC_EXP
  | GCNENC_FLAT
  deriving DecidableEq, Repr

open GCNEncoding

/-- The descriptor `GCNInstruction`; a null `mnemonic` pointer is `none`. -/
structure GCNInstruction where
  mnemonic : Option String
  encoding : GCNEncoding
  mode : Nat
  code : Nat
  archMask : Nat

/-- The mode-flag constants (`GCN_*`) that `disassemble` tests. Their values are declared in
a header that is not among the verified sources, so they are a parameter. -/
structure GCNModeConsts where
  GCN_MASK1 : Nat
  GCN_MASK2 : Nat
  GCN_FLOATLIT : Nat
  GCN_REG_DST_64 : Nat
  GCN_REG_SRC0_64 : Nat
  GCN_REG_SRC1_64 : Nat
  GCN_REG_SRC2_64 : Nat
  GCN_IMM_REL : Nat
  GCN_IMM_LOCKS : Nat
  GCN_IMM_MSGS : Nat
  GCN_IMM_NONE : Nat
  GCN_REG_S1_JMP : Nat
  GCN_SBASE4 : Nat
  GCN_ARG1_IMM : Nat
  GCN_ARG2_IMM : Nat
  GCN_DS2_VCC : Nat
  GCN_DST_VCC : Nat
  GCN_SRC2_VCC : Nat
  GCN_SRC12_NONE : Nat
  GCN_SRC2_NONE : Nat
  GCN_ADDR_DST : Nat
  GCN_DSMASK : Nat
  GCN_ADDR_SRC96 : Nat
  GCN_ADDR_SRC128 : Nat
  GCN_DSMASK2 : Nat
  GCN_ONLYDST : Nat
  GCN_2SRCS : Nat
  GCN_VDATA2 : Nat

/-- The table `gcnInstrTableByCodeSpaces`: offset of the encoding space of a family in the
by-code table (the field `instrsNum` is not read by the code). -/
def gcnInstrTableByCodeSpaces : GCNEncoding → Nat
  | GCNENC_NONE => 0
  | GCNENC_SOPC => 0
  | GCNENC_SOPP => 0x0080
  | GCNENC_SOP1 => 0x0100
  | GCNENC_SOP2 => 0x0200
  | GCNENC_SOPK => 0x0280
  | GCNENC_SMRD => 0x02a0
  | GCNENC_VOPC => 0x02e0
  | GCNENC_VOP1 => 0x03e0
  | GCNENC_VOP2 => 0x04e0
  | GCNENC_VOP3A => 0x0520
  | GCNENC_VOP3B => 0x0520
  | GCNENC_VINTRP => 0x0720
  | GCNENC_DS => 0x0724
  | GCNENC_MUBUF => 0x0824
  | GCNENC_MTBUF => 0x08a4
  | GCNENC_MIMG => 0x08ac
  | GCNENC_EXP => 0x092c
  | GCNENC_FLAT => 0x092d

/-- The table `gcnEncoding11Table`, indexed by bits [29:26] of the instruction word. -/
def gcnEncoding11Table : Nat → GCNEncoding
  | 2 => GCNENC_VINTRP
  | 4 => GCNENC_VOP3A
  | 6 => GCNENC_DS
  | 7 => GCNENC_FLAT
  | 8 => GCNENC_MUBUF
  | 10 => GCNENC_MTBUF
  | 12 => GCNENC_MIMG
  | 14 => GCNENC_EXP
  | _ => GCNENC_SMRD

/-- The table `gcnEncodingOpcodeTable`: pairs (`bitPos`, `bits`) of the opcode field. -/
def gcnEncodingOpcodeTable : GCNEncoding → Nat × Nat
  | GCNENC_NONE => (0, 0)
  | GCNENC_SOPC => (16, 7)
  | GCNENC_SOPP => (16, 7)
  | GCNENC_SOP1 => (8, 8)
  | GCNENC_SOP2 => (23, 7)
  | GCNENC_SOPK => (23, 5)
  | GCNENC_SMRD => (22, 6)
  | GCNENC_VOPC => (17, 8)
  | GCNENC_VOP1 => (9, 8)
  | GCNENC_VOP2 => (25, 6)
  | GCNENC_VOP3A => (17, 9)
  | GCNENC_VOP3B => (17, 9)
  | GCNENC_VINTRP => (16, 2)
  | GCNENC_DS => (18, 8)
  | GCNENC_MUBUF => (18, 7)
  | GCNENC_MTBUF => (16, 3)
  | GCNENC_MIMG => (18, 7)
  | GCNENC_EXP => (0, 0)
  | GCNENC_FLAT => (18, 8)

/-- The table `sendMsgCodeMessageTable`. -/
def sendMsgCodeMessageTable : List String :=
  ["0", "interrupt", "gs", "gs_done", "4", "5", "6", "7", "8", "9", "10", "11", "12", "13",
   "14", "system"]

/-- The table `sendGsOpMessageTable`. -/
def sendGsOpMessageTable : List String := ["nop", "cut", "emit", "emit-cut"]

/-! ## The code buffer -/

/-- The word `codeWords[pos]` of the input bytes: `input` is reinterpreted as an array of
32-bit words, little-endian as on the hosts the program runs on. -/
def codeWord (input : List Nat) (pos : Nat) : Nat :=
  input.getD (4 * pos) 0 % 256 + (input.getD (4 * pos + 1) 0 % 256) * 2 ^ 8 +
    (input.getD (4 * pos + 2) 0 % 256) * 2 ^ 16 + (input.getD (4 * pos + 3) 0 % 256) * 2 ^ 24

/-- Bytes of a list of 32-bit words stored little-endian (the layout the tests build with
`LEV`). -/
def wordsToBytes : List Nat → List Nat
  | [] => []
  | w :: ws =>
    w % 256 :: (w / 2 ^ 8) % 256 :: (w / 2 ^ 16) % 256 :: (w / 2 ^ 24) % 256 :: wordsToBytes ws

/-! ## beforeDisassemble (the label pre-pass) -/

/-- One iteration of the scanning loop of `beforeDisassemble` at word index `pos`: the label
pushed by this instruction (if any) and the value of `pos` after the iteration. -/
def beforeDisassembleStep (input : List Nat) (pos : Nat) : Option Nat × Nat :=
  let insnCode := codeWord input pos
  if insnCode &&& 0x80000000 ≠ 0 then
    if insnCode &&& 0x40000000 = 0 then
      -- SOP???
      if insnCode &&& 0x30000000 = 0x30000000 then
        -- SOP1/SOPK/SOPC/SOPP
        let encPart := insnCode &&& 0x0f800000
        if encPart = 0x0e800000 then
          -- SOP1
          if insnCode &&& 0xff = 0xff then (none, pos + 2) else (none, pos + 1)
        else if encPart = 0x0f000000 then
          -- SOPC
          if insnCode &&& 0xff = 0xff ∨ insnCode &&& 0xff00 = 0xff00 then (none, pos + 2)
          else (none, pos + 1)
        else if encPart = 0x0f800000 then
          -- SOPP
          let opcode := (insnCode >>> 16) &&& 0x7f
          if opcode = 2 ∨ (opcode ≥ 2 ∧ opcode ≤ 9) then
            -- if jump
            (some (toSizeT (((pos : Int) + int16_t (insnCode &&& 0xffff) + 4) * 4)), pos + 1)
          else (none, pos + 1)
        else
          -- SOPK
          if (insnCode >>> 23) &&& 0x1f = 17 then
            -- if branch fork
            (some (toSizeT (((pos : Int) + int16_t (insnCode &&& 0xffff) + 1) * 4)), pos + 1)
          else (none, pos + 1)
      else
        -- SOP2
        if insnCode &&& 0xff = 0xff then (none, pos + 2) else (none, pos + 1)
    else
      -- SMRD and others
      let encPart := insnCode &&& 0x3c000000
      if encPart = 0x10000000 then (none, pos + 2) -- VOP3
      else if encPart = 0x18000000 ∨ encPart = 0x1c000000 ∨ encPart = 0x20000000 ∨
          encPart = 0x28000000 ∨ encPart = 0x30000000 ∨ encPart = 0x38000000 then
        (none, pos + 2) -- all DS,FLAT,MUBUF,MTBUF,MIMG,EXP have 8-byte opcode
      else (none, pos + 1)
  else
    -- some vector instructions
    if insnCode &&& 0x7e000000 = 0x7c000000 then
      -- VOPC
      if insnCode &&& 0x1ff = 0xff ∨ insnCode &&& 0x3fe00 = 0x1fe00 then (none, pos + 2)
      else (none, pos + 1)
    else if insnCode &&& 0x7e000000 = 0x7e000000 then
      -- VOP1
      if insnCode &&& 0x1ff = 0xff then (none, pos + 2) else (none, pos + 1)
    else
      -- VOP2
      let opcode := (insnCode >>> 25) &&& 0x3f
      if opcode = 32 ∨ opcode = 33 then (none, pos + 2) -- V_MADMK and V_MADAK
      else if insnCode &&& 0x1ff = 0xff ∨ insnCode &&& 0x3fe00 = 0x1fe00 then (none, pos + 2)
      else (none, pos + 1)

/-- The scanning loop `for (pos = 0; pos < (inputSize>>2);)` of `beforeDisassemble`,
appending to `labels` in program order. -/
def beforeDisassembleLoop (input : List Nat) : Nat → Nat → List Nat → List Nat
  | 0, _, labels => labels
  | fuel + 1, pos, labels =>
    if pos < input.length / 4 then
      let r := beforeDisassembleStep input pos
      beforeDisassembleLoop input fuel r.2
        (match r.1 with
         | some l => labels ++ [l]
         | none => labels)
    else labels

/-- Insertion of a value into an ascending list (used for `std::sort`). -/
def insertSorted (x : Nat) : List Nat → List Nat
  | [] => [x]
  | y :: ys => if x ≤ y then x :: y :: ys else y :: insertSorted x ys

/-- Ascending sort (`std::sort(labels.begin(), labels.end())`). -/
def sortLabels : List Nat → List Nat
  | [] => []
  | x :: xs => insertSorted x (sortLabels xs)

/-- Removal of adjacent duplicates (`std::unique` followed by `resize`). -/
def uniqueLabels : List Nat → List Nat
  | [] => []
  | [x] => [x]
  | x :: y :: rest => if x = y then uniqueLabels (y :: rest) else x :: uniqueLabels (y :: rest)

/-- The method `GCNDisassembler::beforeDisassemble` on a disassembler whose `labels` vector is
empty before the call: the sorted, duplicate-free label vector, or the exception thrown. -/
def beforeDisassemble (input : List Nat) : Except String (List Nat) :=
  if input.length % 4 ≠ 0 then
    Except.error "Input code size must be aligned to 4 bytes!"
  else
    Except.ok (uniqueLabels (sortLabels (beforeDisassembleLoop input (input.length / 4) 0 [])))

/-! ## disassemble (the main pass) -/

/-- Environment of `disassemble`: the content of the by-code instruction table
`gcnInstrTableByCode` when `disassemble` runs, the mode constants, the flag
`(disassembler.getFlags() & DISASM_FLOATLITS) != 0` and the float formatter
`ftocstrCStyle` (as a function of the bits of the float). The instruction table from which
the by-code table is filled, the constants and the formatter are not part of the verified
sources. -/
structure DisasmEnv where
  gcnInstrTableByCode : Nat → GCNInstruction
  M : GCNModeConsts
  floatLits : Bool
  ftocstrCStyle : Nat → List Nat

/-- The C expression `(mode & FLAG) ? 2 : 1`. -/
def regs64 (mode flag : Nat) : Nat := if mode &&& flag ≠ 0 then 2 else 1

/-- The text ` /* <float> */` that follows a literal when float literals are displayed. -/
def floatComment (env : DisasmEnv) (literal : Nat) : List Nat :=
  cstr " /* " ++ env.ftocstrCStyle (literal % 2 ^ 32) ++ cstr " */"

/-- Result of fetching an instruction: the family, the words consumed after the first one
and the position after the instruction. -/
structure FetchedInsn where
  gcnEncoding : GCNEncoding
  insn2Code : Nat
  literal : Nat
  pos : Nat

/-- The part "determine GCN encoding" of the main loop of `disassemble`: `pos` is the index
after the first word `insnCode`; the exception text is returned when the code throws. -/
def determineEncoding (input : List Nat) (codeWordsNum insnCode pos : Nat) :
    Except String FetchedInsn :=
  let withLiteral (enc : GCNEncoding) : Except String FetchedInsn :=
    if pos ≥ codeWordsNum then Except.error "Instruction outside code space!"
    else Except.ok ⟨enc, 0, codeWord input pos, pos + 1⟩
  let plain (enc : GCNEncoding) : Except String FetchedInsn := Except.ok ⟨enc, 0, 0, pos⟩
  if insnCode &&& 0x80000000 ≠ 0 then
    if insnCode &&& 0x40000000 = 0 then
      -- SOP???
      if insnCode &&& 0x30000000 = 0x30000000 then
        -- SOP1/SOPK/SOPC/SOPP
        let encPart := insnCode &&& 0x0f800000
        if encPart = 0x0e800000 then
          if insnCode &&& 0xff = 0xff then withLiteral GCNENC_SOP1 else plain GCNENC_SOP1
        else if encPart = 0x0f000000 then
          if insnCode &&& 0xff = 0xff ∨ insnCode &&& 0xff00 = 0xff00 then
            withLiteral GCNENC_SOPC
          else plain GCNENC_SOPC
        else if encPart = 0x0f800000 then plain GCNENC_SOPP
        else plain GCNENC_SOPK
      else
        -- SOP2
        if insnCode &&& 0xff = 0xff then withLiteral GCNENC_SOP2 else plain GCNENC_SOP2
    else
      -- SMRD and others
      let encPart := insnCode &&& 0x3c000000
      let enc := gcnEncoding11Table ((encPart >>> 26) &&& 0xf)
      if encPart = 0x10000000 then
        -- VOP3
        if pos ≥ codeWordsNum then Except.error "Instruction outside code space!"
        else Except.ok ⟨enc, codeWord input pos, 0, pos + 1⟩
      else if encPart = 0x18000000 ∨ encPart = 0x1c000000 ∨ encPart = 0x20000000 ∨
          encPart = 0x28000000 ∨ encPart = 0x30000000 ∨ encPart = 0x38000000 then
        -- all DS,FLAT,MUBUF,MTBUF,MIMG,EXP have 8-byte opcode
        if pos + 1 ≥ codeWordsNum then Except.error "Instruction outside code space!"
        else Except.ok ⟨enc, codeWord input pos, 0, pos + 1⟩
      else plain enc
  else
    -- some vector instructions
    if insnCode &&& 0x7e000000 = 0x7c000000 then
      -- VOPC
      if insnCode &&& 0x1ff = 0xff ∨ insnCode &&& 0x3fe00 = 0x1fe00 then
        withLiteral GCNENC_VOPC
      else plain GCNENC_VOPC
    else if insnCode &&& 0x7e000000 = 0x7e000000 then
      -- VOP1
      if insnCode &&& 0x1ff = 0xff then withLiteral GCNENC_VOP1 else plain GCNENC_VOP1
    else
      -- VOP2
      let opcode := (insnCode >>> 25) &&& 0x3f
      if opcode = 32 ∨ opcode = 33 then withLiteral GCNENC_VOP2 -- V_MADMK and V_MADAK
      else if insnCode &&& 0x1ff = 0xff ∨ insnCode &&& 0x3fe00 = 0x1fe00 then
        withLiteral GCNENC_VOP2
      else plain GCNENC_VOP2

/-- The opcode that `disassemble` extracts from the first word:
`(insnCode >> bitPos) & ((1U << bits) - 1U)` with the entry of `gcnEncodingOpcodeTable`. -/
def extractOpcode (gcnEncoding : GCNEncoding) (insnCode : Nat) : Nat :=
  (insnCode >>> (gcnEncodingOpcodeTable gcnEncoding).1) &&&
    ((1 <<< (gcnEncodingOpcodeTable gcnEncoding).2) - 1)

/-- The branch target `(pos + int16_t(imm16) + 1) << 2` that `disassemble` computes for a
relative branch (SOPP with `GCN_IMM_REL` and the SOPK branch); `pos` is the word index
after the instruction, the arithmetic is that of `size_t`. -/
def branchPos (pos imm16 : Nat) : Nat :=
  toSizeT (((pos : Int) + int16_t imm16 + 1) * 4)

/-- The lock-counter digit written by `buf[bufPos++] = '0' + (lockCnt>=10)?lockCnt-10:lockCnt`:
the condition of the conditional operator is `'0' + (lockCnt>=10)`, which is never zero, so
the stored character is the low byte of the unsigned difference `lockCnt-10`. -/
def lockCntChar (lockCnt : Nat) : Nat := toByteI ((lockCnt : Int) - 10)

/-- The case `GCN_IMM_LOCKS` of the SOPP operand printer. -/
def soppLocksText (imm16 : Nat) : List Nat :=
  let vm : List Nat :=
    if imm16 &&& 15 ≠ 15 then
      cstr "vmcnt" ++ (if imm16 &&& 15 ≥ 10 then [cc '1'] else []) ++ [lockCntChar (imm16 &&& 15)]
    else []
  let prev1 : Bool := decide (imm16 &&& 15 ≠ 15)
  let exp : List Nat :=
    if (imm16 >>> 4) &&& 7 ≠ 7 then
      (if prev1 then cstr " & " else []) ++ cstr "expcnt" ++ [toByte (48 + ((imm16 >>> 4) &&& 7))]
    else []
  let prev2 : Bool := prev1 || decide ((imm16 >>> 4) &&& 7 ≠ 7)
  let lgkm : List Nat :=
    if (imm16 >>> 8) &&& 15 ≠ 15 then
      (if prev2 then cstr " & " else []) ++ cstr "lgkmcnt" ++
        (if (imm16 >>> 8) &&& 15 ≥ 10 then [cc '1'] else []) ++ [lockCntChar ((imm16 >>> 8) &&& 15)]
    else []
  let prev3 : Bool := prev2 || decide ((imm16 >>> 8) &&& 15 ≠ 15)
  let extra : List Nat :=
    if imm16 &&& 0xf080 ≠ 0 then
      (if prev3 then cstr " :" else []) ++ u32tocstrCStyle imm16 16 true
    else []
  vm ++ exp ++ lgkm ++ extra

/-- The case `GCN_IMM_MSGS` of the SOPP operand printer. -/
def soppMsgsText (imm16 : Nat) : List Nat :=
  let gsops : Bool := decide (imm16 &&& 14 = 2)
  let withStream : Bool := gsops && decide (imm16 &&& 0x30 ≠ 0)
  let illMask : Nat := if withStream then 0xfcc0 else if gsops then 0xffc0 else 0xfff0
  cstr "msg(" ++ cstr (sendMsgCodeMessageTable.getD (imm16 &&& 15) "") ++ cstr ", " ++
    (if gsops then
      cstr (sendGsOpMessageTable.getD ((imm16 >>> 4) &&& 3) "") ++
        (if withStream then cstr ", " ++ [toByte (48 + ((imm16 >>> 8) &&& 3))] else [])
     else []) ++
    cstr ")" ++
    (if imm16 &&& illMask ≠ 0 then cstr " :" ++ u32tocstrCStyle imm16 16 true else [])

/-- The `switch(gcnEncoding)` of the main loop of `disassemble`: the operand text appended
to `buf` after the mnemonic, together with the branch target `branchPos` when the case of a
relative branch is executed. `pos` is the word index after the instruction. -/
def operandsText (env : DisasmEnv) (gcnInsn : GCNInstruction) (f : FetchedInsn)
    (insnCode opcode : Nat) : List Nat × Option Nat :=
  let M := env.M
  let mode := gcnInsn.mode
  let dec := decodeGCNOperand env.ftocstrCStyle
  -- calls that leave `literal` and `floatLit` to their defaults
  let dec0 (op vregNum : Nat) : List Nat := dec op vregNum 0 false
  -- calls that pass `literal` and leave `floatLit` to its default
  let decL (op vregNum lit : Nat) : List Nat := dec op vregNum lit false
  let displayFloatLits : Bool := env.floatLits && decide (mode &&& M.GCN_MASK2 = M.GCN_FLOATLIT)
  let literal := f.literal
  let insn2Code := f.insn2Code
  let mode1 := mode &&& M.GCN_MASK1
  match f.gcnEncoding with
  | GCNENC_SOPC =>
    (decL (insnCode &&& 0xff) (regs64 mode M.GCN_REG_SRC0_64) literal ++ cstr ", " ++
      decL ((insnCode >>> 8) &&& 0xff) (regs64 mode M.GCN_REG_SRC1_64) literal, none)
  | GCNENC_SOPP =>
    let imm16 := insnCode &&& 0xffff
    if mode1 = M.GCN_IMM_REL then
      (cstr "L" ++ u32tocstrCStyle (branchPos f.pos imm16) 10 false, some (branchPos f.pos imm16))
    else if mode1 = M.GCN_IMM_LOCKS then (soppLocksText imm16, none)
    else if mode1 = M.GCN_IMM_MSGS then (soppMsgsText imm16, none)
    else if mode1 = M.GCN_IMM_NONE then
      (if imm16 ≠ 0 then u32tocstrCStyle imm16 16 true else [], none)
    else (u32tocstrCStyle imm16 16 true, none)
  | GCNENC_SOP1 =>
    (dec0 ((insnCode >>> 16) &&& 0x7f) (regs64 mode M.GCN_REG_DST_64) ++ cstr ", " ++
      decL (insnCode &&& 0xff) (regs64 mode M.GCN_REG_SRC0_64) literal, none)
  | GCNENC_SOP2 =>
    ((if mode1 ≠ M.GCN_REG_S1_JMP then
        dec0 ((insnCode >>> 16) &&& 0x7f) (regs64 mode M.GCN_REG_DST_64) ++ cstr ", "
      else []) ++
      decL (insnCode &&& 0xff) (regs64 mode M.GCN_REG_SRC0_64) literal ++ cstr ", " ++
      decL ((insnCode >>> 8) &&& 0xff) (regs64 mode M.GCN_REG_SRC1_64) literal ++
      (if mode1 = M.GCN_REG_S1_JMP ∧ (insnCode >>> 16) &&& 0x7f ≠ 0 then
        cstr " sdst=" ++ u32tocstrCStyle ((insnCode >>> 16) &&& 0x7f) 16 true
       else []), none)
  | GCNENC_SOPK =>
    let imm16 := insnCode &&& 0xffff
    let dst := dec0 ((insnCode >>> 16) &&& 0x7f) (regs64 mode M.GCN_REG_DST_64) ++ cstr ", "
    if mode &&& 0xf0 ≠ M.GCN_IMM_REL then (dst ++ u32tocstrCStyle imm16 16 true, none)
    else
      (dst ++ cstr "L" ++ u32tocstrCStyle (branchPos f.pos imm16) 10 false,
        some (branchPos f.pos imm16))
  | GCNENC_SMRD =>
    -- `1<<(gcnInsn.mode & 0xf00)` on an `int`: a count of 32 or more is left undefined by
    -- C++; the shift instruction of the compiled code takes the count modulo 32
    let dregsNum := 1 <<< ((mode &&& 0xf00) % 32)
    (dec0 ((insnCode >>> 15) &&& 0x7f) dregsNum ++ cstr ", " ++
      dec0 ((insnCode >>> 8) &&& 0x7e) (if mode &&& M.GCN_SBASE4 ≠ 0 then 4 else 2) ++
      cstr ", " ++
      (if insnCode &&& 0x100 ≠ 0 then u32tocstrCStyle (insnCode &&& 0xff) 16 true
       else dec0 (insnCode &&& 0xff) 1), none)
  | GCNENC_VOPC =>
    (cstr "vcc, " ++
      dec (insnCode &&& 0x1ff) (regs64 mode M.GCN_REG_SRC0_64) literal displayFloatLits ++
      cstr ", " ++
      decL (((insnCode >>> 9) &&& 0xff) + 256) (regs64 mode M.GCN_REG_SRC1_64) 0, none)
  | GCNENC_VOP1 =>
    (decL (((insnCode >>> 17) &&& 0xff) + 256) (regs64 mode M.GCN_REG_DST_64) 0 ++ cstr ", " ++
      dec (insnCode &&& 0x1ff) (regs64 mode M.GCN_REG_SRC0_64) literal displayFloatLits, none)
  | GCNENC_VOP2 =>
    let immText : List Nat :=
      cstr ", " ++ u32tocstrCStyle literal 16 true ++
        (if displayFloatLits then floatComment env literal else [])
    (dec0 (((insnCode >>> 17) &&& 0xff) + 256) (regs64 mode M.GCN_REG_DST_64) ++ cstr ", " ++
      dec (insnCode &&& 0x1ff) (regs64 mode M.GCN_REG_SRC0_64) literal displayFloatLits ++
      (if mode1 = M.GCN_ARG1_IMM then immText
       else if mode1 = M.GCN_DS2_VCC ∨ mode1 = M.GCN_DST_VCC then cstr ", vcc"
       else []) ++
      cstr ", " ++
      dec0 (((insnCode >>> 9) &&& 0x1ff) + 256) (regs64 mode M.GCN_REG_SRC1_64) ++
      (if mode1 = M.GCN_ARG2_IMM then immText
       else if mode1 = M.GCN_DS2_VCC ∨ mode1 = M.GCN_SRC2_VCC then cstr ", vcc"
       else []), none)
  | GCNENC_VOP3A =>
    let isA : Bool := decide (gcnInsn.encoding = GCNENC_VOP3A)
    let absFlags : Nat := if isA then (insnCode >>> 8) &&& 7 else 0
    let src (neg : Bool) (absBit : Nat) (operand : List Nat) : List Nat :=
      (if neg then [cc '-'] else []) ++ (if absFlags &&& absBit ≠ 0 then cstr "abs(" else []) ++
        operand ++ (if absFlags &&& absBit ≠ 0 then [cc ')'] else [])
    let vdst : List Nat :=
      if opcode < 256 then dec0 ((insnCode >>> 17) &&& 0xff) 2
      else dec0 (((insnCode >>> 17) &&& 0xff) + 256) (regs64 mode M.GCN_REG_DST_64)
    let sdst : List Nat :=
      if !isA ∧ (mode1 = M.GCN_DS2_VCC ∨ mode1 = M.GCN_DST_VCC) then
        cstr ", " ++ dec0 ((insnCode >>> 8) &&& 0x7f) 2
      else []
    let src0 : List Nat :=
      cstr ", " ++ src (decide (insn2Code &&& 2 ^ 29 ≠ 0)) 1
        (dec (insn2Code &&& 0x1ff) (regs64 mode M.GCN_REG_SRC0_64) literal displayFloatLits)
    let src2 : List Nat :=
      if mode1 ≠ M.GCN_SRC2_NONE then
        cstr ", " ++
          (if mode1 = M.GCN_DS2_VCC ∨ mode1 = M.GCN_SRC2_VCC then
            dec0 ((insn2Code >>> 18) &&& 0x1ff) 2
           else
            src (decide (insn2Code &&& 2 ^ 31 ≠ 0)) 4
              (dec ((insn2Code >>> 18) &&& 0x1ff) (regs64 mode M.GCN_REG_SRC2_64) literal
                displayFloatLits))
      else []
    let src12 : List Nat :=
      if mode1 ≠ M.GCN_SRC12_NONE then
        cstr ", " ++ src (decide (insn2Code &&& 2 ^ 30 ≠ 0)) 2
          (dec ((insn2Code >>> 9) &&& 0x1ff) (regs64 mode M.GCN_REG_SRC1_64) literal
            displayFloatLits) ++ src2
      else []
    let asField1 : List Nat :=
      if mode1 = M.GCN_SRC12_NONE ∧ (insn2Code >>> 9) &&& 0x1ff ≠ 0 then
        cstr " src1=" ++ u32tocstrCStyle ((insn2Code >>> 9) &&& 0x1ff) 16 true
      else []
    let asField2 : List Nat :=
      if (mode1 = M.GCN_SRC12_NONE ∨ mode1 = M.GCN_SRC2_NONE) ∧
          (insn2Code >>> 9) &&& 0x1ff ≠ 0 then
        cstr " src2=" ++ u32tocstrCStyle ((insn2Code >>> 18) &&& 0x1ff) 16 true
      else []
    (vdst ++ sdst ++ src0 ++ src12 ++ asField1 ++ asField2, none)
  | GCNENC_VINTRP =>
    let attr := (insnCode >>> 10) &&& 63
    (dec0 (((insnCode >>> 18) &&& 0xff) + 256) 1 ++ cstr ", " ++ dec0 (insnCode + 256) 1 ++
      cstr ", attr" ++
      (if attr ≥ 10 then [toByte (48 + attr / 10), toByte (48 + attr - 10 * (attr / 10))]
       else [toByte (48 + attr)]) ++
      cstr "." ++ [(cstr "xyzw").getD ((insnCode >>> 8) &&& 3) 0], none)
  | GCNENC_DS =>
    let dst : List Nat :=
      if mode &&& M.GCN_ADDR_DST ≠ 0 then dec0 ((insn2Code &&& 0xff) + 256) 1 ++ cstr ", "
      else
        let regsNum : Nat :=
          if mode &&& M.GCN_DSMASK = M.GCN_ADDR_SRC128 then 4
          else if mode &&& M.GCN_DSMASK = M.GCN_ADDR_SRC96 then 3
          else regs64 mode M.GCN_REG_DST_64
        dec0 ((insn2Code >>> 24) + 256) regsNum ++ cstr ", "
    let vdata : List Nat :=
      if mode &&& M.GCN_DSMASK2 ≠ M.GCN_ONLYDST then
        dec0 (((insn2Code >>> 8) &&& 0xff) + 256) (regs64 mode M.GCN_REG_SRC0_64) ++
          (if mode &&& M.GCN_DSMASK2 = M.GCN_2SRCS ∨ mode &&& M.GCN_DSMASK2 = M.GCN_VDATA2 then
            cstr ", " ++
              dec0 (((insn2Code >>> 16) &&& 0xff) + 256) (regs64 mode M.GCN_REG_SRC1_64)
           else [])
      else []
    let offset := insnCode &&& 0xffff
    let offsets : List Nat :=
      if offset ≠ 0 then
        if mode &&& M.GCN_DSMASK2 ≠ M.GCN_VDATA2 then
          cstr " offset:" ++ u32tocstrCStyle offset 10 true
        else
          (if offset &&& 0xff ≠ 0 then cstr " offset0:" ++ u32tocstrCStyle (offset &&& 0xff) 10 true
           else []) ++
          (if offset &&& 0xff00 ≠ 0 then
            cstr " offset1:" ++ u32tocstrCStyle ((offset >>> 8) &&& 0xff) 10 true
           else [])
      else []
    (dst ++ vdata ++ offsets, none)
  | _ => ([], none)

/-- Ways in which `disassemble` stops before the end of the code. -/
inductive DisasmFault
  | exception (msg : String)
  | nullMnemonic
  deriving DecidableEq, Repr

/-- Observable state of `disassemble`: the characters written to the output stream, the
characters pending in `buf` (its first `bufPos` entries), the labels from `curLabel` to
`labels.end()`, and, as a ghost record, every `branchPos` computed so far. -/
structure DisasmState where
  output : List Nat
  buf : List Nat
  curLabel : List Nat
  branchTargets : List Nat
  fault : Option DisasmFault
  deriving DecidableEq, Repr

/-- The label line `L<address>:` written in front of an instruction. -/
def labelLine (addr : Nat) : List Nat :=
  cstr "L" ++ u32tocstrCStyle addr 10 false ++ cstr ":\n"

/-- One iteration of the main loop of `disassemble` at word index `pos`: the new state and
the value of `pos` after the iteration. -/
def disassembleStep (env : DisasmEnv) (input : List Nat) (st : DisasmState) (pos : Nat) :
    DisasmState × Nat :=
  let codeWordsNum := input.length / 4
  -- check label
  let hit : Bool :=
    match st.curLabel with
    | l :: _ => decide ((pos * 4) % 2 ^ 64 = l)
    | [] => false
  let buf1 := if hit then st.buf ++ labelLine ((pos * 4) % 2 ^ 64) else st.buf
  let curLabel1 := if hit then st.curLabel.tail else st.curLabel
  -- add spaces
  let buf2 := buf1 ++ cstr "        "
  let insnCode := codeWord input pos
  match determineEncoding input codeWordsNum insnCode (pos + 1) with
  | Except.error msg =>
    ({ st with buf := buf2, curLabel := curLabel1, fault := some (DisasmFault.exception msg) },
      pos + 1)
  | Except.ok f =>
    let opcode := extractOpcode f.gcnEncoding insnCode
    let gcnInsn := env.gcnInstrTableByCode (gcnInstrTableByCodeSpaces f.gcnEncoding + opcode)
    match gcnInsn.mnemonic with
    | none =>
      ({ st with buf := buf2, curLabel := curLabel1, fault := some DisasmFault.nullMnemonic },
        f.pos)
    | some mnemonic =>
      let ops := operandsText env gcnInsn f insnCode opcode
      let buf3 := buf2 ++ cstr mnemonic ++ cstr " " ++ ops.1 ++ cstr "\n"
      let targets :=
        match ops.2 with
        | some t => st.branchTargets ++ [t]
        | none => st.branchTargets
      if buf3.length + 100 ≥ 320 then
        ({ output := st.output ++ buf3, buf := [], curLabel := curLabel1,
           branchTargets := targets, fault := none }, f.pos)
      else
        ({ output := st.output, buf := buf3, curLabel := curLabel1,
           branchTargets := targets, fault := none }, f.pos)

/-- The main loop `for (size_t pos = 0; pos < codeWordsNum;)` of `disassemble`. -/
def disassembleLoop (env : DisasmEnv) (input : List Nat) : Nat → DisasmState → Nat → DisasmState
  | 0, st, _ => st
  | fuel + 1, st, pos =>
    if pos < input.length / 4 then
      let r := disassembleStep env input st pos
      match r.1.fault with
      | some _ => r.1
      | none => disassembleLoop env input fuel r.1 r.2
    else st

/-- The lines written for one label by the loop "rest of the labels". -/
def restLabelLines (label : Nat) : List Nat :=
  cstr ".org " ++ u32tocstrCStyle label 16 false ++ cstr "\n" ++ labelLine label

/-- The method `GCNDisassembler::disassemble` for the label vector `labels` left by the
pre-pass. The final state holds what was written to the output stream and what is left in
`buf` when the function returns (the function does not write `buf` out at its end). -/
def disassemble (env : DisasmEnv) (input labels : List Nat) : DisasmState :=
  if input.length % 4 ≠ 0 then
    { output := [], buf := [], curLabel := labels, branchTargets := [],
      fault := some (DisasmFault.exception "Input code size must be aligned to 4 bytes!") }
  else
    let st := disassembleLoop env input (input.length / 4)
      { output := [], buf := [], curLabel := labels, branchTargets := [], fault := none } 0
    match st.fault with
    | some _ => st
    | none =>
      -- rest of the labels
      { st with buf := st.buf ++ (st.curLabel.map restLabelLines).flatten, curLabel := [] }

/-- All characters that `disassemble` has formatted when it returns: the output stream
followed by the pending content of `buf`. -/
def DisasmState.text (st : DisasmState) : List Nat := st.output ++ st.buf

/-! ## resolveCode (GCNAssembler.cpp) -/

/-- Relocation target kinds handled by `GCNAssembler::resolveCode`; `other` stands for every
value of `AsmExprTargetType` that reaches the `default` label. -/
inductive AsmExprTargetType
  | GCNTGT_LITIMM | GCNTGT_SOPKSIMM16 | GCNTGT_SOPJMP | GCNTGT_SMRDOFFSET | GCNTGT_DSOFFSET16
  | GCNTGT_DSOFFSET8_0 | GCNTGT_DSOFFSET8_1 | GCNTGT_SOPCIMM8 | GCNTGT_MXBUFOFFSET
  | GCNTGT_SMEMOFFSET | GCNTGT_SMEMOFFSETVEGA | GCNTGT_SMEMIMM | GCNTGT_INSTOFFSET
  | GCNTGT_INSTOFFSET_S | other
  deriving DecidableEq, Repr

open AsmExprTargetType

/-- Kinds of code-flow entries (`AsmCodeFlowType`). -/
inductive AsmCodeFlowType
  | JUMP | CJUMP | CALL | END
  deriving DecidableEq, Repr

/-- A code-flow entry `{ offset, target, type }`. -/
structure AsmCodeFlowEntry where
  offset : Nat
  target : Nat
  type : AsmCodeFlowType
  deriving DecidableEq, Repr

/-- The `signess` argument of `printWarningForRange`; `dflt` is the default value used
when the call passes none. -/
inductive RangeSigness
  | dflt | WS_UNSIGNED | WS_BOTH
  deriving DecidableEq, Repr

/-- A call `printWarningForRange(bits, value, sourcePos, signess)`. -/
structure RangeCheck where
  bits : Nat
  value : Nat
  signess : RangeSigness
  deriving DecidableEq, Repr

/-- The constant `ASMSECT_ABS = UINT_MAX`. -/
def ASMSECT_ABS : Nat := 2 ^ 32 - 1

/-- The constant `INT16_MAX`. -/
def INT16_MAX : Int := 32767

/-- The constant `INT16_MIN`. -/
def INT16_MIN : Int := -32768

/-- The store `sectionData[i] = v` of a `cxbyte`. The section data is the memory behind
the pointer `cxbyte* sectionData`, a function from byte offsets to byte values. -/
def setByte (sectionData : Nat → Nat) (i v : Nat) : Nat → Nat :=
  Function.update sectionData i (v % 256)

/-- The read `sectionData[i]` of a `cxbyte`. -/
def getByte (sectionData : Nat → Nat) (i : Nat) : Nat := sectionData i

/-- The store `SULEV(*reinterpret_cast<uint16_t*>(sectionData+i), v)`: little-endian. -/
def SULEV16 (sectionData : Nat → Nat) (i v : Nat) : Nat → Nat :=
  setByte (setByte sectionData i v) (i + 1) (v >>> 8)

/-- The store `SULEV(*reinterpret_cast<uint32_t*>(sectionData+i), v)`: little-endian. -/
def SULEV32 (sectionData : Nat → Nat) (i v : Nat) : Nat → Nat :=
  setByte (setByte (setByte (setByte sectionData i v) (i + 1) (v >>> 8)) (i + 2) (v >>> 16))
    (i + 3) (v >>> 24)

/-- The read `ULEV(*reinterpret_cast<uint16_t*>(sectionData+i))`. -/
def ULEV16 (sectionData : Nat → Nat) (i : Nat) : Nat :=
  getByte sectionData i % 256 + (getByte sectionData (i + 1) % 256) * 2 ^ 8

/-- The read `ULEV(*reinterpret_cast<uint32_t*>(sectionData+i))`. -/
def ULEV32 (sectionData : Nat → Nat) (i : Nat) : Nat :=
  getByte sectionData i % 256 + (getByte sectionData (i + 1) % 256) * 2 ^ 8 +
    (getByte sectionData (i + 2) % 256) * 2 ^ 16 + (getByte sectionData (i + 3) % 256) * 2 ^ 24

/-- The memory that holds the bytes of a list from offset 0 on (and zero elsewhere). -/
def memOfBytes (bytes : List Nat) : Nat → Nat := fun i => bytes.getD i 0

/-- The first `n` bytes of a memory. -/
def bytesOfMem (sectionData : Nat → Nat) (n : Nat) : List Nat :=
  (List.range n).map sectionData

/-- Effects of one call of `resolveCode`: the returned flag, the section bytes after the
call, the texts passed to `printError`, the calls of `printWarningForRange` and the entries
passed to `addCodeFlowEntry` (with their section id). -/
structure ResolveResult where
  ret : Bool
  sectionData : Nat → Nat
  errors : List String
  rangeChecks : List RangeCheck
  codeFlow : List (Nat × AsmCodeFlowEntry)

/-- The exit `GCN_FAIL_BY_ERROR(sourcePos, msg)`: `printError` and `return false`. -/
def resolveFail (sectionData : Nat → Nat) (msg : String) : ResolveResult :=
  ⟨false, sectionData, [msg], [], []⟩

/-- The exit of a case that stored its field: `printWarningForRange(...)` and `return true`. -/
def resolveDone (sectionData : Nat → Nat) (bits value : Nat) (signess : RangeSigness) :
    ResolveResult :=
  ⟨true, sectionData, [], [⟨bits, value, signess⟩], []⟩

/-- The method `GCNAssembler::resolveCode(sourcePos, targetSectionId, sectionData, offset,
targetType, sectionId, value)`. The source position only decorates messages and is not a
parameter here; `value` is a `uint64_t`. -/
def resolveCode (targetSectionId : Nat) (sectionData : Nat → Nat) (offset : Nat)
    (targetType : AsmExprTargetType) (sectionId value : Nat) : ResolveResult :=
  match targetType with
  | GCNTGT_LITIMM =>
    if sectionId ≠ ASMSECT_ABS then
      resolveFail sectionData "Relative value is illegal in literal expressions"
    else resolveDone (SULEV32 sectionData (offset + 4) value) 32 value RangeSigness.dflt
  | GCNTGT_SOPKSIMM16 =>
    if sectionId ≠ ASMSECT_ABS then
      resolveFail sectionData "Relative value is illegal in immediate expressions"
    else resolveDone (SULEV16 sectionData offset value) 16 value RangeSigness.dflt
  | GCNTGT_SOPJMP =>
    if sectionId ≠ targetSectionId then
      -- if jump outside current section (.text)
      resolveFail sectionData "Jump over current section!"
    else
      let outOffset := wrapInt64 (toInt64 value - toInt64 offset - 4)
      if outOffset % 4 ≠ 0 then -- `outOffset & 3`
        resolveFail sectionData "Jump is not aligned to word!"
      else
        let outOffset2 := outOffset >>> (2 : Nat)
        if outOffset2 > INT16_MAX ∨ outOffset2 < INT16_MIN then
          resolveFail sectionData "Jump out of range!"
        else
          let data := SULEV16 sectionData offset (toUInt16 outOffset2)
          let insnCode := ULEV16 data (offset + 2)
          -- add codeflow entry
          ⟨true, data, [], [],
            [(sectionId, ⟨offset % 2 ^ 64, value % 2 ^ 64,
              if insnCode = 0xbf82 then AsmCodeFlowType.JUMP else AsmCodeFlowType.CJUMP⟩)]⟩
  | GCNTGT_SMRDOFFSET =>
    if sectionId ≠ ASMSECT_ABS then
      resolveFail sectionData "Relative value is illegal in offset expressions"
    else resolveDone (setByte sectionData offset value) 8 value RangeSigness.WS_UNSIGNED
  | GCNTGT_DSOFFSET16 =>
    if sectionId ≠ ASMSECT_ABS then
      resolveFail sectionData "Relative value is illegal in offset expressions"
    else resolveDone (SULEV16 sectionData offset value) 16 value RangeSigness.WS_UNSIGNED
  | GCNTGT_DSOFFSET8_0 =>
    if sectionId ≠ ASMSECT_ABS then
      resolveFail sectionData "Relative value is illegal in offset expressions"
    else resolveDone (setByte sectionData offset value) 8 value RangeSigness.WS_UNSIGNED
  | GCNTGT_DSOFFSET8_1 =>
    if sectionId ≠ ASMSECT_ABS then
      resolveFail sectionData "Relative value is illegal in offset expressions"
    else resolveDone (setByte sectionData (offset + 1) value) 8 value RangeSigness.WS_UNSIGNED
  | GCNTGT_SOPCIMM8 =>
    if sectionId ≠ ASMSECT_ABS then
      resolveFail sectionData "Relative value is illegal in immediate expressions"
    else resolveDone (setByte sectionData (offset + 1) value) 8 value RangeSigness.WS_UNSIGNED
  | GCNTGT_MXBUFOFFSET =>
    if sectionId ≠ ASMSECT_ABS then
      resolveFail sectionData "Relative value is illegal in offset expressions"
    else
      let d1 := setByte sectionData offset (value &&& 0xff)
      let d2 := setByte d1 (offset + 1)
        ((getByte d1 (offset + 1) &&& 0xf0) ||| ((value >>> 8) &&& 0xf))
      resolveDone d2 12 value RangeSigness.WS_UNSIGNED
  | GCNTGT_SMEMOFFSET =>
    if sectionId ≠ ASMSECT_ABS then
      resolveFail sectionData "Relative value is illegal in offset expressions"
    else
      resolveDone (SULEV32 sectionData (offset + 4) (value &&& 0xfffff)) 20 value
        RangeSigness.WS_UNSIGNED
  | GCNTGT_SMEMOFFSETVEGA =>
    if sectionId ≠ ASMSECT_ABS then
      resolveFail sectionData "Relative value is illegal in offset expressions"
    else
      let oldV := ULEV32 sectionData (offset + 4)
      resolveDone
        (SULEV32 sectionData (offset + 4) ((oldV &&& 0xffe00000) ||| (value &&& 0x1fffff)))
        21 value RangeSigness.WS_BOTH
  | GCNTGT_SMEMIMM =>
    if sectionId ≠ ASMSECT_ABS then
      resolveFail sectionData "Relative value is illegal in immediate expressions"
    else
      let d1 := setByte sectionData offset
        ((getByte sectionData offset &&& 0x3f) ||| ((value <<< 6) &&& 0xff))
      let d2 := setByte d1 (offset + 1)
        ((getByte d1 (offset + 1) &&& 0xe0) ||| ((value >>> 2) &&& 0x1f))
      resolveDone d2 7 value RangeSigness.WS_UNSIGNED
  | GCNTGT_INSTOFFSET =>
    -- FLAT unsigned inst_offset
    if sectionId ≠ ASMSECT_ABS then
      resolveFail sectionData "Relative value is illegal in offset expressions"
    else
      let d1 := setByte sectionData offset value
      let d2 := setByte d1 (offset + 1)
        ((getByte d1 (offset + 1) &&& 0xf0) ||| ((value &&& 0xf00) >>> 8))
      resolveDone d2 12 value RangeSigness.WS_UNSIGNED
  | GCNTGT_INSTOFFSET_S =>
    -- FLAT signed inst_offset
    if sectionId ≠ ASMSECT_ABS then
      resolveFail sectionData "Relative value is illegal in offset expressions"
    else
      let d1 := setByte sectionData offset value
      let d2 := setByte d1 (offset + 1)
        ((getByte d1 (offset + 1) &&& 0xe0) ||| ((value &&& 0x1f00) >>> 8))
      resolveDone d2 13 value RangeSigness.WS_BOTH
  | other => ⟨false, sectionData, [], [], []⟩

/-! ## GCNAssembler.cpp: operands and the scalar encoders -/

/-- Modelled from the spec: the type `RegRange`, "(start, end, optional register-variable
reference)", whose declaration and inline accessors live in a header that is not among the
verified sources. `regVar` tells whether the register-variable reference is present;
`start` and `end` are 16-bit. -/
structure RegRange where
  start : Nat
  end_ : Nat
  regVar : Bool
  deriving DecidableEq, Repr

/-- Modelled from the spec: `RegRange::bstart()`, the start value that goes into the
instruction word: the register code of a fixed register, and 0 for a register variable
(whose code is not known while encoding). -/
def RegRange.bstart (r : RegRange) : Nat := if r.regVar then 0 else r.start

/-- Modelled from the spec: `RegRange::isVal(v)`, true for a fixed (non register-variable)
range that starts at code `v`. -/
def RegRange.isVal (r : RegRange) (v : Nat) : Bool := !r.regVar && r.start == v

/-- Modelled from the spec: `RegRange::isRegVar()`. -/
def RegRange.isRegVar (r : RegRange) : Bool := r.regVar

/-- The operand record `GCNOperand`: its range, the 32-bit literal value and the VOP operand
modifier flags. -/
structure GCNOperand where
  range : RegRange
  value : Nat
  vopMods : Nat
  deriving DecidableEq, Repr

/-- The size hint `GCNEncSize` derived from the mnemonic suffix. -/
inductive GCNEncSize
  | UNKNOWN | BIT32 | BIT64
  deriving DecidableEq, Repr

/-- The table `constImmFloatLiterals`. -/
def constImmFloatLiterals : List Nat :=
  [0x3f000000, 0xbf000000, 0x3f800000, 0xbf800000, 0x40000000, 0xc0000000, 0x40800000,
   0xc0800000, 0x3e22f983]

/-- The function `tryPromoteConstImmToLiteral(src0Op, arch)`; `isGCN12` stands for
`(arch & ARCH_GCN_1_2_4) != 0`. -/
def tryPromoteConstImmToLiteral (src0Op : GCNOperand) (isGCN12 : Bool) : GCNOperand :=
  if !src0Op.range.isRegVar ∧ src0Op.range.start ≥ 128 ∧ src0Op.range.start ≤ 208 then
    -- convert integer const immediates
    { src0Op with
      value :=
        if src0Op.range.start < 193 then toUInt32 ((src0Op.range.start : Int) - 128)
        else toUInt32 (192 - (src0Op.range.start : Int)),
      range := { src0Op.range with start := 255 } }
  else if !src0Op.range.isRegVar ∧
      ((src0Op.range.start ≥ 240 ∧ src0Op.range.start < 248) ∨
        (isGCN12 ∧ src0Op.range.start = 248)) then
    -- floating point immediates to literal
    { src0Op with
      value := constImmFloatLiterals.getD (src0Op.range.start - 240) 0,
      range := { src0Op.range with start := 255 } }
  else src0Op

/-- Modelled from the spec: `checkGCNEncodingSize(asmr, instrPlace, gcnEncSize, wordsNum)`,
declared outside the verified sources. The specification lists the error kind
"Encoding-size (explicit `_e32`/`_e64` suffix contradicts required size)": the check fails
when the forced size is 32 bits and the instruction needs more than one word, or the forced
size is 64 bits and the instruction has one word only. -/
def checkGCNEncodingSize (gcnEncSize : GCNEncSize) (wordsNum : Nat) : Bool :=
  !((gcnEncSize = GCNEncSize.BIT32 ∧ wordsNum ≠ 1) ∨ (gcnEncSize = GCNEncSize.BIT64 ∧ wordsNum ≠ 2))

/-- Bytes appended by `output.insert(output.end(), words, words + wordsNum)` for words
stored with `SLEV` (little-endian). -/
def emitWords (output : List Nat) (words : List Nat) : List Nat := output ++ wordsToBytes words

/-- Effects of one encoder routine: the returned flag, the output vector after the call and
the relocation attached by `setTarget(AsmExprTarget(type, currentSection, offset))`, if
any. -/
structure EncodeResult where
  ret : Bool
  output : List Nat
  exprTarget : Option (AsmExprTargetType × Nat)
  deriving DecidableEq, Repr

/-- What the parsing part of `parseSOP2Encoding` hands to the encoding part: the
conjunction `good` of all parse results together with the comma and end-of-line checks, the
parsed operands, and whether `src0Expr` / `src1Expr` are non-null (an unresolved literal
expression). The operand parser itself is outside the verified sources. -/
structure SOP2Parsed where
  good : Bool
  dstReg : RegRange
  src0Op : GCNOperand
  src1Op : GCNOperand
  src0Expr : Bool
  src1Expr : Bool
  deriving DecidableEq, Repr

/-- The instruction word `0x80000000U | (code1<<23) | src0 | (src1<<8) | dst<<16` of
`parseSOP2Encoding`, as stored in a `uint32_t`. -/
def sop2Word0 (code1 src0 src1 dst : Nat) : Nat :=
  (0x80000000 ||| (code1 <<< 23) ||| src0 ||| (src1 <<< 8) ||| (dst <<< 16)) % 2 ^ 32

/-- The encoding part of `GCNAsmUtils::parseSOP2Encoding` (from "if errors" on). The
register accounting at the end of the routine is not modelled. -/
def parseSOP2Encoding (isGCN12 : Bool) (code1 : Nat) (p : SOP2Parsed) (gcnEncSize : GCNEncSize)
    (output : List Nat) : EncodeResult :=
  if !p.good then ⟨false, output, none⟩
  else
    -- try to promote constant immediate to literal
    let src0Op :=
      if gcnEncSize = GCNEncSize.BIT64 then tryPromoteConstImmToLiteral p.src0Op isGCN12
      else p.src0Op
    let src1Op :=
      if gcnEncSize = GCNEncSize.BIT64 then tryPromoteConstImmToLiteral p.src1Op isGCN12
      else p.src1Op
    -- put data
    let word0 := sop2Word0 code1 src0Op.range.bstart src1Op.range.bstart p.dstReg.bstart
    let haveLiteral : Bool := src0Op.range.isVal 255 || src1Op.range.isVal 255
    let word1 : Nat :=
      if !p.src0Expr ∧ !p.src1Expr then
        (if src0Op.range.isVal 255 then src0Op.value else src1Op.value) % 2 ^ 32
      else 0 -- zero if unresolved value
    let words := if haveLiteral then [word0, word1] else [word0]
    if !checkGCNEncodingSize gcnEncSize words.length then ⟨false, output, none⟩
    else
      -- set expression targets to resolving later
      let target : Option (AsmExprTargetType × Nat) :=
        if p.src0Expr then some (GCNTGT_LITIMM, output.length)
        else if p.src1Expr then some (GCNTGT_LITIMM, output.length)
        else none
      ⟨true, emitWords output words, target⟩

/-- What the parsing part of the `GCN_IMM_REL` case of `parseSOPPEncoding` yields: whether
`getJumpValueArg` succeeded, the 64-bit `value` it returned, whether `imm16Expr` is non-null
(the target is not yet resolved) and the result of `checkGarbagesAtEnd`. -/
structure SOPPRelParsed where
  jumpArgOk : Bool
  value : Nat
  imm16Expr : Bool
  noGarbage : Bool
  deriving DecidableEq, Repr

/-- Effects of `parseSOPPEncoding`: as `EncodeResult`, with the code-flow entries of the
current section and the error texts. -/
structure SOPPResult where
  ret : Bool
  output : List Nat
  exprTarget : Option (AsmExprTargetType × Nat)
  codeFlow : List AsmCodeFlowEntry
  errors : List String
  deriving DecidableEq, Repr

/-- The byte offset `int64_t(value)-int64_t(output.size())-4` of a relative jump. -/
def jumpByteOffset (value outputSize : Nat) : Int :=
  wrapInt64 (toInt64 value - toInt64 outputSize - 4)

/-- The instruction word `0xbf800000U | imm16 | (code1<<16)` of `parseSOPPEncoding`. -/
def soppWord (code1 imm16 : Nat) : Nat :=
  (0xbf800000 ||| imm16 ||| (code1 <<< 16)) % 2 ^ 32

/-- The routine `GCNAsmUtils::parseSOPPEncoding` for a mnemonic whose mode is `GCN_IMM_REL`
(a relative branch): `code1` is the opcode, `output` the section content before the call,
`currentOutPos` the assembler's `currentOutPos`, `codeFlow` the code-flow list of the current
section. -/
def parseSOPPEncodingRel (code1 : Nat) (gcnEncSize : GCNEncSize) (p : SOPPRelParsed)
    (output : List Nat) (currentOutPos : Nat) (codeFlow : List AsmCodeFlowEntry) : SOPPResult :=
  if gcnEncSize = GCNEncSize.BIT64 then
    ⟨false, output, none, codeFlow, ["Only 32-bit size for SOPP encoding"]⟩
  else if !p.jumpArgOk then ⟨false, output, none, codeFlow, []⟩
  else
    let offset := jumpByteOffset p.value output.length
    let notAligned : Bool := !p.imm16Expr && decide (offset % 4 ≠ 0)
    let offset2 := offset >>> (2 : Nat)
    let outOfRange : Bool := !p.imm16Expr && decide (offset2 > INT16_MAX ∨ offset2 < INT16_MIN)
    let imm16 : Nat := if p.imm16Expr then 0 else toUInt16 offset2
    let good : Bool := !notAligned && !outOfRange
    let errors : List String :=
      (if notAligned then ["Jump is not aligned to word!"] else []) ++
        (if outOfRange then ["Jump out of range"] else [])
    -- add codeflow entry
    let codeFlow1 : List AsmCodeFlowEntry :=
      if !p.imm16Expr ∧ good then
        codeFlow ++ [⟨currentOutPos % 2 ^ 64, p.value % 2 ^ 64,
          if code1 = 2 then AsmCodeFlowType.JUMP else AsmCodeFlowType.CJUMP⟩]
      else codeFlow
    if !good ∨ !p.noGarbage then ⟨false, output, none, codeFlow1, errors⟩
    else
      ⟨true, emitWords output [soppWord code1 imm16],
        if p.imm16Expr then some (GCNTGT_SOPJMP, output.length) else none, codeFlow1, errors⟩

/-! ## GCNAssembler.cpp: the first instruction word of every encoder routine

Each definition is the expression stored by `SLEV(words[0], ...)` (or `SLEV(word, ...)`) of
the routine, as a function of the values that occur in it, reduced to 32 bits. `isGCN12`
stands for `(arch & ARCH_GCN_1_2_4) != 0`. A C conditional `c ? K : 0` is `bit c K`. -/

/-- The C expression `c ? K : 0`. -/
def bit (c : Bool) (K : Nat) : Nat := if c then K else 0

/-- First word of `parseSOP1Encoding`. -/
def sop1Word0 (code1 src0 dst : Nat) : Nat :=
  (0xbe800000 ||| (code1 <<< 8) ||| src0 ||| (dst <<< 16)) % 2 ^ 32

/-- First word of `parseSOPKEncoding`. -/
def sopkWord0 (code1 imm16 dst : Nat) : Nat :=
  (0xb0000000 ||| imm16 ||| (dst <<< 16) ||| (code1 <<< 23)) % 2 ^ 32

/-- First word of `parseSOPCEncoding`. -/
def sopcWord0 (code1 src0 src1 : Nat) : Nat :=
  (0xbf000000 ||| (code1 <<< 16) ||| src0 ||| (src1 <<< 8)) % 2 ^ 32

/-- The word of `parseSMRDEncoding`; `isImm` is `soffsetReg.isVal(255)`, `sbase & ~1U` is
written as `sbase - sbase % 2`. -/
def smrdWord (code1 dst sbase : Nat) (isImm : Bool) (soffsetVal soffset : Nat) : Nat :=
  (0xc0000000 ||| (code1 <<< 22) ||| (dst <<< 15) ||| ((sbase - sbase % 2) <<< 8) |||
    bit isImm 0x100 ||| (if isImm then soffsetVal else soffset)) % 2 ^ 32

/-- First word of the VOP2 form of `parseVOP2Encoding` (`!vop3`); `src0out` is the SRC0
field: the operand code, or 0xf9 / 0xfa for SDWA / DPP. -/
def vop2Word0 (code1 src0out src1 dst : Nat) : Nat :=
  ((code1 <<< 25) ||| src0out ||| ((src1 &&& 0xff) <<< 9) ||| ((dst &&& 0xff) <<< 17)) % 2 ^ 32

/-- First word of the VOP1 form of `parseVOP1Encoding` (`!vop3`). -/
def vop1Word0 (code1 src0out dst : Nat) : Nat :=
  (0x7e000000 ||| (code1 <<< 9) ||| src0out ||| ((dst &&& 0xff) <<< 17)) % 2 ^ 32

/-- First word of the VOPC form of `parseVOPCEncoding` (`!vop3`). -/
def vopcWord0 (code1 src0out src1 : Nat) : Nat :=
  (0x7c000000 ||| (code1 <<< 17) ||| src0out ||| ((src1 &&& 0xff) <<< 9)) % 2 ^ 32

/-- First word of `parseVOP3Encoding` for a VOP3A descriptor before GCN 1.2. -/
def vop3aWord0 (code1 dst : Nat) (clamp abs0 abs1 abs2 : Bool) : Nat :=
  (0xd0000000 ||| (code1 <<< 17) ||| (dst &&& 0xff) ||| bit clamp 0x800 ||| bit abs0 0x100 |||
    bit abs1 0x200 ||| bit abs2 0x400) % 2 ^ 32

/-- First word of `parseVOP3Encoding` for a VOP3B descriptor. -/
def vop3bWord0 (isGCN12 : Bool) (code1 dst sdst : Nat) (clamp : Bool) : Nat :=
  if !isGCN12 then
    (0xd0000000 ||| (code1 <<< 17) ||| (dst &&& 0xff) ||| (sdst <<< 8)) % 2 ^ 32
  else
    (0xd0000000 ||| (code1 <<< 16) ||| (dst &&& 0xff) ||| (sdst <<< 8) ||| bit clamp 0x8000) %
      2 ^ 32

/-- The word of `parseVINTRPEncoding`. -/
def vintrpWord (code1 src attrVal dst : Nat) : Nat :=
  (0xc8000000 ||| (src &&& 0xff) ||| ((attrVal &&& 0xff) <<< 8) ||| (code1 <<< 16) |||
    ((dst &&& 0xff) <<< 18)) % 2 ^ 32

/-- First word of `parseDSEncoding`. -/
def dsWord0 (isGCN12 : Bool) (code1 offset : Nat) (haveGds : Bool) : Nat :=
  if !isGCN12 then (0xd8000000 ||| offset ||| bit haveGds 0x20000 ||| (code1 <<< 18)) % 2 ^ 32
  else (0xd8000000 ||| offset ||| bit haveGds 0x10000 ||| (code1 <<< 17)) % 2 ^ 32

/-- First word of `parseMUBUFEncoding` for a MUBUF descriptor. -/
def mubufWord0 (isGCN12 : Bool) (code1 offset : Nat)
    (haveOffen haveIdxen haveGlc haveAddr64 haveLds haveSlc : Bool) : Nat :=
  (0xe0000000 ||| offset ||| bit haveOffen 0x1000 ||| bit haveIdxen 0x2000 |||
    bit haveGlc 0x4000 ||| bit (haveAddr64 && !isGCN12) 0x8000 ||| bit haveLds 0x10000 |||
    bit (haveSlc && isGCN12) 0x20000 ||| (code1 <<< 18)) % 2 ^ 32

/-- First word of `parseMUBUFEncoding` for a MTBUF descriptor. -/
def mtbufWord0 (isGCN12 : Bool) (code1 offset : Nat) (haveOffen haveIdxen haveGlc haveAddr64 : Bool)
    (dfmt nfmt : Nat) : Nat :=
  (0xe8000000 ||| offset ||| bit haveOffen 0x1000 ||| bit haveIdxen 0x2000 |||
    bit haveGlc 0x4000 ||| bit (haveAddr64 && !isGCN12) 0x8000 |||
    (if isGCN12 then code1 <<< 15 else code1 <<< 16) ||| (dfmt <<< 19) ||| (nfmt <<< 23)) % 2 ^ 32

/-- First word of `parseMIMGEncoding`. -/
def mimgWord0 (code1 dmask : Nat)
    (haveUnorm haveGlc haveDa haveR128 haveA16 haveTfe haveLwe haveSlc : Bool) : Nat :=
  (0xf0000000 ||| ((dmask &&& 0xf) <<< 8) ||| bit haveUnorm 0x1000 ||| bit haveGlc 0x2000 |||
    bit haveDa 0x4000 ||| bit (haveR128 || haveA16) 0x8000 ||| bit haveTfe 0x10000 |||
    bit haveLwe 0x20000 ||| (code1 <<< 18) ||| bit haveSlc (1 <<< 25)) % 2 ^ 32

/-- First word of `parseEXPEncoding`. -/
def expWord0 (isGCN12 : Bool) (enMask target : Nat) (haveCompr haveDone haveVM : Bool) : Nat :=
  ((if isGCN12 then 0xc4000000 else 0xf8000000) ||| enMask ||| (target <<< 4) |||
    bit haveCompr 0x400 ||| bit haveDone 0x800 ||| bit haveVM 0x1000) % 2 ^ 32

/-- First word of `parseFLATEncoding`. -/
def flatWord0 (code1 : Nat) (haveGlc haveSlc haveLds : Bool) (instOffset flatMode : Nat) : Nat :=
  (0xdc000000 ||| bit haveGlc 0x10000 ||| bit haveSlc 0x20000 ||| (code1 <<< 18) |||
    bit haveLds 0x2000 ||| instOffset ||| (flatMode <<< 14)) % 2 ^ 32

/-- An instruction handed to an encoder routine on GCN 1.0, reduced to the values that
enter its first word: one constructor per encoding family, with the descriptor opcode
`code1` first. -/
inductive EncoderInput
  | sopc (code1 src0 src1 : Nat)
  | sopp (code1 imm16 : Nat)
  | sop1 (code1 src0 dst : Nat)
  | sop2 (code1 src0 src1 dst : Nat)
  | sopk (code1 imm16 dst : Nat)
  | smrd (code1 dst sbase : Nat) (isImm : Bool) (soffsetVal soffset : Nat)
  | vopc (code1 src0out src1 : Nat)
  | vop1 (code1 src0out dst : Nat)
  | vop2 (code1 src0out src1 dst : Nat)
  | vop3a (code1 dst : Nat) (clamp abs0 abs1 abs2 : Bool)
  | vop3b (code1 dst sdst : Nat)
  | vintrp (code1 src attrVal dst : Nat)
  | ds (code1 offset : Nat) (haveGds : Bool)
  | mubuf (code1 offset : Nat) (haveOffen haveIdxen haveGlc haveAddr64 haveLds haveSlc : Bool)
  | mtbuf (code1 offset : Nat) (haveOffen haveIdxen haveGlc haveAddr64 : Bool) (dfmt nfmt : Nat)
  | mimg (code1 dmask : Nat)
      (haveUnorm haveGlc haveDa haveR128 haveA16 haveTfe haveLwe haveSlc : Bool)
  | exp (enMask target : Nat) (haveCompr haveDone haveVM : Bool)
  | flat (code1 : Nat) (haveGlc haveSlc haveLds : Bool) (instOffset flatMode : Nat)

open EncoderInput

/-- The encoding family of the descriptor. -/
def EncoderInput.encoding : EncoderInput → GCNEncoding
  | sopc .. => GCNENC_SOPC
  | sopp .. => GCNENC_SOPP
  | sop1 .. => GCNENC_SOP1
  | sop2 .. => GCNENC_SOP2
  | sopk .. => GCNENC_SOPK
  | smrd .. => GCNENC_SMRD
  | vopc .. => GCNENC_VOPC
  | vop1 .. => GCNENC_VOP1
  | vop2 .. => GCNENC_VOP2
  | vop3a .. => GCNENC_VOP3A
  | vop3b .. => GCNENC_VOP3B
  | vintrp .. => GCNENC_VINTRP
  | ds .. => GCNENC_DS
  | mubuf .. => GCNENC_MUBUF
  | mtbuf .. => GCNENC_MTBUF
  | mimg .. => GCNENC_MIMG
  | exp .. => GCNENC_EXP
  | flat .. => GCNENC_FLAT

/-- The descriptor opcode (`gcnInsn.code1`; EXP has none, its descriptor carries 0). -/
def EncoderInput.code1 : EncoderInput → Nat
  | sopc c _ _ => c
  | sopp c _ => c
  | sop1 c _ _ => c
  | sop2 c _ _ _ => c
  | sopk c _ _ => c
  | smrd c _ _ _ _ _ => c
  | vopc c _ _ => c
  | vop1 c _ _ => c
  | vop2 c _ _ _ => c
  | vop3a c _ _ _ _ _ => c
  | vop3b c _ _ => c
  | vintrp c _ _ _ => c
  | ds c _ _ => c
  | mubuf c _ _ _ _ _ _ _ => c
  | mtbuf c _ _ _ _ _ _ _ => c
  | mimg c _ _ _ _ _ _ _ _ _ => c
  | exp .. => 0
  | flat c _ _ _ _ _ => c

/-- The first word that the family's encoder routine emits on GCN 1.0. -/
def EncoderInput.word0 : EncoderInput → Nat
  | sopc c s0 s1 => sopcWord0 c s0 s1
  | sopp c imm16 => soppWord c imm16
  | sop1 c s0 d => sop1Word0 c s0 d
  | sop2 c s0 s1 d => sop2Word0 c s0 s1 d
  | sopk c imm16 d => sopkWord0 c imm16 d
  | smrd c d sb isImm ov o => smrdWord c d sb isImm ov o
  | vopc c s0 s1 => vopcWord0 c s0 s1
  | vop1 c s0 d => vop1Word0 c s0 d
  | vop2 c s0 s1 d => vop2Word0 c s0 s1 d
  | vop3a c d cl a0 a1 a2 => vop3aWord0 c d cl a0 a1 a2
  | vop3b c d sd => vop3bWord0 false c d sd false
  | vintrp c s a d => vintrpWord c s a d
  | ds c o g => dsWord0 false c o g
  | mubuf c o oe ie gl a64 lds slc => mubufWord0 false c o oe ie gl a64 lds slc
  | mtbuf c o oe ie gl a64 df nf => mtbufWord0 false c o oe ie gl a64 df nf
  | mimg c dm un gl da r128 a16 tfe lwe slc => mimgWord0 c dm un gl da r128 a16 tfe lwe slc
  | exp en t co dn vm => expWord0 false en t co dn vm
  | flat c gl sl lds io fm => flatWord0 c gl sl lds io fm

/-- The width in bits of the opcode field of a family in the first word, as the table
"Opcode bit positions per encoding family" of the specification gives it for
architectures before GCN 1.2 (EXP has no opcode field). -/
def opcodeFieldBits : GCNEncoding → Nat
  | GCNENC_NONE => 0
  | GCNENC_SOPC => 7
  | GCNENC_SOPP => 7
  | GCNENC_SOP1 => 8
  | GCNENC_SOP2 => 7
  | GCNENC_SOPK => 5
  | GCNENC_SMRD => 5
  | GCNENC_VOPC => 8
  | GCNENC_VOP1 => 8
  | GCNENC_VOP2 => 6
  | GCNENC_VOP3A => 9
  | GCNENC_VOP3B => 9
  | GCNENC_VINTRP => 2
  | GCNENC_DS => 8
  | GCNENC_MUBUF => 7
  | GCNENC_MTBUF => 3
  | GCNENC_MIMG => 7
  | GCNENC_EXP => 0
  | GCNENC_FLAT => 7

/-- The descriptor opcode fits the opcode field of its family. -/
def EncoderInput.OpcodeFits (i : EncoderInput) : Prop := i.code1 < 2 ^ opcodeFieldBits i.encoding

/-- The operand values are in the range of their instruction fields: scalar operand codes
are 8 bits wide, scalar destinations 7 bits, VOP source 0 is 9 bits wide, immediates have the
width of their C type or of their field. (Fields that the encoder masks itself, such as
`dst & 0xff`, need no bound.) -/
def EncoderInput.FieldsInRange : EncoderInput → Prop
  | sopc _ s0 s1 => s0 < 2 ^ 8 ∧ s1 < 2 ^ 8
  | sopp _ imm16 => imm16 < 2 ^ 16
  | sop1 _ s0 d => s0 < 2 ^ 8 ∧ d < 2 ^ 7
  | sop2 _ s0 s1 d => s0 < 2 ^ 8 ∧ s1 < 2 ^ 8 ∧ d < 2 ^ 7
  | sopk _ imm16 d => imm16 < 2 ^ 16 ∧ d < 2 ^ 7
  | smrd _ d sb _ ov o => d < 2 ^ 7 ∧ sb < 2 ^ 7 ∧ ov < 2 ^ 8 ∧ o < 2 ^ 8
  | vopc _ s0 _ => s0 < 2 ^ 9
  | vop1 _ s0 _ => s0 < 2 ^ 9
  | vop2 _ s0 _ _ => s0 < 2 ^ 9
  | vop3a .. => True
  | vop3b _ _ sd => sd < 2 ^ 7
  | vintrp .. => True
  | ds _ o _ => o < 2 ^ 16
  | mubuf _ o _ _ _ _ _ _ => o < 2 ^ 12
  | mtbuf _ o _ _ _ _ df nf => o < 2 ^ 12 ∧ df < 2 ^ 4 ∧ nf < 2 ^ 3
  | mimg .. => True
  | exp en t _ _ _ => en < 2 ^ 4 ∧ t < 2 ^ 6
  | flat _ _ _ _ io fm => io < 2 ^ 13 ∧ fm < 2 ^ 2

/-- The opcode does not run into the fixed bit pattern of another family: the top two bits
of a SOP2 opcode are not both set (such words belong to SOPK, SOP1, SOPC and SOPP), a SOPK
opcode is below 29 (29, 30, 31 are the patterns of SOP1, SOPC, SOPP) and a VOP2 opcode is
below 62 (62, 63 are the patterns of VOPC, VOP1). -/
def EncoderInput.NoFamilyClash : EncoderInput → Prop
  | sop2 c _ _ _ => c < 96
  | sopk c _ _ => c < 29
  | vop2 c _ _ _ => c < 62
  | _ => True

/-- The family under which `disassemble` files the descriptors of a family: VOP3B shares
the VOP3A code space. -/
def disasmFamily : GCNEncoding → GCNEncoding
  | GCNENC_VOP3B => GCNENC_VOP3A
  | e => e

/-- The family that the bit-pattern classifier at the head of the main loop of
`disassemble` assigns to a first word (the value of `gcnEncoding` after the part
"determine GCN encoding"; `determineEncoding_family` states the agreement). -/
def gcnClassify (insnCode : Nat) : GCNEncoding :=
  if insnCode &&& 0x80000000 ≠ 0 then
    if insnCode &&& 0x40000000 = 0 then
      if insnCode &&& 0x30000000 = 0x30000000 then
        if insnCode &&& 0x0f800000 = 0x0e800000 then GCNENC_SOP1
        else if insnCode &&& 0x0f800000 = 0x0f000000 then GCNENC_SOPC
        else if insnCode &&& 0x0f800000 = 0x0f800000 then GCNENC_SOPP
        else GCNENC_SOPK
      else GCNENC_SOP2
    else gcnEncoding11Table (((insnCode &&& 0x3c000000) >>> 26) &&& 0xf)
  else
    if insnCode &&& 0x7e000000 = 0x7c000000 then GCNENC_VOPC
    else if insnCode &&& 0x7e000000 = 0x7e000000 then GCNENC_VOP1
    else GCNENC_VOP2

/-! ## GCNDisasm.cpp: `initializeGCNDisassembler` -/

/-- The constant `gcnInstrTableByCodeLength`. -/
def gcnInstrTableByCodeLength : Nat := 0x0a2d

/-- The function `initializeGCNDisassembler`: the content of `gcnInstrTableByCode` when it
returns, as a function of the index (the array has `gcnInstrTableByCodeLength` elements).
`gcnInstrsTable` is the instruction table, which ends with the first entry that has a null
mnemonic. The first loop only sets the mnemonic of an element to null; its other fields are
not initialised and are 0 here. -/
def initializeGCNDisassembler (gcnInstrsTable : List GCNInstruction) : Nat → GCNInstruction :=
  (gcnInstrsTable.takeWhile (fun instr => instr.mnemonic.isSome)).foldl
    (fun gcnInstrTableByCode instr =>
      Function.update gcnInstrTableByCode (gcnInstrTableByCodeSpaces instr.encoding) instr)
    (fun _ => ⟨none, GCNENC_NONE, 0, 0, 0⟩)

/-! ## A sample environment for evaluating `disassemble` -/

/-- Modelled from the spec: values for the mode constants `GCN_*`, whose header is not
among the verified sources. The values are stand-ins in the layout the code implies (the
64-bit register flags are single low bits, the modes selected by `GCN_MASK1` live in bits
[7:4], those selected by `GCN_MASK2` in bits [11:8]); the evaluations below only use that
`GCN_IMM_REL` differs from the other immediate modes and that `GCN_SRC2_VCC` differs from
the other modes of the VOP2 operands. -/
def sampleModeConsts : GCNModeConsts :=
  { GCN_MASK1 := 0xf0, GCN_MASK2 := 0xf00, GCN_FLOATLIT := 0x100, GCN_REG_DST_64 := 1,
    GCN_REG_SRC0_64 := 2, GCN_REG_SRC1_64 := 4, GCN_REG_SRC2_64 := 8, GCN_IMM_NONE := 0x10,
    GCN_REG_S1_JMP := 0x20, GCN_IMM_REL := 0x30, GCN_IMM_LOCKS := 0x40, GCN_IMM_MSGS := 0x50,
    GCN_SBASE4 := 0x10, GCN_ARG1_IMM := 0x60, GCN_ARG2_IMM := 0x70, GCN_DS2_VCC := 0x80,
    GCN_DST_VCC := 0x90, GCN_SRC2_VCC := 0xa0, GCN_SRC12_NONE := 0xb0, GCN_SRC2_NONE := 0xc0,
    GCN_ADDR_DST := 0x10, GCN_DSMASK := 0x30, GCN_ADDR_SRC96 := 0x20, GCN_ADDR_SRC128 := 0x30,
    GCN_DSMASK2 := 0xc0, GCN_ONLYDST := 0x40, GCN_2SRCS := 0x80, GCN_VDATA2 := 0xc0 }

/-- Modelled from the spec: an instruction table `gcnInstrsTable` for the evaluations below
(the table of the program is not among the verified sources): the descriptors of `s_nop`
(SOPP opcode 0), `s_branch` (SOPP opcode 2, relative branch), `s_add_u32` (SOP2 opcode 0)
and `v_cndmask_b32` (VOP2 opcode 0, third source VCC), followed by the entry with the null
mnemonic that ends the table. -/
def sampleInstrsTable : List GCNInstruction :=
  [⟨some "s_nop", GCNENC_SOPP, 0, 0, 1⟩, ⟨some "s_branch", GCNENC_SOPP, 0x30, 2, 1⟩,
    ⟨some "s_add_u32", GCNENC_SOP2, 0, 0, 1⟩, ⟨some "v_cndmask_b32", GCNENC_VOP2, 0xa0, 0, 1⟩,
    ⟨none, GCNENC_NONE, 0, 0, 0⟩]

/-- The environment of `disassemble` for the instruction table `gcnInstrsTable`: the by-code
table that `initializeGCNDisassembler` fills from it, the sample constants, the
float-literal flag set (as in the label tests) and a float formatter that prints nothing. -/
def disasmEnvOfTable (gcnInstrsTable : List GCNInstruction) : DisasmEnv :=
  ⟨initializeGCNDisassembler gcnInstrsTable, sampleModeConsts, true, fun _ => []⟩

/-- The sample environment: the by-code table that `initializeGCNDisassembler` fills from
the sample instruction table. -/
def sampleEnv : DisasmEnv := disasmEnvOfTable sampleInstrsTable


/-- The parse result of the same SOP2 instruction text when the literal expression has the
value `V` at assembly time: the expression pointers are null and the operand that held the
unresolved expression carries the value. -/
def SOP2Parsed.withKnownLiteral (p : SOP2Parsed) (V : Nat) : SOP2Parsed :=
  { p with
    src0Expr := false
    src1Expr := false
    src0Op := if p.src0Expr then { p.src0Op with value := V } else p.src0Op
    src1Op := if p.src1Expr then { p.src1Op with value := V } else p.src1Op }

/-! ## GCNAssembler.cpp: descriptors, constants and the two-word encoders -/

/-- The descriptor `GCNAsmInstruction` of the assembler's sorted table: the fields of
`GCNInstruction` with the opcode split in a primary `code1` and a secondary `code2`. -/
structure GCNAsmInstruction where
  mnemonic : String
  encoding : GCNEncoding
  mode : Nat
  code1 : Nat
  code2 : Nat
  archMask : Nat
  deriving DecidableEq, Repr

/-- The constants that the encoder routines test (`GCN_*` mode values, `VOP3_*` modifier
bits, `VOPOP_*` operand modifier bits). Their values are declared in headers that are not
among the verified sources, so they are a parameter. -/
structure GCNAsmConsts where
  GCN_MASK1 : Nat
  GCN_MASK2 : Nat
  GCN_VOP3_MASK3 : Nat
  GCN_VOP3_VINTRP : Nat
  GCN_NEW_OPCODE : Nat
  GCN_VINTRP_SRC2 : Nat
  GCN_VOP3_VOP3P : Nat
  GCN_DS1_SGPR : Nat
  GCN_SRC1_SGPR : Nat
  GCN_DS2_VCC : Nat
  GCN_DST_VCC : Nat
  GCN_SRC2_VCC : Nat
  GCN_ARG1_IMM : Nat
  GCN_ARG2_IMM : Nat
  GCN_IMM_NONE : Nat
  VOP3_CLAMP : Nat
  VOP3_VOP3 : Nat
  VOP3_BOUNDCTRL : Nat
  VOPOP_ABS : Nat
  VOPOP_NEG : Nat
  VOPOP_SEXT : Nat

/-- The record `VOPOpModifiers` filled by the modifier parser (all fields are `cxbyte`). -/
structure VOPOpModifiers where
  absMod : Nat
  negMod : Nat
  sextMod : Nat
  opselMod : Nat
  deriving DecidableEq, Repr

/-- First word of `parseVOP3Encoding` for a VOP3A descriptor on GCN 1.2 and later ("new VOP3
for GCN 1.2"). -/
def vop3aWord0GCN12 (code1 dst : Nat) (clamp vop3p : Bool) (negMod : Nat) (abs0 abs1 abs2 : Bool)
    (opselMod : Nat) : Nat :=
  (0xd0000000 ||| (code1 <<< 16) ||| (dst &&& 0xff) ||| bit clamp 0x8000 |||
    (if vop3p then (negMod >>> 4) <<< 8 -- VOP3P NEG_HI
      else bit abs0 0x100 ||| bit abs1 0x200 ||| bit abs2 0x400) |||
    bit (decide (opselMod &&& 64 ≠ 0)) 0x4000 ||| ((opselMod &&& 15) <<< 11)) % 2 ^ 32

/-- The only word of `parseVOP3Encoding` for a VOP3A descriptor that is emitted in the VINTRP
form on GCN 1.2 and later. -/
def vop3VintrpWord (src1 src0 code2 dst : Nat) : Nat :=
  (0xd4000000 ||| (src1 &&& 0xff) ||| ((src0 >>> 6) <<< 8) ||| ((src0 &&& 63) <<< 10) |||
    (code2 <<< 16) ||| ((dst &&& 0xff) <<< 18)) % 2 ^ 32

/-- The condition under which `parseVOP3Encoding` emits the two-word "new VOP3 for GCN 1.2"
form for a VOP3A descriptor on GCN 1.2 and later; otherwise it emits the one-word VINTRP
form. -/
def vop3NewEncoding (K : GCNAsmConsts) (gcnInsn : GCNAsmInstruction)
    (src0Op src1Op src2Op : GCNOperand) (modifiers : Nat) (opMods : VOPOpModifiers) : Bool :=
  decide (gcnInsn.mode &&& K.GCN_MASK2 ≠ K.GCN_VOP3_VINTRP ∨
    gcnInsn.mode &&& K.GCN_MASK1 = K.GCN_NEW_OPCODE ∨
    gcnInsn.mode &&& K.GCN_VOP3_MASK3 = K.GCN_VINTRP_SRC2 ∨
    modifiers &&& K.VOP3_VOP3 ≠ 0 ∨ src0Op.range.bstart &&& 0x100 ≠ 0 ∨
    modifiers &&& (K.VOP3_CLAMP ||| 3) ≠ 0 ∨ opMods.opselMod ≠ 0 ∨
    src1Op.vopMods ≠ 0 ∨ src2Op.vopMods ≠ 0)

/-- The words stored by the part "put data (instruction words)" of `parseVOP3Encoding`:
`words[0 .. wordsNum)`. The operands carry the modifier flags applied before; `isGCN12`
stands for `(arch & ARCH_GCN_1_2_4) != 0`. -/
def parseVOP3Words (K : GCNAsmConsts) (isGCN12 : Bool) (gcnInsn : GCNAsmInstruction)
    (dstReg sdstReg : RegRange) (src0Op src1Op src2Op : GCNOperand) (modifiers : Nat)
    (opMods : VOPOpModifiers) : List Nat :=
  let vop3p : Bool := decide (gcnInsn.mode &&& K.GCN_VOP3_VOP3P ≠ 0)
  let clamp : Bool := decide (modifiers &&& K.VOP3_CLAMP ≠ 0)
  let abs0 : Bool := decide (src0Op.vopMods &&& K.VOPOP_ABS ≠ 0)
  let abs1 : Bool := decide (src1Op.vopMods &&& K.VOPOP_ABS ≠ 0)
  let abs2 : Bool := decide (src2Op.vopMods &&& K.VOPOP_ABS ≠ 0)
  -- second instruction's word
  let word1 : Nat :=
    (src0Op.range.bstart ||| (src1Op.range.bstart <<< 9) ||| (src2Op.range.bstart <<< 18) |||
      (if vop3p then ((opMods.opselMod >>> 4) &&& 3) <<< 27 else (modifiers &&& 3) <<< 27) |||
      bit (decide (src0Op.vopMods &&& K.VOPOP_NEG ≠ 0)) (1 <<< 29) |||
      bit (decide (src1Op.vopMods &&& K.VOPOP_NEG ≠ 0)) (1 <<< 30) |||
      bit (decide (src2Op.vopMods &&& K.VOPOP_NEG ≠ 0)) (1 <<< 31)) % 2 ^ 32
  if gcnInsn.encoding = GCNENC_VOP3B then
    -- VOP3B encoding
    [vop3bWord0 isGCN12 gcnInsn.code1 dstReg.bstart sdstReg.bstart clamp, word1]
  else if !isGCN12 then
    [vop3aWord0 gcnInsn.code1 dstReg.bstart clamp abs0 abs1 abs2, word1]
  else if vop3NewEncoding K gcnInsn src0Op src1Op src2Op modifiers opMods then
    -- new VOP3 for GCN 1.2
    [vop3aWord0GCN12 gcnInsn.code1 dstReg.bstart clamp vop3p opMods.negMod abs0 abs1 abs2
      opMods.opselMod, word1]
  else
    -- VINTRP: VOP3 VINTRP have only one word instruction
    [vop3VintrpWord src1Op.range.bstart src0Op.range.bstart gcnInsn.code2 dstReg.bstart]

/-- The two words stored by `parseDSEncoding`. -/
def parseDSWords (isGCN12 : Bool) (code1 offset : Nat) (haveGds : Bool)
    (addrReg data0Reg data1Reg dstReg : RegRange) : List Nat :=
  [dsWord0 isGCN12 code1 offset haveGds,
    ((addrReg.bstart &&& 0xff) ||| ((data0Reg.bstart &&& 0xff) <<< 8) |||
      ((data1Reg.bstart &&& 0xff) <<< 16) ||| ((dstReg.bstart &&& 0xff) <<< 24)) % 2 ^ 32]

/-- The two words stored by `parseMUBUFEncoding`, which also encodes MTBUF descriptors. -/
def parseMUBUFWords (isGCN12 : Bool) (gcnInsn : GCNAsmInstruction) (offset : Nat)
    (haveOffen haveIdxen haveGlc haveAddr64 haveLds haveSlc haveTfe : Bool) (dfmt nfmt : Nat)
    (vaddrReg vdataReg srsrcReg : RegRange) (soffsetOp : GCNOperand) : List Nat :=
  [if gcnInsn.encoding = GCNENC_MUBUF then
      mubufWord0 isGCN12 gcnInsn.code1 offset haveOffen haveIdxen haveGlc haveAddr64 haveLds
        haveSlc
    else -- MTBUF encoding
      mtbufWord0 isGCN12 gcnInsn.code1 offset haveOffen haveIdxen haveGlc haveAddr64 dfmt nfmt,
    -- second word
    ((vaddrReg.bstart &&& 0xff) ||| ((vdataReg.bstart &&& 0xff) <<< 8) |||
      ((srsrcReg.bstart >>> 2) <<< 16) |||
      bit (haveSlc && (!isGCN12 || decide (gcnInsn.encoding = GCNENC_MTBUF))) (1 <<< 22) |||
      bit haveTfe (1 <<< 23) ||| (soffsetOp.range.bstart <<< 24)) % 2 ^ 32]

/-- Modelled from the spec: stand-in values for the constants of `GCNAsmConsts`, whose
headers are not among the verified sources, in the layout the code implies: modes selected
by `GCN_MASK1` in bits [7:4], by `GCN_MASK2` in bits [11:8], by `GCN_VOP3_MASK3` in bits
[14:12]; `VOP3_CLAMP`, `VOP3_VOP3`, `VOP3_BOUNDCTRL` single bits above the two output-modifier
bits; `VOPOP_ABS`, `VOPOP_NEG`, `VOPOP_SEXT` single bits. -/
def sampleAsmConsts : GCNAsmConsts :=
  { GCN_MASK1 := 0xf0, GCN_MASK2 := 0xf00, GCN_VOP3_MASK3 := 0x7000, GCN_VOP3_VINTRP := 0x200,
    GCN_NEW_OPCODE := 0x50, GCN_VINTRP_SRC2 := 0x1000, GCN_VOP3_VOP3P := 0x8000,
    GCN_DS1_SGPR := 0x10, GCN_SRC1_SGPR := 0x20, GCN_DS2_VCC := 0x80, GCN_DST_VCC := 0x90,
    GCN_SRC2_VCC := 0xa0, GCN_ARG1_IMM := 0x60, GCN_ARG2_IMM := 0x70, GCN_IMM_NONE := 0x10,
    VOP3_CLAMP := 16, VOP3_VOP3 := 32, VOP3_BOUNDCTRL := 64,
    VOPOP_ABS := 1, VOPOP_NEG := 2, VOPOP_SEXT := 4 }

/-! ## GCNAssembler.cpp: relative branches of SOPK, `s_endpgm`, `hwreg` and `s_waitcnt` -/

/-- What the parsing steps of `parseSOPKEncoding` yield for a mnemonic whose mode is
`GCN_IMM_REL`: the result `good` of parsing SDST and the result of `skipRequiredComma` (both
only consulted when the mode has no `GCN_IMM_DST`), the parsed SDST, the result of
`getJumpValueArg` with the 64-bit `value` and whether `imm16Expr` is non-null, then for a mode
with `GCN_IMM_DST` the result of the second `skipRequiredComma`, the result `good` of parsing
the trailing operand, the 32-bit immediate with whether `imm32Expr` is non-null (mode with
`GCN_SOPK_CONST`) or the register parsed in its place, and the result of
`checkGarbagesAtEnd`. -/
structure SOPKRelParsed where
  dstGood : Bool
  dstCommaOk : Bool
  dstReg : RegRange
  jumpArgOk : Bool
  value : Nat
  imm16Expr : Bool
  immDstCommaOk : Bool
  immDstGood : Bool
  imm32 : Nat
  imm32Expr : Bool
  dstReg2 : RegRange
  noGarbage : Bool
  deriving DecidableEq, Repr

/-- Effects of `parseSOPKEncoding`: the returned flag, the output vector, the relocations
attached by `setTarget` in the order of the calls, the code-flow entries of the current
section and the error texts. -/
structure SOPKResult where
  ret : Bool
  output : List Nat
  exprTargets : List (AsmExprTargetType × Nat)
  codeFlow : List AsmCodeFlowEntry
  errors : List String
  deriving DecidableEq, Repr

/-- The routine `GCNAsmUtils::parseSOPKEncoding` for a mnemonic whose mode is `GCN_IMM_REL`.
`isGCN14` stands for `(arch & ARCH_RXVEGA) != 0`, `immDst` for
`(gcnInsn.mode & GCN_IMM_DST) != 0` and `sopkConst` for
`(gcnInsn.mode & GCN_SOPK_CONST) != 0`. The register accounting at the end is not
modelled. -/
def parseSOPKEncodingRel (isGCN14 immDst sopkConst : Bool) (code1 : Nat)
    (gcnEncSize : GCNEncSize) (p : SOPKRelParsed) (output : List Nat) (currentOutPos : Nat)
    (codeFlow : List AsmCodeFlowEntry) : SOPKResult :=
  -- parse SDST (SGPR)
  let good0 : Bool := if !immDst then p.dstGood else true
  if !immDst ∧ !p.dstCommaOk then ⟨false, output, [], codeFlow, []⟩
  else if !p.jumpArgOk then ⟨false, output, [], codeFlow, []⟩
  else
    let offset := jumpByteOffset p.value output.length
    let notAligned : Bool := !p.imm16Expr && decide (offset % 4 ≠ 0)
    let offset2 := offset >>> (2 : Nat)
    let outOfRange : Bool := !p.imm16Expr && decide (offset2 > INT16_MAX ∨ offset2 < INT16_MIN)
    let imm16 : Nat := if p.imm16Expr then 0 else toUInt16 offset2
    let good1 : Bool := good0 && !notAligned && !outOfRange
    let errors : List String :=
      (if notAligned then ["Jump is not aligned to word!"] else []) ++
        (if outOfRange then ["Jump out of range"] else [])
    -- add codeflow entry
    let codeFlow1 : List AsmCodeFlowEntry :=
      if !p.imm16Expr ∧ good1 then
        codeFlow ++ [⟨currentOutPos % 2 ^ 64, p.value % 2 ^ 64,
          if isGCN14 ∧ code1 = 21 then AsmCodeFlowType.CALL else AsmCodeFlowType.CJUMP⟩]
      else codeFlow
    -- parse SDST as immediate or next source
    if immDst ∧ !p.immDstCommaOk then ⟨false, output, [], codeFlow1, errors⟩
    else
      let good2 : Bool := if immDst then good1 && p.immDstGood else good1
      let dstReg : RegRange := if immDst ∧ !sopkConst then p.dstReg2 else
        if immDst then ⟨0, 0, false⟩ else p.dstReg
      let imm32 : Nat := if immDst ∧ sopkConst then p.imm32 % 2 ^ 32 else 0
      let imm32Expr : Bool := immDst && sopkConst && p.imm32Expr
      if !good2 ∨ !p.noGarbage then ⟨false, output, [], codeFlow1, errors⟩
      else
        let wordsNum := if sopkConst then 2 else 1
        if !checkGCNEncodingSize gcnEncSize wordsNum then
          ⟨false, output, [], codeFlow1, errors⟩
        else
          let word0 := sopkWord0 code1 imm16 dstReg.bstart
          let words := if sopkConst then [word0, imm32] else [word0]
          let targets : List (AsmExprTargetType × Nat) :=
            (if imm32Expr then [(GCNTGT_LITIMM, output.length)] else []) ++
              (if p.imm16Expr then [(GCNTGT_SOPJMP, output.length)] else [])
          ⟨true, emitWords output words, targets, codeFlow1, errors⟩

/-- The routine `GCNAsmUtils::parseSOPPEncoding` for a mnemonic whose mode is `GCN_IMM_NONE`
(no operand); `noGarbage` is the result of `checkGarbagesAtEnd`. -/
def parseSOPPEncodingNone (code1 : Nat) (gcnEncSize : GCNEncSize) (noGarbage : Bool)
    (output : List Nat) (currentOutPos : Nat) (codeFlow : List AsmCodeFlowEntry) : SOPPResult :=
  if gcnEncSize = GCNEncSize.BIT64 then
    ⟨false, output, none, codeFlow, ["Only 32-bit size for SOPP encoding"]⟩
  else
    -- if s_endpgm or s_endpgm_saved then add 'end' to code flow entries
    let codeFlow1 : List AsmCodeFlowEntry :=
      if code1 = 1 ∨ code1 = 27 then
        codeFlow ++ [⟨(currentOutPos + 4) % 2 ^ 64, 0, AsmCodeFlowType.END⟩]
      else codeFlow
    if !noGarbage then ⟨false, output, none, codeFlow1, []⟩
    else ⟨true, emitWords output [soppWord code1 0], none, codeFlow1, []⟩

/-- The table `hwregNamesMap`. -/
def hwregNamesMap : List (String × Nat) :=
  [("gpr_alloc", 5), ("hw_id", 4), ("ib_dbg0", 12), ("ib_dbg1", 13), ("ib_sts", 7),
   ("inst_dw0", 10), ("inst_dw1", 11), ("lds_alloc", 6), ("mode", 1), ("pc_hi", 9),
   ("pc_lo", 8), ("status", 2), ("trapsts", 3)]

/-- The table `hwregNamesGCN14Map`. -/
def hwregNamesGCN14Map : List (String × Nat) :=
  [("flush_ib", 14), ("gpr_alloc", 5), ("hw_id", 4), ("ib_dbg0", 12), ("ib_dbg1", 13),
   ("ib_sts", 7), ("inst_dw0", 10), ("inst_dw1", 11), ("lds_alloc", 6), ("mode", 1),
   ("pc_hi", 9), ("pc_lo", 8), ("sh_mem_bases", 15), ("sq_shader_tba_hi", 17),
   ("sq_shader_tba_lo", 16), ("sq_shader_tma_hi", 19), ("sq_shader_tma_lo", 18),
   ("status", 2), ("trapsts", 3)]

/-- Modelled from the spec: the helper `getEnumeration(asmr, linePtr, objName, tableSize,
table, value, ...)`, declared outside the verified sources. It reads a name and yields the
table value of that name ("name tables differ between pre-Vega and Vega"); `none` stands for
a failed lookup. -/
def getEnumeration (table : List (String × Nat)) (name : String) : Option Nat :=
  table.lookup name

/-- The assignment `imm16 = hwregId | (arg2Value<<6) | ((arg3Value-1)<<11)` of
`parseSOPKEncoding`: `hwregId` is a `cxuint`, the two arguments are `uint64_t` and the result
is stored in a `uint16_t`. -/
def hwregImm16 (hwregId arg2Value arg3Value : Nat) : Nat :=
  (hwregId ||| (arg2Value <<< 6) % 2 ^ 64 |||
    (((arg3Value + (2 ^ 64 - 1)) % 2 ^ 64) <<< 11) % 2 ^ 64) % 2 ^ 16

/-- What the parsing steps of `parseSOPKEncoding` yield for a mnemonic whose mode is
`GCN_IMM_SREG`: the SDST part as in `SOPKRelParsed`; the result of `getNameArg` and the
lower-cased function name; whether a `(` follows; whether the register is given by name (no
`@`), the name read by `getEnumeration`, or the value and result of `parseImm` for the `@`
form; the results of the two `skipRequiredComma` calls; result and value of the two
`getAbsoluteValueArg` calls; whether `)` follows; then the trailing part as in
`SOPKRelParsed`. -/
structure SOPKHwregParsed where
  dstGood : Bool
  dstCommaOk : Bool
  dstReg : RegRange
  funcNameOk : Bool
  funcName : String
  openParen : Bool
  byName : Bool
  regName : String
  paramGood : Bool
  paramId : Nat
  comma1Ok : Bool
  arg2Ok : Bool
  arg2Value : Nat
  comma2Ok : Bool
  arg3Ok : Bool
  arg3Value : Nat
  closeParen : Bool
  immDstCommaOk : Bool
  immDstGood : Bool
  imm32 : Nat
  imm32Expr : Bool
  dstReg2 : RegRange
  noGarbage : Bool
  deriving DecidableEq, Repr

/-- Effects of the `GCN_IMM_SREG` path of `parseSOPKEncoding`: the returned flag, the output
vector, the relocations, and the texts passed to `printWarning` and `printError`. -/
structure SOPKHwregResult where
  ret : Bool
  output : List Nat
  exprTargets : List (AsmExprTargetType × Nat)
  warnings : List String
  errors : List String
  deriving DecidableEq, Repr

/-- The routine `GCNAsmUtils::parseSOPKEncoding` for a mnemonic whose mode is `GCN_IMM_SREG`
(the immediate is written `hwreg(...)`). `isGCN12` stands for
`(arch & ARCH_GCN_1_2_4) != 0`, `isGCN14` for `(arch & ARCH_RXVEGA) != 0`, `immDst` and
`sopkConst` as in `parseSOPKEncodingRel`. -/
def parseSOPKEncodingHwreg (isGCN12 isGCN14 immDst sopkConst : Bool) (code1 : Nat)
    (gcnEncSize : GCNEncSize) (p : SOPKHwregParsed) (output : List Nat) : SOPKHwregResult :=
  let good0 : Bool := if !immDst then p.dstGood else true
  if !immDst ∧ !p.dstCommaOk then ⟨false, output, [], [], []⟩
  else if !p.funcNameOk then ⟨false, output, [], [], []⟩
  else if p.funcName ≠ "hwreg" ∨ !p.openParen then
    ⟨false, output, [], [], ["Expected hwreg function"]⟩
  else
    -- parse hwreg by name: choose hwReg names map
    let regMap := if isGCN14 then hwregNamesGCN14Map else hwregNamesMap
    let found := getEnumeration regMap p.regName
    let hwregId : Nat := if p.byName then found.getD 0 else p.paramId % 2 ^ 32
    let good1 : Bool := if p.byName then good0 && found.isSome else good0 && p.paramGood
    -- if ib_dgb1 in not GCN 1.2
    let unknownReg : Bool := p.byName && good1 && !isGCN12 && decide (hwregId = 13)
    let good2 : Bool := good1 && !unknownReg
    let errors1 : List String := if unknownReg then ["Unknown HWRegister"] else []
    if !p.comma1Ok then ⟨false, output, [], [], errors1⟩
    else
      -- second argument of hwreg
      let arg2Value : Nat := if p.arg2Ok then p.arg2Value % 2 ^ 64 else 0
      let warnings2 : List String :=
        if p.arg2Ok ∧ arg2Value ≥ 32 then ["Second argument out of range (0-31)"] else []
      let good3 : Bool := good2 && p.arg2Ok
      if !p.comma2Ok then ⟨false, output, [], warnings2, errors1⟩
      else
        let arg3Value : Nat := if p.arg3Ok then p.arg3Value % 2 ^ 64 else 0
        let warnings3 : List String :=
          warnings2 ++ (if p.arg3Ok ∧ (arg3Value ≥ 33 ∨ arg3Value < 1) then
            ["Third argument out of range (1-32)"] else [])
        let good4 : Bool := good3 && p.arg3Ok
        if !p.closeParen then
          ⟨false, output, [], warnings3, errors1 ++ ["Unterminated hwreg function"]⟩
        else
          let imm16 := hwregImm16 hwregId arg2Value arg3Value
          -- parse SDST as immediate or next source
          if immDst ∧ !p.immDstCommaOk then ⟨false, output, [], warnings3, errors1⟩
          else
            let good5 : Bool := if immDst then good4 && p.immDstGood else good4
            let dstReg : RegRange := if immDst ∧ !sopkConst then p.dstReg2 else
              if immDst then ⟨0, 0, false⟩ else p.dstReg
            let imm32 : Nat := if immDst ∧ sopkConst then p.imm32 % 2 ^ 32 else 0
            let imm32Expr : Bool := immDst && sopkConst && p.imm32Expr
            if !good5 ∨ !p.noGarbage then ⟨false, output, [], warnings3, errors1⟩
            else
              let wordsNum := if sopkConst then 2 else 1
              if !checkGCNEncodingSize gcnEncSize wordsNum then
                ⟨false, output, [], warnings3, errors1⟩
              else
                let word0 := sopkWord0 code1 imm16 dstReg.bstart
                let words := if sopkConst then [word0, imm32] else [word0]
                ⟨true, emitWords output words,
                  if imm32Expr then [(GCNTGT_LITIMM, output.length)] else [], warnings3,
                  errors1⟩

/-- The bit field selected for a lock name in the `GCN_IMM_LOCKS` case of
`parseSOPPEncoding`: (`bitPos`, `bitMask`, `doVMCnt`); a name other than the three counters
leaves the initial values `0`, `UINT_MAX`, `false`. -/
def waitcntField (isGCN14 : Bool) (name : String) : Nat × Nat × Bool :=
  if name = "vmcnt" then (0, if isGCN14 then 63 else 15, true)
  else if name = "lgkmcnt" then (8, 15, false)
  else if name = "expcnt" then (4, 7, false)
  else (0, 2 ^ 32 - 1, false)

/-- The update of `imm16` (a `uint16_t`) for one parsed lock `name(value)`:
`imm16 = (imm16 & ~(bitMask<<bitPos)) | ((value&bitMask)<<bitPos)`, or for `vmcnt` on GFX9
`imm16 = (imm16 & 0x3ff0) | ((value&15) | ((value&0x30)<<10))`; `bitMask` is a `cxuint`,
`value` a `uint64_t`. -/
def waitcntUpdate (isGCN14 : Bool) (imm16 : Nat) (name : String) (value : Nat) : Nat :=
  let bitPos := (waitcntField isGCN14 name).1
  let bitMask := (waitcntField isGCN14 name).2.1
  let doVMCnt := (waitcntField isGCN14 name).2.2
  if !isGCN14 || !doVMCnt then
    (((imm16 % 2 ^ 16) &&& (2 ^ 32 - 1 - (bitMask <<< bitPos) % 2 ^ 32)) |||
      (((value % 2 ^ 64) &&& bitMask) <<< bitPos) % 2 ^ 64) % 2 ^ 16
  else -- vmcnt for GFX9
    (((imm16 % 2 ^ 16) &&& 0x3ff0) |||
      (((value % 2 ^ 64) &&& 15) ||| (((value % 2 ^ 64) &&& 0x30) <<< 10) % 2 ^ 64)) % 2 ^ 16

/-- The immediate that the loop of the `GCN_IMM_LOCKS` case computes for a sequence of
parsed locks `name(value)`: it starts from `isGCN14 ? 0xcf7f : 0xf7f` and applies the update
of every lock in the order of writing. -/
def waitcntImm16 (isGCN14 : Bool) (locks : List (String × Nat)) : Nat :=
  locks.foldl (fun imm16 l => waitcntUpdate isGCN14 imm16 l.1 l.2)
    (if isGCN14 then 0xcf7f else 0xf7f)

/-- What the parsing steps of one iteration of the loop yield: result and (lower-cased)
name of `getNameArgS`, whether `(` follows, result and value of `getAbsoluteValueArg`,
whether `)` follows. -/
structure WaitCntItem where
  nameOk : Bool
  name : String
  openParen : Bool
  valueOk : Bool
  value : Nat
  closeParen : Bool
  deriving DecidableEq, Repr

/-- State of the loop of the `GCN_IMM_LOCKS` case: `imm16`, `good`, the three
"already defined" flags and the messages printed so far. -/
structure WaitCntState where
  imm16 : Nat
  good : Bool
  haveLgkmCnt : Bool
  haveExpCnt : Bool
  haveVMCnt : Bool
  warnings : List String
  errors : List String
  deriving DecidableEq, Repr

/-- One iteration of the loop `while (true)` of the `GCN_IMM_LOCKS` case; `none` is the exit
`return false` from inside the loop (the messages of that exit are not kept). -/
def waitcntIter (isGCN14 : Bool) (st : WaitCntState) (it : WaitCntItem) : Option WaitCntState :=
  let good1 := st.good && it.nameOk
  let known : Bool := it.name = "vmcnt" || it.name = "lgkmcnt" || it.name = "expcnt"
  let bitMask := (waitcntField isGCN14 it.name).2.1
  let warn1 : List String :=
    if it.name = "vmcnt" ∧ st.haveVMCnt then ["vmcnt was already defined"]
    else if it.name = "lgkmcnt" ∧ st.haveLgkmCnt then ["lgkmcnt was already defined"]
    else if it.name = "expcnt" ∧ st.haveExpCnt then ["expcnt was already defined"]
    else []
  let good2 := good1 && known
  let err1 : List String := if known then [] else ["Expected vmcnt, lgkmcnt or expcnt"]
  if !it.openParen then none
  else
    -- parse value for lock
    let warn2 : List String :=
      if it.valueOk ∧ it.value % 2 ^ 64 > bitMask then ["Value out of range"] else []
    let imm16 := if it.valueOk then waitcntUpdate isGCN14 st.imm16 it.name it.value else st.imm16
    let good3 := good2 && it.valueOk
    if !it.closeParen then none
    else
      some ⟨imm16, good3, st.haveLgkmCnt || it.name = "lgkmcnt",
        st.haveExpCnt || it.name = "expcnt", st.haveVMCnt || it.name = "vmcnt",
        st.warnings ++ warn1 ++ warn2, st.errors ++ err1⟩

/-- The loop of the `GCN_IMM_LOCKS` case over the parsed items in the order of writing. -/
def waitcntLoop (isGCN14 : Bool) : WaitCntState → List WaitCntItem → Option WaitCntState
  | st, [] => some st
  | st, it :: rest =>
    match waitcntIter isGCN14 st it with
    | none => none
    | some st1 => waitcntLoop isGCN14 st1 rest

/-- The routine `GCNAsmUtils::parseSOPPEncoding` for a mnemonic whose mode is `GCN_IMM_LOCKS`
(`s_waitcnt`). The loop body runs at least once, for `first`, and then once for every further
item `rest` until the end of the line; `noGarbage` is the result of `checkGarbagesAtEnd`. -/
def parseSOPPEncodingLocks (isGCN14 : Bool) (code1 : Nat) (gcnEncSize : GCNEncSize)
    (first : WaitCntItem) (rest : List WaitCntItem) (noGarbage : Bool) (output : List Nat) :
    EncodeResult :=
  if gcnEncSize = GCNEncSize.BIT64 then ⟨false, output, none⟩
  else
    match waitcntLoop isGCN14 ⟨if isGCN14 then 0xcf7f else 0xf7f, true, false, false, false,
        [], []⟩ (first :: rest) with
    | none => ⟨false, output, none⟩
    | some st =>
      if !st.good ∨ !noGarbage then ⟨false, output, none⟩
      else ⟨true, emitWords output [soppWord code1 st.imm16], none⟩

/-- The hint `GCNVOPEnc` derived from the mnemonic suffix (none, `_dpp`, `_sdwa`). -/
inductive GCNVOPEnc
  | NORMAL | DPP | SDWA
  deriving DecidableEq, Repr

/-- The fields of the record `VOPExtraModifiers` (SDWA and DPP modifiers) that
`parseVOP2Encoding` reads. -/
structure VOPExtraModifiers where
  dstSel : Nat
  dstUnused : Nat
  src0Sel : Nat
  src1Sel : Nat
  bankMask : Nat
  rowMask : Nat
  dppCtrl : Nat
  needSDWA : Bool
  needDPP : Bool
  deriving DecidableEq, Repr

/-- The functions that `parseVOP2Encoding` calls and that are defined outside the verified
sources, as a parameter: the accessors `RegRange::isNonVGPR()` and `RegRange::isSGPR()`, the
comparison `r1.regVar==r2.regVar` of the register-variable references of two ranges that
both have one (`RegRange` here keeps only whether the reference is present), the check
`checkGCNVOPExtraModifers(asmr, arch, needImm, sextFlags, vop3, gcnVOPEnc, src0Op, extraMods,
instrPlace)`, which may update `extraMods` and yields `none` when it returns false, and
`checkGCNVOPEncoding(asmr, instrPlace, gcnVOPEnc, &extraMods)`. -/
structure VOPHelpers where
  isNonVGPR : RegRange → Bool
  isSGPR : RegRange → Bool
  sameRegVar : RegRange → RegRange → Bool
  checkGCNVOPExtraModifers :
    Bool → Bool → Bool → GCNVOPEnc → GCNOperand → VOPExtraModifiers → Option VOPExtraModifiers
  checkGCNVOPEncoding : GCNVOPEnc → VOPExtraModifiers → Bool

/-- What the parsing part of `parseVOP2Encoding` hands to the encoding part: the conjunction
`good` of all parse results together with the comma checks, the result of
`checkGarbagesAtEnd`, the destination and the carry registers (`RegRange(0, 0)` when the
mnemonic has none), the two source operands with the modifiers of `opMods` already applied to
`vopMods`, the literal `immValue` of `v_madmk`/`v_madak`, which of the three expressions
`src0OpExpr`, `src1OpExpr`, `immExpr` are non-null, and the modifiers filled by
`parseVOPModifiers`. -/
structure VOP2Parsed where
  good : Bool
  noGarbage : Bool
  dstReg : RegRange
  dstCCReg : RegRange
  srcCCReg : RegRange
  src0Op : GCNOperand
  src1Op : GCNOperand
  immValue : Nat
  src0Expr : Bool
  src1Expr : Bool
  immExpr : Bool
  modifiers : Nat
  extraMods : VOPExtraModifiers
  opMods : VOPOpModifiers
  deriving DecidableEq, Repr

/-- Effects of `parseVOP2Encoding`: the returned flag, the output vector, the relocations
attached by `setTarget` in the order of the calls, and the error texts. -/
structure VOPResult where
  ret : Bool
  output : List Nat
  exprTargets : List (AsmExprTargetType × Nat)
  errors : List String
  deriving DecidableEq, Repr

/-- The expression `modifiers & ~mask` for a `cxbyte modifiers` and an `int mask`. -/
def cxbyteAndNot (modifiers mask : Nat) : Nat := (modifiers % 256) &&& (0xff ^^^ (mask % 256))

/-- The decision "determine whether VOP3 encoding is needed" of `parseVOP2Encoding`
(the initial value of `vop3`); `needSDWA` is `extraMods.needSDWA` after the sign-extension
flags have been merged in. -/
def vop2NeedsVOP3 (K : GCNAsmConsts) (H : VOPHelpers) (isGCN12 isGCN14 : Bool)
    (gcnInsn : GCNAsmInstruction) (p : VOP2Parsed) (needSDWA : Bool)
    (gcnEncSize : GCNEncSize) : Bool :=
  let mode1 := gcnInsn.mode &&& K.GCN_MASK1
  let haveDstCC : Bool := decide (mode1 = K.GCN_DS2_VCC ∨ mode1 = K.GCN_DST_VCC)
  let haveSrcCC : Bool := decide (mode1 = K.GCN_DS2_VCC ∨ mode1 = K.GCN_SRC2_VCC)
  let sgprRegInSrc1 : Bool := decide (mode1 = K.GCN_DS1_SGPR ∨ mode1 = K.GCN_SRC1_SGPR)
  -- src1=sgprs and not (DS1_SGPR|src1_SGPR)
  ((!isGCN14 || !needSDWA) && (H.isNonVGPR p.src1Op.range ^^ sgprRegInSrc1)) ||
  (!isGCN12 && (decide (p.src0Op.vopMods ≠ 0) || decide (p.src1Op.vopMods ≠ 0))) ||
  decide (cxbyteAndNot p.modifiers (K.VOP3_BOUNDCTRL ||| bit needSDWA K.VOP3_CLAMP |||
      -- exclude OMOD if RXVEGA and SDWA used
      bit (isGCN14 && needSDWA) 3) ≠ 0) ||
  -- srcCC!=VCC or dstCC!=VCC
  (haveDstCC && !p.dstCCReg.isVal 106) || (haveSrcCC && !p.srcCCReg.isVal 106) ||
  decide (p.opMods.opselMod &&& 15 ≠ 0) || decide (gcnEncSize = GCNEncSize.BIT64)

/-- The function `regRangeCanEqual(r1, r2)`, "check whether reg range can be equal (regvar and
registers)". The pointer comparison `r1.regVar==r2.regVar` holds for two fixed ranges (both
references are null), fails for a fixed range against a register variable, and is
`H.sameRegVar` for two register variables. -/
def regRangeCanEqual (H : VOPHelpers) (r1 r2 : RegRange) : Bool :=
  if r1.isRegVar != r2.isRegVar && H.isSGPR r1 == H.isSGPR r2 then
    -- can be equal: regvar -> reg
    true
  else
    (if r1.regVar && r2.regVar then H.sameRegVar r1 r2 else r1.regVar == r2.regVar) &&
      r1.start == r2.start

/-- The number `sgprsReaded` of SGPR operands read by the instruction, as counted by
`parseVOP2Encoding`. -/
def vop2SgprsReaded (H : VOPHelpers) (haveSrcCC : Bool) (p : VOP2Parsed) : Nat :=
  let n0 : Nat := if H.isSGPR p.src0Op.range then 1 else 0
  let n1 : Nat :=
    if H.isSGPR p.src1Op.range && !regRangeCanEqual H p.src0Op.range p.src1Op.range then 1
    else 0
  let n2 : Nat :=
    if haveSrcCC then
      -- check for third operand (SSRC)
      let equalS0SCC := regRangeCanEqual H p.src0Op.range p.srcCCReg
      let equalS1SCC := regRangeCanEqual H p.src1Op.range p.srcCCReg
      if (!equalS0SCC && !equalS1SCC) ||
          (!p.srcCCReg.isRegVar &&
            ((!equalS0SCC && equalS1SCC && p.src1Op.range.isRegVar) ||
              (equalS0SCC && !equalS1SCC && p.src0Op.range.isRegVar))) ||
          (p.srcCCReg.isRegVar &&
            ((!equalS0SCC && equalS1SCC && !p.src1Op.range.isRegVar) ||
              (equalS0SCC && !equalS1SCC && !p.src0Op.range.isRegVar))) then 1
      else 0
    else 0
  n0 + n1 + n2

/-- The second word of the SDWA form of `parseVOP2Encoding`. -/
def vop2SDWAWord (K : GCNAsmConsts) (H : VOPHelpers) (p : VOP2Parsed)
    (extraMods : VOPExtraModifiers) : Nat :=
  ((p.src0Op.range.bstart &&& 0xff) ||| (extraMods.dstSel <<< 8) |||
    (extraMods.dstUnused <<< 11) ||| bit (decide (p.modifiers &&& K.VOP3_CLAMP ≠ 0)) 0x2000 |||
    (extraMods.src0Sel <<< 16) |||
    bit (decide (p.src0Op.vopMods &&& K.VOPOP_SEXT ≠ 0)) (1 <<< 19) |||
    bit (decide (p.src0Op.vopMods &&& K.VOPOP_NEG ≠ 0)) (1 <<< 20) |||
    bit (decide (p.src0Op.vopMods &&& K.VOPOP_ABS ≠ 0)) (1 <<< 21) |||
    (extraMods.src1Sel <<< 24) |||
    bit (decide (p.src1Op.vopMods &&& K.VOPOP_SEXT ≠ 0)) (1 <<< 27) |||
    bit (decide (p.src1Op.vopMods &&& K.VOPOP_NEG ≠ 0)) (1 <<< 28) |||
    bit (decide (p.src1Op.vopMods &&& K.VOPOP_ABS ≠ 0)) (1 <<< 29) |||
    bit (H.isNonVGPR p.src0Op.range) (1 <<< 23) |||
    bit (H.isNonVGPR p.src1Op.range) (1 <<< 31) |||
    ((p.modifiers &&& 3) <<< 14)) % 2 ^ 32

/-- The second word of the DPP form of `parseVOP2Encoding`. -/
def vop2DPPWord (K : GCNAsmConsts) (p : VOP2Parsed) (extraMods : VOPExtraModifiers) : Nat :=
  ((p.src0Op.range.bstart &&& 0xff) ||| (extraMods.dppCtrl <<< 8) |||
    bit (decide (p.modifiers &&& K.VOP3_BOUNDCTRL ≠ 0)) (1 <<< 19) |||
    bit (decide (p.src0Op.vopMods &&& K.VOPOP_NEG ≠ 0)) (1 <<< 20) |||
    bit (decide (p.src0Op.vopMods &&& K.VOPOP_ABS ≠ 0)) (1 <<< 21) |||
    bit (decide (p.src1Op.vopMods &&& K.VOPOP_NEG ≠ 0)) (1 <<< 22) |||
    bit (decide (p.src1Op.vopMods &&& K.VOPOP_ABS ≠ 0)) (1 <<< 23) |||
    (extraMods.bankMask <<< 24) ||| (extraMods.rowMask <<< 28)) % 2 ^ 32

/-- The words of the VOP2 form of `parseVOP2Encoding` (`!vop3`): the VOP2 word, followed by
the SDWA word, the DPP word, the literal of SRC0 or SRC1, or the literal of
`v_madmk`/`v_madak`, if any. -/
def vop2ShortWords (K : GCNAsmConsts) (H : VOPHelpers) (gcnInsn : GCNAsmInstruction)
    (p : VOP2Parsed) (extraMods : VOPExtraModifiers) : List Nat :=
  let mode1 := gcnInsn.mode &&& K.GCN_MASK1
  let src0out : Nat :=
    if extraMods.needSDWA then 0xf9 else if extraMods.needDPP then 0xfa
    else p.src0Op.range.bstart
  let word0 := vop2Word0 gcnInsn.code1 src0out p.src1Op.range.bstart p.dstReg.bstart
  if extraMods.needSDWA then
    -- if SDWA encoding
    [word0, vop2SDWAWord K H p extraMods]
  else if extraMods.needDPP then
    -- DPP encoding
    [word0, vop2DPPWord K p extraMods]
  else if p.src0Op.range.isVal 255 then
    -- otherwise we check for immediate/literal value
    [word0, p.src0Op.value % 2 ^ 32]
  else if p.src1Op.range.isVal 255 then
    -- literal from SRC1
    [word0, p.src1Op.value % 2 ^ 32]
  else if mode1 = K.GCN_ARG1_IMM ∨ mode1 = K.GCN_ARG2_IMM then [word0, p.immValue % 2 ^ 32]
  else [word0]

/-- The two words of the VOP3 form of `parseVOP2Encoding` (`vop3`). -/
def vop2LongWords (K : GCNAsmConsts) (isGCN12 : Bool) (gcnInsn : GCNAsmInstruction)
    (p : VOP2Parsed) : List Nat :=
  let mode1 := gcnInsn.mode &&& K.GCN_MASK1
  let haveDstCC : Bool := decide (mode1 = K.GCN_DS2_VCC ∨ mode1 = K.GCN_DST_VCC)
  let clamp : Bool := decide (p.modifiers &&& K.VOP3_CLAMP ≠ 0)
  let code : Nat :=
    if isGCN12 then (gcnInsn.code2 <<< 16) ||| bit clamp 0x8000
    else (gcnInsn.code2 <<< 17) ||| bit clamp 0x800
  [if haveDstCC then
      -- if VOP3B
      (0xd0000000 ||| code ||| (p.dstReg.bstart &&& 0xff) ||| (p.dstCCReg.bstart <<< 8)) % 2 ^ 32
    else
      -- if VOP3A
      (0xd0000000 ||| code ||| (p.dstReg.bstart &&& 0xff) |||
        bit (decide (p.src0Op.vopMods &&& K.VOPOP_ABS ≠ 0)) 0x100 |||
        bit (decide (p.src1Op.vopMods &&& K.VOPOP_ABS ≠ 0)) 0x200 |||
        ((p.opMods.opselMod &&& 15) <<< 11)) % 2 ^ 32,
    -- second dword
    (p.src0Op.range.bstart ||| (p.src1Op.range.bstart <<< 9) ||| (p.srcCCReg.bstart <<< 18) |||
      ((p.modifiers &&& 3) <<< 27) |||
      bit (decide (p.src0Op.vopMods &&& K.VOPOP_NEG ≠ 0)) (1 <<< 29) |||
      bit (decide (p.src1Op.vopMods &&& K.VOPOP_NEG ≠ 0)) (1 <<< 30)) % 2 ^ 32]

/-- The encoding part of `GCNAsmUtils::parseVOP2Encoding`, from the test of `good` after the
modifiers have been parsed and applied to the operands. `isGCN12` stands for
`(arch & ARCH_GCN_1_2_4) != 0` and `isGCN14` for `(arch & ARCH_RXVEGA) != 0`. Before GCN 1.2
`parseVOPModifiers` is called with a null pointer in place of `&extraMods`, so `extraMods`
keeps its zero initialisation. The rewriting of the register-usage records and the register
accounting at the end are not modelled. -/
def parseVOP2Encoding (K : GCNAsmConsts) (H : VOPHelpers) (isGCN12 isGCN14 : Bool)
    (gcnInsn : GCNAsmInstruction) (p : VOP2Parsed) (gcnEncSize : GCNEncSize)
    (gcnVOPEnc : GCNVOPEnc) (output : List Nat) : VOPResult :=
  let mode1 := gcnInsn.mode &&& K.GCN_MASK1
  let haveDstCC : Bool := decide (mode1 = K.GCN_DS2_VCC ∨ mode1 = K.GCN_DST_VCC)
  let haveSrcCC : Bool := decide (mode1 = K.GCN_DS2_VCC ∨ mode1 = K.GCN_SRC2_VCC)
  if !p.good ∨ !p.noGarbage then ⟨false, output, [], []⟩
  else
    let extraMods0 : VOPExtraModifiers :=
      if isGCN12 then p.extraMods else ⟨0, 0, 0, 0, 0, 0, 0, false, false⟩
    let sextFlags : Bool :=
      decide ((p.src0Op.vopMods ||| p.src1Op.vopMods) &&& K.VOPOP_SEXT ≠ 0)
    let extraMods1 : VOPExtraModifiers :=
      { extraMods0 with needSDWA := extraMods0.needSDWA || sextFlags }
    -- determine whether VOP3 encoding is needed
    let vop3 := vop2NeedsVOP3 K H isGCN12 isGCN14 gcnInsn p extraMods1.needSDWA gcnEncSize
    if (p.src0Op.range.isVal 255 || p.src1Op.range.isVal 255) &&
        (H.isSGPR p.src0Op.range || p.src0Op.range.isVal 124 ||
          H.isSGPR p.src1Op.range || p.src1Op.range.isVal 124) then
      ⟨false, output, [], ["Literal with SGPR or M0 is illegal"]⟩
    else if vop2SgprsReaded H haveSrcCC p ≥ 2 then
      ⟨false, output, [], ["More than one SGPR to read in instruction"]⟩
    else
      let needImm : Bool := decide (p.src0Op.range.start = 255 ∨ p.src1Op.range.start = 255 ∨
        mode1 = K.GCN_ARG1_IMM ∨ mode1 = K.GCN_ARG2_IMM)
      let checked : Option (VOPExtraModifiers × Bool) :=
        if isGCN12 && (extraMods1.needSDWA || extraMods1.needDPP || sextFlags ||
            decide (gcnVOPEnc ≠ GCNVOPEnc.NORMAL)) then
          -- if VOP_SDWA or VOP_DPP is required
          (H.checkGCNVOPExtraModifers needImm sextFlags vop3 gcnVOPEnc p.src0Op extraMods1).map
            (fun e => (e, vop3))
        else if isGCN12 &&
            decide (cxbyteAndNot (p.src0Op.vopMods ||| p.src1Op.vopMods) K.VOPOP_SEXT ≠ 0) &&
            !sextFlags then
          -- if all pass we check we promote VOP3 if only operand modifiers expect sext()
          some (extraMods1, true)
        else some (extraMods1, vop3)
      match checked with
      | none => ⟨false, output, [], []⟩
      | some (extraMods, vop3) =>
        if isGCN12 && vop3 && haveDstCC &&
            decide ((p.src0Op.vopMods ||| p.src1Op.vopMods) &&& K.VOPOP_ABS ≠ 0) then
          ⟨false, output, [], ["Abs modifier is illegal for VOP3B encoding"]⟩
        else if vop3 && needImm then
          ⟨false, output, [], ["Literal in VOP3 encoding is illegal"]⟩
        else if !H.checkGCNVOPEncoding gcnVOPEnc extraMods then ⟨false, output, [], []⟩
        else
          -- set target expressions if needed
          let targets : List (AsmExprTargetType × Nat) :=
            (if p.src0Expr then [(GCNTGT_LITIMM, output.length)] else []) ++
              (if p.src1Expr then [(GCNTGT_LITIMM, output.length)] else []) ++
              (if p.immExpr then [(GCNTGT_LITIMM, output.length)] else [])
          -- put data (instruction words)
          let words : List Nat :=
            if !vop3 then vop2ShortWords K H gcnInsn p extraMods
            else vop2LongWords K isGCN12 gcnInsn p
          if !checkGCNEncodingSize gcnEncSize words.length then ⟨false, output, targets, []⟩
          else ⟨true, emitWords output words, targets, []⟩

/-- Modelled from the spec: stand-ins for the helpers of `VOPHelpers` on fixed registers,
after the register codes of the specification ("0..103 SGPRs, 106 VCC (low), 107 VCC high",
"256..511 VGPRs"): a fixed range is a non-VGPR when it starts below 256 and an SGPR when it
starts below 108; two register variables never share their reference; the two
checks accept an instruction without SDWA or DPP modifiers and without a forced encoding. -/
def sampleVOPHelpers : VOPHelpers :=
  { isNonVGPR := fun r => !r.regVar && decide (r.start < 256),
    isSGPR := fun r => !r.regVar && decide (r.start < 108),
    sameRegVar := fun _ _ => false,
    checkGCNVOPExtraModifers := fun _ _ _ _ _ e => some e,
    checkGCNVOPEncoding := fun enc e =>
      decide (enc = GCNVOPEnc.NORMAL) && !e.needSDWA && !e.needDPP }

/-! ## GCNAssembler.cpp: the sorted and merged descriptor table -/

/-- The value `UINT16_MAX`, which marks an empty secondary opcode. -/
def UINT16_MAX : Nat := 0xffff

/-- The numeric value of an encoding family, which is its index in the family-indexed tables
of GCNDisasm.cpp (`gcnInstrTableByCodeSpaces`, `gcnEncodingOpcodeTable`). -/
def GCNEncoding.value : GCNEncoding → Nat
  | GCNENC_NONE => 0
  | GCNENC_SOPC => 1
  | GCNENC_SOPP => 2
  | GCNENC_SOP1 => 3
  | GCNENC_SOP2 => 4
  | GCNENC_SOPK => 5
  | GCNENC_SMRD => 6
  | GCNENC_VOPC => 7
  | GCNENC_VOP1 => 8
  | GCNENC_VOP2 => 9
  | GCNENC_VOP3A => 10
  | GCNENC_VOP3B => 11
  | GCNENC_VINTRP => 12
  | GCNENC_DS => 13
  | GCNENC_MUBUF => 14
  | GCNENC_MTBUF => 15
  | GCNENC_MIMG => 16
  | GCNENC_EXP => 17
  | GCNENC_FLAT => 18

/-- The test `::strcmp(a, b) < 0` on mnemonics: the lexicographic order of the character
codes. -/
def strcmpLess (a b : String) : Bool := decide (cstr a < cstr b)

/-- The comparator passed to `std::sort` in `initializeGCNAssembler`: by mnemonic, then by
encoding, then by architecture mask. -/
def instrBefore (instr1 instr2 : GCNAsmInstruction) : Bool :=
  strcmpLess instr1.mnemonic instr2.mnemonic ||
  (decide (instr1.mnemonic = instr2.mnemonic) &&
    decide (instr1.encoding.value < instr2.encoding.value)) ||
  (decide (instr1.mnemonic = instr2.mnemonic) && decide (instr1.encoding = instr2.encoding) &&
    decide (instr1.archMask < instr2.archMask))

/-- The call `std::sort(gcnInstrSortedTable.begin(), gcnInstrSortedTable.end(), ...)`: the
entries in ascending order of the comparator. The order of entries that the comparator does
not distinguish is left open by `std::sort`; here they keep their input order. -/
def sortTable (table : List GCNAsmInstruction) : List GCNAsmInstruction :=
  table.insertionSort (fun instr1 instr2 => instrBefore instr2 instr1 = false)

/-- The loop `while (cond(k)) k--;` over the entries `0 .. j-1` of the table being built,
started at index `k`: the index at which the loop stops. The entries are paired with their
`oldArchMasks` value. The result is `none` when the index is outside the entries built so
far, which happens when `k--` steps below index 0 (the unsigned `k` wraps around and the
next read is outside the array). -/
def scanBack (out : List (GCNAsmInstruction × Nat)) (cond : GCNAsmInstruction × Nat → Bool) :
    Nat → Option Nat
  | 0 =>
    match out[0]? with
    | none => none
    | some e => if cond e then none else some 0
  | k + 1 =>
    match out[k + 1]? with
    | none => none
    | some e => if cond e then scanBack out cond k else some (k + 1)

/-- One iteration of the loop "join VOP3A instr with VOP2/VOPC/VOP1 instr together" of
`initializeGCNAssembler` for the entry `insn = gcnInstrSortedTable[i]`. The state `out` holds
the entries `gcnInstrSortedTable[0 .. j)` built so far, each with its `oldArchMasks` value;
the array positions from `j` on still hold the sorted input `sorted`, which is what the read
`gcnInstrSortedTable[j].archMask` yields. The result is `none` when an index leaves the
array. -/
def mergeStep (sorted : List GCNAsmInstruction) (out : List (GCNAsmInstruction × Nat))
    (insn : GCNAsmInstruction) : Option (List (GCNAsmInstruction × Nat)) :=
  if insn.encoding = GCNENC_VOP3A ∨ insn.encoding = GCNENC_VOP3B then
    -- check duplicates
    if out.length = 0 then none
    else
      match scanBack out (fun e => decide (e.1.mnemonic = insn.mnemonic) &&
          decide (e.2 &&& insn.archMask ≠ insn.archMask)) (out.length - 1) with
      | none => none
      | some k =>
        match out[k]? with
        | none => none
        | some e =>
          if e.1.mnemonic = insn.mnemonic ∧ e.2 &&& insn.archMask = insn.archMask then
            -- we found duplicate, we apply
            if e.1.code2 = UINT16_MAX then
              -- if second slot for opcode is not filled
              some (out.set k
                ({ e.1 with code2 := insn.code1, archMask := e.2 &&& insn.archMask }, e.2))
            else
              -- if filled we create new entry
              some (out ++ [({ e.1 with archMask := e.2 &&& insn.archMask, code2 := insn.code1 },
                ((sorted[out.length]?).map (fun s => s.archMask)).getD 0)])
          else
            -- not found
            some (out ++ [(insn, insn.archMask)])
  else if insn.encoding = GCNENC_VINTRP then
    -- check duplicates
    if out.length = 0 then none
    else
      -- the entry stored at index j lies above the start index k = j-1 of the scan
      match scanBack out (fun e => decide (e.1.mnemonic = insn.mnemonic) &&
          decide (e.1.encoding ≠ GCNENC_VOP3A)) (out.length - 1) with
      | none => none
      | some k =>
        match out[k]? with
        | none => none
        | some e =>
          if e.1.mnemonic = insn.mnemonic ∧ e.1.encoding = GCNENC_VOP3A then
            -- we found VINTRP duplicate, set up second code (VINTRP)
            some ((out ++ [(insn, insn.archMask)]).set k ({ e.1 with code2 := insn.code1 }, e.2))
          else some (out ++ [(insn, insn.archMask)])
  else
    -- normal instruction
    some (out ++ [(insn, insn.archMask)])

/-- The loop over `i` of `initializeGCNAssembler`, for the entries of the sorted table that
are still to be processed. -/
def mergeLoop (sorted : List GCNAsmInstruction) :
    List GCNAsmInstruction → List (GCNAsmInstruction × Nat) →
      Option (List (GCNAsmInstruction × Nat))
  | [], out => some out
  | insn :: rest, out =>
    match mergeStep sorted out insn with
    | none => none
    | some out1 => mergeLoop sorted rest out1

/-- The first loops of `initializeGCNAssembler`: the entries of `gcnInstrsTable` up to the
entry with a null mnemonic, each with an empty secondary opcode. -/
def loadTable (gcnInstrsTable : List GCNInstruction) : List GCNAsmInstruction :=
  (gcnInstrsTable.takeWhile (fun insn => insn.mnemonic.isSome)).map
    (fun insn => ⟨insn.mnemonic.getD "", insn.encoding, insn.mode, insn.code, UINT16_MAX,
      insn.archMask⟩)

/-- The function `initializeGCNAssembler`: the final content of `gcnInstrSortedTable`
(after `resize(j)`), or `none` when the routine indexes outside the table. -/
def initializeGCNAssembler (gcnInstrsTable : List GCNInstruction) :
    Option (List GCNAsmInstruction) :=
  (mergeLoop (sortTable (loadTable gcnInstrsTable)) (sortTable (loadTable gcnInstrsTable))
    []).map (fun out => out.map Prod.fst)

/-! ## GCNAssembler.cpp: the encoding suffixes of a mnemonic -/

/-- The test `::strcasecmp(s, t) == 0` of the C library (in the C locale) on the characters of
two strings: they agree once every letter `A`..`Z` is replaced by its lower-case letter. -/
def strcasecmpEq (s t : List Char) : Bool := s.map Char.toLower == t.map Char.toLower

/-- The local variables `mnemonic`, `gcnEncSize` and `vopEnc` of `GCNAssembler::assemble`
after the encoding suffixes have been checked. -/
structure MnemonicHints where
  mnemonic : List Char
  gcnEncSize : GCNEncSize
  vopEnc : GCNVOPEnc
  deriving DecidableEq, Repr

/-- The part "checking encoding suffixes (_e64, _e32,_dpp, _sdwa)" of
`GCNAssembler::assemble`, on the characters of `inMnemonic`. `toLower` is the function of
that name of the utilities header, which is not among the verified sources; `c_str() + k`
is `drop k`, `substr(0, k)` is `take k`, and an index into the string reads the terminating
NUL past the last character. -/
def assembleSuffixes (toLower : Char → Char) (inMnemonic : List Char) : MnemonicHints :=
  let inMnemLen := inMnemonic.length
  if inMnemLen > 4 ∧ strcasecmpEq (inMnemonic.drop (inMnemLen - 4)) "_e64".toList then
    ⟨inMnemonic.take (inMnemLen - 4), GCNEncSize.BIT64, GCNVOPEnc.NORMAL⟩
  else if inMnemLen > 4 ∧ strcasecmpEq (inMnemonic.drop (inMnemLen - 4)) "_e32".toList then
    ⟨inMnemonic.take (inMnemLen - 4), GCNEncSize.BIT32, GCNVOPEnc.NORMAL⟩
  else if inMnemLen > 6 ∧ toLower (inMnemonic.getD 0 (Char.ofNat 0)) = 'v' ∧
      inMnemonic.getD 1 (Char.ofNat 0) = '_' ∧
      strcasecmpEq (inMnemonic.drop (inMnemLen - 4)) "_dpp".toList then
    ⟨inMnemonic.take (inMnemLen - 4), GCNEncSize.UNKNOWN, GCNVOPEnc.DPP⟩
  else if inMnemLen > 7 ∧ toLower (inMnemonic.getD 0 (Char.ofNat 0)) = 'v' ∧
      inMnemonic.getD 1 (Char.ofNat 0) = '_' ∧
      strcasecmpEq (inMnemonic.drop (inMnemLen - 5)) "_sdwa".toList then
    ⟨inMnemonic.take (inMnemLen - 5), GCNEncSize.UNKNOWN, GCNVOPEnc.SDWA⟩
  else ⟨inMnemonic, GCNEncSize.UNKNOWN, GCNVOPEnc.NORMAL⟩

/-- The part "checking for encoding suffixes" of `GCNAssembler::checkMnemonic`: the name that
is searched in the sorted table. -/
def checkMnemonicSuffixes (toLower : Char → Char) (inMnemonic : List Char) : List Char :=
  let inMnemLen := inMnemonic.length
  if inMnemLen > 4 ∧
      (strcasecmpEq (inMnemonic.drop (inMnemLen - 4)) "_e64".toList ∨
        strcasecmpEq (inMnemonic.drop (inMnemLen - 4)) "_e32".toList) then
    inMnemonic.take (inMnemLen - 4)
  else if inMnemLen > 6 ∧ toLower (inMnemonic.getD 0 (Char.ofNat 0)) = 'v' ∧
      inMnemonic.getD 1 (Char.ofNat 0) = '_' ∧
      strcasecmpEq (inMnemonic.drop (inMnemLen - 4)) "_dpp".toList then
    inMnemonic.take (inMnemLen - 4)
  else if inMnemLen > 7 ∧ toLower (inMnemonic.getD 0 (Char.ofNat 0)) = 'v' ∧
      inMnemonic.getD 1 (Char.ofNat 0) = '_' ∧
      strcasecmpEq (inMnemonic.drop (inMnemLen - 5)) "_sdwa".toList then
    inMnemonic.take (inMnemLen - 5)
  else inMnemonic

/-- The words "ends (case-insensitively) in `suffix`" of the specification, for a lower-case
suffix: the lower-cased name has the suffix. -/
def endsWithNoCase (name : List Char) (suffix : String) : Bool :=
  suffix.toList.isSuffixOf (name.map Char.toLower)

/-- The words "starts with `v_`" of the specification, the letter in either case. -/
def startsWithV (toLower : Char → Char) (name : List Char) : Bool :=
  match name with
  | c0 :: c1 :: _ => decide (toLower c0 = 'v') && decide (c1 = '_')
  | _ => false

/-- The suffix handling as the specification words it: a name longer than 4 characters that
ends in `_e64` or `_e32` loses the suffix and forces the 64-bit or the 32-bit size; otherwise
a name longer than 6 characters that starts with `v_` and ends in `_dpp` loses the suffix and
selects DPP; otherwise a name longer than 7 characters that starts with `v_` and ends in
`_sdwa` loses the suffix and selects SDWA; every other name is kept, with no hint. -/
def suffixHandlingSpec (toLower : Char → Char) (name : List Char) : MnemonicHints :=
  if name.length > 4 ∧ endsWithNoCase name "_e64" then
    ⟨name.take (name.length - 4), GCNEncSize.BIT64, GCNVOPEnc.NORMAL⟩
  else if name.length > 4 ∧ endsWithNoCase name "_e32" then
    ⟨name.take (name.length - 4), GCNEncSize.BIT32, GCNVOPEnc.NORMAL⟩
  else if name.length > 6 ∧ startsWithV toLower name ∧ endsWithNoCase name "_dpp" then
    ⟨name.take (name.length - 4), GCNEncSize.UNKNOWN, GCNVOPEnc.DPP⟩
  else if name.length > 7 ∧ startsWithV toLower name ∧ endsWithNoCase name "_sdwa" then
    ⟨name.take (name.length - 5), GCNEncSize.UNKNOWN, GCNVOPEnc.SDWA⟩
  else ⟨name, GCNEncSize.UNKNOWN, GCNVOPEnc.NORMAL⟩

/-! ## GCNAssembler.cpp: the first word of the SMEM encoder -/

/-- First word of `parseSMEMEncoding`; `data` is `dataReg.bstart()`, which for a mnemonic
with an immediate data operand is the value that `parseImm(asmr, linePtr, dataReg.start,
&simm7Expr, 7)` stored, and `imm` is `soffsetReg.isVal(255) || haveOffset`. -/
def smemWord0 (code1 data sbase : Nat) (imm haveGlc haveNv haveOffset : Bool) : Nat :=
  (0xc0000000 ||| (code1 <<< 18) ||| (data <<< 6) ||| (sbase >>> 1) |||
    -- enable IMM if soffset is immediate or haveOffset with SGPR
    bit imm 0x20000 ||| bit haveGlc 0x10000 ||| bit haveNv 0x8000 |||
    bit haveOffset 0x4000) % 2 ^ 32

/-! ## GCNAssembler.cpp: the VOP1, VOPC and VOP3 encoders -/

/-- The value of `vop3` in `parseVOP2Encoding` when the routine reaches the test
`if (vop3 && needImm)`: the initial decision, raised on GCN 1.2 and later when an operand
carries a modifier other than `sext` and neither an SDWA nor a DPP word is in play. -/
def vop2FinalVOP3 (K : GCNAsmConsts) (H : VOPHelpers) (isGCN12 isGCN14 : Bool)
    (gcnInsn : GCNAsmInstruction) (p : VOP2Parsed) (gcnEncSize : GCNEncSize)
    (gcnVOPEnc : GCNVOPEnc) : Bool :=
  let extraMods0 : VOPExtraModifiers :=
    if isGCN12 then p.extraMods else ⟨0, 0, 0, 0, 0, 0, 0, false, false⟩
  let sextFlags : Bool :=
    decide ((p.src0Op.vopMods ||| p.src1Op.vopMods) &&& K.VOPOP_SEXT ≠ 0)
  let needSDWA : Bool := extraMods0.needSDWA || sextFlags
  let vop3 := vop2NeedsVOP3 K H isGCN12 isGCN14 gcnInsn p needSDWA gcnEncSize
  if isGCN12 && (needSDWA || extraMods0.needDPP || sextFlags ||
      decide (gcnVOPEnc ≠ GCNVOPEnc.NORMAL)) then vop3
  else if isGCN12 &&
      decide (cxbyteAndNot (p.src0Op.vopMods ||| p.src1Op.vopMods) K.VOPOP_SEXT ≠ 0) &&
      !sextFlags then true
  else vop3

/-- What the parsing part of `parseVOP1Encoding` hands to the encoding part: the conjunction
`good` of all parse results together with the comma check, the result of
`checkGarbagesAtEnd`, the destination, the source operand with the modifiers of `opMods`
already applied to `vopMods`, the value `haveSrc0` of `src0Op` as a condition, whether
`src0OpExpr` is non-null, and the modifiers filled by `parseVOPModifiers`. -/
structure VOP1Parsed where
  good : Bool
  noGarbage : Bool
  dstReg : RegRange
  src0Op : GCNOperand
  haveSrc0 : Bool
  src0Expr : Bool
  modifiers : Nat
  extraMods : VOPExtraModifiers
  opMods : VOPOpModifiers
  deriving DecidableEq, Repr

/-- The decision "check whether VOP3 encoding is needed" of `parseVOP1Encoding` (the initial
value of `vop3`). -/
def vop1NeedsVOP3 (K : GCNAsmConsts) (isGCN12 isGCN14 : Bool) (p : VOP1Parsed)
    (needSDWA : Bool) (gcnEncSize : GCNEncSize) : Bool :=
  ((!isGCN12 && decide (p.src0Op.vopMods ≠ 0)) ||
    decide (cxbyteAndNot p.modifiers (K.VOP3_BOUNDCTRL ||| bit needSDWA K.VOP3_CLAMP |||
      -- exclude OMOD if RXVEGA and SDWA used
      bit (isGCN14 && needSDWA) 3) ≠ 0)) ||
  decide (p.opMods.opselMod &&& 15 ≠ 0) || decide (gcnEncSize = GCNEncSize.BIT64)

/-- The value of `vop3` in `parseVOP1Encoding` when the routine reaches the test
`if (vop3 && src0Op.range.isVal(255))`. -/
def vop1FinalVOP3 (K : GCNAsmConsts) (isGCN12 isGCN14 : Bool) (p : VOP1Parsed)
    (gcnEncSize : GCNEncSize) (gcnVOPEnc : GCNVOPEnc) : Bool :=
  let extraMods0 : VOPExtraModifiers :=
    if isGCN12 then p.extraMods else ⟨0, 0, 0, 0, 0, 0, 0, false, false⟩
  let sextFlags : Bool := decide (p.src0Op.vopMods &&& K.VOPOP_SEXT ≠ 0)
  let needSDWA : Bool := extraMods0.needSDWA || sextFlags
  let vop3 := vop1NeedsVOP3 K isGCN12 isGCN14 p needSDWA gcnEncSize
  if isGCN12 && (needSDWA || extraMods0.needDPP || sextFlags ||
      decide (gcnVOPEnc ≠ GCNVOPEnc.NORMAL)) then vop3
  else if isGCN12 && decide (cxbyteAndNot p.src0Op.vopMods K.VOPOP_SEXT ≠ 0) &&
      !sextFlags then true
  else vop3

/-- The words of the VOP1 form of `parseVOP1Encoding` (`!vop3`): the VOP1 word, followed by
the SDWA word, the DPP word or the literal of SRC0, if any. -/
def vop1ShortWords (K : GCNAsmConsts) (H : VOPHelpers) (gcnInsn : GCNAsmInstruction)
    (p : VOP1Parsed) (extraMods : VOPExtraModifiers) : List Nat :=
  let src0out : Nat :=
    if extraMods.needSDWA then 0xf9 else if extraMods.needDPP then 0xfa
    else p.src0Op.range.bstart
  let word0 := vop1Word0 gcnInsn.code1 src0out p.dstReg.bstart
  if extraMods.needSDWA then
    -- SDWA encoding
    [word0,
      ((p.src0Op.range.bstart &&& 0xff) ||| (extraMods.dstSel <<< 8) |||
        (extraMods.dstUnused <<< 11) |||
        bit (decide (p.modifiers &&& K.VOP3_CLAMP ≠ 0)) 0x2000 |||
        (extraMods.src0Sel <<< 16) ||| (extraMods.src1Sel <<< 24) |||
        bit (decide (p.src0Op.vopMods &&& K.VOPOP_SEXT ≠ 0)) (1 <<< 19) |||
        bit (decide (p.src0Op.vopMods &&& K.VOPOP_NEG ≠ 0)) (1 <<< 20) |||
        bit (decide (p.src0Op.vopMods &&& K.VOPOP_ABS ≠ 0)) (1 <<< 21) |||
        bit (H.isNonVGPR p.src0Op.range) (1 <<< 23) |||
        ((p.modifiers &&& 3) <<< 14)) % 2 ^ 32]
  else if extraMods.needDPP then
    -- DPP encoding
    [word0,
      ((p.src0Op.range.bstart &&& 0xff) ||| (extraMods.dppCtrl <<< 8) |||
        bit (decide (p.modifiers &&& K.VOP3_BOUNDCTRL ≠ 0)) (1 <<< 19) |||
        bit (decide (p.src0Op.vopMods &&& K.VOPOP_NEG ≠ 0)) (1 <<< 20) |||
        bit (decide (p.src0Op.vopMods &&& K.VOPOP_ABS ≠ 0)) (1 <<< 21) |||
        (extraMods.bankMask <<< 24) ||| (extraMods.rowMask <<< 28)) % 2 ^ 32]
  else if p.src0Op.range.isVal 255 then [word0, p.src0Op.value % 2 ^ 32]
  else [word0]

/-- The two words of the VOP3 form of `parseVOP1Encoding` (`vop3`). -/
def vop1LongWords (K : GCNAsmConsts) (isGCN12 : Bool) (gcnInsn : GCNAsmInstruction)
    (p : VOP1Parsed) : List Nat :=
  let clamp : Bool := decide (p.modifiers &&& K.VOP3_CLAMP ≠ 0)
  let code : Nat :=
    if isGCN12 then (gcnInsn.code2 <<< 16) ||| bit clamp 0x8000
    else (gcnInsn.code2 <<< 17) ||| bit clamp 0x800
  [(0xd0000000 ||| code ||| (p.dstReg.bstart &&& 0xff) |||
      bit (decide (p.src0Op.vopMods &&& K.VOPOP_ABS ≠ 0)) 0x100 |||
      ((p.opMods.opselMod &&& 15) <<< 11)) % 2 ^ 32,
    (p.src0Op.range.bstart ||| ((p.modifiers &&& 3) <<< 27) |||
      bit (decide (p.src0Op.vopMods &&& K.VOPOP_NEG ≠ 0)) (1 <<< 29)) % 2 ^ 32]

/-- The encoding part of `GCNAsmUtils::parseVOP1Encoding`, from the test of `good` after the
modifiers have been parsed and applied to the operand. Before GCN 1.2 `parseVOPModifiers` is
called with a null pointer in place of `&extraMods`, so `extraMods` keeps its zero
initialisation. The rewriting of the register-usage records and the register accounting at
the end are not modelled. -/
def parseVOP1Encoding (K : GCNAsmConsts) (H : VOPHelpers) (isGCN12 isGCN14 : Bool)
    (gcnInsn : GCNAsmInstruction) (p : VOP1Parsed) (gcnEncSize : GCNEncSize)
    (gcnVOPEnc : GCNVOPEnc) (output : List Nat) : VOPResult :=
  if !p.good ∨ !p.noGarbage then ⟨false, output, [], []⟩
  else
    let extraMods0 : VOPExtraModifiers :=
      if isGCN12 then p.extraMods else ⟨0, 0, 0, 0, 0, 0, 0, false, false⟩
    let sextFlags : Bool := decide (p.src0Op.vopMods &&& K.VOPOP_SEXT ≠ 0)
    let extraMods1 : VOPExtraModifiers :=
      { extraMods0 with needSDWA := extraMods0.needSDWA || sextFlags }
    -- check whether VOP3 encoding is needed
    let vop3 := vop1NeedsVOP3 K isGCN12 isGCN14 p extraMods1.needSDWA gcnEncSize
    let needImm : Bool := p.haveSrc0 && p.src0Op.range.isVal 255
    let checked : Option (VOPExtraModifiers × Bool) :=
      if isGCN12 && (extraMods1.needSDWA || extraMods1.needDPP || sextFlags ||
          decide (gcnVOPEnc ≠ GCNVOPEnc.NORMAL)) then
        -- if VOP_SDWA or VOP_DPP is required
        (H.checkGCNVOPExtraModifers needImm sextFlags vop3 gcnVOPEnc p.src0Op extraMods1).map
          (fun e => (e, vop3))
      else if isGCN12 && decide (cxbyteAndNot p.src0Op.vopMods K.VOPOP_SEXT ≠ 0) &&
          !sextFlags then
        -- if all pass we check we promote VOP3 if only operand modifiers expect sext()
        some (extraMods1, true)
      else some (extraMods1, vop3)
    match checked with
    | none => ⟨false, output, [], []⟩
    | some (extraMods, vop3) =>
      if vop3 && p.src0Op.range.isVal 255 then
        ⟨false, output, [], ["Literal in VOP3 encoding is illegal"]⟩
      else if !H.checkGCNVOPEncoding gcnVOPEnc extraMods then ⟨false, output, [], []⟩
      else
        let targets : List (AsmExprTargetType × Nat) :=
          if p.src0Expr then [(GCNTGT_LITIMM, output.length)] else []
        -- put data (instruction word)
        let words : List Nat :=
          if !vop3 then vop1ShortWords K H gcnInsn p extraMods
          else vop1LongWords K isGCN12 gcnInsn p
        if !checkGCNEncodingSize gcnEncSize words.length then ⟨false, output, targets, []⟩
        else ⟨true, emitWords output words, targets, []⟩

/-- What the parsing part of `parseVOPCEncoding` hands to the encoding part: the conjunction
`good` of all parse results together with the comma checks, the result of
`checkGarbagesAtEnd`, the destination, the two source operands with the modifiers of
`opMods` already applied to `vopMods`, which of the expressions `src0OpExpr`, `src1OpExpr`
are non-null, and the modifiers filled by `parseVOPModifiers`. -/
structure VOPCParsed where
  good : Bool
  noGarbage : Bool
  dstReg : RegRange
  src0Op : GCNOperand
  src1Op : GCNOperand
  src0Expr : Bool
  src1Expr : Bool
  modifiers : Nat
  extraMods : VOPExtraModifiers
  opMods : VOPOpModifiers
  deriving DecidableEq, Repr

/-- The decision "determine whether SDWA is needed or VOP3 encoding needed" of
`parseVOPCEncoding` (the initial value of `vop3`). -/
def vopcNeedsVOP3 (K : GCNAsmConsts) (H : VOPHelpers) (isGCN12 isGCN14 : Bool)
    (p : VOPCParsed) (needSDWA : Bool) (gcnEncSize : GCNEncSize) : Bool :=
  ((!isGCN14 || !needSDWA) && !p.dstReg.isVal 106) ||
  ((!isGCN14 || !needSDWA) && H.isNonVGPR p.src1Op.range) ||
  (!isGCN12 && (decide (p.src0Op.vopMods ≠ 0) || decide (p.src1Op.vopMods ≠ 0))) ||
  decide (cxbyteAndNot p.modifiers (K.VOP3_BOUNDCTRL ||| bit needSDWA K.VOP3_CLAMP |||
      -- exclude OMOD if RXVEGA and SDWA used
      bit (isGCN14 && needSDWA) 3) ≠ 0) ||
  decide (p.opMods.opselMod &&& 15 ≠ 0) || decide (gcnEncSize = GCNEncSize.BIT64)

/-- The value of `vop3` in `parseVOPCEncoding` when the routine reaches the test
`if (vop3 && (src0Op.range.isVal(255) || src1Op.range.isVal(255)))`. -/
def vopcFinalVOP3 (K : GCNAsmConsts) (H : VOPHelpers) (isGCN12 isGCN14 : Bool)
    (p : VOPCParsed) (gcnEncSize : GCNEncSize) (gcnVOPEnc : GCNVOPEnc) : Bool :=
  let extraMods0 : VOPExtraModifiers :=
    if isGCN12 then p.extraMods else ⟨0, 0, 0, 0, 0, 0, 0, false, false⟩
  let sextFlags : Bool :=
    decide ((p.src0Op.vopMods ||| p.src1Op.vopMods) &&& K.VOPOP_SEXT ≠ 0)
  let needSDWA : Bool := extraMods0.needSDWA || sextFlags
  let vop3 := vopcNeedsVOP3 K H isGCN12 isGCN14 p needSDWA gcnEncSize
  if isGCN12 && (needSDWA || extraMods0.needDPP || sextFlags ||
      decide (gcnVOPEnc ≠ GCNVOPEnc.NORMAL)) then vop3
  else if isGCN12 &&
      decide (cxbyteAndNot (p.src0Op.vopMods ||| p.src1Op.vopMods) K.VOPOP_SEXT ≠ 0) &&
      !sextFlags then true
  else vop3

/-- The words of the VOPC form of `parseVOPCEncoding` (`!vop3`): the VOPC word, followed by
the SDWA word, the DPP word or the literal of SRC0 or SRC1, if any. -/
def vopcShortWords (K : GCNAsmConsts) (H : VOPHelpers) (isGCN14 : Bool)
    (gcnInsn : GCNAsmInstruction) (p : VOPCParsed) (extraMods : VOPExtraModifiers) :
    List Nat :=
  let src0out : Nat :=
    if extraMods.needSDWA then 0xf9 else if extraMods.needDPP then 0xfa
    else p.src0Op.range.bstart
  let word0 := vopcWord0 gcnInsn.code1 src0out p.src1Op.range.bstart
  if extraMods.needSDWA then
    -- SDWA encoding
    let dstMods : Nat :=
      if !isGCN14 then
        (extraMods.dstSel <<< 8) ||| (extraMods.dstUnused <<< 11) |||
          bit (decide (p.modifiers &&& K.VOP3_CLAMP ≠ 0)) 0x2000 |||
          ((p.modifiers &&& 3) <<< 14)
      else 0
    [word0,
      ((p.src0Op.range.bstart &&& 0xff) |||
        (if isGCN14 && !p.dstReg.isVal 106 then (p.dstReg.bstart ||| 0x80) <<< 8 else 0) |||
        (extraMods.src0Sel <<< 16) |||
        bit (decide (p.src0Op.vopMods &&& K.VOPOP_SEXT ≠ 0)) (1 <<< 19) |||
        bit (decide (p.src0Op.vopMods &&& K.VOPOP_NEG ≠ 0)) (1 <<< 20) |||
        bit (decide (p.src0Op.vopMods &&& K.VOPOP_ABS ≠ 0)) (1 <<< 21) |||
        (extraMods.src1Sel <<< 24) |||
        bit (decide (p.src1Op.vopMods &&& K.VOPOP_SEXT ≠ 0)) (1 <<< 27) |||
        bit (decide (p.src1Op.vopMods &&& K.VOPOP_NEG ≠ 0)) (1 <<< 28) |||
        bit (decide (p.src1Op.vopMods &&& K.VOPOP_ABS ≠ 0)) (1 <<< 29) |||
        bit (H.isNonVGPR p.src0Op.range) (1 <<< 23) |||
        bit (H.isNonVGPR p.src1Op.range) (1 <<< 31) ||| dstMods) % 2 ^ 32]
  else if extraMods.needDPP then
    -- DPP encoding
    [word0,
      ((p.src0Op.range.bstart &&& 0xff) ||| (extraMods.dppCtrl <<< 8) |||
        bit (decide (p.modifiers &&& K.VOP3_BOUNDCTRL ≠ 0)) (1 <<< 19) |||
        bit (decide (p.src0Op.vopMods &&& K.VOPOP_NEG ≠ 0)) (1 <<< 20) |||
        bit (decide (p.src0Op.vopMods &&& K.VOPOP_ABS ≠ 0)) (1 <<< 21) |||
        bit (decide (p.src1Op.vopMods &&& K.VOPOP_NEG ≠ 0)) (1 <<< 22) |||
        bit (decide (p.src1Op.vopMods &&& K.VOPOP_ABS ≠ 0)) (1 <<< 23) |||
        (extraMods.bankMask <<< 24) ||| (extraMods.rowMask <<< 28)) % 2 ^ 32]
  else if p.src0Op.range.isVal 255 then [word0, p.src0Op.value % 2 ^ 32]
  else if p.src1Op.range.isVal 255 then [word0, p.src1Op.value % 2 ^ 32]
  else [word0]

/-- The two words of the VOP3 form of `parseVOPCEncoding` (`vop3`). -/
def vopcLongWords (K : GCNAsmConsts) (isGCN12 : Bool) (gcnInsn : GCNAsmInstruction)
    (p : VOPCParsed) : List Nat :=
  let clamp : Bool := decide (p.modifiers &&& K.VOP3_CLAMP ≠ 0)
  let code : Nat :=
    if isGCN12 then (gcnInsn.code2 <<< 16) ||| bit clamp 0x8000
    else (gcnInsn.code2 <<< 17) ||| bit clamp 0x800
  [(0xd0000000 ||| code ||| (p.dstReg.bstart &&& 0xff) |||
      bit (decide (p.src0Op.vopMods &&& K.VOPOP_ABS ≠ 0)) 0x100 |||
      bit (decide (p.src1Op.vopMods &&& K.VOPOP_ABS ≠ 0)) 0x200 |||
      ((p.opMods.opselMod &&& 15) <<< 11)) % 2 ^ 32,
    (p.src0Op.range.bstart ||| (p.src1Op.range.bstart <<< 9) |||
      ((p.modifiers &&& 3) <<< 27) |||
      bit (decide (p.src0Op.vopMods &&& K.VOPOP_NEG ≠ 0)) (1 <<< 29) |||
      bit (decide (p.src1Op.vopMods &&& K.VOPOP_NEG ≠ 0)) (1 <<< 30)) % 2 ^ 32]

/-- The encoding part of `GCNAsmUtils::parseVOPCEncoding`, from the test of `good` after the
modifiers have been parsed and applied to the operands. Before GCN 1.2 `parseVOPModifiers`
is called with a null pointer in place of `&extraMods`, so `extraMods` keeps its zero
initialisation. The rewriting of the register-usage records and the register accounting at
the end are not modelled. -/
def parseVOPCEncoding (K : GCNAsmConsts) (H : VOPHelpers) (isGCN12 isGCN14 : Bool)
    (gcnInsn : GCNAsmInstruction) (p : VOPCParsed) (gcnEncSize : GCNEncSize)
    (gcnVOPEnc : GCNVOPEnc) (output : List Nat) : VOPResult :=
  if !p.good ∨ !p.noGarbage then ⟨false, output, [], []⟩
  else
    let extraMods0 : VOPExtraModifiers :=
      if isGCN12 then p.extraMods else ⟨0, 0, 0, 0, 0, 0, 0, false, false⟩
    let sextFlags : Bool :=
      decide ((p.src0Op.vopMods ||| p.src1Op.vopMods) &&& K.VOPOP_SEXT ≠ 0)
    -- determine whether SDWA is needed or VOP3 encoding needed
    let extraMods1 : VOPExtraModifiers :=
      { extraMods0 with needSDWA := extraMods0.needSDWA || sextFlags }
    let vop3 := vopcNeedsVOP3 K H isGCN12 isGCN14 p extraMods1.needSDWA gcnEncSize
    if (p.src0Op.range.isVal 255 || p.src1Op.range.isVal 255) &&
        (H.isSGPR p.src0Op.range || p.src0Op.range.isVal 124 ||
          H.isSGPR p.src1Op.range || p.src1Op.range.isVal 124) then
      ⟨false, output, [], ["Literal with SGPR or M0 is illegal"]⟩
    else if H.isSGPR p.src0Op.range && H.isSGPR p.src1Op.range &&
        !regRangeCanEqual H p.src0Op.range p.src1Op.range then
      -- include VCCs (???)
      ⟨false, output, [], ["More than one SGPR to read in instruction"]⟩
    else
      let needImm : Bool := decide (p.src0Op.range.start = 255 ∨ p.src1Op.range.start = 255)
      let checked : Option (VOPExtraModifiers × Bool) :=
        if isGCN12 && (extraMods1.needSDWA || extraMods1.needDPP || sextFlags ||
            decide (gcnVOPEnc ≠ GCNVOPEnc.NORMAL)) then
          -- if VOP_SDWA or VOP_DPP is required
          (H.checkGCNVOPExtraModifers needImm sextFlags vop3 gcnVOPEnc p.src0Op extraMods1).map
            (fun e => (e, vop3))
        else if isGCN12 &&
            decide (cxbyteAndNot (p.src0Op.vopMods ||| p.src1Op.vopMods) K.VOPOP_SEXT ≠ 0) &&
            !sextFlags then
          -- if all pass we check we promote VOP3 if only operand modifiers expect sext()
          some (extraMods1, true)
        else some (extraMods1, vop3)
      match checked with
      | none => ⟨false, output, [], []⟩
      | some (extraMods, vop3) =>
        if vop3 && (p.src0Op.range.isVal 255 || p.src1Op.range.isVal 255) then
          ⟨false, output, [], ["Literal in VOP3 encoding is illegal"]⟩
        else if !H.checkGCNVOPEncoding gcnVOPEnc extraMods then ⟨false, output, [], []⟩
        else if isGCN14 && extraMods.needSDWA &&
            (decide (p.modifiers &&& K.VOP3_CLAMP ≠ 0) || decide (p.modifiers &&& 3 ≠ 0)) then
          ⟨false, output, [], ["Modifiers CLAMP and OMOD is illegal in SDWAB"]⟩
        else
          let targets : List (AsmExprTargetType × Nat) :=
            (if p.src0Expr then [(GCNTGT_LITIMM, output.length)] else []) ++
              (if p.src1Expr then [(GCNTGT_LITIMM, output.length)] else [])
          -- put data (instruction words)
          let words : List Nat :=
            if !vop3 then vopcShortWords K H isGCN14 gcnInsn p extraMods
            else vopcLongWords K isGCN12 gcnInsn p
          if !checkGCNEncodingSize gcnEncSize words.length then ⟨false, output, targets, []⟩
          else ⟨true, emitWords output words, targets, []⟩

/-- What the parsing part of `parseVOP3Encoding` hands to the encoding part: the conjunction
`good` of all parse results together with the comma checks, the result of
`checkGarbagesAtEnd`, the two destinations (`RegRange(0, 0)` when absent), the three source
operands with the modifiers of `opMods` already applied to `vopMods`, the values `haveSrc1`
and `haveSrc2` of `src1Op` and `src2Op` as conditions (`GCNOperand::operator bool`, from a
header that is not among the verified sources), and the modifiers. -/
structure VOP3Parsed where
  good : Bool
  noGarbage : Bool
  dstReg : RegRange
  sdstReg : RegRange
  src0Op : GCNOperand
  src1Op : GCNOperand
  src2Op : GCNOperand
  haveSrc1 : Bool
  haveSrc2 : Bool
  modifiers : Nat
  opMods : VOPOpModifiers
  deriving DecidableEq, Repr

/-- The count `numSgprToRead` of `parseVOP3Encoding`, "count SGPR operands readed by
instruction". -/
def vop3NumSgprToRead (H : VOPHelpers) (p : VOP3Parsed) : Nat :=
  let n0 : Nat := if H.isSGPR p.src0Op.range then 1 else 0
  let n1 : Nat :=
    if p.haveSrc1 && H.isSGPR p.src1Op.range &&
        !regRangeCanEqual H p.src0Op.range p.src1Op.range then 1
    else 0
  let n2 : Nat :=
    if p.haveSrc2 && H.isSGPR p.src2Op.range then
      let equalS0S2 := regRangeCanEqual H p.src0Op.range p.src2Op.range
      let equalS1S2 := regRangeCanEqual H p.src1Op.range p.src2Op.range
      if (!equalS0S2 && !equalS1S2) ||
          (!p.src2Op.range.isRegVar &&
            ((!equalS0S2 && equalS1S2 && p.src1Op.range.isRegVar) ||
              (equalS0S2 && !equalS1S2 && p.src0Op.range.isRegVar))) ||
          (p.src2Op.range.isRegVar &&
            ((!equalS0S2 && equalS1S2 && !p.src1Op.range.isRegVar) ||
              (equalS0S2 && !equalS1S2 && !p.src0Op.range.isRegVar))) then 1
      else 0
    else 0
  n0 + n1 + n2

/-- The routine `GCNAsmUtils::parseVOP3Encoding`: the test of the forced VOP encoding at its
start and, after the operands and modifiers have been parsed, its encoding part from the test
of `good` on. The register accounting at the end is not modelled. -/
def parseVOP3Encoding (K : GCNAsmConsts) (H : VOPHelpers) (isGCN12 : Bool)
    (gcnInsn : GCNAsmInstruction) (p : VOP3Parsed) (gcnEncSize : GCNEncSize)
    (gcnVOPEnc : GCNVOPEnc) (output : List Nat) : VOPResult :=
  if gcnVOPEnc ≠ GCNVOPEnc.NORMAL then
    ⟨false, output, [], ["DPP and SDWA encoding is illegal for VOP3"]⟩
  else if !p.good ∨ !p.noGarbage then ⟨false, output, [], []⟩
  else if gcnInsn.mode &&& K.GCN_MASK2 ≠ K.GCN_VOP3_VINTRP ∧ vop3NumSgprToRead H p ≥ 2 then
    ⟨false, output, [], ["More than one SGPR to read in instruction"]⟩
  else
    -- put data (instruction words)
    let words := parseVOP3Words K isGCN12 gcnInsn p.dstReg p.sdstReg p.src0Op p.src1Op
      p.src2Op p.modifiers p.opMods
    if !checkGCNEncodingSize gcnEncSize words.length then ⟨false, output, [], []⟩
    else ⟨true, emitWords output words, [], []⟩

/-! ## GCNAssembler.cpp: register-usage records of the memory encoders -/

/-- The values of the enumeration `AsmRegField` that GCNAssembler.cpp names: `ASMFIELD_NONE`
and the tags `GCNFIELD_*`, in the order of the labels of `getRegPair`, followed by
`GCNFIELD_FLAT_SADDR`; `other` stands for every other value of the type. -/
inductive AsmRegField
  | ASMFIELD_NONE
  | GCNFIELD_SSRC0 | GCNFIELD_SSRC1 | GCNFIELD_SDST
  | GCNFIELD_SMRD_SBASE | GCNFIELD_SMRD_SDST | GCNFIELD_SMRD_SDSTH | GCNFIELD_SMRD_SOFFSET
  | GCNFIELD_VOP_SRC0 | GCNFIELD_VOP_VSRC1 | GCNFIELD_VOP_SSRC1 | GCNFIELD_VOP_VDST
  | GCNFIELD_VOP_SDST
  | GCNFIELD_VOP3_SRC0 | GCNFIELD_VOP3_SRC1 | GCNFIELD_VOP3_SRC2 | GCNFIELD_VOP3_VDST
  | GCNFIELD_VINTRP_VSRC0 | GCNFIELD_VOP3_SDST0 | GCNFIELD_VOP3_SSRC | GCNFIELD_VOP3_SDST1
  | GCNFIELD_VINTRP_VDST
  | GCNFIELD_DPPSDWA_SRC0 | GCNFIELD_FLAT_ADDR | GCNFIELD_DS_ADDR | GCNFIELD_EXP_VSRC0
  | GCNFIELD_M_VADDR
  | GCNFIELD_FLAT_DATA | GCNFIELD_DS_DATA0 | GCNFIELD_EXP_VSRC1 | GCNFIELD_M_VDATA
  | GCNFIELD_M_VDATAH | GCNFIELD_M_VDATALAST
  | GCNFIELD_DS_DATA1 | GCNFIELD_EXP_VSRC2
  | GCNFIELD_DS_VDST | GCNFIELD_FLAT_VDST | GCNFIELD_EXP_VSRC3 | GCNFIELD_FLAT_VDSTLAST
  | GCNFIELD_M_SRSRC | GCNFIELD_MIMG_SSAMP | GCNFIELD_M_SOFFSET | GCNFIELD_DPPSDWA_SSRC0
  | GCNFIELD_FLAT_SADDR
  | other
  deriving DecidableEq, Repr

open AsmRegField

/-- Modelled from the spec: the record `AsmRegVarUsage`, "(field tag, register range,
read/write flags, alignment requirement)" with "the register-variable-reference preserved for
symbolic registers", whose declaration lives in a header that is not among the verified
sources. `regVar` tells whether the register-variable reference is present; `rstart` and
`rend` are 16-bit, `rwFlags` and `align` are bytes. -/
structure AsmRegVarUsage where
  regVar : Bool
  rstart : Nat
  rend : Nat
  regField : AsmRegField
  rwFlags : Nat
  align : Nat
  deriving DecidableEq, Repr

/-- The constants of the usage records and the mode bits of the memory descriptors that the
encoders test. Their values are declared in headers that are not among the verified sources,
so they are a parameter. -/
structure RVUConsts where
  ASMRVU_READ : Nat
  ASMRVU_WRITE : Nat
  ASMRVU_REGSIZE_SHIFT : Nat
  GCN_MLOAD : Nat
  GCN_MATOMIC : Nat
  GCN_MHALFWRITE : Nat
  deriving DecidableEq, Repr

/-- Modelled from the spec: stand-in values for the constants of `RVUConsts`: the read and
write bits of a record are two single bits below the register-size field, and the three mode
bits are distinct single bits. -/
def sampleRVUConsts : RVUConsts :=
  { ASMRVU_READ := 1, ASMRVU_WRITE := 2, ASMRVU_REGSIZE_SHIFT := 3,
    GCN_MLOAD := 0x1000, GCN_MATOMIC := 0x2000, GCN_MHALFWRITE := 0x4000 }

/-- The difference `a - b` of two `uint16_t` values, stored in a `uint16_t`. -/
def sub16 (a b : Nat) : Nat := (a % 2 ^ 16 + 2 ^ 16 - b % 2 ^ 16) % 2 ^ 16

/-- The sum `a + b` of two `uint16_t` values, stored in a `uint16_t`. -/
def add16 (a b : Nat) : Nat := (a + b) % 2 ^ 16

/-- The assignment `instrRVUs[i] = rvu`; the array `instrRVUs` of the assembler is a function
from indices to records. -/
def setRVU (instrRVUs : Nat → AsmRegVarUsage) (i : Nat) (rvu : AsmRegVarUsage) :
    Nat → AsmRegVarUsage :=
  Function.update instrRVUs i rvu

/-- The block "check fcmpswap ... fix access" of `parseMUBUFEncoding` and
`parseMIMGEncoding`: record 0 keeps the first half of its range and record 4 becomes a
read-only record with the tag `GCNFIELD_M_VDATAH` for the second half. -/
def splitHalfWrite (C : RVUConsts) (instrRVUs : Nat → AsmRegVarUsage) :
    Nat → AsmRegVarUsage :=
  -- fix access
  let rvu0 := instrRVUs 0
  let size := sub16 rvu0.rend rvu0.rstart
  let rvu : AsmRegVarUsage := { rvu0 with rend := add16 rvu0.rstart (size >>> 1) }
  let nextRvu : AsmRegVarUsage :=
    { rvu with
      regField := GCNFIELD_M_VDATAH,
      rstart := add16 rvu.rstart (size >>> 1),
      rend := add16 rvu.rstart size,
      rwFlags := C.ASMRVU_READ % 256 }
  setRVU (setRVU instrRVUs 0 rvu) 4 nextRvu

/-- The block "fix for tfe" of `parseMUBUFEncoding` and `parseMIMGEncoding`: record 5 becomes
a read and write record with the tag `GCNFIELD_M_VDATALAST`, and the record `rvuId` of VDATA
loses its last register. -/
def fixForTfe (C : RVUConsts) (rvuId : Nat) (instrRVUs : Nat → AsmRegVarUsage) :
    Nat → AsmRegVarUsage :=
  let rvu := instrRVUs rvuId
  let lastRvu0 : AsmRegVarUsage :=
    { rvu with
      rstart := sub16 rvu.rend 1,
      rwFlags := (C.ASMRVU_READ ||| C.ASMRVU_WRITE) % 256,
      regField := GCNFIELD_M_VDATALAST }
  let r5 := setRVU instrRVUs 5 lastRvu0
  let lastRvu : AsmRegVarUsage :=
    if !lastRvu0.regVar then
      -- fix for regusage: to save register size for VDATALAST
      { lastRvu0 with rstart := (r5 0).rstart, rend := sub16 lastRvu0.rend 1 }
    else lastRvu0
  let r5b := setRVU r5 5 lastRvu
  setRVU r5b rvuId { r5b rvuId with rend := sub16 (r5b rvuId).rend 1 }

/-- What the parsing part of `parseMUBUFEncoding` hands to the rest of the routine: the
conjunction `good` of all parse results together with the comma checks and the checks of the
VDATA and VADDR register numbers, the result of `checkGarbagesAtEnd`, the four operands, the
value `haveVdata` of `vdataReg` as a condition, the offset with whether `offsetExpr` is
non-null, and the modifiers. -/
structure MUBUFParsed where
  good : Bool
  noGarbage : Bool
  vaddrReg : RegRange
  vdataReg : RegRange
  srsrcReg : RegRange
  soffsetOp : GCNOperand
  haveVdata : Bool
  offset : Nat
  offsetExpr : Bool
  haveOffen : Bool
  haveIdxen : Bool
  haveGlc : Bool
  haveAddr64 : Bool
  haveLds : Bool
  haveSlc : Bool
  haveTfe : Bool
  dfmt : Nat
  nfmt : Nat
  deriving DecidableEq, Repr

/-- Effects of a memory encoder routine: the returned flag, the output vector, the array
`instrRVUs` of the assembler after the call, the relocations attached by `setTarget` and the
error texts. -/
structure MemResult where
  ret : Bool
  output : List Nat
  instrRVUs : Nat → AsmRegVarUsage
  exprTargets : List (AsmExprTargetType × Nat)
  errors : List String

/-- The records after the blocks "fix access for VDATA field", "check fcmpswap" and "do not
read vaddr if no offen and idxen and no addr64" of `parseMUBUFEncoding`, which run before the
test of `good`, together with the flag `vdataDivided`. -/
def mubufUsagesBeforeCheck (C : RVUConsts) (gcnInsn : GCNAsmInstruction) (p : MUBUFParsed)
    (instrRVUs : Nat → AsmRegVarUsage) : (Nat → AsmRegVarUsage) × Bool :=
  let vdataToWrite : Bool := p.haveVdata &&
    (decide (gcnInsn.mode &&& C.GCN_MLOAD ≠ 0) ||
      (decide (gcnInsn.mode &&& C.GCN_MATOMIC ≠ 0) && p.haveGlc))
  let vdataToRead : Bool := p.haveVdata &&
    (decide (gcnInsn.mode &&& C.GCN_MLOAD = 0) || decide (gcnInsn.mode &&& C.GCN_MATOMIC ≠ 0))
  -- fix access for VDATA field
  let r1 := setRVU instrRVUs 0
    { instrRVUs 0 with
      rwFlags := (bit vdataToWrite C.ASMRVU_WRITE ||| bit vdataToRead C.ASMRVU_READ) % 256 }
  -- check fcmpswap
  let vdataDivided : Bool :=
    decide (gcnInsn.mode &&& C.GCN_MHALFWRITE ≠ 0) && vdataToWrite && !p.haveLds &&
      decide ((r1 0).regField ≠ ASMFIELD_NONE)
  let r2 := if vdataDivided then splitHalfWrite C r1 else r1
  -- do not read vaddr if no offen and idxen and no addr64
  let r3 :=
    if !p.haveAddr64 && !p.haveOffen && !p.haveIdxen then
      setRVU r2 1 { r2 1 with regField := ASMFIELD_NONE }
    else r2
  (r3, vdataDivided)

/-- The routine `GCNAsmUtils::parseMUBUFEncoding`, which also encodes MTBUF descriptors: the
test of the forced size at its start and, after the operands and modifiers have been parsed
into `p` and into the records `instrRVUs`, the rest of the routine from "checking addr range
and vdata range" on. `isGCN12` stands for `(arch & ARCH_GCN_1_2_4) != 0`. The register
accounting at the end is not modelled. -/
def parseMUBUFEncoding (C : RVUConsts) (isGCN12 : Bool) (gcnInsn : GCNAsmInstruction)
    (p : MUBUFParsed) (gcnEncSize : GCNEncSize) (output : List Nat)
    (instrRVUs : Nat → AsmRegVarUsage) : MemResult :=
  if gcnEncSize = GCNEncSize.BIT32 then
    ⟨false, output, instrRVUs, [], ["Only 64-bit size for MUBUF/MTBUF encoding"]⟩
  else
    let r3 := (mubufUsagesBeforeCheck C gcnInsn p instrRVUs).1
    let vdataDivided := (mubufUsagesBeforeCheck C gcnInsn p instrRVUs).2
    if !p.good ∨ !p.noGarbage then ⟨false, output, r3, [], []⟩
    -- checking modifiers conditions
    else if p.haveAddr64 && (p.haveOffen || p.haveIdxen) then
      ⟨false, output, r3, [], ["Idxen and offen must be zero in 64-bit address mode"]⟩
    else if p.haveTfe && p.haveLds then
      ⟨false, output, r3, [], ["Both LDS and TFE is illegal"]⟩
    else
      -- ignore vdata if LDS
      let r4 := if p.haveLds then setRVU r3 0 { r3 0 with regField := ASMFIELD_NONE } else r3
      let r5 :=
        if p.haveTfe &&
            (vdataDivided ||
              decide ((r4 0).rwFlags ≠ (C.ASMRVU_READ ||| C.ASMRVU_WRITE))) &&
            decide ((r4 0).regField ≠ ASMFIELD_NONE) then
          -- fix for tfe
          fixForTfe C (if vdataDivided then 4 else 0) r4
        else r4
      -- put data (instruction words)
      ⟨true,
        emitWords output (parseMUBUFWords isGCN12 gcnInsn p.offset p.haveOffen p.haveIdxen
          p.haveGlc p.haveAddr64 p.haveLds p.haveSlc p.haveTfe p.dfmt p.nfmt p.vaddrReg
          p.vdataReg p.srsrcReg p.soffsetOp),
        r5, if p.offsetExpr then [(GCNTGT_MXBUFOFFSET, output.length)] else [], []⟩

/-- What the parsing part of `parseMIMGEncoding` hands to the rest of the routine: the
conjunction `good` of all parse results together with the comma checks and the checks of the
register numbers, the result of `checkGarbagesAtEnd`, the four operands, `dmask` and the
modifiers. -/
structure MIMGParsed where
  good : Bool
  noGarbage : Bool
  vaddrReg : RegRange
  vdataReg : RegRange
  srsrcReg : RegRange
  ssampReg : RegRange
  dmask : Nat
  haveUnorm : Bool
  haveGlc : Bool
  haveDa : Bool
  haveR128 : Bool
  haveA16 : Bool
  haveTfe : Bool
  haveLwe : Bool
  haveSlc : Bool
  haveD16 : Bool
  deriving DecidableEq, Repr

/-- The records after the blocks "fix access for VDATA field", "fix alignment" and "check
fcmpswap" of `parseMIMGEncoding`, together with the flag `vdataDivided`. -/
def mimgUsagesBeforeTfe (C : RVUConsts) (gcnInsn : GCNAsmInstruction) (p : MIMGParsed)
    (instrRVUs : Nat → AsmRegVarUsage) : (Nat → AsmRegVarUsage) × Bool :=
  let vdataToWrite : Bool :=
    decide (gcnInsn.mode &&& C.GCN_MLOAD ≠ 0) ||
      (decide (gcnInsn.mode &&& C.GCN_MATOMIC ≠ 0) && p.haveGlc)
  let vdataToRead : Bool :=
    decide (gcnInsn.mode &&& C.GCN_MLOAD = 0) || decide (gcnInsn.mode &&& C.GCN_MATOMIC ≠ 0)
  -- fix access for VDATA field
  let r1 := setRVU instrRVUs 0
    { instrRVUs 0 with
      rwFlags := (bit vdataToWrite C.ASMRVU_WRITE ||| bit vdataToRead C.ASMRVU_READ) % 256 }
  -- fix alignment
  let r1a := if (r1 2).regVar then setRVU r1 2 { r1 2 with align := 4 } else r1
  -- check fcmpswap
  let vdataDivided : Bool :=
    decide (gcnInsn.mode &&& C.GCN_MHALFWRITE ≠ 0) && vdataToWrite &&
      decide ((r1a 0).regField ≠ ASMFIELD_NONE)
  (if vdataDivided then splitHalfWrite C r1a else r1a, vdataDivided)

/-- The records after the blocks "fix access for VDATA field", "fix alignment", "check
fcmpswap" and "fix for tfe" of `parseMIMGEncoding`, which run before the test of `good`. -/
def mimgUsages (C : RVUConsts) (gcnInsn : GCNAsmInstruction) (p : MIMGParsed)
    (instrRVUs : Nat → AsmRegVarUsage) : Nat → AsmRegVarUsage :=
  let r2 := (mimgUsagesBeforeTfe C gcnInsn p instrRVUs).1
  let vdataDivided := (mimgUsagesBeforeTfe C gcnInsn p instrRVUs).2
  if p.haveTfe &&
      (vdataDivided || decide ((r2 0).rwFlags ≠ (C.ASMRVU_READ ||| C.ASMRVU_WRITE))) &&
      decide ((r2 0).regField ≠ ASMFIELD_NONE) then
    -- fix for tfe
    fixForTfe C (if vdataDivided then 4 else 0) r2
  else r2

/-- The routine `GCNAsmUtils::parseMIMGEncoding`: the test of the forced size at its start
and, after the operands and modifiers have been parsed into `p` and into the records
`instrRVUs`, the rest of the routine from the fix of the access for VDATA on. The register
accounting at the end is not modelled. -/
def parseMIMGEncoding (C : RVUConsts) (gcnInsn : GCNAsmInstruction) (p : MIMGParsed)
    (gcnEncSize : GCNEncSize) (output : List Nat) (instrRVUs : Nat → AsmRegVarUsage) :
    MemResult :=
  if gcnEncSize = GCNEncSize.BIT32 then
    ⟨false, output, instrRVUs, [], ["Only 64-bit size for MIMG encoding"]⟩
  else
    let r := mimgUsages C gcnInsn p instrRVUs
    if !p.good ∨ !p.noGarbage then ⟨false, output, r, [], []⟩
    -- checking modifiers conditions
    else if !p.haveUnorm &&
        (decide (gcnInsn.mode &&& C.GCN_MLOAD = 0) ||
          decide (gcnInsn.mode &&& C.GCN_MATOMIC ≠ 0)) then
      -- unorm is not set for this instruction
      ⟨false, output, r, [], ["Unorm is not set for store or atomic instruction"]⟩
    else
      -- put instruction words
      ⟨true,
        emitWords output
          [mimgWord0 gcnInsn.code1 p.dmask p.haveUnorm p.haveGlc p.haveDa p.haveR128 p.haveA16
            p.haveTfe p.haveLwe p.haveSlc,
            ((p.vaddrReg.bstart &&& 0xff) ||| ((p.vdataReg.bstart &&& 0xff) <<< 8) |||
              ((p.srsrcReg.bstart >>> 2) <<< 16) ||| ((p.ssampReg.bstart >>> 2) <<< 21) |||
              bit p.haveD16 (1 <<< 31)) % 2 ^ 32],
        r, [], []⟩

/-- The part "check register ranges" of `parseFLATEncoding` as far as it writes the records
`instrRVUs`: the block "fix for tfe", which uses record 3 and the tag
`GCNFIELD_FLAT_VDSTLAST`, and the removal of the VDST record of an instruction that does not
write its destination. `haveVdst` is the value of `vdstReg` as a condition; the routine has
no block that divides a record. -/
def flatUsages (C : RVUConsts) (gcnInsn : GCNAsmInstruction) (haveVdst haveGlc haveTfe : Bool)
    (instrRVUs : Nat → AsmRegVarUsage) : Nat → AsmRegVarUsage :=
  let dstToWrite : Bool :=
    haveVdst && (decide (gcnInsn.mode &&& C.GCN_MATOMIC = 0) || haveGlc)
  if haveVdst then
    let r1 :=
      if haveTfe && haveVdst && decide ((instrRVUs 0).regField ≠ ASMFIELD_NONE) then
        -- fix for tfe
        let rvu := instrRVUs 0
        let lastRvu0 : AsmRegVarUsage :=
          { rvu with
            rstart := sub16 rvu.rend 1,
            rwFlags := (C.ASMRVU_READ ||| C.ASMRVU_WRITE) % 256,
            regField := GCNFIELD_FLAT_VDSTLAST }
        let lastRvu : AsmRegVarUsage :=
          if !lastRvu0.regVar then
            -- to save register size for VDSTLAST
            { lastRvu0 with rstart := rvu.rstart, rend := sub16 lastRvu0.rend 1 }
          else lastRvu0
        setRVU (setRVU instrRVUs 3 lastRvu) 0 { rvu with rend := sub16 rvu.rend 1 }
      else instrRVUs
    if !dstToWrite then setRVU r1 0 { r1 0 with regField := ASMFIELD_NONE } else r1
  else instrRVUs

/-- The loop `for (uint16_t v = 1; v < regSize; v<<=1, out++);` of `getRwFlags`, started at
`v` with the byte counter `out`: the value of `out` when the loop ends. `v` is a `uint16_t`;
once it has been shifted out to 0 the loop never ends, which is the result `none` when the
fuel is used up (17 steps reach that state from `v = 1`). -/
def rwFlagsSizeLoop (regSize : Nat) : Nat → Nat → Nat → Option Nat
  | 0, _, _ => none
  | fuel + 1, v, out =>
    if v < regSize then rwFlagsSizeLoop regSize fuel ((v <<< 1) % 2 ^ 16) ((out + 1) % 256)
    else some out

/-- The function `GCNUsageHandler::getRwFlags(regField, rstart, rend)`; the result is a
byte, and `none` when the loop of the label `GCNFIELD_SMRD_SDST` does not end. -/
def getRwFlags (C : RVUConsts) (regField : AsmRegField) (rstart rend : Nat) : Option Nat :=
  let regSize := sub16 (sub16 rend rstart) 1
  match regField with
  | GCNFIELD_SMRD_SBASE => some (((regSize >>> 1) <<< C.ASMRVU_REGSIZE_SHIFT) % 256)
  | GCNFIELD_SMRD_SDST =>
    (rwFlagsSizeLoop (add16 regSize 1) 17 1 0).map
      (fun out => (out <<< C.ASMRVU_REGSIZE_SHIFT) % 256)
  | GCNFIELD_M_SRSRC | GCNFIELD_MIMG_SSAMP =>
    some (((regSize >>> 2) <<< C.ASMRVU_REGSIZE_SHIFT) % 256) -- 4
  | _ => some ((regSize <<< C.ASMRVU_REGSIZE_SHIFT) % 256)

/-- The function `GCNUsageHandler::getRegPair(regField, rwFlags)`. `code1` and `code2` are
the two 32-bit words that the function reads from the content at the read offset (0 for a
word that lies beyond the content), `isGCN12` stands for `(archMask & ARCH_GCN_1_2_4) != 0`.
The local `regSize` is a byte, `rstart` and the members of the pair are 16-bit. The result
`none` is the exception `Unknown GCNField` of the `default` label. -/
def getRegPair (C : RVUConsts) (isGCN12 : Bool) (code1 code2 : Nat) (regField : AsmRegField)
    (rwFlags : Nat) : Option (Nat × Nat) :=
  let regSize := (((rwFlags >>> C.ASMRVU_REGSIZE_SHIFT) &&& 15) + 1) % 256
  match regField with
  | GCNFIELD_SSRC0 =>
    let rstart := code1 &&& 0xff
    some (rstart, add16 rstart regSize)
  | GCNFIELD_SSRC1 =>
    let rstart := (code1 >>> 8) &&& 0xff
    some (rstart, add16 rstart regSize)
  | GCNFIELD_SDST =>
    let rstart := (code1 >>> 16) &&& 0x7f
    some (rstart, add16 rstart regSize)
  | GCNFIELD_SMRD_SBASE =>
    let rstart := if isGCN12 then (code1 <<< 1) &&& 0x7f else (code1 >>> 8) &&& 0x7e
    -- 2 or 4
    some (rstart, add16 rstart ((regSize <<< 1) % 256))
  | GCNFIELD_SMRD_SDST =>
    let rstart := if isGCN12 then (code1 >>> 6) &&& 0x7f else (code1 >>> 15) &&& 0x7f
    some (rstart, add16 rstart ((1 <<< (regSize - 1)) % 256))
  | GCNFIELD_SMRD_SDSTH =>
    let rstart := if isGCN12 then (code1 >>> 6) &&& 0x7f else (code1 >>> 15) &&& 0x7f
    let regSize1 := (1 <<< (regSize - 1)) % 256
    some (add16 rstart regSize1, add16 (add16 rstart regSize1) regSize1)
  | GCNFIELD_SMRD_SOFFSET =>
    let rstart := if isGCN12 then code2 &&& 0x7f else code1 &&& 0x7f
    some (rstart, add16 rstart regSize)
  | GCNFIELD_VOP_SRC0 =>
    let rstart := code1 &&& 0x1ff
    some (rstart, add16 rstart regSize)
  | GCNFIELD_VOP_VSRC1 =>
    let rstart := (((code1 >>> 9) &&& 0xff) + 256) % 2 ^ 16
    some (rstart, add16 rstart regSize)
  | GCNFIELD_VOP_SSRC1 =>
    let rstart := (code1 >>> 9) &&& 0xff
    some (rstart, add16 rstart regSize)
  | GCNFIELD_VOP_VDST =>
    let rstart := (((code1 >>> 17) &&& 0xff) + 256) % 2 ^ 16
    some (rstart, add16 rstart regSize)
  | GCNFIELD_VOP_SDST =>
    let rstart := (code1 >>> 17) &&& 0xff
    some (rstart, add16 rstart regSize)
  | GCNFIELD_VOP3_SRC0 =>
    let rstart := code2 &&& 0x1ff
    some (rstart, add16 rstart regSize)
  | GCNFIELD_VOP3_SRC1 =>
    let rstart := (code2 >>> 9) &&& 0x1ff
    some (rstart, add16 rstart regSize)
  | GCNFIELD_VOP3_SRC2 =>
    let rstart := (code2 >>> 18) &&& 0x1ff
    some (rstart, add16 rstart regSize)
  | GCNFIELD_VOP3_VDST | GCNFIELD_VINTRP_VSRC0 =>
    let rstart := ((code1 &&& 0xff) + 256) % 2 ^ 16
    some (rstart, add16 rstart regSize)
  | GCNFIELD_VOP3_SDST0 =>
    let rstart := code1 &&& 0xff
    some (rstart, add16 rstart regSize)
  | GCNFIELD_VOP3_SSRC =>
    let rstart := (code2 >>> 18) &&& 0xff
    some (rstart, add16 rstart regSize)
  | GCNFIELD_VOP3_SDST1 =>
    let rstart := (code1 >>> 8) &&& 0xff
    some (rstart, add16 rstart regSize)
  | GCNFIELD_VINTRP_VDST =>
    let rstart := (((code1 >>> 18) &&& 0xff) + 256) % 2 ^ 16
    some (rstart, add16 rstart regSize)
  | GCNFIELD_DPPSDWA_SRC0 | GCNFIELD_FLAT_ADDR | GCNFIELD_DS_ADDR | GCNFIELD_EXP_VSRC0
  | GCNFIELD_M_VADDR =>
    let rstart := ((code2 &&& 0xff) + 256) % 2 ^ 16
    some (rstart, add16 rstart regSize)
  | GCNFIELD_FLAT_DATA | GCNFIELD_DS_DATA0 | GCNFIELD_EXP_VSRC1 | GCNFIELD_M_VDATA =>
    let rstart := (((code2 >>> 8) &&& 0xff) + 256) % 2 ^ 16
    some (rstart, add16 rstart regSize)
  | GCNFIELD_M_VDATAH =>
    let rstart := (((code2 >>> 8) &&& 0xff) + 256 + regSize) % 2 ^ 16
    some (rstart, add16 rstart regSize)
  | GCNFIELD_M_VDATALAST =>
    -- regSize stored by fix for regusage (regvar==nullptr)
    let rstart := (((code2 >>> 8) &&& 0xff) + 256 + regSize) % 2 ^ 16
    some (rstart, add16 rstart 1)
  | GCNFIELD_DS_DATA1 | GCNFIELD_EXP_VSRC2 =>
    let rstart := (((code2 >>> 16) &&& 0xff) + 256) % 2 ^ 16
    some (rstart, add16 rstart regSize)
  | GCNFIELD_DS_VDST | GCNFIELD_FLAT_VDST | GCNFIELD_EXP_VSRC3 =>
    let rstart := ((code2 >>> 24) + 256) % 2 ^ 16
    some (rstart, add16 rstart regSize)
  | GCNFIELD_FLAT_VDSTLAST =>
    -- regSize stored by fix for regusage (regvar==nullptr)
    let rstart := ((code2 >>> 24) + 256 + regSize) % 2 ^ 16
    some (rstart, add16 rstart 1)
  | GCNFIELD_M_SRSRC =>
    let rstart := (code2 >>> 14) &&& 0x7c
    -- 4 or 8
    some (rstart, add16 rstart ((regSize <<< 2) % 256))
  | GCNFIELD_MIMG_SSAMP =>
    let rstart := (code2 >>> 19) &&& 0x7c
    -- 4
    some (rstart, add16 rstart ((regSize <<< 2) % 256))
  | GCNFIELD_M_SOFFSET =>
    let rstart := (code2 >>> 24) &&& 0xff
    some (rstart, add16 rstart regSize)
  | GCNFIELD_DPPSDWA_SSRC0 =>
    let rstart := code2 &&& 0xff
    some (rstart, add16 rstart regSize)
  | _ => none

/-- The field tags under which the encoder routines of GCNAssembler.cpp record a register
usage: the tags they pass to the register and operand parsers (`parseSRegRange`,
`parseVRegRange`, `parseOperand`, which store the usage record under the tag) and the tags
they store into a record themselves, by routine: the SOP routines; SMRD and SMEM; VOP2, VOP1
and VOPC with their VOP3, SDWA and DPP forms; VOP3; VINTRP; DS; MUBUF/MTBUF and MIMG; EXP
(`GCNFIELD_EXP_VSRC0+i`); FLAT. -/
def encoderFieldTags : List AsmRegField :=
  [GCNFIELD_SDST, GCNFIELD_SSRC0, GCNFIELD_SSRC1,
   GCNFIELD_SMRD_SDST, GCNFIELD_SMRD_SBASE, GCNFIELD_SMRD_SOFFSET, GCNFIELD_SMRD_SDSTH,
   GCNFIELD_VOP_SDST, GCNFIELD_VOP_VDST, GCNFIELD_VOP3_SDST1, GCNFIELD_VOP_SRC0,
   GCNFIELD_VOP_VSRC1, GCNFIELD_VOP_SSRC1, GCNFIELD_VOP3_SSRC, GCNFIELD_VOP3_VDST,
   GCNFIELD_VOP3_SDST0, GCNFIELD_VOP3_SRC0, GCNFIELD_VOP3_SRC1, GCNFIELD_DPPSDWA_SRC0,
   GCNFIELD_DPPSDWA_SSRC0,
   GCNFIELD_VOP3_SRC2,
   GCNFIELD_VINTRP_VDST, GCNFIELD_VINTRP_VSRC0,
   GCNFIELD_DS_VDST, GCNFIELD_DS_ADDR, GCNFIELD_DS_DATA0, GCNFIELD_DS_DATA1,
   GCNFIELD_M_VDATA, GCNFIELD_M_VADDR, GCNFIELD_M_SRSRC, GCNFIELD_M_SOFFSET,
   GCNFIELD_M_VDATAH, GCNFIELD_M_VDATALAST, GCNFIELD_MIMG_SSAMP,
   GCNFIELD_EXP_VSRC0, GCNFIELD_EXP_VSRC1, GCNFIELD_EXP_VSRC2, GCNFIELD_EXP_VSRC3,
   GCNFIELD_FLAT_VDST, GCNFIELD_FLAT_ADDR, GCNFIELD_FLAT_DATA, GCNFIELD_FLAT_SADDR,
   GCNFIELD_FLAT_VDSTLAST]

/-- The range sizes that are legal for an ordinary register field, as the specification of
the size round trip of the usage flags lists them: 2 or 4 registers for
`GCNFIELD_SMRD_SBASE`; 1, 2, 4, 8 or 16 for `GCNFIELD_SMRD_SDST`; 4 or 8 for
`GCNFIELD_M_SRSRC`; 4 for `GCNFIELD_MIMG_SSAMP`; 1 to 16 for every other field with a label
in `getRegPair`. The fields that are not ordinary have no
legal size: the records that the encoders derive from another record
(`GCNFIELD_SMRD_SDSTH`, `GCNFIELD_M_VDATAH`, `GCNFIELD_M_VDATALAST`,
`GCNFIELD_FLAT_VDSTLAST`) and the tags without a label (`ASMFIELD_NONE`,
`GCNFIELD_FLAT_SADDR`, `other`). -/
def legalRangeSize (regField : AsmRegField) (n : Nat) : Bool :=
  match regField with
  | GCNFIELD_SMRD_SBASE => n == 2 || n == 4
  | GCNFIELD_SMRD_SDST => n == 1 || n == 2 || n == 4 || n == 8 || n == 16
  | GCNFIELD_M_SRSRC => n == 4 || n == 8
  | GCNFIELD_MIMG_SSAMP => n == 4
  | GCNFIELD_SMRD_SDSTH | GCNFIELD_M_VDATAH | GCNFIELD_M_VDATALAST | GCNFIELD_FLAT_VDSTLAST
  | ASMFIELD_NONE | GCNFIELD_FLAT_SADDR | AsmRegField.other => false
  | _ => decide (1 ≤ n) && decide (n ≤ 16)

/-! ## The value of a single-precision bit pattern -/

/-- The number that the IEEE-754 single-precision bit pattern `bits` denotes when its biased
exponent lies in 1..254 (a normal number): `(-1)^sign * (1 + fraction / 2^23) *
2^(exponent - 127)`. This is the notion by which the float inline constants are described;
it is not a function of the program. The other exponents (zero, subnormal numbers,
infinities and NaNs) are mapped to 0. -/
def ieee754SingleValue (bits : Nat) : ℚ :=
  let sign : Nat := (bits / 2 ^ 31) % 2
  let exponent : Nat := (bits / 2 ^ 23) % 256
  let fraction : Nat := bits % 2 ^ 23
  if exponent = 0 ∨ exponent = 255 then 0
  else
    (if sign = 1 then -1 else 1) * (1 + (fraction : ℚ) / 2 ^ 23) *
      (if 127 ≤ exponent then (2 : ℚ) ^ (exponent - 127) else 1 / (2 : ℚ) ^ (127 - exponent))

/-! ## GCNAssembler.cpp: the lookup of a mnemonic in the sorted table -/

/-- The loop `for (++it; it != end && ::strcmp(it->mnemonic, mnemonic)==0 &&
(it->archMask & curArchMask)==0; ++it);` of `GCNAssembler::assemble`, given the entries from
the incremented `it` to the end of the table: the entries from the final `it` on. -/
def skipNotMatched (mnemonic : String) (curArchMask : Nat) :
    List GCNAsmInstruction → List GCNAsmInstruction
  | [] => []
  | x :: rest =>
    if x.mnemonic = mnemonic ∧ x.archMask &&& curArchMask = 0 then
      skipNotMatched mnemonic curArchMask rest
    else x :: rest

/-- The part "find instruction by mnemonic" and "find matched entry" of
`GCNAssembler::assemble` on the table `gcnInstrSortedTable`. The template `binaryFind` is
declared in a header that is not among the verified sources, so it is a parameter: it
returns the index of the entry it finds, and the length of the table for `end()`. The result
is the descriptor that `it` points to when the encoder routine is chosen, `none` when the
error `Unknown instruction` is printed. -/
def findInstruction (binaryFind : List GCNAsmInstruction → String → Nat)
    (gcnInstrSortedTable : List GCNAsmInstruction) (mnemonic : String) (curArchMask : Nat) :
    Option GCNAsmInstruction :=
  let it := gcnInstrSortedTable.drop (binaryFind gcnInstrSortedTable mnemonic)
  -- find matched entry
  let it1 :=
    match it with
    | x :: rest =>
      -- if not match current arch mask
      if x.archMask &&& curArchMask = 0 then skipNotMatched mnemonic curArchMask rest else it
    | [] => it
  match it1 with
  | [] => none
  | x :: _ => if x.mnemonic ≠ mnemonic then none else some x

/-! ## GCNAssembler.cpp: `fillAlignment` -/

/-- The call `::memset(output, c, n)` on the section memory. -/
def memset (sectionData : Nat → Nat) (output c n : Nat) : Nat → Nat :=
  fun i => if output ≤ i ∧ i < output + n then c % 256 else sectionData i

/-- The call `std::fill((uint32_t*)output, ((uint32_t*)output) + n, value)`: `n` words with
the value `value` in the byte order of the host (little-endian), from the address `output`
on. -/
def fillWords (value : Nat) : Nat → (Nat → Nat) → Nat → (Nat → Nat)
  | 0, sectionData, _ => sectionData
  | n + 1, sectionData, output =>
    fillWords value n (SULEV32 sectionData output value) (output + 4)

/-- The method `GCNAssembler::fillAlignment(size, output)`: the memory after the call;
`output` is the address of the first byte to fill. -/
def fillAlignment (size output : Nat) (sectionData : Nat → Nat) : Nat → Nat :=
  let value := 0xbf800000 -- fill with s_nop's
  if size &&& 3 ≠ 0 then
    -- first, we fill zeros
    let toAlign4 := 4 - (size &&& 3)
    fillWords value (size >>> 2) (memset sectionData output 0 toAlign4) (output + toAlign4)
  else fillWords value (size >>> 2) sectionData output

/-! ## GCNAssembler.cpp: the SOP1 and SOPC encoders and `getInstructionSize` -/

/-- What the parsing part of `parseSOP1Encoding` hands to the encoding part: the conjunction
`good` of the parse results with the comma and end-of-line checks, the parsed destination
and source, and whether `src0Expr` is non-null. -/
structure SOP1Parsed where
  good : Bool
  dstReg : RegRange
  src0Op : GCNOperand
  src0Expr : Bool
  deriving DecidableEq, Repr

/-- The encoding part of `GCNAsmUtils::parseSOP1Encoding` (from "if errors" on). The register
accounting at the end of the routine is not modelled. -/
def parseSOP1Encoding (isGCN12 : Bool) (code1 : Nat) (p : SOP1Parsed) (gcnEncSize : GCNEncSize)
    (output : List Nat) : EncodeResult :=
  if !p.good then ⟨false, output, none⟩
  else
    -- try to promote constant immediate to literal
    let src0Op :=
      if gcnEncSize = GCNEncSize.BIT64 then tryPromoteConstImmToLiteral p.src0Op isGCN12
      else p.src0Op
    -- put instruction word
    let word0 := sop1Word0 code1 src0Op.range.bstart p.dstReg.bstart
    let haveLiteral : Bool := decide (src0Op.range.start = 255)
    let word1 : Nat := if !p.src0Expr then src0Op.value % 2 ^ 32 else 0
    let words := if haveLiteral then [word0, word1] else [word0]
    if !checkGCNEncodingSize gcnEncSize words.length then ⟨false, output, none⟩
    else
      -- set expression targets
      ⟨true, emitWords output words,
        if p.src0Expr then some (GCNTGT_LITIMM, output.length) else none⟩

/-- What the parsing part of `parseSOPCEncoding` hands to the encoding part: the conjunction
`good` of the parse results with the comma and end-of-line checks, the two sources and
whether `src0Expr` / `src1Expr` are non-null. For a descriptor with `GCN_SRC1_IMM` the second
source is the operand `src1Op{}` whose `range.start` has received the 8-bit immediate from
`parseImm(asmr, linePtr, src1Op.range.start, &src1Expr, 8)`. -/
structure SOPCParsed where
  good : Bool
  src0Op : GCNOperand
  src1Op : GCNOperand
  src0Expr : Bool
  src1Expr : Bool
  deriving DecidableEq, Repr

/-- The encoding part of `GCNAsmUtils::parseSOPCEncoding` (from "if errors" on); `src1Imm`
stands for `(gcnInsn.mode & GCN_SRC1_IMM) != 0`. The register accounting at the end of the
routine is not modelled. -/
def parseSOPCEncoding (isGCN12 src1Imm : Bool) (code1 : Nat) (p : SOPCParsed)
    (gcnEncSize : GCNEncSize) (output : List Nat) : EncodeResult :=
  if !p.good then ⟨false, output, none⟩
  else
    -- try to promote constant immediate to literal
    let src0Op :=
      if gcnEncSize = GCNEncSize.BIT64 then tryPromoteConstImmToLiteral p.src0Op isGCN12
      else p.src0Op
    let src1Op :=
      if gcnEncSize = GCNEncSize.BIT64 then tryPromoteConstImmToLiteral p.src1Op isGCN12
      else p.src1Op
    -- put data
    let word0 := sopcWord0 code1 src0Op.range.bstart src1Op.range.bstart
    let haveLiteral : Bool :=
      decide (src0Op.range.start = 255) || (!src1Imm && decide (src1Op.range.start = 255))
    let word1 : Nat :=
      if !p.src0Expr ∧ !p.src1Expr then
        (if src0Op.range.isVal 255 then src0Op.value else src1Op.value) % 2 ^ 32
      else 0 -- zero if unresolved value
    let words := if haveLiteral then [word0, word1] else [word0]
    if !checkGCNEncodingSize gcnEncSize words.length then ⟨false, output, none⟩
    else
      -- set expression targets
      let target : Option (AsmExprTargetType × Nat) :=
        if p.src0Expr then some (GCNTGT_LITIMM, output.length)
        else if p.src1Expr then
          some (if src1Imm then GCNTGT_SOPCIMM8 else GCNTGT_LITIMM, output.length)
        else none
      ⟨true, emitWords output words, target⟩

/-- The table `gcnSize11Table`, indexed by bits [29:26] of the instruction word. -/
def gcnSize11Table : List Bool :=
  [false, false, false, false, true, false, true, true, true, false, true, false, true, false,
   true, false]

/-- The table `gcnSize12Table`, indexed by bits [29:26] of the instruction word. -/
def gcnSize12Table : List Bool :=
  [true, true, false, false, true, false, true, true, true, false, true, false, true, false,
   false, false]

/-- The method `GCNAssembler::getInstructionSize(codeSize, code)`; `isGCN11` stands for
`(curArchMask & ARCH_RX2X0) != 0` and `isGCN12` for `(curArchMask & ARCH_GCN_1_2_4) != 0`. -/
def getInstructionSize (isGCN11 isGCN12 : Bool) (codeSize : Nat) (code : List Nat) : Nat :=
  if codeSize < 4 then 0 -- no instruction
  else
    let insnCode := codeWord code 0
    let words : Nat :=
      if insnCode &&& 0x80000000 ≠ 0 then
        if insnCode &&& 0x40000000 = 0 then
          -- SOP???
          if insnCode &&& 0x30000000 = 0x30000000 then
            -- SOP1/SOPK/SOPC/SOPP
            let encPart := insnCode &&& 0x0f800000
            if encPart = 0x0e800000 then
              -- SOP1
              if insnCode &&& 0xff = 0xff then 2 else 1
            else if encPart = 0x0f000000 then
              -- SOPC
              if insnCode &&& 0xff = 0xff ∨ insnCode &&& 0xff00 = 0xff00 then 2 else 1
            else if encPart ≠ 0x0f800000 then
              -- SOPK
              let opcode := (insnCode >>> 23) &&& 0x1f
              if (!isGCN12 ∧ opcode = 21) ∨ (isGCN12 ∧ opcode = 20) then 2 else 1
            else 1
          else
            -- SOP2
            if insnCode &&& 0xff = 0xff ∨ insnCode &&& 0xff00 = 0xff00 then 2 else 1
        else
          -- SMRD and others
          let encPart := (insnCode &&& 0x3c000000) >>> 26
          if (!isGCN12 ∧ gcnSize11Table.getD encPart false ∧ (encPart ≠ 7 ∨ isGCN11)) ∨
              (isGCN12 ∧ gcnSize12Table.getD encPart false) then 2
          else 1
      else
        -- some vector instructions
        if insnCode &&& 0x7e000000 = 0x7c000000 then
          -- VOPC
          if insnCode &&& 0x1ff = 0xff ∨
              (isGCN12 ∧ (insnCode &&& 0x1ff = 0xf9 ∨ insnCode &&& 0x1ff = 0xfa)) then 2
          else 1
        else if insnCode &&& 0x7e000000 = 0x7e000000 then
          -- VOP1
          if insnCode &&& 0x1ff = 0xff ∨
              (isGCN12 ∧ (insnCode &&& 0x1ff = 0xf9 ∨ insnCode &&& 0x1ff = 0xfa)) then 2
          else 1
        else
          -- VOP2
          let opcode := (insnCode >>> 25) &&& 0x3f
          if (!isGCN12 ∧ (opcode = 32 ∨ opcode = 33)) ∨
              (isGCN12 ∧ (opcode = 23 ∨ opcode = 24 ∨ opcode = 36 ∨ opcode = 37)) then
            2 -- inline 32-bit constant
          else if insnCode &&& 0x1ff = 0xff ∨
              (isGCN12 ∧ (insnCode &&& 0x1ff = 0xf9 ∨ insnCode &&& 0x1ff = 0xfa)) then
            2 -- literal
          else 1
    words <<< 2

/-! ## Bit fields as arithmetic -/

/-- Disjoint bit fields: if `b` occupies only the bits `[s, s + w)` and `a` has none of
these bits set, the bitwise or of `a` and `b` is their sum. -/
theorem or_window (a b s w : Nat) (hb1 : b % 2 ^ s = 0) (hb2 : b < 2 ^ (s + w))
    (ha : a / 2 ^ s % 2 ^ w = 0) : a ||| b = a + b := by
  have hlo : a % 2 ^ s < 2 ^ s := Nat.mod_lt _ (Nat.two_pow_pos s)
  have hsw : 2 ^ (s + w) = 2 ^ s * 2 ^ w := Nat.pow_add 2 s w
  obtain ⟨A, hA⟩ : ∃ A, a / 2 ^ s = 2 ^ w * A := Nat.dvd_of_mod_eq_zero ha
  obtain ⟨B, hB⟩ : ∃ B, b = 2 ^ s * B := Nat.dvd_of_mod_eq_zero hb1
  have hBlt : B < 2 ^ w := by
    rw [hB, hsw] at hb2
    exact Nat.lt_of_mul_lt_mul_left hb2
  have ha' : a = 2 ^ (s + w) * A + a % 2 ^ s := by
    conv_lhs => rw [← Nat.div_add_mod a (2 ^ s), hA]
    rw [hsw, Nat.mul_assoc]
  have hmid : 2 ^ s * B + a % 2 ^ s < 2 ^ (s + w) := by
    rw [hsw]
    calc 2 ^ s * B + a % 2 ^ s < 2 ^ s * B + 2 ^ s := by omega
      _ = 2 ^ s * (B + 1) := by ring
      _ ≤ 2 ^ s * 2 ^ w := Nat.mul_le_mul_left _ hBlt
  have hlo' : a % 2 ^ s < 2 ^ (s + w) :=
    Nat.lt_of_lt_of_le hlo (Nat.pow_le_pow_right (by norm_num) (by omega))
  have e1 : a ||| b = 2 ^ (s + w) * A + (2 ^ s * B + a % 2 ^ s) := by
    conv_lhs => rw [ha', hB]
    rw [Nat.mul_add_lt_is_or hlo', Nat.or_assoc, Nat.or_comm (a % 2 ^ s),
      ← Nat.mul_add_lt_is_or hlo, ← Nat.mul_add_lt_is_or hmid]
  have e2 : a + b = 2 ^ (s + w) * A + (2 ^ s * B + a % 2 ^ s) := by
    conv_lhs => rw [ha', hB]
    ring
  rw [e1, e2]

/-- Masking with a shifted run of ones extracts a bit field. -/
theorem and_window (x s n : Nat) :
    x &&& ((2 ^ n - 1) * 2 ^ s) = (x / 2 ^ s % 2 ^ n) * 2 ^ s := by
  rw [← Nat.shiftLeft_eq, ← Nat.shiftLeft_eq]
  apply Nat.eq_of_testBit_eq
  intro i
  simp only [Nat.testBit_and, Nat.testBit_shiftLeft, Nat.testBit_mod_two_pow,
    Nat.testBit_two_pow_sub_one, ← Nat.shiftRight_eq_div_pow, Nat.testBit_shiftRight]
  by_cases h : i ≥ s
  · have : s + (i - s) = i := by omega
    simp only [h, decide_True, Bool.true_and, this]
    cases Nat.testBit x i <;> simp
  · simp [h]

theorem and_80000000 (w : Nat) : w &&& 0x80000000 = (w / 2 ^ 31 % 2) * 2 ^ 31 :=
  and_window w 31 1

theorem and_40000000 (w : Nat) : w &&& 0x40000000 = (w / 2 ^ 30 % 2) * 2 ^ 30 :=
  and_window w 30 1

theorem and_30000000 (w : Nat) : w &&& 0x30000000 = (w / 2 ^ 28 % 4) * 2 ^ 28 :=
  and_window w 28 2

theorem and_0f800000 (w : Nat) : w &&& 0x0f800000 = (w / 2 ^ 23 % 32) * 2 ^ 23 :=
  and_window w 23 5

theorem and_3c000000 (w : Nat) : w &&& 0x3c000000 = (w / 2 ^ 26 % 16) * 2 ^ 26 :=
  and_window w 26 4

theorem and_7e000000 (w : Nat) : w &&& 0x7e000000 = (w / 2 ^ 25 % 64) * 2 ^ 25 :=
  and_window w 25 6

theorem and_ff (w : Nat) : w &&& 0xff = w % 256 := Nat.and_pow_two_sub_one_eq_mod w 8

theorem and_f (w : Nat) : w &&& 0xf = w % 16 := Nat.and_pow_two_sub_one_eq_mod w 4

theorem and_1ff (w : Nat) : w &&& 0x1ff = w % 512 := Nat.and_pow_two_sub_one_eq_mod w 9

/-- The classifier in arithmetic form. -/
theorem gcnClassify_eq (w : Nat) :
    gcnClassify w =
      if w / 2 ^ 31 % 2 ≠ 0 then
        if w / 2 ^ 30 % 2 = 0 then
          if w / 2 ^ 28 % 4 = 3 then
            if w / 2 ^ 23 % 32 = 29 then GCNENC_SOP1
            else if w / 2 ^ 23 % 32 = 30 then GCNENC_SOPC
            else if w / 2 ^ 23 % 32 = 31 then GCNENC_SOPP
            else GCNENC_SOPK
          else GCNENC_SOP2
        else gcnEncoding11Table (w / 2 ^ 26 % 16)
      else
        if w / 2 ^ 25 % 64 = 62 then GCNENC_VOPC
        else if w / 2 ^ 25 % 64 = 63 then GCNENC_VOP1
        else GCNENC_VOP2 := by
  unfold gcnClassify
  simp only [and_80000000, and_40000000, and_30000000, and_0f800000, and_3c000000,
    and_7e000000, and_f, Nat.shiftRight_eq_div_pow]
  have e1 : (w / 2 ^ 31 % 2 * 2 ^ 31 ≠ 0) = (w / 2 ^ 31 % 2 ≠ 0) := by
    apply propext; constructor <;> intro h <;> omega
  have e2 : (w / 2 ^ 30 % 2 * 2 ^ 30 = 0) = (w / 2 ^ 30 % 2 = 0) := by
    apply propext; constructor <;> intro h <;> omega
  have e3 : (w / 2 ^ 28 % 4 * 2 ^ 28 = 0x30000000) = (w / 2 ^ 28 % 4 = 3) := by
    apply propext; constructor <;> intro h <;> omega
  have e4 : (w / 2 ^ 23 % 32 * 2 ^ 23 = 0x0e800000) = (w / 2 ^ 23 % 32 = 29) := by
    apply propext; constructor <;> intro h <;> omega
  have e5 : (w / 2 ^ 23 % 32 * 2 ^ 23 = 0x0f000000) = (w / 2 ^ 23 % 32 = 30) := by
    apply propext; constructor <;> intro h <;> omega
  have e6 : (w / 2 ^ 23 % 32 * 2 ^ 23 = 0x0f800000) = (w / 2 ^ 23 % 32 = 31) := by
    apply propext; constructor <;> intro h <;> omega
  have e7 : (w / 2 ^ 25 % 64 * 2 ^ 25 = 0x7c000000) = (w / 2 ^ 25 % 64 = 62) := by
    apply propext; constructor <;> intro h <;> omega
  have e8 : (w / 2 ^ 25 % 64 * 2 ^ 25 = 0x7e000000) = (w / 2 ^ 25 % 64 = 63) := by
    apply propext; constructor <;> intro h <;> omega
  have e9 : w / 2 ^ 26 % 16 * 2 ^ 26 / 2 ^ 26 % 16 = w / 2 ^ 26 % 16 := by omega
  simp only [e1, e2, e3, e4, e5, e6, e7, e8, e9]

/-- The part "determine GCN encoding" assigns the family `gcnClassify insnCode`, and it
does not throw when two more words follow the first one. -/
theorem determineEncoding_family (input : List Nat) (codeWordsNum insnCode pos : Nat)
    (h : pos + 1 < codeWordsNum) :
    ∃ f, determineEncoding input codeWordsNum insnCode pos = Except.ok f ∧
      f.gcnEncoding = gcnClassify insnCode := by
  have h1 : ¬ (pos ≥ codeWordsNum) := by omega
  have h2 : ¬ (pos + 1 ≥ codeWordsNum) := by omega
  unfold determineEncoding gcnClassify
  simp only [h1, h2, if_false]
  split_ifs <;> exact ⟨_, rfl, rfl⟩

/-- The opcode extraction in arithmetic form. -/
theorem extractOpcode_eq (e : GCNEncoding) (w : Nat) :
    extractOpcode e w = w / 2 ^ (gcnEncodingOpcodeTable e).1 % 2 ^ (gcnEncodingOpcodeTable e).2 := by
  unfold extractOpcode
  rw [Nat.shiftRight_eq_div_pow, Nat.shiftLeft_eq, Nat.one_mul, Nat.and_pow_two_sub_one_eq_mod]

theorem bit_eq_mul (c : Bool) (K : Nat) : bit c K = K * c.toNat := by
  cases c <;> simp [bit]

theorem sopc_classified (c s0 s1 : Nat)
    (hc : c < 2 ^ 7) (h0 : s0 < 2 ^ 8) (h1 : s1 < 2 ^ 8) :
    gcnClassify (sopcWord0 c s0 s1) = GCNENC_SOPC ∧ extractOpcode GCNENC_SOPC (sopcWord0 c s0 s1) = c := by
  have hw : sopcWord0 c s0 s1 = 0xbf000000 + c * 2 ^ 16 + s0 + s1 * 2 ^ 8 := by
    unfold sopcWord0
    simp only [Nat.shiftLeft_eq, bit_eq_mul, and_ff, and_f, Bool.not_false, Bool.and_true,
      Bool.and_false, Bool.false_eq_true, if_false, Bool.toNat_false, Nat.mul_zero, Nat.or_zero,
      Nat.one_mul]
    rw [or_window _ (c * 2 ^ 16) 16 7 (by omega) (by omega) (by omega),
      or_window _ (s0) 0 8 (by omega) (by omega) (by omega),
      or_window _ (s1 * 2 ^ 8) 8 8 (by omega) (by omega) (by omega)]
    omega
  rw [gcnClassify_eq, extractOpcode_eq, hw]
  simp only [gcnEncodingOpcodeTable]
  constructor
  · split_ifs <;> first | rfl | (exfalso; omega)
  · omega

theorem sopp_classified (c imm16 : Nat)
    (hc : c < 2 ^ 7) (h0 : imm16 < 2 ^ 16) :
    gcnClassify (soppWord c imm16) = GCNENC_SOPP ∧ extractOpcode GCNENC_SOPP (soppWord c imm16) = c := by
  have hw : soppWord c imm16 = 0xbf800000 + imm16 + c * 2 ^ 16 := by
    unfold soppWord
    simp only [Nat.shiftLeft_eq, bit_eq_mul, and_ff, and_f, Bool.not_false, Bool.and_true,
      Bool.and_false, Bool.false_eq_true, if_false, Bool.toNat_false, Nat.mul_zero, Nat.or_zero,
      Nat.one_mul]
    rw [or_window _ (imm16) 0 16 (by omega) (by omega) (by omega),
      or_window _ (c * 2 ^ 16) 16 7 (by omega) (by omega) (by omega)]
    omega
  rw [gcnClassify_eq, extractOpcode_eq, hw]
  simp only [gcnEncodingOpcodeTable]
  constructor
  · split_ifs <;> first | rfl | (exfalso; omega)
  · omega

theorem sop1_classified (c s0 d : Nat)
    (hc : c < 2 ^ 8) (h0 : s0 < 2 ^ 8) (hd : d < 2 ^ 7) :
    gcnClassify (sop1Word0 c s0 d) = GCNENC_SOP1 ∧ extractOpcode GCNENC_SOP1 (sop1Word0 c s0 d) = c := by
  have hw : sop1Word0 c s0 d = 0xbe800000 + c * 2 ^ 8 + s0 + d * 2 ^ 16 := by
    unfold sop1Word0
    simp only [Nat.shiftLeft_eq, bit_eq_mul, and_ff, and_f, Bool.not_false, Bool.and_true,
      Bool.and_false, Bool.false_eq_true, if_false, Bool.toNat_false, Nat.mul_zero, Nat.or_zero,
      Nat.one_mul]
    rw [or_window _ (c * 2 ^ 8) 8 8 (by omega) (by omega) (by omega),
      or_window _ (s0) 0 8 (by omega) (by omega) (by omega),
      or_window _ (d * 2 ^ 16) 16 7 (by omega) (by omega) (by omega)]
    omega
  rw [gcnClassify_eq, extractOpcode_eq, hw]
  simp only [gcnEncodingOpcodeTable]
  constructor
  · split_ifs <;> first | rfl | (exfalso; omega)
  · omega

theorem sop2_classified (c s0 s1 d : Nat)
    (hc : c < 96) (h0 : s0 < 2 ^ 8) (h1 : s1 < 2 ^ 8) (hd : d < 2 ^ 7) :
    gcnClassify (sop2Word0 c s0 s1 d) = GCNENC_SOP2 ∧ extractOpcode GCNENC_SOP2 (sop2Word0 c s0 s1 d) = c := by
  have hw : sop2Word0 c s0 s1 d = 0x80000000 + c * 2 ^ 23 + s0 + s1 * 2 ^ 8 + d * 2 ^ 16 := by
    unfold sop2Word0
    simp only [Nat.shiftLeft_eq, bit_eq_mul, and_ff, and_f, Bool.not_false, Bool.and_true,
      Bool.and_false, Bool.false_eq_true, if_false, Bool.toNat_false, Nat.mul_zero, Nat.or_zero,
      Nat.one_mul]
    rw [or_window _ (c * 2 ^ 23) 23 7 (by omega) (by omega) (by omega),
      or_window _ (s0) 0 8 (by omega) (by omega) (by omega),
      or_window _ (s1 * 2 ^ 8) 8 8 (by omega) (by omega) (by omega),
      or_window _ (d * 2 ^ 16) 16 7 (by omega) (by omega) (by omega)]
    omega
  rw [gcnClassify_eq, extractOpcode_eq, hw]
  simp only [gcnEncodingOpcodeTable]
  constructor
  · split_ifs <;> first | rfl | (exfalso; omega)
  · omega

theorem sopk_classified (c imm16 d : Nat)
    (hc : c < 29) (h0 : imm16 < 2 ^ 16) (hd : d < 2 ^ 7) :
    gcnClassify (sopkWord0 c imm16 d) = GCNENC_SOPK ∧ extractOpcode GCNENC_SOPK (sopkWord0 c imm16 d) = c := by
  have hw : sopkWord0 c imm16 d = 0xb0000000 + imm16 + d * 2 ^ 16 + c * 2 ^ 23 := by
    unfold sopkWord0
    simp only [Nat.shiftLeft_eq, bit_eq_mul, and_ff, and_f, Bool.not_false, Bool.and_true,
      Bool.and_false, Bool.false_eq_true, if_false, Bool.toNat_false, Nat.mul_zero, Nat.or_zero,
      Nat.one_mul]
    rw [or_window _ (imm16) 0 16 (by omega) (by omega) (by omega),
      or_window _ (d * 2 ^ 16) 16 7 (by omega) (by omega) (by omega),
      or_window _ (c * 2 ^ 23) 23 5 (by omega) (by omega) (by omega)]
    omega
  rw [gcnClassify_eq, extractOpcode_eq, hw]
  simp only [gcnEncodingOpcodeTable]
  constructor
  · split_ifs <;> first | rfl | (exfalso; omega)
  · omega

theorem vopc_classified (c s0 s1 : Nat)
    (hc : c < 2 ^ 8) (h0 : s0 < 2 ^ 9) :
    gcnClassify (vopcWord0 c s0 s1) = GCNENC_VOPC ∧ extractOpcode GCNENC_VOPC (vopcWord0 c s0 s1) = c := by
  have hw : vopcWord0 c s0 s1 = 0x7c000000 + c * 2 ^ 17 + s0 + s1 % 256 * 2 ^ 9 := by
    unfold vopcWord0
    simp only [Nat.shiftLeft_eq, bit_eq_mul, and_ff, and_f, Bool.not_false, Bool.and_true,
      Bool.and_false, Bool.false_eq_true, if_false, Bool.toNat_false, Nat.mul_zero, Nat.or_zero,
      Nat.one_mul]
    rw [or_window _ (c * 2 ^ 17) 17 8 (by omega) (by omega) (by omega),
      or_window _ (s0) 0 9 (by omega) (by omega) (by omega),
      or_window _ (s1 % 256 * 2 ^ 9) 9 8 (by omega) (by omega) (by omega)]
    omega
  rw [gcnClassify_eq, extractOpcode_eq, hw]
  simp only [gcnEncodingOpcodeTable]
  constructor
  · split_ifs <;> first | rfl | (exfalso; omega)
  · omega

theorem vop1_classified (c s0 d : Nat)
    (hc : c < 2 ^ 8) (h0 : s0 < 2 ^ 9) :
    gcnClassify (vop1Word0 c s0 d) = GCNENC_VOP1 ∧ extractOpcode GCNENC_VOP1 (vop1Word0 c s0 d) = c := by
  have hw : vop1Word0 c s0 d = 0x7e000000 + c * 2 ^ 9 + s0 + d % 256 * 2 ^ 17 := by
    unfold vop1Word0
    simp only [Nat.shiftLeft_eq, bit_eq_mul, and_ff, and_f, Bool.not_false, Bool.and_true,
      Bool.and_false, Bool.false_eq_true, if_false, Bool.toNat_false, Nat.mul_zero, Nat.or_zero,
      Nat.one_mul]
    rw [or_window _ (c * 2 ^ 9) 9 8 (by omega) (by omega) (by omega),
      or_window _ (s0) 0 9 (by omega) (by omega) (by omega),
      or_window _ (d % 256 * 2 ^ 17) 17 8 (by omega) (by omega) (by omega)]
    omega
  rw [gcnClassify_eq, extractOpcode_eq, hw]
  simp only [gcnEncodingOpcodeTable]
  constructor
  · split_ifs <;> first | rfl | (exfalso; omega)
  · omega

theorem vop2_classified (c s0 s1 d : Nat)
    (hc : c < 62) (h0 : s0 < 2 ^ 9) :
    gcnClassify (vop2Word0 c s0 s1 d) = GCNENC_VOP2 ∧ extractOpcode GCNENC_VOP2 (vop2Word0 c s0 s1 d) = c := by
  have hw : vop2Word0 c s0 s1 d = c * 2 ^ 25 + s0 + s1 % 256 * 2 ^ 9 + d % 256 * 2 ^ 17 := by
    unfold vop2Word0
    simp only [Nat.shiftLeft_eq, bit_eq_mul, and_ff, and_f, Bool.not_false, Bool.and_true,
      Bool.and_false, Bool.false_eq_true, if_false, Bool.toNat_false, Nat.mul_zero, Nat.or_zero,
      Nat.one_mul]
    rw [or_window _ (s0) 0 9 (by omega) (by omega) (by omega),
      or_window _ (s1 % 256 * 2 ^ 9) 9 8 (by omega) (by omega) (by omega),
      or_window _ (d % 256 * 2 ^ 17) 17 8 (by omega) (by omega) (by omega)]
    omega
  rw [gcnClassify_eq, extractOpcode_eq, hw]
  simp only [gcnEncodingOpcodeTable]
  constructor
  · split_ifs <;> first | rfl | (exfalso; omega)
  · omega

theorem vop3a_classified (c d : Nat) (clamp abs0 abs1 abs2 : Bool)
    (hc : c < 2 ^ 9) :
    gcnClassify (vop3aWord0 c d clamp abs0 abs1 abs2) = GCNENC_VOP3A ∧ extractOpcode GCNENC_VOP3A (vop3aWord0 c d clamp abs0 abs1 abs2) = c := by
  have hw : vop3aWord0 c d clamp abs0 abs1 abs2 = 0xd0000000 + c * 2 ^ 17 + d % 256 + 2048 * clamp.toNat + 256 * abs0.toNat + 512 * abs1.toNat + 1024 * abs2.toNat := by
    unfold vop3aWord0
    simp only [Nat.shiftLeft_eq, bit_eq_mul, and_ff, and_f, Bool.not_false, Bool.and_true,
      Bool.and_false, Bool.false_eq_true, if_false, Bool.toNat_false, Nat.mul_zero, Nat.or_zero,
      Nat.one_mul]
    have hb_clamp := Bool.toNat_le clamp
    generalize clamp.toNat = t_clamp at hb_clamp ⊢
    have hb_abs0 := Bool.toNat_le abs0
    generalize abs0.toNat = t_abs0 at hb_abs0 ⊢
    have hb_abs1 := Bool.toNat_le abs1
    generalize abs1.toNat = t_abs1 at hb_abs1 ⊢
    have hb_abs2 := Bool.toNat_le abs2
    generalize abs2.toNat = t_abs2 at hb_abs2 ⊢
    rw [or_window _ (c * 2 ^ 17) 17 9 (by omega) (by omega) (by omega),
      or_window _ (d % 256) 0 8 (by omega) (by omega) (by omega),
      or_window _ (2048 * t_clamp) 11 1 (by omega) (by omega) (by omega),
      or_window _ (256 * t_abs0) 8 1 (by omega) (by omega) (by omega),
      or_window _ (512 * t_abs1) 9 1 (by omega) (by omega) (by omega),
      or_window _ (1024 * t_abs2) 10 1 (by omega) (by omega) (by omega)]
    omega
  rw [gcnClassify_eq, extractOpcode_eq, hw]
  simp only [gcnEncodingOpcodeTable]
  have hb_clamp := Bool.toNat_le clamp
  generalize clamp.toNat = t_clamp at hb_clamp ⊢
  have hb_abs0 := Bool.toNat_le abs0
  generalize abs0.toNat = t_abs0 at hb_abs0 ⊢
  have hb_abs1 := Bool.toNat_le abs1
  generalize abs1.toNat = t_abs1 at hb_abs1 ⊢
  have hb_abs2 := Bool.toNat_le abs2
  generalize abs2.toNat = t_abs2 at hb_abs2 ⊢
  constructor
  · have a1 : (0xd0000000 + c * 2 ^ 17 + d % 256 + 2048 * t_clamp + 256 * t_abs0 + 512 * t_abs1 + 1024 * t_abs2) / 2 ^ 31 % 2 ≠ 0 := by omega
    have a2 : ¬ ((0xd0000000 + c * 2 ^ 17 + d % 256 + 2048 * t_clamp + 256 * t_abs0 + 512 * t_abs1 + 1024 * t_abs2) / 2 ^ 30 % 2 = 0) := by omega
    have a3 : (0xd0000000 + c * 2 ^ 17 + d % 256 + 2048 * t_clamp + 256 * t_abs0 + 512 * t_abs1 + 1024 * t_abs2) / 2 ^ 26 % 16 = 4 := by omega
    rw [if_pos a1, if_neg a2, a3]
    rfl
  · omega

theorem vop3b_classified (c d sd : Nat)
    (hc : c < 2 ^ 9) (hs : sd < 2 ^ 7) :
    gcnClassify (vop3bWord0 false c d sd false) = GCNENC_VOP3A ∧ extractOpcode GCNENC_VOP3A (vop3bWord0 false c d sd false) = c := by
  have hw : vop3bWord0 false c d sd false = 0xd0000000 + c * 2 ^ 17 + d % 256 + sd * 2 ^ 8 := by
    unfold vop3bWord0
    simp only [Bool.not_false, if_true]
    simp only [Nat.shiftLeft_eq, bit_eq_mul, and_ff, and_f, Bool.not_false, Bool.and_true,
      Bool.and_false, Bool.false_eq_true, if_false, Bool.toNat_false, Nat.mul_zero, Nat.or_zero,
      Nat.one_mul]
    rw [or_window _ (c * 2 ^ 17) 17 9 (by omega) (by omega) (by omega),
      or_window _ (d % 256) 0 8 (by omega) (by omega) (by omega),
      or_window _ (sd * 2 ^ 8) 8 7 (by omega) (by omega) (by omega)]
    omega
  rw [gcnClassify_eq, extractOpcode_eq, hw]
  simp only [gcnEncodingOpcodeTable]
  constructor
  · have a1 : (0xd0000000 + c * 2 ^ 17 + d % 256 + sd * 2 ^ 8) / 2 ^ 31 % 2 ≠ 0 := by omega
    have a2 : ¬ ((0xd0000000 + c * 2 ^ 17 + d % 256 + sd * 2 ^ 8) / 2 ^ 30 % 2 = 0) := by omega
    have a3 : (0xd0000000 + c * 2 ^ 17 + d % 256 + sd * 2 ^ 8) / 2 ^ 26 % 16 = 4 := by omega
    rw [if_pos a1, if_neg a2, a3]
    rfl
  · omega

theorem vintrp_classified (c src attrVal d : Nat)
    (hc : c < 2 ^ 2) :
    gcnClassify (vintrpWord c src attrVal d) = GCNENC_VINTRP ∧ extractOpcode GCNENC_VINTRP (vintrpWord c src attrVal d) = c := by
  have hw : vintrpWord c src attrVal d = 0xc8000000 + src % 256 + attrVal % 256 * 2 ^ 8 + c * 2 ^ 16 + d % 256 * 2 ^ 18 := by
    unfold vintrpWord
    simp only [Nat.shiftLeft_eq, bit_eq_mul, and_ff, and_f, Bool.not_false, Bool.and_true,
      Bool.and_false, Bool.false_eq_true, if_false, Bool.toNat_false, Nat.mul_zero, Nat.or_zero,
      Nat.one_mul]
    rw [or_window _ (src % 256) 0 8 (by omega) (by omega) (by omega),
      or_window _ (attrVal % 256 * 2 ^ 8) 8 8 (by omega) (by omega) (by omega),
      or_window _ (c * 2 ^ 16) 16 2 (by omega) (by omega) (by omega),
      or_window _ (d % 256 * 2 ^ 18) 18 8 (by omega) (by omega) (by omega)]
    omega
  rw [gcnClassify_eq, extractOpcode_eq, hw]
  simp only [gcnEncodingOpcodeTable]
  constructor
  · have a1 : (0xc8000000 + src % 256 + attrVal % 256 * 2 ^ 8 + c * 2 ^ 16 + d % 256 * 2 ^ 18) / 2 ^ 31 % 2 ≠ 0 := by omega
    have a2 : ¬ ((0xc8000000 + src % 256 + attrVal % 256 * 2 ^ 8 + c * 2 ^ 16 + d % 256 * 2 ^ 18) / 2 ^ 30 % 2 = 0) := by omega
    have a3 : (0xc8000000 + src % 256 + attrVal % 256 * 2 ^ 8 + c * 2 ^ 16 + d % 256 * 2 ^ 18) / 2 ^ 26 % 16 = 2 := by omega
    rw [if_pos a1, if_neg a2, a3]
    rfl
  · omega

theorem ds_classified (c o : Nat) (haveGds : Bool)
    (hc : c < 2 ^ 8) (ho : o < 2 ^ 16) :
    gcnClassify (dsWord0 false c o haveGds) = GCNENC_DS ∧ extractOpcode GCNENC_DS (dsWord0 false c o haveGds) = c := by
  have hw : dsWord0 false c o haveGds = 0xd8000000 + o + 131072 * haveGds.toNat + c * 2 ^ 18 := by
    unfold dsWord0
    simp only [Bool.not_false, if_true]
    simp only [Nat.shiftLeft_eq, bit_eq_mul, and_ff, and_f, Bool.not_false, Bool.and_true,
      Bool.and_false, Bool.false_eq_true, if_false, Bool.toNat_false, Nat.mul_zero, Nat.or_zero,
      Nat.one_mul]
    have hb_haveGds := Bool.toNat_le haveGds
    generalize haveGds.toNat = t_haveGds at hb_haveGds ⊢
    rw [or_window _ (o) 0 16 (by omega) (by omega) (by omega),
      or_window _ (131072 * t_haveGds) 17 1 (by omega) (by omega) (by omega),
      or_window _ (c * 2 ^ 18) 18 8 (by omega) (by omega) (by omega)]
    omega
  rw [gcnClassify_eq, extractOpcode_eq, hw]
  simp only [gcnEncodingOpcodeTable]
  have hb_haveGds := Bool.toNat_le haveGds
  generalize haveGds.toNat = t_haveGds at hb_haveGds ⊢
  constructor
  · have a1 : (0xd8000000 + o + 131072 * t_haveGds + c * 2 ^ 18) / 2 ^ 31 % 2 ≠ 0 := by omega
    have a2 : ¬ ((0xd8000000 + o + 131072 * t_haveGds + c * 2 ^ 18) / 2 ^ 30 % 2 = 0) := by omega
    have a3 : (0xd8000000 + o + 131072 * t_haveGds + c * 2 ^ 18) / 2 ^ 26 % 16 = 6 := by omega
    rw [if_pos a1, if_neg a2, a3]
    rfl
  · omega

theorem mubuf_classified (c o : Nat) (haveOffen haveIdxen haveGlc haveAddr64 haveLds haveSlc : Bool)
    (hc : c < 2 ^ 7) (ho : o < 2 ^ 12) :
    gcnClassify (mubufWord0 false c o haveOffen haveIdxen haveGlc haveAddr64 haveLds haveSlc) = GCNENC_MUBUF ∧ extractOpcode GCNENC_MUBUF (mubufWord0 false c o haveOffen haveIdxen haveGlc haveAddr64 haveLds haveSlc) = c := by
  have hw : mubufWord0 false c o haveOffen haveIdxen haveGlc haveAddr64 haveLds haveSlc = 0xe0000000 + o + 4096 * haveOffen.toNat + 8192 * haveIdxen.toNat + 16384 * haveGlc.toNat + 32768 * haveAddr64.toNat + 65536 * haveLds.toNat + c * 2 ^ 18 := by
    unfold mubufWord0
    simp only [Nat.shiftLeft_eq, bit_eq_mul, and_ff, and_f, Bool.not_false, Bool.and_true,
      Bool.and_false, Bool.false_eq_true, if_false, Bool.toNat_false, Nat.mul_zero, Nat.or_zero,
      Nat.one_mul]
    have hb_haveOffen := Bool.toNat_le haveOffen
    generalize haveOffen.toNat = t_haveOffen at hb_haveOffen ⊢
    have hb_haveIdxen := Bool.toNat_le haveIdxen
    generalize haveIdxen.toNat = t_haveIdxen at hb_haveIdxen ⊢
    have hb_haveGlc := Bool.toNat_le haveGlc
    generalize haveGlc.toNat = t_haveGlc at hb_haveGlc ⊢
    have hb_haveAddr64 := Bool.toNat_le haveAddr64
    generalize haveAddr64.toNat = t_haveAddr64 at hb_haveAddr64 ⊢
    have hb_haveLds := Bool.toNat_le haveLds
    generalize haveLds.toNat = t_haveLds at hb_haveLds ⊢
    rw [or_window _ (o) 0 12 (by omega) (by omega) (by omega),
      or_window _ (4096 * t_haveOffen) 12 1 (by omega) (by omega) (by omega),
      or_window _ (8192 * t_haveIdxen) 13 1 (by omega) (by omega) (by omega),
      or_window _ (16384 * t_haveGlc) 14 1 (by omega) (by omega) (by omega),
      or_window _ (32768 * t_haveAddr64) 15 1 (by omega) (by omega) (by omega),
      or_window _ (65536 * t_haveLds) 16 1 (by omega) (by omega) (by omega),
      or_window _ (c * 2 ^ 18) 18 7 (by omega) (by omega) (by omega)]
    omega
  rw [gcnClassify_eq, extractOpcode_eq, hw]
  simp only [gcnEncodingOpcodeTable]
  have hb_haveOffen := Bool.toNat_le haveOffen
  generalize haveOffen.toNat = t_haveOffen at hb_haveOffen ⊢
  have hb_haveIdxen := Bool.toNat_le haveIdxen
  generalize haveIdxen.toNat = t_haveIdxen at hb_haveIdxen ⊢
  have hb_haveGlc := Bool.toNat_le haveGlc
  generalize haveGlc.toNat = t_haveGlc at hb_haveGlc ⊢
  have hb_haveAddr64 := Bool.toNat_le haveAddr64
  generalize haveAddr64.toNat = t_haveAddr64 at hb_haveAddr64 ⊢
  have hb_haveLds := Bool.toNat_le haveLds
  generalize haveLds.toNat = t_haveLds at hb_haveLds ⊢
  constructor
  · have a1 : (0xe0000000 + o + 4096 * t_haveOffen + 8192 * t_haveIdxen + 16384 * t_haveGlc + 32768 * t_haveAddr64 + 65536 * t_haveLds + c * 2 ^ 18) / 2 ^ 31 % 2 ≠ 0 := by omega
    have a2 : ¬ ((0xe0000000 + o + 4096 * t_haveOffen + 8192 * t_haveIdxen + 16384 * t_haveGlc + 32768 * t_haveAddr64 + 65536 * t_haveLds + c * 2 ^ 18) / 2 ^ 30 % 2 = 0) := by omega
    have a3 : (0xe0000000 + o + 4096 * t_haveOffen + 8192 * t_haveIdxen + 16384 * t_haveGlc + 32768 * t_haveAddr64 + 65536 * t_haveLds + c * 2 ^ 18) / 2 ^ 26 % 16 = 8 := by omega
    rw [if_pos a1, if_neg a2, a3]
    rfl
  · omega

theorem mtbuf_classified (c o : Nat) (haveOffen haveIdxen haveGlc haveAddr64 : Bool) (df nf : Nat)
    (hc : c < 2 ^ 3) (ho : o < 2 ^ 12) (hdf : df < 2 ^ 4) (hnf : nf < 2 ^ 3) :
    gcnClassify (mtbufWord0 false c o haveOffen haveIdxen haveGlc haveAddr64 df nf) = GCNENC_MTBUF ∧ extractOpcode GCNENC_MTBUF (mtbufWord0 false c o haveOffen haveIdxen haveGlc haveAddr64 df nf) = c := by
  have hw : mtbufWord0 false c o haveOffen haveIdxen haveGlc haveAddr64 df nf = 0xe8000000 + o + 4096 * haveOffen.toNat + 8192 * haveIdxen.toNat + 16384 * haveGlc.toNat + 32768 * haveAddr64.toNat + c * 2 ^ 16 + df * 2 ^ 19 + nf * 2 ^ 23 := by
    unfold mtbufWord0
    simp only [Nat.shiftLeft_eq, bit_eq_mul, and_ff, and_f, Bool.not_false, Bool.and_true,
      Bool.and_false, Bool.false_eq_true, if_false, Bool.toNat_false, Nat.mul_zero, Nat.or_zero,
      Nat.one_mul]
    have hb_haveOffen := Bool.toNat_le haveOffen
    generalize haveOffen.toNat = t_haveOffen at hb_haveOffen ⊢
    have hb_haveIdxen := Bool.toNat_le haveIdxen
    generalize haveIdxen.toNat = t_haveIdxen at hb_haveIdxen ⊢
    have hb_haveGlc := Bool.toNat_le haveGlc
    generalize haveGlc.toNat = t_haveGlc at hb_haveGlc ⊢
    have hb_haveAddr64 := Bool.toNat_le haveAddr64
    generalize haveAddr64.toNat = t_haveAddr64 at hb_haveAddr64 ⊢
    rw [or_window _ (o) 0 12 (by omega) (by omega) (by omega),
      or_window _ (4096 * t_haveOffen) 12 1 (by omega) (by omega) (by omega),
      or_window _ (8192 * t_haveIdxen) 13 1 (by omega) (by omega) (by omega),
      or_window _ (16384 * t_haveGlc) 14 1 (by omega) (by omega) (by omega),
      or_window _ (32768 * t_haveAddr64) 15 1 (by omega) (by omega) (by omega),
      or_window _ (c * 2 ^ 16) 16 3 (by omega) (by omega) (by omega),
      or_window _ (df * 2 ^ 19) 19 4 (by omega) (by omega) (by omega),
      or_window _ (nf * 2 ^ 23) 23 3 (by omega) (by omega) (by omega)]
    omega
  rw [gcnClassify_eq, extractOpcode_eq, hw]
  simp only [gcnEncodingOpcodeTable]
  have hb_haveOffen := Bool.toNat_le haveOffen
  generalize haveOffen.toNat = t_haveOffen at hb_haveOffen ⊢
  have hb_haveIdxen := Bool.toNat_le haveIdxen
  generalize haveIdxen.toNat = t_haveIdxen at hb_haveIdxen ⊢
  have hb_haveGlc := Bool.toNat_le haveGlc
  generalize haveGlc.toNat = t_haveGlc at hb_haveGlc ⊢
  have hb_haveAddr64 := Bool.toNat_le haveAddr64
  generalize haveAddr64.toNat = t_haveAddr64 at hb_haveAddr64 ⊢
  constructor
  · have a1 : (0xe8000000 + o + 4096 * t_haveOffen + 8192 * t_haveIdxen + 16384 * t_haveGlc + 32768 * t_haveAddr64 + c * 2 ^ 16 + df * 2 ^ 19 + nf * 2 ^ 23) / 2 ^ 31 % 2 ≠ 0 := by omega
    have a2 : ¬ ((0xe8000000 + o + 4096 * t_haveOffen + 8192 * t_haveIdxen + 16384 * t_haveGlc + 32768 * t_haveAddr64 + c * 2 ^ 16 + df * 2 ^ 19 + nf * 2 ^ 23) / 2 ^ 30 % 2 = 0) := by omega
    have a3 : (0xe8000000 + o + 4096 * t_haveOffen + 8192 * t_haveIdxen + 16384 * t_haveGlc + 32768 * t_haveAddr64 + c * 2 ^ 16 + df * 2 ^ 19 + nf * 2 ^ 23) / 2 ^ 26 % 16 = 10 := by omega
    rw [if_pos a1, if_neg a2, a3]
    rfl
  · omega

theorem mimg_classified (c dm : Nat) (haveUnorm haveGlc haveDa haveR128 haveA16 haveTfe haveLwe haveSlc : Bool)
    (hc : c < 2 ^ 7) :
    gcnClassify (mimgWord0 c dm haveUnorm haveGlc haveDa haveR128 haveA16 haveTfe haveLwe haveSlc) = GCNENC_MIMG ∧ extractOpcode GCNENC_MIMG (mimgWord0 c dm haveUnorm haveGlc haveDa haveR128 haveA16 haveTfe haveLwe haveSlc) = c := by
  have hw : mimgWord0 c dm haveUnorm haveGlc haveDa haveR128 haveA16 haveTfe haveLwe haveSlc = 0xf0000000 + dm % 16 * 2 ^ 8 + 4096 * haveUnorm.toNat + 8192 * haveGlc.toNat + 16384 * haveDa.toNat + 32768 * (haveR128 || haveA16).toNat + 65536 * haveTfe.toNat + 131072 * haveLwe.toNat + c * 2 ^ 18 + 2 ^ 25 * haveSlc.toNat := by
    unfold mimgWord0
    simp only [Nat.shiftLeft_eq, bit_eq_mul, and_ff, and_f, Bool.not_false, Bool.and_true,
      Bool.and_false, Bool.false_eq_true, if_false, Bool.toNat_false, Nat.mul_zero, Nat.or_zero,
      Nat.one_mul]
    have hb_haveUnorm := Bool.toNat_le haveUnorm
    generalize haveUnorm.toNat = t_haveUnorm at hb_haveUnorm ⊢
    have hb_haveGlc := Bool.toNat_le haveGlc
    generalize haveGlc.toNat = t_haveGlc at hb_haveGlc ⊢
    have hb_haveDa := Bool.toNat_le haveDa
    generalize haveDa.toNat = t_haveDa at hb_haveDa ⊢
    have hb_r128a16 := Bool.toNat_le (haveR128 || haveA16)
    generalize (haveR128 || haveA16).toNat = t_r128a16 at hb_r128a16 ⊢
    have hb_haveTfe := Bool.toNat_le haveTfe
    generalize haveTfe.toNat = t_haveTfe at hb_haveTfe ⊢
    have hb_haveLwe := Bool.toNat_le haveLwe
    generalize haveLwe.toNat = t_haveLwe at hb_haveLwe ⊢
    have hb_haveSlc := Bool.toNat_le haveSlc
    generalize haveSlc.toNat = t_haveSlc at hb_haveSlc ⊢
    rw [or_window _ (dm % 16 * 2 ^ 8) 8 4 (by omega) (by omega) (by omega),
      or_window _ (4096 * t_haveUnorm) 12 1 (by omega) (by omega) (by omega),
      or_window _ (8192 * t_haveGlc) 13 1 (by omega) (by omega) (by omega),
      or_window _ (16384 * t_haveDa) 14 1 (by omega) (by omega) (by omega),
      or_window _ (32768 * t_r128a16) 15 1 (by omega) (by omega) (by omega),
      or_window _ (65536 * t_haveTfe) 16 1 (by omega) (by omega) (by omega),
      or_window _ (131072 * t_haveLwe) 17 1 (by omega) (by omega) (by omega),
      or_window _ (c * 2 ^ 18) 18 7 (by omega) (by omega) (by omega),
      or_window _ (2 ^ 25 * t_haveSlc) 25 1 (by omega) (by omega) (by omega)]
    omega
  rw [gcnClassify_eq, extractOpcode_eq, hw]
  simp only [gcnEncodingOpcodeTable]
  have hb_haveUnorm := Bool.toNat_le haveUnorm
  generalize haveUnorm.toNat = t_haveUnorm at hb_haveUnorm ⊢
  have hb_haveGlc := Bool.toNat_le haveGlc
  generalize haveGlc.toNat = t_haveGlc at hb_haveGlc ⊢
  have hb_haveDa := Bool.toNat_le haveDa
  generalize haveDa.toNat = t_haveDa at hb_haveDa ⊢
  have hb_r128a16 := Bool.toNat_le (haveR128 || haveA16)
  generalize (haveR128 || haveA16).toNat = t_r128a16 at hb_r128a16 ⊢
  have hb_haveTfe := Bool.toNat_le haveTfe
  generalize haveTfe.toNat = t_haveTfe at hb_haveTfe ⊢
  have hb_haveLwe := Bool.toNat_le haveLwe
  generalize haveLwe.toNat = t_haveLwe at hb_haveLwe ⊢
  have hb_haveSlc := Bool.toNat_le haveSlc
  generalize haveSlc.toNat = t_haveSlc at hb_haveSlc ⊢
  constructor
  · have a1 : (0xf0000000 + dm % 16 * 2 ^ 8 + 4096 * t_haveUnorm + 8192 * t_haveGlc + 16384 * t_haveDa + 32768 * t_r128a16 + 65536 * t_haveTfe + 131072 * t_haveLwe + c * 2 ^ 18 + 2 ^ 25 * t_haveSlc) / 2 ^ 31 % 2 ≠ 0 := by omega
    have a2 : ¬ ((0xf0000000 + dm % 16 * 2 ^ 8 + 4096 * t_haveUnorm + 8192 * t_haveGlc + 16384 * t_haveDa + 32768 * t_r128a16 + 65536 * t_haveTfe + 131072 * t_haveLwe + c * 2 ^ 18 + 2 ^ 25 * t_haveSlc) / 2 ^ 30 % 2 = 0) := by omega
    have a3 : (0xf0000000 + dm % 16 * 2 ^ 8 + 4096 * t_haveUnorm + 8192 * t_haveGlc + 16384 * t_haveDa + 32768 * t_r128a16 + 65536 * t_haveTfe + 131072 * t_haveLwe + c * 2 ^ 18 + 2 ^ 25 * t_haveSlc) / 2 ^ 26 % 16 = 12 := by omega
    rw [if_pos a1, if_neg a2, a3]
    rfl
  · omega

theorem exp_classified (en t : Nat) (haveCompr haveDone haveVM : Bool)
    (he : en < 2 ^ 4) (ht : t < 2 ^ 6) :
    gcnClassify (expWord0 false en t haveCompr haveDone haveVM) = GCNENC_EXP ∧ extractOpcode GCNENC_EXP (expWord0 false en t haveCompr haveDone haveVM) = 0 := by
  have hw : expWord0 false en t haveCompr haveDone haveVM = 0xf8000000 + en + t * 2 ^ 4 + 1024 * haveCompr.toNat + 2048 * haveDone.toNat + 4096 * haveVM.toNat := by
    unfold expWord0
    simp only [Nat.shiftLeft_eq, bit_eq_mul, and_ff, and_f, Bool.not_false, Bool.and_true,
      Bool.and_false, Bool.false_eq_true, if_false, Bool.toNat_false, Nat.mul_zero, Nat.or_zero,
      Nat.one_mul]
    have hb_haveCompr := Bool.toNat_le haveCompr
    generalize haveCompr.toNat = t_haveCompr at hb_haveCompr ⊢
    have hb_haveDone := Bool.toNat_le haveDone
    generalize haveDone.toNat = t_haveDone at hb_haveDone ⊢
    have hb_haveVM := Bool.toNat_le haveVM
    generalize haveVM.toNat = t_haveVM at hb_haveVM ⊢
    rw [or_window _ (en) 0 4 (by omega) (by omega) (by omega),
      or_window _ (t * 2 ^ 4) 4 6 (by omega) (by omega) (by omega),
      or_window _ (1024 * t_haveCompr) 10 1 (by omega) (by omega) (by omega),
      or_window _ (2048 * t_haveDone) 11 1 (by omega) (by omega) (by omega),
      or_window _ (4096 * t_haveVM) 12 1 (by omega) (by omega) (by omega)]
    omega
  rw [gcnClassify_eq, extractOpcode_eq, hw]
  simp only [gcnEncodingOpcodeTable]
  have hb_haveCompr := Bool.toNat_le haveCompr
  generalize haveCompr.toNat = t_haveCompr at hb_haveCompr ⊢
  have hb_haveDone := Bool.toNat_le haveDone
  generalize haveDone.toNat = t_haveDone at hb_haveDone ⊢
  have hb_haveVM := Bool.toNat_le haveVM
  generalize haveVM.toNat = t_haveVM at hb_haveVM ⊢
  constructor
  · have a1 : (0xf8000000 + en + t * 2 ^ 4 + 1024 * t_haveCompr + 2048 * t_haveDone + 4096 * t_haveVM) / 2 ^ 31 % 2 ≠ 0 := by omega
    have a2 : ¬ ((0xf8000000 + en + t * 2 ^ 4 + 1024 * t_haveCompr + 2048 * t_haveDone + 4096 * t_haveVM) / 2 ^ 30 % 2 = 0) := by omega
    have a3 : (0xf8000000 + en + t * 2 ^ 4 + 1024 * t_haveCompr + 2048 * t_haveDone + 4096 * t_haveVM) / 2 ^ 26 % 16 = 14 := by omega
    rw [if_pos a1, if_neg a2, a3]
    rfl
  · omega

theorem flat_classified (c : Nat) (haveGlc haveSlc haveLds : Bool) (io fm : Nat)
    (hc : c < 2 ^ 7) (hio : io < 2 ^ 13) (hfm : fm < 2 ^ 2) :
    gcnClassify (flatWord0 c haveGlc haveSlc haveLds io fm) = GCNENC_FLAT ∧ extractOpcode GCNENC_FLAT (flatWord0 c haveGlc haveSlc haveLds io fm) = c := by
  have hw : flatWord0 c haveGlc haveSlc haveLds io fm = 0xdc000000 + 65536 * haveGlc.toNat + 131072 * haveSlc.toNat + c * 2 ^ 18 + 8192 * haveLds.toNat + io + fm * 2 ^ 14 := by
    unfold flatWord0
    simp only [Nat.shiftLeft_eq, bit_eq_mul, and_ff, and_f, Bool.not_false, Bool.and_true,
      Bool.and_false, Bool.false_eq_true, if_false, Bool.toNat_false, Nat.mul_zero, Nat.or_zero,
      Nat.one_mul]
    have hb_haveGlc := Bool.toNat_le haveGlc
    generalize haveGlc.toNat = t_haveGlc at hb_haveGlc ⊢
    have hb_haveSlc := Bool.toNat_le haveSlc
    generalize haveSlc.toNat = t_haveSlc at hb_haveSlc ⊢
    have hb_haveLds := Bool.toNat_le haveLds
    generalize haveLds.toNat = t_haveLds at hb_haveLds ⊢
    rw [or_window _ (65536 * t_haveGlc) 16 1 (by omega) (by omega) (by omega),
      or_window _ (131072 * t_haveSlc) 17 1 (by omega) (by omega) (by omega),
      or_window _ (c * 2 ^ 18) 18 7 (by omega) (by omega) (by omega),
      or_window _ (8192 * t_haveLds) 13 1 (by omega) (by omega) (by omega),
      or_window _ (io) 0 13 (by omega) (by omega) (by omega),
      or_window _ (fm * 2 ^ 14) 14 2 (by omega) (by omega) (by omega)]
    omega
  rw [gcnClassify_eq, extractOpcode_eq, hw]
  simp only [gcnEncodingOpcodeTable]
  have hb_haveGlc := Bool.toNat_le haveGlc
  generalize haveGlc.toNat = t_haveGlc at hb_haveGlc ⊢
  have hb_haveSlc := Bool.toNat_le haveSlc
  generalize haveSlc.toNat = t_haveSlc at hb_haveSlc ⊢
  have hb_haveLds := Bool.toNat_le haveLds
  generalize haveLds.toNat = t_haveLds at hb_haveLds ⊢
  constructor
  · have a1 : (0xdc000000 + 65536 * t_haveGlc + 131072 * t_haveSlc + c * 2 ^ 18 + 8192 * t_haveLds + io + fm * 2 ^ 14) / 2 ^ 31 % 2 ≠ 0 := by omega
    have a2 : ¬ ((0xdc000000 + 65536 * t_haveGlc + 131072 * t_haveSlc + c * 2 ^ 18 + 8192 * t_haveLds + io + fm * 2 ^ 14) / 2 ^ 30 % 2 = 0) := by omega
    have a3 : (0xdc000000 + 65536 * t_haveGlc + 131072 * t_haveSlc + c * 2 ^ 18 + 8192 * t_haveLds + io + fm * 2 ^ 14) / 2 ^ 26 % 16 = 7 := by omega
    rw [if_pos a1, if_neg a2, a3]
    rfl
  · omega

/-! ## resolveCode: stores, read-modify-write updates and the jump target -/

theorem land_lor_land (b m x : Nat) : ((b &&& m) ||| x) &&& m = (b &&& m) ||| (x &&& m) := by
  apply Nat.eq_of_testBit_eq
  intro i
  simp only [Nat.testBit_and, Nat.testBit_or]
  cases Nat.testBit b i <;> cases Nat.testBit m i <;> cases Nat.testBit x i <;> rfl

theorem rmw_idem (b m x : Nat) (h : x &&& m = 0) :
    (((b &&& m) ||| x) &&& m) ||| x = (b &&& m) ||| x := by
  rw [land_lor_land, h, Nat.or_zero]

theorem rmw_lt (b m x n : Nat) (hm : m < 2 ^ n) (hx : x < 2 ^ n) : (b &&& m) ||| x < 2 ^ n :=
  Nat.or_lt_two_pow (Nat.and_lt_two_pow b hm) hx

theorem rmw_store_idem (b m x : Nat) (hm : m < 2 ^ 8) (hx : x < 2 ^ 8) (h : x &&& m = 0) :
    ((((b &&& m) ||| x) % 256 &&& m) ||| x) % 256 = ((b &&& m) ||| x) % 256 := by
  have h1 : (b &&& m) ||| x < 256 := rmw_lt b m x 8 hm hx
  rw [Nat.mod_eq_of_lt h1, rmw_idem b m x h, Nat.mod_eq_of_lt h1]

theorem land_land_zero (v a b : Nat) (h : a &&& b = 0) : (v &&& a) &&& b = 0 := by
  rw [Nat.and_assoc, h, Nat.and_zero]

theorem setByte_apply (m : Nat → Nat) (i v j : Nat) :
    setByte m i v j = if j = i then v % 256 else m j := by
  unfold setByte Function.update
  by_cases h : j = i <;> simp [h]

theorem setByte_same (m : Nat → Nat) (i a b : Nat) :
    setByte (setByte m i a) i b = setByte m i b := by
  funext j
  simp only [setByte_apply]
  split_ifs <;> simp only []

theorem SULEV16_idem (m : Nat → Nat) (i v : Nat) :
    SULEV16 (SULEV16 m i v) i v = SULEV16 m i v := by
  funext j
  simp only [SULEV16, setByte_apply]
  split_ifs <;> simp only []

theorem SULEV32_idem (m : Nat → Nat) (i v : Nat) :
    SULEV32 (SULEV32 m i v) i v = SULEV32 m i v := by
  funext j
  simp only [SULEV32, setByte_apply]
  split_ifs <;> simp only []

theorem ULEV32_SULEV32 (m : Nat → Nat) (i v : Nat) :
    ULEV32 (SULEV32 m i v) i = v % 2 ^ 32 := by
  simp only [ULEV32, SULEV32, getByte, setByte_apply, Nat.shiftRight_eq_div_pow]
  have e1 : ¬ (i = i + 1) := by omega
  have e2 : ¬ (i = i + 2) := by omega
  have e3 : ¬ (i = i + 3) := by omega
  have e4 : ¬ (i + 1 = i + 2) := by omega
  have e5 : ¬ (i + 1 = i + 3) := by omega
  have e6 : ¬ (i + 2 = i + 3) := by omega
  simp only [e1, e2, e3, e4, e5, e6, if_true, if_false]
  omega

/-- A read-modify-write of one byte, `sectionData[i] = (sectionData[i] & mask) | bits`, is
idempotent when `bits` lies outside the mask. -/
theorem rmw_setByte_idem (m : Nat → Nat) (i mask x : Nat) (hm : mask < 2 ^ 8)
    (hx : x < 2 ^ 8) (h : x &&& mask = 0) :
    setByte (setByte m i ((getByte m i &&& mask) ||| x)) i
        ((getByte (setByte m i ((getByte m i &&& mask) ||| x)) i &&& mask) ||| x) =
      setByte m i ((getByte m i &&& mask) ||| x) := by
  funext j
  simp only [setByte_apply, getByte]
  split_ifs
  · exact rmw_store_idem _ _ _ hm hx h
  · simp only []


theorem SULEV32_rmw_idem (m : Nat → Nat) (i mask x : Nat) (hm : mask < 2 ^ 32)
    (hx : x < 2 ^ 32) (h : x &&& mask = 0) :
    SULEV32 (SULEV32 m i ((ULEV32 m i &&& mask) ||| x)) i
        ((ULEV32 (SULEV32 m i ((ULEV32 m i &&& mask) ||| x)) i &&& mask) ||| x) =
      SULEV32 m i ((ULEV32 m i &&& mask) ||| x) := by
  rw [ULEV32_SULEV32, Nat.mod_eq_of_lt (rmw_lt _ mask x 32 hm hx), rmw_idem _ _ _ h,
    SULEV32_idem]

/-- Two consecutive byte updates at `o` and `o + 1`, each a function of the byte it
replaces, are idempotent when both functions are idempotent on stored bytes. -/
theorem rmw2_idem (m : Nat → Nat) (o : Nat) (F G : Nat → Nat)
    (hF : ∀ b, F (F b % 256) % 256 = F b % 256)
    (hG : ∀ b, G (G b % 256) % 256 = G b % 256) :
    setByte
        (setByte
          (setByte (setByte m o (F (getByte m o))) (o + 1)
            (G (getByte (setByte m o (F (getByte m o))) (o + 1))))
          o
          (F (getByte
            (setByte (setByte m o (F (getByte m o))) (o + 1)
              (G (getByte (setByte m o (F (getByte m o))) (o + 1)))) o)))
        (o + 1)
        (G (getByte
          (setByte
            (setByte (setByte m o (F (getByte m o))) (o + 1)
              (G (getByte (setByte m o (F (getByte m o))) (o + 1))))
            o
            (F (getByte
              (setByte (setByte m o (F (getByte m o))) (o + 1)
                (G (getByte (setByte m o (F (getByte m o))) (o + 1)))) o)))
          (o + 1))) =
      setByte (setByte m o (F (getByte m o))) (o + 1)
        (G (getByte (setByte m o (F (getByte m o))) (o + 1))) := by
  have e1 : ¬ (o + 1 = o) := by omega
  have e2 : ¬ (o = o + 1) := by omega
  funext j
  simp only [setByte_apply, getByte, e1, e2, if_true, if_false]
  by_cases h1 : j = o + 1
  · simp only [h1, if_true]
    exact hG _
  · simp only [h1, if_false]
    by_cases h2 : j = o
    · simp only [h2, if_true]
      exact hF _
    · simp only [h2, if_false]

theorem shl6_low_zero (v : Nat) : ((v <<< 6) &&& 0xff) &&& 0x3f = 0 := by
  rw [Nat.and_assoc]
  have : (0xff : Nat) &&& 0x3f = 2 ^ 6 - 1 := by decide
  rw [this, Nat.and_pow_two_sub_one_eq_mod, Nat.shiftLeft_eq]
  omega

theorem and_lt_256 (a b : Nat) (h : b < 256) : a &&& b < 2 ^ 8 :=
  Nat.lt_of_le_of_lt Nat.and_le_right h

theorem shr8_and (v c : Nat) : (v &&& c) >>> 8 = (v >>> 8) &&& (c >>> 8) := by
  apply Nat.eq_of_testBit_eq
  intro i
  simp only [Nat.testBit_and, Nat.testBit_shiftRight]

theorem resolveCode_ret_indep (targetSectionId : Nat) (m m' : Nat → Nat) (offset : Nat)
    (targetType : AsmExprTargetType) (sectionId value : Nat) :
    (resolveCode targetSectionId m offset targetType sectionId value).ret =
      (resolveCode targetSectionId m' offset targetType sectionId value).ret := by
  cases targetType <;> simp only [resolveCode, resolveDone, resolveFail] <;>
    (try split_ifs) <;> simp only []

theorem resolveCode_data_idem (targetSectionId : Nat) (m : Nat → Nat) (offset : Nat)
    (targetType : AsmExprTargetType) (sectionId value : Nat) :
    (resolveCode targetSectionId
        (resolveCode targetSectionId m offset targetType sectionId value).sectionData
        offset targetType sectionId value).sectionData =
      (resolveCode targetSectionId m offset targetType sectionId value).sectionData := by
  cases targetType
  case GCNTGT_MXBUFOFFSET =>
    simp only [resolveCode, resolveDone, resolveFail]
    split_ifs
    · simp only []
    · exact rmw2_idem m offset (fun _ => value &&& 255)
        (fun b => b &&& 240 ||| value >>> 8 &&& 15) (fun _ => by simp only [])
        (fun b => rmw_store_idem b 240 (value >>> 8 &&& 15) (by norm_num)
          (and_lt_256 _ 15 (by norm_num)) (land_land_zero _ 15 240 (by decide)))
  case GCNTGT_SMEMOFFSETVEGA =>
    simp only [resolveCode, resolveDone, resolveFail]
    split_ifs
    · simp only []
    · exact SULEV32_rmw_idem m (offset + 4) 4292870144 (value &&& 2097151) (by norm_num)
        (Nat.lt_of_le_of_lt Nat.and_le_right (by norm_num))
        (land_land_zero value 2097151 4292870144 (by decide))
  case GCNTGT_SMEMIMM =>
    simp only [resolveCode, resolveDone, resolveFail]
    split_ifs
    · simp only []
    · exact rmw2_idem m offset (fun b => b &&& 63 ||| value <<< 6 &&& 255)
        (fun b => b &&& 224 ||| value >>> 2 &&& 31)
        (fun b => rmw_store_idem b 63 (value <<< 6 &&& 255) (by norm_num)
          (and_lt_256 _ 255 (by norm_num)) (shl6_low_zero value))
        (fun b => rmw_store_idem b 224 (value >>> 2 &&& 31) (by norm_num)
          (and_lt_256 _ 31 (by norm_num)) (land_land_zero _ 31 224 (by decide)))
  case GCNTGT_INSTOFFSET =>
    simp only [resolveCode, resolveDone, resolveFail]
    split_ifs
    · simp only []
    · simp only [shr8_and]
      exact rmw2_idem m offset (fun _ => value)
        (fun b => b &&& 240 ||| value >>> 8 &&& 3840 >>> 8) (fun _ => by simp only [])
        (fun b => rmw_store_idem b 240 (value >>> 8 &&& 3840 >>> 8) (by norm_num)
          (and_lt_256 _ (3840 >>> 8) (by decide)) (land_land_zero _ (3840 >>> 8) 240 (by decide)))
  case GCNTGT_INSTOFFSET_S =>
    simp only [resolveCode, resolveDone, resolveFail]
    split_ifs
    · simp only []
    · simp only [shr8_and]
      exact rmw2_idem m offset (fun _ => value)
        (fun b => b &&& 224 ||| value >>> 8 &&& 7936 >>> 8) (fun _ => by simp only [])
        (fun b => rmw_store_idem b 224 (value >>> 8 &&& 7936 >>> 8) (by norm_num)
          (and_lt_256 _ (7936 >>> 8) (by decide)) (land_land_zero _ (7936 >>> 8) 224 (by decide)))
  all_goals
    simp only [resolveCode, resolveDone, resolveFail]
    try split_ifs
    all_goals try simp only []
    all_goals try rw [SULEV32_idem]
    all_goals try rw [SULEV16_idem]
    all_goals try rw [setByte_same]

theorem ULEV16_SULEV16 (m : Nat → Nat) (i v : Nat) :
    ULEV16 (SULEV16 m i v) i = v % 2 ^ 16 := by
  simp only [ULEV16, SULEV16, getByte, setByte_apply, Nat.shiftRight_eq_div_pow]
  have e1 : ¬ (i = i + 1) := by omega
  simp only [e1, if_true, if_false]
  omega

theorem SULEV16_other (m : Nat → Nat) (i v j : Nat) (h0 : j ≠ i) (h1 : j ≠ i + 1) :
    SULEV16 m i v j = m j := by
  simp only [SULEV16, setByte_apply, h0, h1, if_false]

theorem toInt64_of_lt (x : Nat) (h : x < 2 ^ 63) : toInt64 x = (x : Int) := by
  unfold toInt64
  have h1 : x % 2 ^ 64 = x := Nat.mod_eq_of_lt (by omega)
  rw [h1, if_pos h]

theorem toUInt16_lt (i : Int) : toUInt16 i < 2 ^ 16 := by
  unfold toUInt16
  omega

/-- The relative word offset that `resolveCode` computes for a jump. -/
theorem sopjmp_outOffset (value offset : Nat) (ho : offset < 2 ^ 62) :
    (wrapInt64 (toInt64 value - toInt64 offset - 4) = toInt64 value - (offset : Int) - 4 ∧
      - 2 ^ 63 ≤ toInt64 value - (offset : Int) - 4) ∨
    (wrapInt64 (toInt64 value - toInt64 offset - 4) = toInt64 value - (offset : Int) - 4 + 2 ^ 64 ∧
      toInt64 value - (offset : Int) - 4 < - 2 ^ 63 ∧
      - 2 ^ 63 - 2 ^ 62 - 4 ≤ toInt64 value - (offset : Int) - 4) := by
  rw [toInt64_of_lt offset (by omega)]
  have hb : - 2 ^ 63 ≤ toInt64 value ∧ toInt64 value < 2 ^ 63 := by
    unfold toInt64
    split_ifs <;> omega
  unfold wrapInt64
  generalize toInt64 value = a at hb ⊢
  split_ifs <;> omega

theorem int_shr2 (x : Int) : x >>> (2 : Nat) = x / 4 := by
  rw [Int.shiftRight_eq_div_pow]
  norm_num

/-- C4: `resolveCode` for the PC-relative jump target `GCNTGT_SOPJMP`, at a site offset below
2^62 and with the value read as a signed 64-bit number as the code reads it, succeeds exactly
when the value lies in the target's own section, `value - offset - 4` is a multiple of 4 and
`-2^17 <= value - offset - 4 <= 2^17 - 4`; on success the 16-bit little-endian field at the
site holds `(value - offset - 4) / 4` in two's complement while the opcode half-word after it
and every other byte are unchanged; on failure the section is unchanged. -/
theorem resolveCode_SOPJMP (targetSectionId : Nat) (sectionData : Nat → Nat)
    (offset sectionId value : Nat) (ho : offset < 2 ^ 62) :
    ((resolveCode targetSectionId sectionData offset GCNTGT_SOPJMP sectionId value).ret = true ↔
      (sectionId = targetSectionId ∧ (toInt64 value - (offset : Int) - 4) % 4 = 0 ∧
        - 2 ^ 17 ≤ toInt64 value - (offset : Int) - 4 ∧
        toInt64 value - (offset : Int) - 4 ≤ 2 ^ 17 - 4)) ∧
    ((resolveCode targetSectionId sectionData offset GCNTGT_SOPJMP sectionId value).ret = true →
      ULEV16 (resolveCode targetSectionId sectionData offset GCNTGT_SOPJMP sectionId
          value).sectionData offset = toUInt16 ((toInt64 value - (offset : Int) - 4) / 4) ∧
      ULEV16 (resolveCode targetSectionId sectionData offset GCNTGT_SOPJMP sectionId
          value).sectionData (offset + 2) = ULEV16 sectionData (offset + 2) ∧
      ∀ j, j ≠ offset → j ≠ offset + 1 →
        (resolveCode targetSectionId sectionData offset GCNTGT_SOPJMP sectionId
          value).sectionData j = sectionData j) ∧
    ((resolveCode targetSectionId sectionData offset GCNTGT_SOPJMP sectionId value).ret = false →
      (resolveCode targetSectionId sectionData offset GCNTGT_SOPJMP sectionId
          value).sectionData = sectionData) := by
  simp only [resolveCode, resolveFail, INT16_MAX, INT16_MIN, int_shr2]
  rcases sopjmp_outOffset value offset ho with ⟨hw, hr⟩ | ⟨hw, hr, hl⟩ <;> rw [hw] <;>
    generalize toInt64 value - (offset : Int) - 4 = d at *
  · by_cases h1 : sectionId ≠ targetSectionId
    · simp only [if_pos h1, Bool.false_eq_true, false_iff, false_implies, true_and,
        implies_true, and_true]
      omega
    · simp only [if_neg h1]
      by_cases h2 : d % 4 ≠ 0
      · simp only [if_pos h2, Bool.false_eq_true, false_iff, false_implies, true_and,
          implies_true, and_true]
        omega
      · simp only [if_neg h2]
        by_cases h3 : d / 4 > 32767 ∨ d / 4 < -32768
        · simp only [if_pos h3, Bool.false_eq_true, false_iff, false_implies, true_and,
            implies_true, and_true]
          omega
        · simp only [if_neg h3, true_iff, true_implies, Bool.true_eq_false, false_implies,
            and_true]
          refine ⟨⟨by omega, by omega, by omega, by omega⟩, ?_, ?_, ?_⟩
          · rw [ULEV16_SULEV16]
            exact Nat.mod_eq_of_lt (toUInt16_lt _)
          · simp only [ULEV16, getByte]
            rw [SULEV16_other _ _ _ _ (by omega) (by omega),
              SULEV16_other _ _ _ _ (by omega) (by omega)]
          · intro j h0 h1
            exact SULEV16_other _ _ _ _ h0 h1
  · by_cases h1 : sectionId ≠ targetSectionId
    · simp only [if_pos h1, Bool.false_eq_true, false_iff, false_implies, true_and,
        implies_true, and_true]
      omega
    · simp only [if_neg h1]
      by_cases h2 : (d + 2 ^ 64) % 4 ≠ 0
      · simp only [if_pos h2, Bool.false_eq_true, false_iff, false_implies, true_and,
          implies_true, and_true]
        omega
      · simp only [if_neg h2]
        have h4 : (d + 2 ^ 64) / 4 > 32767 ∨ (d + 2 ^ 64) / 4 < -32768 := by omega
        simp only [if_pos h4, Bool.false_eq_true, false_iff, false_implies, true_and,
          implies_true, and_true]
        omega

/-! ## resolveCode: idempotence and the encoded jump -/

/-- The target that the main pass computes for a jump word which the encoder produced at
byte offset `P` for the target `T` is `T + 4`, for every placement the encoder accepts. -/
theorem branchPos_encoded_jump (P T : Nat) (hP : P % 4 = 0) (hP2 : P < 2 ^ 62)
    (hT : T < 2 ^ 64) (hd : (toInt64 T - (P : Int) - 4) % 4 = 0)
    (hl : - 2 ^ 17 ≤ toInt64 T - (P : Int) - 4) (hu : toInt64 T - (P : Int) - 4 ≤ 2 ^ 17 - 4) :
    branchPos (P / 4 + 1) (toUInt16 ((toInt64 T - (P : Int) - 4) / 4)) = (T + 4) % 2 ^ 64 := by
  have hb : toInt64 T = (T : Int) ∨ toInt64 T = (T : Int) - 2 ^ 64 := by
    unfold toInt64
    split_ifs <;> omega
  unfold branchPos toSizeT int16_t toUInt16
  generalize toInt64 T = a at *
  split_ifs <;> omega

/-- C3: for every relocation target kind, section contents, offset and value on which
`resolveCode` succeeds, calling `resolveCode` again with the same arguments on the resulting
section succeeds and leaves every byte of the section unchanged. -/
theorem resolveCode_idempotent (targetSectionId : Nat) (sectionData : Nat → Nat)
    (offset : Nat) (targetType : AsmExprTargetType) (sectionId value : Nat)
    (h : (resolveCode targetSectionId sectionData offset targetType sectionId value).ret = true) :
    (resolveCode targetSectionId
        (resolveCode targetSectionId sectionData offset targetType sectionId value).sectionData
        offset targetType sectionId value).ret = true ∧
    (resolveCode targetSectionId
        (resolveCode targetSectionId sectionData offset targetType sectionId value).sectionData
        offset targetType sectionId value).sectionData =
      (resolveCode targetSectionId sectionData offset targetType sectionId value).sectionData := by
  constructor
  · rw [← h]
    apply resolveCode_ret_indep
  · apply resolveCode_data_idem

set_option maxRecDepth 100000 in
theorem resolveCode_idempotent_witness :
    (resolveCode 0 (memOfBytes [0x00, 0x70, 0x0c, 0xe0, 0, 0, 0, 0]) 0 GCNTGT_MXBUFOFFSET
        ASMSECT_ABS 0x123).ret = true ∧
    (resolveCode 0
        (resolveCode 0 (memOfBytes [0x00, 0x70, 0x0c, 0xe0, 0, 0, 0, 0]) 0 GCNTGT_MXBUFOFFSET
          ASMSECT_ABS 0x123).sectionData
        0 GCNTGT_MXBUFOFFSET ASMSECT_ABS 0x123).ret = true ∧
    (resolveCode 0
        (resolveCode 0 (memOfBytes [0x00, 0x70, 0x0c, 0xe0, 0, 0, 0, 0]) 0 GCNTGT_MXBUFOFFSET
          ASMSECT_ABS 0x123).sectionData
        0 GCNTGT_MXBUFOFFSET ASMSECT_ABS 0x123).sectionData =
      (resolveCode 0 (memOfBytes [0x00, 0x70, 0x0c, 0xe0, 0, 0, 0, 0]) 0 GCNTGT_MXBUFOFFSET
        ASMSECT_ABS 0x123).sectionData :=
  ⟨by decide,
    resolveCode_idempotent 0 (memOfBytes [0x00, 0x70, 0x0c, 0xe0, 0, 0, 0, 0]) 0
      GCNTGT_MXBUFOFFSET ASMSECT_ABS 0x123 (by decide)⟩

set_option maxRecDepth 100000 in
theorem resolveCode_SOPJMP_witness :
    (8 : Nat) < 2 ^ 62 ∧
    (((resolveCode 0 (memOfBytes [0, 0, 0x80, 0xbf, 0, 0, 0x80, 0xbf, 0, 0, 0x82, 0xbf]) 8
        GCNTGT_SOPJMP 0 4).ret = true ↔
      ((0 : Nat) = 0 ∧ (toInt64 4 - ((8 : Nat) : Int) - 4) % 4 = 0 ∧
        - 2 ^ 17 ≤ toInt64 4 - ((8 : Nat) : Int) - 4 ∧
        toInt64 4 - ((8 : Nat) : Int) - 4 ≤ 2 ^ 17 - 4)) ∧
    ((resolveCode 0 (memOfBytes [0, 0, 0x80, 0xbf, 0, 0, 0x80, 0xbf, 0, 0, 0x82, 0xbf]) 8
        GCNTGT_SOPJMP 0 4).ret = true →
      ULEV16 (resolveCode 0 (memOfBytes [0, 0, 0x80, 0xbf, 0, 0, 0x80, 0xbf, 0, 0, 0x82, 0xbf])
          8 GCNTGT_SOPJMP 0 4).sectionData 8 = toUInt16 ((toInt64 4 - ((8 : Nat) : Int) - 4) / 4) ∧
      ULEV16 (resolveCode 0 (memOfBytes [0, 0, 0x80, 0xbf, 0, 0, 0x80, 0xbf, 0, 0, 0x82, 0xbf])
          8 GCNTGT_SOPJMP 0 4).sectionData (8 + 2) =
        ULEV16 (memOfBytes [0, 0, 0x80, 0xbf, 0, 0, 0x80, 0xbf, 0, 0, 0x82, 0xbf]) (8 + 2) ∧
      ∀ j, j ≠ 8 → j ≠ 8 + 1 →
        (resolveCode 0 (memOfBytes [0, 0, 0x80, 0xbf, 0, 0, 0x80, 0xbf, 0, 0, 0x82, 0xbf]) 8
          GCNTGT_SOPJMP 0 4).sectionData j =
          memOfBytes [0, 0, 0x80, 0xbf, 0, 0, 0x80, 0xbf, 0, 0, 0x82, 0xbf] j) ∧
    ((resolveCode 0 (memOfBytes [0, 0, 0x80, 0xbf, 0, 0, 0x80, 0xbf, 0, 0, 0x82, 0xbf]) 8
        GCNTGT_SOPJMP 0 4).ret = false →
      (resolveCode 0 (memOfBytes [0, 0, 0x80, 0xbf, 0, 0, 0x80, 0xbf, 0, 0, 0x82, 0xbf]) 8
        GCNTGT_SOPJMP 0 4).sectionData =
        memOfBytes [0, 0, 0x80, 0xbf, 0, 0, 0x80, 0xbf, 0, 0, 0x82, 0xbf])) :=
  ⟨by norm_num,
    resolveCode_SOPJMP 0 (memOfBytes [0, 0, 0x80, 0xbf, 0, 0, 0x80, 0xbf, 0, 0, 0x82, 0xbf]) 8 0 4
      (by norm_num)⟩

set_option maxRecDepth 100000 in
/-- The jump at byte offset 8 with target 4 is resolved to the bytes `FE FF 82 BF`. -/
theorem sopjmp_resolved_bytes_example :
    (resolveCode 0 (memOfBytes [0, 0, 0x80, 0xbf, 0, 0, 0x80, 0xbf, 0, 0, 0x82, 0xbf]) 8
        GCNTGT_SOPJMP 0 4).ret = true ∧
    bytesOfMem (resolveCode 0 (memOfBytes [0, 0, 0x80, 0xbf, 0, 0, 0x80, 0xbf, 0, 0, 0x82, 0xbf])
        8 GCNTGT_SOPJMP 0 4).sectionData 12 =
      [0, 0, 0x80, 0xbf, 0, 0, 0x80, 0xbf, 0xfe, 0xff, 0x82, 0xbf] := by
  decide

/-! ## Encoder first words against the classifier of the disassembler -/

theorem smrd_classified (c d sb : Nat) (isImm : Bool) (ov o : Nat) (hc : c < 2 ^ 5)
    (hd : d < 2 ^ 7) (hsb : sb < 2 ^ 7) (hov : ov < 2 ^ 8) (ho : o < 2 ^ 8) :
    gcnClassify (smrdWord c d sb isImm ov o) = GCNENC_SMRD ∧
      extractOpcode GCNENC_SMRD (smrdWord c d sb isImm ov o) = c := by
  obtain ⟨x, hx, hw⟩ : ∃ x, x < 2 ^ 9 ∧ smrdWord c d sb isImm ov o =
      0xc0000000 + c * 2 ^ 22 + d * 2 ^ 15 + (sb - sb % 2) * 2 ^ 8 + x := by
    cases isImm
    · refine ⟨o, by omega, ?_⟩
      unfold smrdWord
      simp only [Nat.shiftLeft_eq, bit_eq_mul, Bool.false_eq_true, if_false, Bool.toNat_false,
        Nat.mul_zero, Nat.or_zero]
      rw [or_window _ (c * 2 ^ 22) 22 5 (by omega) (by omega) (by omega),
        or_window _ (d * 2 ^ 15) 15 7 (by omega) (by omega) (by omega),
        or_window _ ((sb - sb % 2) * 2 ^ 8) 9 6 (by omega) (by omega) (by omega),
        or_window _ o 0 8 (by omega) (by omega) (by omega)]
      omega
    · refine ⟨256 + ov, by omega, ?_⟩
      unfold smrdWord
      simp only [Nat.shiftLeft_eq, bit_eq_mul, if_true, Bool.toNat_true, Nat.mul_one]
      rw [or_window _ (c * 2 ^ 22) 22 5 (by omega) (by omega) (by omega),
        or_window _ (d * 2 ^ 15) 15 7 (by omega) (by omega) (by omega),
        or_window _ ((sb - sb % 2) * 2 ^ 8) 9 6 (by omega) (by omega) (by omega),
        or_window _ 256 8 1 (by omega) (by omega) (by omega),
        or_window _ ov 0 8 (by omega) (by omega) (by omega)]
      omega
  rw [gcnClassify_eq, extractOpcode_eq, hw]
  simp only [gcnEncodingOpcodeTable]
  constructor
  · have a1 : (0xc0000000 + c * 2 ^ 22 + d * 2 ^ 15 + (sb - sb % 2) * 2 ^ 8 + x) / 2 ^ 31 % 2 ≠ 0 := by
      omega
    have a2 : ¬ ((0xc0000000 + c * 2 ^ 22 + d * 2 ^ 15 + (sb - sb % 2) * 2 ^ 8 + x) / 2 ^ 30 % 2 = 0) := by
      omega
    have a3 : (0xc0000000 + c * 2 ^ 22 + d * 2 ^ 15 + (sb - sb % 2) * 2 ^ 8 + x) / 2 ^ 26 % 16 = 0 ∨
        (0xc0000000 + c * 2 ^ 22 + d * 2 ^ 15 + (sb - sb % 2) * 2 ^ 8 + x) / 2 ^ 26 % 16 = 1 := by
      omega
    rw [if_pos a1, if_neg a2]
    rcases a3 with a3 | a3 <;> rw [a3] <;> rfl
  · omega

/-- C8 (amended): on GCN 1.0, for every encoding family, every descriptor opcode that fits
the family's opcode field and does not run into the fixed bit pattern of another family
(SOP2 opcode below 96, SOPK opcode below 29, VOP2 opcode below 62), and all operand values
in the range of their fields, the first word emitted by the family's encoder routine is
classified by `disassemble` as the same family (VOP3B as VOP3A) and the opcode extracted
from the word is the descriptor's opcode. -/
theorem encoder_word0_classified (i : EncoderInput) (hr : i.FieldsInRange) (hf : i.OpcodeFits)
    (hn : i.NoFamilyClash) (input : List Nat) (codeWordsNum pos : Nat)
    (hp : pos + 1 < codeWordsNum) :
    ∃ f, determineEncoding input codeWordsNum i.word0 pos = Except.ok f ∧
      f.gcnEncoding = disasmFamily i.encoding ∧
      extractOpcode f.gcnEncoding i.word0 = i.code1 := by
  obtain ⟨f, hf1, hf2⟩ := determineEncoding_family input codeWordsNum i.word0 pos hp
  refine ⟨f, hf1, ?_⟩
  rw [hf2]
  cases i <;>
    simp only [EncoderInput.FieldsInRange, EncoderInput.OpcodeFits, EncoderInput.NoFamilyClash,
      EncoderInput.encoding, EncoderInput.code1, EncoderInput.word0, opcodeFieldBits,
      disasmFamily] at hr hf hn ⊢
  case sopc c s0 s1 =>
    obtain ⟨h, h'⟩ := sopc_classified c s0 s1 hf hr.1 hr.2
    exact ⟨h, by rw [h]; exact h'⟩
  case sopp c imm16 =>
    obtain ⟨h, h'⟩ := sopp_classified c imm16 hf hr
    exact ⟨h, by rw [h]; exact h'⟩
  case sop1 c s0 d =>
    obtain ⟨h, h'⟩ := sop1_classified c s0 d hf hr.1 hr.2
    exact ⟨h, by rw [h]; exact h'⟩
  case sop2 c s0 s1 d =>
    obtain ⟨h, h'⟩ := sop2_classified c s0 s1 d hn hr.1 hr.2.1 hr.2.2
    exact ⟨h, by rw [h]; exact h'⟩
  case sopk c imm16 d =>
    obtain ⟨h, h'⟩ := sopk_classified c imm16 d hn hr.1 hr.2
    exact ⟨h, by rw [h]; exact h'⟩
  case smrd c d sb isImm ov o =>
    obtain ⟨h, h'⟩ := smrd_classified c d sb isImm ov o hf hr.1 hr.2.1 hr.2.2.1 hr.2.2.2
    exact ⟨h, by rw [h]; exact h'⟩
  case vopc c s0 s1 =>
    obtain ⟨h, h'⟩ := vopc_classified c s0 s1 hf hr
    exact ⟨h, by rw [h]; exact h'⟩
  case vop1 c s0 d =>
    obtain ⟨h, h'⟩ := vop1_classified c s0 d hf hr
    exact ⟨h, by rw [h]; exact h'⟩
  case vop2 c s0 s1 d =>
    obtain ⟨h, h'⟩ := vop2_classified c s0 s1 d hn hr
    exact ⟨h, by rw [h]; exact h'⟩
  case vop3a c d clamp abs0 abs1 abs2 =>
    obtain ⟨h, h'⟩ := vop3a_classified c d clamp abs0 abs1 abs2 hf
    exact ⟨h, by rw [h]; exact h'⟩
  case vop3b c d sd =>
    obtain ⟨h, h'⟩ := vop3b_classified c d sd hf hr
    exact ⟨h, by rw [h]; exact h'⟩
  case vintrp c src attrVal d =>
    obtain ⟨h, h'⟩ := vintrp_classified c src attrVal d hf
    exact ⟨h, by rw [h]; exact h'⟩
  case ds c o g =>
    obtain ⟨h, h'⟩ := ds_classified c o g hf hr
    exact ⟨h, by rw [h]; exact h'⟩
  case mubuf c o oe ie gl a64 lds slc =>
    obtain ⟨h, h'⟩ := mubuf_classified c o oe ie gl a64 lds slc hf hr
    exact ⟨h, by rw [h]; exact h'⟩
  case mtbuf c o oe ie gl a64 df nf =>
    obtain ⟨h, h'⟩ := mtbuf_classified c o oe ie gl a64 df nf hf hr.1 hr.2.1 hr.2.2
    exact ⟨h, by rw [h]; exact h'⟩
  case mimg c dm un gl da r128 a16 tfe lwe slc =>
    obtain ⟨h, h'⟩ := mimg_classified c dm un gl da r128 a16 tfe lwe slc hf
    exact ⟨h, by rw [h]; exact h'⟩
  case exp en t co dn vm =>
    obtain ⟨h, h'⟩ := exp_classified en t co dn vm hr.1 hr.2
    exact ⟨h, by rw [h]; exact h'⟩
  case flat c gl sl lds io fm =>
    obtain ⟨h, h'⟩ := flat_classified c gl sl lds io fm hf hr.1 hr.2
    exact ⟨h, by rw [h]; exact h'⟩

theorem encoder_word0_classified_witness :
    (EncoderInput.vop2 3 258 259 257).FieldsInRange ∧
    (EncoderInput.vop2 3 258 259 257).OpcodeFits ∧
    (EncoderInput.vop2 3 258 259 257).NoFamilyClash ∧ 0 + 1 < 2 ∧
    ∃ f, determineEncoding [] 2 (EncoderInput.vop2 3 258 259 257).word0 0 = Except.ok f ∧
      f.gcnEncoding = disasmFamily (EncoderInput.vop2 3 258 259 257).encoding ∧
      extractOpcode f.gcnEncoding (EncoderInput.vop2 3 258 259 257).word0 =
        (EncoderInput.vop2 3 258 259 257).code1 :=
  ⟨by simp [EncoderInput.FieldsInRange],
    by simp [EncoderInput.OpcodeFits, EncoderInput.code1, EncoderInput.encoding, opcodeFieldBits],
    by simp [EncoderInput.NoFamilyClash], by decide,
    encoder_word0_classified (EncoderInput.vop2 3 258 259 257)
      (by simp [EncoderInput.FieldsInRange])
      (by simp [EncoderInput.OpcodeFits, EncoderInput.code1, EncoderInput.encoding,
        opcodeFieldBits])
      (by simp [EncoderInput.NoFamilyClash]) [] 2 0 (by decide)⟩

/-- C8 (counterexample): the VOP2 opcode 62 fits the 6-bit opcode field, but the first word
that the VOP2 encoder emits for it is classified as VOPC. -/
theorem vop2_opcode62_classified_as_vopc :
    (EncoderInput.vop2 62 0 0 0).FieldsInRange ∧ (EncoderInput.vop2 62 0 0 0).OpcodeFits ∧
    ∃ f, determineEncoding [] 2 (EncoderInput.vop2 62 0 0 0).word0 0 = Except.ok f ∧
      f.gcnEncoding = GCNENC_VOPC ∧
      GCNENC_VOPC ≠ disasmFamily (EncoderInput.vop2 62 0 0 0).encoding :=
  ⟨by simp [EncoderInput.FieldsInRange],
    by simp [EncoderInput.OpcodeFits, EncoderInput.code1, EncoderInput.encoding, opcodeFieldBits],
    ⟨GCNENC_VOPC, 0, 0, 0⟩, by rfl, rfl, by decide⟩

/-! ## Evaluations of the disassembler and of the encoders -/

/-- An entry of the by-code table whose index is not the offset of an encoding space is
never stored to by `initializeGCNDisassembler` and keeps the null mnemonic. -/
theorem initializeGCNDisassembler_null (gcnInstrsTable : List GCNInstruction) (i : Nat)
    (h : ∀ e, gcnInstrTableByCodeSpaces e ≠ i) :
    (initializeGCNDisassembler gcnInstrsTable i).mnemonic = none := by
  unfold initializeGCNDisassembler
  generalize gcnInstrsTable.takeWhile (fun instr => instr.mnemonic.isSome) = l
  have key : ∀ (l : List GCNInstruction) (t : Nat → GCNInstruction),
      (l.foldl (fun gcnInstrTableByCode instr =>
        Function.update gcnInstrTableByCode (gcnInstrTableByCodeSpaces instr.encoding) instr)
        t) i = t i := by
    intro l
    induction l with
    | nil => intro t; rfl
    | cons x l ih =>
      intro t
      rw [List.foldl_cons, ih]
      exact Function.update_noteq (h x.encoding).symm _ _
  rw [key]

/-- No encoding space starts at the index `0x80 + 2` of the SOPP opcode 2. -/
theorem no_space_at_sopp_opcode2 (e : GCNEncoding) :
    gcnInstrTableByCodeSpaces e ≠ 0x80 + 2 := by
  cases e <;> decide

/-- The main pass on a one-word buffer whose word is a SOPP word with opcode 2, for every
instruction table: the lookup reads an entry with a null mnemonic. -/
theorem disassemble_sopp_opcode2_null (gcnInstrsTable : List GCNInstruction)
    (M : GCNModeConsts) (floatLits : Bool) (ftocstrCStyle : Nat → List Nat)
    (w : Nat) (labels : List Nat)
    (hw : determineEncoding (wordsToBytes [w]) 1 (codeWord (wordsToBytes [w]) 0) 1 =
      Except.ok ⟨GCNENC_SOPP, 0, 0, 1⟩)
    (ho : extractOpcode GCNENC_SOPP (codeWord (wordsToBytes [w]) 0) = 2) :
    (disassemble ⟨initializeGCNDisassembler gcnInstrsTable, M, floatLits, ftocstrCStyle⟩
      (wordsToBytes [w]) labels).fault = some DisasmFault.nullMnemonic ∧
    (disassemble ⟨initializeGCNDisassembler gcnInstrsTable, M, floatLits, ftocstrCStyle⟩
      (wordsToBytes [w]) labels).branchTargets = [] ∧
    (disassemble ⟨initializeGCNDisassembler gcnInstrsTable, M, floatLits, ftocstrCStyle⟩
      (wordsToBytes [w]) labels).output = [] := by
  have hn := initializeGCNDisassembler_null gcnInstrsTable (0x80 + 2) no_space_at_sopp_opcode2
  have hl : (wordsToBytes [w]).length = 4 := rfl
  have hs : ∀ st : DisasmState, (disassembleStep
      ⟨initializeGCNDisassembler gcnInstrsTable, M, floatLits, ftocstrCStyle⟩
      (wordsToBytes [w]) st 0).1.fault = some DisasmFault.nullMnemonic ∧
      (disassembleStep ⟨initializeGCNDisassembler gcnInstrsTable, M, floatLits, ftocstrCStyle⟩
        (wordsToBytes [w]) st 0).1.branchTargets = st.branchTargets ∧
      (disassembleStep ⟨initializeGCNDisassembler gcnInstrsTable, M, floatLits, ftocstrCStyle⟩
        (wordsToBytes [w]) st 0).1.output = st.output := by
    intro st
    unfold disassembleStep
    simp only [hl, Nat.zero_add, show (4 : Nat) / 4 = 1 from rfl, hw, ho]
    have hg : gcnInstrTableByCodeSpaces GCNENC_SOPP = 0x80 := rfl
    rw [hg, hn]
    exact ⟨rfl, rfl, rfl⟩
  unfold disassemble
  rw [if_neg (by rw [hl]; decide)]
  simp only [hl, show (4 : Nat) / 4 = 1 from rfl]
  unfold disassembleLoop
  rw [if_pos (by rw [hl]; decide)]
  obtain ⟨h1, h2, h3⟩ := hs
    { output := [], buf := [], curLabel := labels, branchTargets := [], fault := none }
  simp only [h1, h2, h3, and_self]

/-- One iteration of the main loop removes the first pending label exactly when it is the
byte address of the instruction start; otherwise the label pointer stays where it is. -/
theorem disassembleStep_curLabel (env : DisasmEnv) (input : List Nat) (st : DisasmState)
    (pos : Nat) :
    (disassembleStep env input st pos).1.curLabel =
      if st.curLabel.head? = some ((pos * 4) % 2 ^ 64) then st.curLabel.tail
      else st.curLabel := by
  have key : (if (match st.curLabel with
        | l :: _ => decide ((pos * 4) % 2 ^ 64 = l)
        | [] => false) = true then st.curLabel.tail else st.curLabel) =
      (if st.curLabel.head? = some ((pos * 4) % 2 ^ 64) then st.curLabel.tail
        else st.curLabel) := by
    cases st.curLabel with
    | nil => simp
    | cons l ls =>
      simp only [List.head?_cons, List.tail_cons, Option.some.injEq, decide_eq_true_eq]
      by_cases h : (pos * 4) % 2 ^ 64 = l
      · rw [if_pos h, if_pos h.symm]
      · rw [if_neg h, if_neg (fun e => h e.symm)]
  rw [← key]
  unfold disassembleStep
  simp only []
  generalize determineEncoding input (input.length / 4) (codeWord input pos) (pos + 1) = r
  cases r with
  | error msg => rfl
  | ok f =>
    simp only []
    generalize (env.gcnInstrTableByCode
      (gcnInstrTableByCodeSpaces f.gcnEncoding +
        extractOpcode f.gcnEncoding (codeWord input pos))) = g
    cases hm : g.mnemonic with
    | none => rfl
    | some mnemonic =>
      simp only [apply_ite Prod.fst, apply_ite DisasmState.curLabel, ite_self]

set_option maxRecDepth 100000 in
/-- C1: the assembler accepts `s_branch` (SOPP opcode 2) at byte offset 0 with the target 8
and emits the word 0xbf820001 (simm16 = 1). For every instruction table, the by-code table
that `initializeGCNDisassembler` fills has a null mnemonic at the index 0x80 + 2 which the
main pass looks up for this word, so no target is computed or printed. Where the lookup
finds a descriptor (a table whose relative branch has the SOPP opcode 0, the index the
initialiser stores to), the word 0xbf800001 that the assembler emits for the target 8 at
offset 0 is printed with the target 12: the computed address is `(pos + simm16 + 1) << 2`
with `pos` already advanced past the instruction. -/
theorem sopp_branch_target_not_reproduced :
    (parseSOPPEncodingRel 2 GCNEncSize.UNKNOWN ⟨true, 8, false, true⟩ [] 0 []).ret = true ∧
    (parseSOPPEncodingRel 2 GCNEncSize.UNKNOWN ⟨true, 8, false, true⟩ [] 0 []).output =
      wordsToBytes [0xbf820001] ∧
    (∀ (gcnInstrsTable : List GCNInstruction) (M : GCNModeConsts) (floatLits : Bool)
        (ftocstrCStyle : Nat → List Nat) (labels : List Nat),
      (disassemble ⟨initializeGCNDisassembler gcnInstrsTable, M, floatLits, ftocstrCStyle⟩
        (wordsToBytes [0xbf820001]) labels).fault = some DisasmFault.nullMnemonic ∧
      (disassemble ⟨initializeGCNDisassembler gcnInstrsTable, M, floatLits, ftocstrCStyle⟩
        (wordsToBytes [0xbf820001]) labels).branchTargets = [] ∧
      (disassemble ⟨initializeGCNDisassembler gcnInstrsTable, M, floatLits, ftocstrCStyle⟩
        (wordsToBytes [0xbf820001]) labels).output = []) ∧
    (parseSOPPEncodingRel 0 GCNEncSize.UNKNOWN ⟨true, 8, false, true⟩ [] 0 []).ret = true ∧
    (parseSOPPEncodingRel 0 GCNEncSize.UNKNOWN ⟨true, 8, false, true⟩ [] 0 []).output =
      wordsToBytes [0xbf800001] ∧
    beforeDisassemble (wordsToBytes [0xbf800001]) = Except.ok [] ∧
    (disassemble
      (disasmEnvOfTable
        [⟨some "s_branch", GCNENC_SOPP, 0x30, 0, 1⟩, ⟨none, GCNENC_NONE, 0, 0, 0⟩])
      (wordsToBytes [0xbf800001]) []).fault = none ∧
    (disassemble
      (disasmEnvOfTable
        [⟨some "s_branch", GCNENC_SOPP, 0x30, 0, 1⟩, ⟨none, GCNENC_NONE, 0, 0, 0⟩])
      (wordsToBytes [0xbf800001]) []).branchTargets = [12] ∧
    (disassemble
      (disasmEnvOfTable
        [⟨some "s_branch", GCNENC_SOPP, 0x30, 0, 1⟩, ⟨none, GCNENC_NONE, 0, 0, 0⟩])
      (wordsToBytes [0xbf800001]) []).text = cstr "        s_branch L12\n" := by
  refine ⟨by decide, by decide, ?_, by decide, by decide, rfl, by decide, by decide,
    by decide⟩
  intro gcnInstrsTable M floatLits ftocstrCStyle labels
  exact disassemble_sopp_opcode2_null gcnInstrsTable M floatLits ftocstrCStyle 0xbf820001
    labels rfl (by decide)

set_option maxRecDepth 100000 in
/-- C5: `s_add_u32_e64 s0, 1, 2` (two inline constants, forced 64-bit size) is accepted and
emitted with the literal-slot code 255 in both SSRC0 and SSRC1 and the single literal word 1. -/
theorem sop2_e64_two_literal_slots :
    parseSOP2Encoding false 0
        ⟨true, ⟨0, 1, false⟩, ⟨⟨129, 130, false⟩, 0, 0⟩, ⟨⟨130, 131, false⟩, 0, 0⟩, false, false⟩
        GCNEncSize.BIT64 [] =
      ⟨true, wordsToBytes [0x8000ffff, 1], none⟩ ∧
    0x8000ffff &&& 0xff = 255 ∧ (0x8000ffff >>> 8) &&& 0xff = 255 := by
  decide

set_option maxRecDepth 100000 in
/-- C6: in the buffer of eight `s_add_u32` instructions, the first with a literal word,
followed by two branch words, the pre-pass collects the labels 4 (the literal word of the
two-word instruction at 0) and 8 (the start of the second instruction). With the by-code
table that `initializeGCNDisassembler` fills from the sample instruction table the main pass
writes the eight instructions to the output stream without a label line: label 4 is not
printed after the first instruction, and label 8 is not printed in front of the second one,
because the label pointer still stands on label 4 when the run ends at the first branch
word, whose lookup reads a null mnemonic. For every environment, one iteration of the main
loop moves the label pointer only when the first pending label is the address of the
instruction start. -/
theorem labels_not_printed_in_place :
    beforeDisassemble
        (wordsToBytes [0x800001ff, 0x12345678, 0x80000100, 0x80000100, 0x80000100, 0x80000100,
          0x80000100, 0x80000100, 0x80000100, 0xbf82fff4, 0xbf82fff4]) =
      Except.ok [4, 8] ∧
    (disassemble sampleEnv
        (wordsToBytes [0x800001ff, 0x12345678, 0x80000100, 0x80000100, 0x80000100, 0x80000100,
          0x80000100, 0x80000100, 0x80000100, 0xbf82fff4, 0xbf82fff4])
        [4, 8]).output =
      cstr ("        s_add_u32 s0, 0x12345678, s1\n        s_add_u32 s0, s0, s1\n" ++
        "        s_add_u32 s0, s0, s1\n        s_add_u32 s0, s0, s1\n" ++
        "        s_add_u32 s0, s0, s1\n        s_add_u32 s0, s0, s1\n" ++
        "        s_add_u32 s0, s0, s1\n        s_add_u32 s0, s0, s1\n") ∧
    (disassemble sampleEnv
        (wordsToBytes [0x800001ff, 0x12345678, 0x80000100, 0x80000100, 0x80000100, 0x80000100,
          0x80000100, 0x80000100, 0x80000100, 0xbf82fff4, 0xbf82fff4])
        [4, 8]).curLabel = [4, 8] ∧
    (disassemble sampleEnv
        (wordsToBytes [0x800001ff, 0x12345678, 0x80000100, 0x80000100, 0x80000100, 0x80000100,
          0x80000100, 0x80000100, 0x80000100, 0xbf82fff4, 0xbf82fff4])
        [4, 8]).fault = some DisasmFault.nullMnemonic ∧
    (∀ (env : DisasmEnv) (input : List Nat) (st : DisasmState) (pos : Nat),
      (disassembleStep env input st pos).1.curLabel =
        if st.curLabel.head? = some ((pos * 4) % 2 ^ 64) then st.curLabel.tail
        else st.curLabel) := by
  refine ⟨rfl, by decide, by decide, by decide, disassembleStep_curLabel⟩

set_option maxRecDepth 100000 in
/-- C7: the one-word buffer `FF 92 6B 7C` (a VOPC word whose SRC0 selects the literal slot)
makes `disassemble` throw `Instruction outside code space!`; nothing is written to the
output stream and no instruction text is formatted. -/
theorem unfinished_literal_throws :
    (disassemble sampleEnv [0xff, 0x92, 0x6b, 0x7c] []).fault =
      some (DisasmFault.exception "Instruction outside code space!") ∧
    (disassemble sampleEnv [0xff, 0x92, 0x6b, 0x7c] []).output = [] ∧
    (disassemble sampleEnv [0xff, 0x92, 0x6b, 0x7c] []).buf = cstr "        " := by
  decide

set_option maxRecDepth 100000 in
/-- C9: the one-word VOP2 instruction `v_cndmask_b32 v1, v2, v3, vcc` (VOP2 opcode 0) is
emitted as 0x00020702. With the by-code table that `initializeGCNDisassembler` fills from
the sample instruction table the disassembler decodes the destination as `v1` but reads the
second source with a 9-bit mask that includes the low bit of the destination, and prints it
as the illegal operand 515 instead of `v3`. -/
theorem vop2_second_source_misdecoded :
    parseVOP2Encoding sampleAsmConsts sampleVOPHelpers false false
        ⟨"v_cndmask_b32", GCNENC_VOP2, 0xa0, 0, 0x100, 1⟩
        ⟨true, true, ⟨257, 258, false⟩, ⟨0, 0, false⟩, ⟨106, 108, false⟩,
          ⟨⟨258, 259, false⟩, 0, 0⟩, ⟨⟨259, 260, false⟩, 0, 0⟩, 0, false, false, false, 0,
          ⟨0, 0, 0, 0, 0, 0, 0, false, false⟩, ⟨0, 0, 0, 0⟩⟩
        GCNEncSize.UNKNOWN GCNVOPEnc.NORMAL [] =
      ⟨true, wordsToBytes [0x00020702], [], []⟩ ∧
    vop2Word0 0 258 259 257 = 0x00020702 ∧
    ((0x00020702 >>> 9) &&& 0x1ff) + 256 = 515 ∧
    (disassemble sampleEnv (wordsToBytes [0x00020702]) []).fault = none ∧
    (disassemble sampleEnv (wordsToBytes [0x00020702]) []).text =
      cstr "        v_cndmask_b32 v1, v2, ill_515, vcc\n" := by
  decide

set_option maxRecDepth 100000 in
/-- C10: the scalar registers 100 and 10 are both rendered as `s10`, the vector register
105 as `v15`, and the range `v[205:206]` as `v[25:26]`: a zero tens digit is dropped. -/
theorem register_text_drops_zero_digit :
    decodeGCNOperand (fun _ => []) 100 1 0 false = cstr "s10" ∧
    decodeGCNOperand (fun _ => []) 10 1 0 false = cstr "s10" ∧
    decodeGCNOperand (fun _ => []) (256 + 105) 1 0 false = cstr "v15" ∧
    decodeGCNOperand (fun _ => []) (256 + 205) 2 0 false = cstr "v[25:26]" := by
  decide


/-! ## resolveCode: the frame of the patched field -/

theorem and_ffe00000 (w : Nat) : w &&& 0xffe00000 = (w / 2 ^ 21 % 2 ^ 11) * 2 ^ 21 :=
  and_window w 21 11

theorem and_1fffff (w : Nat) : w &&& 0x1fffff = w % 2 ^ 21 :=
  Nat.and_pow_two_sub_one_eq_mod w 21

theorem and_f0 (w : Nat) : w &&& 0xf0 = (w / 2 ^ 4 % 2 ^ 4) * 2 ^ 4 := and_window w 4 4

theorem and_e0 (w : Nat) : w &&& 0xe0 = (w / 2 ^ 5 % 2 ^ 3) * 2 ^ 5 := and_window w 5 3

theorem and_1f (w : Nat) : w &&& 0x1f = w % 2 ^ 5 := Nat.and_pow_two_sub_one_eq_mod w 5

theorem ULEV32_lt (m : Nat → Nat) (i : Nat) : ULEV32 m i < 2 ^ 32 := by
  unfold ULEV32
  omega

/-- The 32-bit word at `o` after two byte stores at `o` and `o + 1`. -/
theorem ULEV32_setByte2 (m : Nat → Nat) (o a b : Nat) :
    ULEV32 (setByte (setByte m o a) (o + 1) b) o =
      a % 256 + (b % 256) * 2 ^ 8 + (m (o + 2) % 256) * 2 ^ 16 + (m (o + 3) % 256) * 2 ^ 24 := by
  simp only [ULEV32, getByte, setByte_apply]
  have e1 : ¬ (o = o + 1) := by omega
  have e2 : ¬ (o + 2 = o + 1) := by omega
  have e3 : ¬ (o + 2 = o) := by omega
  have e4 : ¬ (o + 3 = o + 1) := by omega
  have e5 : ¬ (o + 3 = o) := by omega
  simp only [e1, e2, e3, e4, e5, if_true, if_false, Nat.mod_mod]

theorem setByte2_other (m : Nat → Nat) (o a b j : Nat) (h0 : j ≠ o) (h1 : j ≠ o + 1) :
    setByte (setByte m o a) (o + 1) b j = m j := by
  simp only [setByte_apply, h0, h1, if_false]

theorem SULEV32_other (m : Nat → Nat) (i v j : Nat) (h : j < i ∨ i + 4 ≤ j) :
    SULEV32 m i v j = m j := by
  have e0 : ¬ (j = i) := by omega
  have e1 : ¬ (j = i + 1) := by omega
  have e2 : ¬ (j = i + 2) := by omega
  have e3 : ¬ (j = i + 3) := by omega
  simp only [SULEV32, setByte_apply, e0, e1, e2, e3, if_false]

theorem resolveCode_MXBUFOFFSET_frame (targetSectionId : Nat) (m : Nat → Nat)
    (offset sectionId value : Nat) :
    ((resolveCode targetSectionId m offset GCNTGT_MXBUFOFFSET sectionId value).ret = true →
      ULEV32 (resolveCode targetSectionId m offset GCNTGT_MXBUFOFFSET sectionId
        value).sectionData offset % 2 ^ 12 = value % 2 ^ 12) ∧
    ULEV32 (resolveCode targetSectionId m offset GCNTGT_MXBUFOFFSET sectionId
        value).sectionData offset / 2 ^ 12 = ULEV32 m offset / 2 ^ 12 ∧
    ∀ j, j ≠ offset → j ≠ offset + 1 →
      (resolveCode targetSectionId m offset GCNTGT_MXBUFOFFSET sectionId value).sectionData j =
        m j := by
  simp only [resolveCode, resolveFail, resolveDone]
  by_cases h : sectionId ≠ ASMSECT_ABS
  · simp only [if_pos h, Bool.false_eq_true, false_implies, true_and, implies_true, and_true]
  · simp only [if_neg h, true_implies]
    refine ⟨?_, ?_, fun j h0 h1 => setByte2_other m offset _ _ j h0 h1⟩
    all_goals
      rw [ULEV32_setByte2]
      simp only [getByte, setByte_apply, if_neg (show ¬ (offset + 1 = offset) by omega), and_f0,
        and_f, Nat.shiftRight_eq_div_pow, and_ff]
      rw [or_window _ (value / 2 ^ 8 % 16) 0 4 (by omega) (by omega) (by omega)]
      try unfold ULEV32 getByte
      omega

theorem and_f00_shr8 (v : Nat) : (v &&& 0xf00) >>> 8 = v / 2 ^ 8 % 16 := by
  have h : (0xf00 : Nat) >>> 8 = 0xf := by decide
  rw [shr8_and, h, and_f, Nat.shiftRight_eq_div_pow]

theorem and_1f00_shr8 (v : Nat) : (v &&& 0x1f00) >>> 8 = v / 2 ^ 8 % 32 := by
  have h : (0x1f00 : Nat) >>> 8 = 0x1f := by decide
  rw [shr8_and, h, and_1f, Nat.shiftRight_eq_div_pow]
  norm_num

theorem resolveCode_INSTOFFSET_frame (targetSectionId : Nat) (m : Nat → Nat)
    (offset sectionId value : Nat) :
    ((resolveCode targetSectionId m offset GCNTGT_INSTOFFSET sectionId value).ret = true →
      ULEV32 (resolveCode targetSectionId m offset GCNTGT_INSTOFFSET sectionId
        value).sectionData offset % 2 ^ 12 = value % 2 ^ 12) ∧
    ULEV32 (resolveCode targetSectionId m offset GCNTGT_INSTOFFSET sectionId
        value).sectionData offset / 2 ^ 12 = ULEV32 m offset / 2 ^ 12 ∧
    ∀ j, j ≠ offset → j ≠ offset + 1 →
      (resolveCode targetSectionId m offset GCNTGT_INSTOFFSET sectionId value).sectionData j =
        m j := by
  simp only [resolveCode, resolveFail, resolveDone]
  by_cases h : sectionId ≠ ASMSECT_ABS
  · simp only [if_pos h, Bool.false_eq_true, false_implies, true_and, implies_true, and_true]
  · simp only [if_neg h, true_implies]
    refine ⟨?_, ?_, fun j h0 h1 => setByte2_other m offset _ _ j h0 h1⟩
    all_goals
      rw [ULEV32_setByte2]
      simp only [getByte, setByte_apply, if_neg (show ¬ (offset + 1 = offset) by omega), and_f0,
        and_f00_shr8]
      rw [or_window _ (value / 2 ^ 8 % 16) 0 4 (by omega) (by omega) (by omega)]
      try unfold ULEV32 getByte
      omega

theorem resolveCode_INSTOFFSET_S_frame (targetSectionId : Nat) (m : Nat → Nat)
    (offset sectionId value : Nat) :
    ((resolveCode targetSectionId m offset GCNTGT_INSTOFFSET_S sectionId value).ret = true →
      ULEV32 (resolveCode targetSectionId m offset GCNTGT_INSTOFFSET_S sectionId
        value).sectionData offset % 2 ^ 13 = value % 2 ^ 13) ∧
    ULEV32 (resolveCode targetSectionId m offset GCNTGT_INSTOFFSET_S sectionId
        value).sectionData offset / 2 ^ 13 = ULEV32 m offset / 2 ^ 13 ∧
    ∀ j, j ≠ offset → j ≠ offset + 1 →
      (resolveCode targetSectionId m offset GCNTGT_INSTOFFSET_S sectionId value).sectionData j =
        m j := by
  simp only [resolveCode, resolveFail, resolveDone]
  by_cases h : sectionId ≠ ASMSECT_ABS
  · simp only [if_pos h, Bool.false_eq_true, false_implies, true_and, implies_true, and_true]
  · simp only [if_neg h, true_implies]
    refine ⟨?_, ?_, fun j h0 h1 => setByte2_other m offset _ _ j h0 h1⟩
    all_goals
      rw [ULEV32_setByte2]
      simp only [getByte, setByte_apply, if_neg (show ¬ (offset + 1 = offset) by omega), and_e0,
        and_1f00_shr8]
      rw [or_window _ (value / 2 ^ 8 % 32) 0 5 (by omega) (by omega) (by omega)]
      try unfold ULEV32 getByte
      omega

theorem resolveCode_SMEMOFFSETVEGA_frame (targetSectionId : Nat) (m : Nat → Nat)
    (offset sectionId value : Nat) :
    ((resolveCode targetSectionId m offset GCNTGT_SMEMOFFSETVEGA sectionId value).ret = true →
      ULEV32 (resolveCode targetSectionId m offset GCNTGT_SMEMOFFSETVEGA sectionId
        value).sectionData (offset + 4) % 2 ^ 21 = value % 2 ^ 21) ∧
    ULEV32 (resolveCode targetSectionId m offset GCNTGT_SMEMOFFSETVEGA sectionId
        value).sectionData (offset + 4) / 2 ^ 21 = ULEV32 m (offset + 4) / 2 ^ 21 ∧
    ∀ j, (j < offset + 4 ∨ offset + 8 ≤ j) →
      (resolveCode targetSectionId m offset GCNTGT_SMEMOFFSETVEGA sectionId value).sectionData j =
        m j := by
  simp only [resolveCode, resolveFail, resolveDone]
  by_cases h : sectionId ≠ ASMSECT_ABS
  · simp only [if_pos h, Bool.false_eq_true, false_implies, true_and, implies_true, and_true]
  · simp only [if_neg h, true_implies]
    have hlt := ULEV32_lt m (offset + 4)
    refine ⟨?_, ?_, fun j hj => SULEV32_other m (offset + 4) _ j (by omega)⟩
    all_goals
      rw [ULEV32_SULEV32]
      simp only [and_ffe00000, and_1fffff]
      rw [or_window _ (value % 2 ^ 21) 0 21 (by omega) (by omega) (by omega)]
      generalize ULEV32 m (offset + 4) = old at hlt ⊢
      omega

/-- C13: `resolveCode` changes only the bits of the field it patches. For the Vega SMEM
offset the 32-bit word at `offset + 4` keeps its bits [31:21] and, on success, holds the value
in bits [20:0]; for the MUBUF/MTBUF offset and the unsigned FLAT `inst_offset` the word at
`offset` keeps its bits [31:12] and holds the value in bits [11:0]; for the signed FLAT
`inst_offset` it keeps bits [31:13] and holds the value in bits [12:0]; every byte outside the
bytes that carry the field is unchanged. -/
theorem resolveCode_patches_only_its_field (targetSectionId : Nat) (m : Nat → Nat)
    (offset sectionId value : Nat) :
    (((resolveCode targetSectionId m offset GCNTGT_SMEMOFFSETVEGA sectionId value).ret = true →
        ULEV32 (resolveCode targetSectionId m offset GCNTGT_SMEMOFFSETVEGA sectionId
          value).sectionData (offset + 4) % 2 ^ 21 = value % 2 ^ 21) ∧
      ULEV32 (resolveCode targetSectionId m offset GCNTGT_SMEMOFFSETVEGA sectionId
          value).sectionData (offset + 4) / 2 ^ 21 = ULEV32 m (offset + 4) / 2 ^ 21 ∧
      ∀ j, (j < offset + 4 ∨ offset + 8 ≤ j) →
        (resolveCode targetSectionId m offset GCNTGT_SMEMOFFSETVEGA sectionId
          value).sectionData j = m j) ∧
    (((resolveCode targetSectionId m offset GCNTGT_MXBUFOFFSET sectionId value).ret = true →
        ULEV32 (resolveCode targetSectionId m offset GCNTGT_MXBUFOFFSET sectionId
          value).sectionData offset % 2 ^ 12 = value % 2 ^ 12) ∧
      ULEV32 (resolveCode targetSectionId m offset GCNTGT_MXBUFOFFSET sectionId
          value).sectionData offset / 2 ^ 12 = ULEV32 m offset / 2 ^ 12 ∧
      ∀ j, j ≠ offset → j ≠ offset + 1 →
        (resolveCode targetSectionId m offset GCNTGT_MXBUFOFFSET sectionId value).sectionData j =
          m j) ∧
    (((resolveCode targetSectionId m offset GCNTGT_INSTOFFSET sectionId value).ret = true →
        ULEV32 (resolveCode targetSectionId m offset GCNTGT_INSTOFFSET sectionId
          value).sectionData offset % 2 ^ 12 = value % 2 ^ 12) ∧
      ULEV32 (resolveCode targetSectionId m offset GCNTGT_INSTOFFSET sectionId
          value).sectionData offset / 2 ^ 12 = ULEV32 m offset / 2 ^ 12 ∧
      ∀ j, j ≠ offset → j ≠ offset + 1 →
        (resolveCode targetSectionId m offset GCNTGT_INSTOFFSET sectionId value).sectionData j =
          m j) ∧
    (((resolveCode targetSectionId m offset GCNTGT_INSTOFFSET_S sectionId value).ret = true →
        ULEV32 (resolveCode targetSectionId m offset GCNTGT_INSTOFFSET_S sectionId
          value).sectionData offset % 2 ^ 13 = value % 2 ^ 13) ∧
      ULEV32 (resolveCode targetSectionId m offset GCNTGT_INSTOFFSET_S sectionId
          value).sectionData offset / 2 ^ 13 = ULEV32 m offset / 2 ^ 13 ∧
      ∀ j, j ≠ offset → j ≠ offset + 1 →
        (resolveCode targetSectionId m offset GCNTGT_INSTOFFSET_S sectionId value).sectionData j =
          m j) :=
  ⟨resolveCode_SMEMOFFSETVEGA_frame targetSectionId m offset sectionId value,
    resolveCode_MXBUFOFFSET_frame targetSectionId m offset sectionId value,
    resolveCode_INSTOFFSET_frame targetSectionId m offset sectionId value,
    resolveCode_INSTOFFSET_S_frame targetSectionId m offset sectionId value⟩

set_option maxRecDepth 100000 in
/-- The Vega SMEM offset 0x12345 patched into the second word 0xffe00000 of an instruction
at offset 0 gives the word 0xffe12345; the first word is untouched. -/
theorem smem_vega_offset_example :
    (resolveCode 0 (memOfBytes (wordsToBytes [0xc0060105, 0xffe00000])) 0 GCNTGT_SMEMOFFSETVEGA
        ASMSECT_ABS 0x12345).ret = true ∧
    bytesOfMem (resolveCode 0 (memOfBytes (wordsToBytes [0xc0060105, 0xffe00000])) 0
        GCNTGT_SMEMOFFSETVEGA ASMSECT_ABS 0x12345).sectionData 8 =
      wordsToBytes [0xc0060105, 0xffe12345] := by
  decide

set_option maxRecDepth 100000 in
/-- The Vega SMEM offset 0x12345 resolved into an instruction at offset 0 whose second word
is 0xffe00000. -/
theorem resolveCode_patches_only_its_field_witness :
    (resolveCode 0 (memOfBytes (wordsToBytes [0xc0060105, 0xffe00000])) 0 GCNTGT_SMEMOFFSETVEGA
        ASMSECT_ABS 0x12345).ret = true ∧
    ULEV32 (resolveCode 0 (memOfBytes (wordsToBytes [0xc0060105, 0xffe00000])) 0
        GCNTGT_SMEMOFFSETVEGA ASMSECT_ABS 0x12345).sectionData (0 + 4) % 2 ^ 21 =
      0x12345 % 2 ^ 21 ∧
    ULEV32 (resolveCode 0 (memOfBytes (wordsToBytes [0xc0060105, 0xffe00000])) 0
        GCNTGT_SMEMOFFSETVEGA ASMSECT_ABS 0x12345).sectionData (0 + 4) / 2 ^ 21 =
      ULEV32 (memOfBytes (wordsToBytes [0xc0060105, 0xffe00000])) (0 + 4) / 2 ^ 21 :=
  ⟨by decide,
    (resolveCode_patches_only_its_field 0 (memOfBytes (wordsToBytes [0xc0060105, 0xffe00000]))
      0 ASMSECT_ABS 0x12345).1.1 (by decide),
    (resolveCode_patches_only_its_field 0 (memOfBytes (wordsToBytes [0xc0060105, 0xffe00000]))
      0 ASMSECT_ABS 0x12345).1.2.1⟩

/-! ## SOP2: an unresolved literal and its relocation -/

theorem bytesOfMem_memOfBytes (l : List Nat) : bytesOfMem (memOfBytes l) l.length = l := by
  apply List.ext_getElem
  · simp [bytesOfMem]
  · intro n h1 h2
    simp only [bytesOfMem, memOfBytes, List.getElem_map, List.getElem_range]
    exact List.getD_eq_getElem l 0 h2

theorem setByte_memOfBytes (l : List Nat) (i v : Nat) (h : i < l.length) :
    setByte (memOfBytes l) i v = memOfBytes (l.set i (v % 256)) := by
  funext j
  simp only [setByte_apply, memOfBytes, List.getD_eq_getElem?_getD, List.getElem?_set]
  by_cases hj : j = i
  · subst hj
    simp [h]
  · have hj' : ¬ (i = j) := fun e => hj e.symm
    simp [hj, hj']

/-- A 32-bit store over the last four bytes of a byte list. -/
theorem SULEV32_last_word (o : List Nat) (a0 a1 a2 a3 z0 z1 z2 z3 V : Nat) :
    bytesOfMem (SULEV32 (memOfBytes (o ++ [a0, a1, a2, a3, z0, z1, z2, z3])) (o.length + 4) V)
        (o ++ [a0, a1, a2, a3, z0, z1, z2, z3]).length =
      o ++ ([a0, a1, a2, a3] ++ wordsToBytes [V]) := by
  have e : SULEV32 (memOfBytes (o ++ [a0, a1, a2, a3, z0, z1, z2, z3])) (o.length + 4) V =
      memOfBytes (o ++ ([a0, a1, a2, a3] ++ wordsToBytes [V])) := by
    unfold SULEV32
    rw [setByte_memOfBytes _ _ _ (by simp), setByte_memOfBytes _ _ _ (by simp),
      setByte_memOfBytes _ _ _ (by simp), setByte_memOfBytes _ _ _ (by simp)]
    have h4 : o.length + 4 - o.length = 4 := by omega
    have h5 : o.length + 4 + 1 - o.length = 5 := by omega
    have h6 : o.length + 4 + 2 - o.length = 6 := by omega
    have h7 : o.length + 4 + 3 - o.length = 7 := by omega
    rw [List.set_append_right _ _ (by omega), List.set_append_right _ _ (by omega),
      List.set_append_right _ _ (by omega), List.set_append_right _ _ (by omega), h4, h5, h6, h7]
    simp [List.set, wordsToBytes, Nat.shiftRight_eq_div_pow]
  rw [e]
  have hl : (o ++ [a0, a1, a2, a3, z0, z1, z2, z3]).length =
      (o ++ ([a0, a1, a2, a3] ++ wordsToBytes [V])).length := by
    simp [wordsToBytes]
  rw [hl, bytesOfMem_memOfBytes]

theorem tryPromote_literal (op : GCNOperand) (b : Bool) (h : op.range.isVal 255 = true) :
    tryPromoteConstImmToLiteral op b = op := by
  have hs : op.range.start = 255 := by
    simp only [RegRange.isVal, Bool.and_eq_true, beq_iff_eq] at h
    exact h.2
  unfold tryPromoteConstImmToLiteral
  rw [if_neg (by simp [hs]), if_neg (by simp [hs])]

theorem tryPromote_literal_if (op : GCNOperand) (b : Bool) (c : Prop) [Decidable c]
    (h : op.range.isVal 255 = true) :
    (if c then tryPromoteConstImmToLiteral op b else op) = op := by
  split_ifs
  · exact tryPromote_literal op b h
  · rfl

/-- C12: for every SOP2 instruction that the encoder emits with one literal source operand
given by an unresolved expression, the output is the first word of the same instruction with
a known literal followed by the word 0, with a `GCNTGT_LITIMM` relocation at the byte offset
of the instruction; `resolveCode` applied to that relocation with an absolute value
`V < 2^32` succeeds and yields exactly the bytes that the encoder emits when the literal `V`
is known at assembly time. -/
theorem sop2_unresolved_literal_resolved (isGCN12 : Bool) (code1 : Nat) (p : SOP2Parsed)
    (gcnEncSize : GCNEncSize) (output : List Nat) (targetSectionId V : Nat)
    (hret : (parseSOP2Encoding isGCN12 code1 p gcnEncSize output).ret = true)
    (hone :
      (p.src0Expr = true ∧ p.src1Expr = false ∧ p.src0Op.range.isVal 255 = true ∧
        (if gcnEncSize = GCNEncSize.BIT64 then tryPromoteConstImmToLiteral p.src1Op isGCN12
          else p.src1Op).range.isVal 255 = false) ∨
      (p.src0Expr = false ∧ p.src1Expr = true ∧ p.src1Op.range.isVal 255 = true ∧
        (if gcnEncSize = GCNEncSize.BIT64 then tryPromoteConstImmToLiteral p.src0Op isGCN12
          else p.src0Op).range.isVal 255 = false))
    (hV : V < 2 ^ 32) :
    ∃ w0,
      (parseSOP2Encoding isGCN12 code1 p gcnEncSize output).output =
        output ++ wordsToBytes [w0, 0] ∧
      (parseSOP2Encoding isGCN12 code1 p gcnEncSize output).exprTarget =
        some (GCNTGT_LITIMM, output.length) ∧
      parseSOP2Encoding isGCN12 code1 (p.withKnownLiteral V) gcnEncSize output =
        ⟨true, output ++ wordsToBytes [w0, V], none⟩ ∧
      (resolveCode targetSectionId
          (memOfBytes (parseSOP2Encoding isGCN12 code1 p gcnEncSize output).output)
          output.length GCNTGT_LITIMM ASMSECT_ABS V).ret = true ∧
      bytesOfMem (resolveCode targetSectionId
          (memOfBytes (parseSOP2Encoding isGCN12 code1 p gcnEncSize output).output)
          output.length GCNTGT_LITIMM ASMSECT_ABS V).sectionData
          (parseSOP2Encoding isGCN12 code1 p gcnEncSize output).output.length =
        output ++ wordsToBytes [w0, V] := by
  have hg : p.good = true := by
    by_contra hc
    simp only [Bool.not_eq_true] at hc
    simp [parseSOP2Encoding, hc] at hret
  have hVm : V % 2 ^ 32 = V := Nat.mod_eq_of_lt hV
  have hres : ∀ w0 : Nat,
      (resolveCode targetSectionId (memOfBytes (output ++ wordsToBytes [w0, 0])) output.length
          GCNTGT_LITIMM ASMSECT_ABS V).ret = true ∧
      bytesOfMem (resolveCode targetSectionId (memOfBytes (output ++ wordsToBytes [w0, 0]))
          output.length GCNTGT_LITIMM ASMSECT_ABS V).sectionData
          (output ++ wordsToBytes [w0, 0]).length = output ++ wordsToBytes [w0, V] := by
    intro w0
    simp only [resolveCode, resolveDone, ne_eq, not_true_eq_false, if_false, true_and]
    exact SULEV32_last_word output _ _ _ _ _ _ _ _ V
  rcases hone with ⟨h0, h1, hl, hn⟩ | ⟨h0, h1, hl, hn⟩
  · refine ⟨sop2Word0 code1 p.src0Op.range.bstart
      (if gcnEncSize = GCNEncSize.BIT64 then tryPromoteConstImmToLiteral p.src1Op isGCN12
        else p.src1Op).range.bstart p.dstReg.bstart, ?_⟩
    have hl' : ({ p.src0Op with value := V } : GCNOperand).range.isVal 255 = true := hl
    simp only [parseSOP2Encoding, SOP2Parsed.withKnownLiteral, hg, h0, h1, hl, hl', hn,
      tryPromote_literal_if _ _ _ hl, tryPromote_literal_if _ _ _ hl', if_true, if_false,
      Bool.not_true, Bool.false_eq_true, Bool.true_or, Bool.not_false, false_and, and_true,
      List.length_cons, List.length_nil, emitWords] at hret ⊢
    by_cases hc : checkGCNEncodingSize gcnEncSize (0 + 1 + 1) = true
    · simp only [hc, Bool.not_true, Bool.false_eq_true, if_false, hVm, true_and]
      exact hres _
    · simp only [Bool.not_eq_true] at hc
      simp [hc] at hret
  · refine ⟨sop2Word0 code1
      (if gcnEncSize = GCNEncSize.BIT64 then tryPromoteConstImmToLiteral p.src0Op isGCN12
        else p.src0Op).range.bstart p.src1Op.range.bstart p.dstReg.bstart, ?_⟩
    have hl' : ({ p.src1Op with value := V } : GCNOperand).range.isVal 255 = true := hl
    simp only [parseSOP2Encoding, SOP2Parsed.withKnownLiteral, hg, h0, h1, hl, hl', hn,
      tryPromote_literal_if _ _ _ hl, tryPromote_literal_if _ _ _ hl', if_true, if_false,
      Bool.not_true, Bool.false_eq_true, Bool.true_or, Bool.or_true, Bool.not_false, false_and,
      and_true, true_and, and_false, List.length_cons, List.length_nil, emitWords] at hret ⊢
    by_cases hc : checkGCNEncodingSize gcnEncSize (0 + 1 + 1) = true
    · simp only [hc, Bool.not_true, Bool.false_eq_true, if_false, hVm, true_and]
      exact hres _
    · simp only [Bool.not_eq_true] at hc
      simp [hc] at hret

set_option maxRecDepth 100000 in
/-- `s_add_u32 s0, sym, s1` with `sym` unresolved at assembly time and later resolved to the
absolute value 0x12345678. -/
theorem sop2_unresolved_literal_resolved_witness :
    (parseSOP2Encoding false 0
        ⟨true, ⟨0, 1, false⟩, ⟨⟨255, 0, false⟩, 0, 0⟩, ⟨⟨1, 2, false⟩, 0, 0⟩, true, false⟩
        GCNEncSize.UNKNOWN []).ret = true ∧
    ∃ w0,
      (parseSOP2Encoding false 0
        ⟨true, ⟨0, 1, false⟩, ⟨⟨255, 0, false⟩, 0, 0⟩, ⟨⟨1, 2, false⟩, 0, 0⟩, true, false⟩
        GCNEncSize.UNKNOWN []).output = [] ++ wordsToBytes [w0, 0] ∧
      (parseSOP2Encoding false 0
        ⟨true, ⟨0, 1, false⟩, ⟨⟨255, 0, false⟩, 0, 0⟩, ⟨⟨1, 2, false⟩, 0, 0⟩, true, false⟩
        GCNEncSize.UNKNOWN []).exprTarget = some (GCNTGT_LITIMM, ([] : List Nat).length) ∧
      parseSOP2Encoding false 0
        (SOP2Parsed.withKnownLiteral
          ⟨true, ⟨0, 1, false⟩, ⟨⟨255, 0, false⟩, 0, 0⟩, ⟨⟨1, 2, false⟩, 0, 0⟩, true, false⟩
          0x12345678)
        GCNEncSize.UNKNOWN [] = ⟨true, [] ++ wordsToBytes [w0, 0x12345678], none⟩ ∧
      (resolveCode 0
          (memOfBytes (parseSOP2Encoding false 0
            ⟨true, ⟨0, 1, false⟩, ⟨⟨255, 0, false⟩, 0, 0⟩, ⟨⟨1, 2, false⟩, 0, 0⟩, true, false⟩
            GCNEncSize.UNKNOWN []).output)
          ([] : List Nat).length GCNTGT_LITIMM ASMSECT_ABS 0x12345678).ret = true ∧
      bytesOfMem (resolveCode 0
          (memOfBytes (parseSOP2Encoding false 0
            ⟨true, ⟨0, 1, false⟩, ⟨⟨255, 0, false⟩, 0, 0⟩, ⟨⟨1, 2, false⟩, 0, 0⟩, true, false⟩
            GCNEncSize.UNKNOWN []).output)
          ([] : List Nat).length GCNTGT_LITIMM ASMSECT_ABS 0x12345678).sectionData
          (parseSOP2Encoding false 0
            ⟨true, ⟨0, 1, false⟩, ⟨⟨255, 0, false⟩, 0, 0⟩, ⟨⟨1, 2, false⟩, 0, 0⟩, true, false⟩
            GCNEncSize.UNKNOWN []).output.length =
        [] ++ wordsToBytes [w0, 0x12345678] :=
  ⟨by decide,
    sop2_unresolved_literal_resolved false 0
      ⟨true, ⟨0, 1, false⟩, ⟨⟨255, 0, false⟩, 0, 0⟩, ⟨⟨1, 2, false⟩, 0, 0⟩, true, false⟩
      GCNEncSize.UNKNOWN [] 0 0x12345678 (by decide)
      (Or.inl ⟨rfl, rfl, by decide, by decide⟩) (by norm_num)⟩

/-! ## The opcode field of the first instruction word -/

theorem sop2_opcode_field (c s0 s1 d : Nat)
    (hc : c < 2 ^ 7) (h0 : s0 < 2 ^ 8) (h1 : s1 < 2 ^ 8) (hd : d < 2 ^ 7) :
    sop2Word0 c s0 s1 d / 2 ^ 23 % 2 ^ 7 = c := by
  have hw : sop2Word0 c s0 s1 d = 0x80000000 + c * 2 ^ 23 + s0 + s1 * 2 ^ 8 + d * 2 ^ 16 := by
    unfold sop2Word0
    simp only [Nat.shiftLeft_eq, bit_eq_mul, and_ff, and_f, Bool.not_false, Bool.and_true,
      Bool.and_false, Bool.false_eq_true, if_false, Bool.toNat_false, Nat.mul_zero, Nat.or_zero,
      Nat.one_mul]
    rw [or_window _ (c * 2 ^ 23) 23 7 (by omega) (by omega) (by omega),
      or_window _ (s0) 0 8 (by omega) (by omega) (by omega),
      or_window _ (s1 * 2 ^ 8) 8 8 (by omega) (by omega) (by omega),
      or_window _ (d * 2 ^ 16) 16 7 (by omega) (by omega) (by omega)]
    omega
  rw [hw]
  omega

theorem sopk_opcode_field (c imm16 d : Nat)
    (hc : c < 2 ^ 5) (h0 : imm16 < 2 ^ 16) (hd : d < 2 ^ 7) :
    sopkWord0 c imm16 d / 2 ^ 23 % 2 ^ 5 = c := by
  have hw : sopkWord0 c imm16 d = 0xb0000000 + imm16 + d * 2 ^ 16 + c * 2 ^ 23 := by
    unfold sopkWord0
    simp only [Nat.shiftLeft_eq, bit_eq_mul, and_ff, and_f, Bool.not_false, Bool.and_true,
      Bool.and_false, Bool.false_eq_true, if_false, Bool.toNat_false, Nat.mul_zero, Nat.or_zero,
      Nat.one_mul]
    rw [or_window _ (imm16) 0 16 (by omega) (by omega) (by omega),
      or_window _ (d * 2 ^ 16) 16 7 (by omega) (by omega) (by omega),
      or_window _ (c * 2 ^ 23) 23 5 (by omega) (by omega) (by omega)]
    omega
  rw [hw]
  omega

theorem vop2_opcode_field (c s0 s1 d : Nat)
    (hc : c < 2 ^ 6) (h0 : s0 < 2 ^ 9) :
    vop2Word0 c s0 s1 d / 2 ^ 25 % 2 ^ 6 = c := by
  have hw : vop2Word0 c s0 s1 d = c * 2 ^ 25 + s0 + s1 % 256 * 2 ^ 9 + d % 256 * 2 ^ 17 := by
    unfold vop2Word0
    simp only [Nat.shiftLeft_eq, bit_eq_mul, and_ff, and_f, Bool.not_false, Bool.and_true,
      Bool.and_false, Bool.false_eq_true, if_false, Bool.toNat_false, Nat.mul_zero, Nat.or_zero,
      Nat.one_mul]
    rw [or_window _ (s0) 0 9 (by omega) (by omega) (by omega),
      or_window _ (s1 % 256 * 2 ^ 9) 9 8 (by omega) (by omega) (by omega),
      or_window _ (d % 256 * 2 ^ 17) 17 8 (by omega) (by omega) (by omega)]
    omega
  rw [hw]
  omega

theorem mubuf_opcode_field (isGCN12 : Bool) (c o : Nat) (haveOffen haveIdxen haveGlc haveAddr64 haveLds haveSlc : Bool)
    (hc : c < 2 ^ 7) (ho : o < 2 ^ 12) :
    mubufWord0 isGCN12 c o haveOffen haveIdxen haveGlc haveAddr64 haveLds haveSlc / 2 ^ 18 % 2 ^ 7 = c := by
  have hw : mubufWord0 isGCN12 c o haveOffen haveIdxen haveGlc haveAddr64 haveLds haveSlc = 0xe0000000 + o + 4096 * (haveOffen).toNat + 8192 * (haveIdxen).toNat + 16384 * (haveGlc).toNat + 32768 * (haveAddr64 && !isGCN12).toNat + 65536 * (haveLds).toNat + 131072 * (haveSlc && isGCN12).toNat + c * 2 ^ 18 := by
    unfold mubufWord0
    simp only [Nat.shiftLeft_eq, bit_eq_mul, and_ff, and_f, Bool.not_false, Bool.and_true,
      Bool.and_false, Bool.false_eq_true, if_false, Bool.toNat_false, Nat.mul_zero, Nat.or_zero,
      Nat.one_mul]
    have hb_haveOffen := Bool.toNat_le (haveOffen)
    generalize (haveOffen).toNat = t_haveOffen at hb_haveOffen ⊢
    have hb_haveIdxen := Bool.toNat_le (haveIdxen)
    generalize (haveIdxen).toNat = t_haveIdxen at hb_haveIdxen ⊢
    have hb_haveGlc := Bool.toNat_le (haveGlc)
    generalize (haveGlc).toNat = t_haveGlc at hb_haveGlc ⊢
    have hb_addr := Bool.toNat_le (haveAddr64 && !isGCN12)
    generalize (haveAddr64 && !isGCN12).toNat = t_addr at hb_addr ⊢
    have hb_haveLds := Bool.toNat_le (haveLds)
    generalize (haveLds).toNat = t_haveLds at hb_haveLds ⊢
    have hb_slc := Bool.toNat_le (haveSlc && isGCN12)
    generalize (haveSlc && isGCN12).toNat = t_slc at hb_slc ⊢
    rw [or_window _ (o) 0 12 (by omega) (by omega) (by omega),
      or_window _ (4096 * t_haveOffen) 12 1 (by omega) (by omega) (by omega),
      or_window _ (8192 * t_haveIdxen) 13 1 (by omega) (by omega) (by omega),
      or_window _ (16384 * t_haveGlc) 14 1 (by omega) (by omega) (by omega),
      or_window _ (32768 * t_addr) 15 1 (by omega) (by omega) (by omega),
      or_window _ (65536 * t_haveLds) 16 1 (by omega) (by omega) (by omega),
      or_window _ (131072 * t_slc) 17 1 (by omega) (by omega) (by omega),
      or_window _ (c * 2 ^ 18) 18 7 (by omega) (by omega) (by omega)]
    omega
  rw [hw]
  have hb_haveOffen := Bool.toNat_le (haveOffen)
  generalize (haveOffen).toNat = t_haveOffen at hb_haveOffen ⊢
  have hb_haveIdxen := Bool.toNat_le (haveIdxen)
  generalize (haveIdxen).toNat = t_haveIdxen at hb_haveIdxen ⊢
  have hb_haveGlc := Bool.toNat_le (haveGlc)
  generalize (haveGlc).toNat = t_haveGlc at hb_haveGlc ⊢
  have hb_addr := Bool.toNat_le (haveAddr64 && !isGCN12)
  generalize (haveAddr64 && !isGCN12).toNat = t_addr at hb_addr ⊢
  have hb_haveLds := Bool.toNat_le (haveLds)
  generalize (haveLds).toNat = t_haveLds at hb_haveLds ⊢
  have hb_slc := Bool.toNat_le (haveSlc && isGCN12)
  generalize (haveSlc && isGCN12).toNat = t_slc at hb_slc ⊢
  omega


/-- C14: in the first word emitted for SOPC, SOPP, SOP1, SOP2, SOPK, SMRD, VOPC, VOP1, VOP2
(short forms), VINTRP, MUBUF, MIMG and FLAT the bit range [22:16], [22:16], [15:8], [29:23],
[27:23], [26:22], [24:17], [16:9], [30:25], [17:16], [24:18], [24:18], [24:18] respectively
holds the primary opcode of the descriptor, for every opcode that fits the range, all operand
values within the width of their fields and every combination of modifier flags. -/
theorem first_word_opcode_field :
    (∀ c s0 s1, c < 2 ^ 7 → s0 < 2 ^ 8 → s1 < 2 ^ 8 → sopcWord0 c s0 s1 / 2 ^ 16 % 2 ^ 7 = c) ∧
    (∀ c imm16, c < 2 ^ 7 → imm16 < 2 ^ 16 → soppWord c imm16 / 2 ^ 16 % 2 ^ 7 = c) ∧
    (∀ c s0 d, c < 2 ^ 8 → s0 < 2 ^ 8 → d < 2 ^ 7 → sop1Word0 c s0 d / 2 ^ 8 % 2 ^ 8 = c) ∧
    (∀ c s0 s1 d, c < 2 ^ 7 → s0 < 2 ^ 8 → s1 < 2 ^ 8 → d < 2 ^ 7 →
      sop2Word0 c s0 s1 d / 2 ^ 23 % 2 ^ 7 = c) ∧
    (∀ c imm16 d, c < 2 ^ 5 → imm16 < 2 ^ 16 → d < 2 ^ 7 →
      sopkWord0 c imm16 d / 2 ^ 23 % 2 ^ 5 = c) ∧
    (∀ c d sb isImm ov o, c < 2 ^ 5 → d < 2 ^ 7 → sb < 2 ^ 7 → ov < 2 ^ 8 → o < 2 ^ 8 →
      smrdWord c d sb isImm ov o / 2 ^ 22 % 2 ^ 5 = c) ∧
    (∀ c s0 s1, c < 2 ^ 8 → s0 < 2 ^ 9 → vopcWord0 c s0 s1 / 2 ^ 17 % 2 ^ 8 = c) ∧
    (∀ c s0 d, c < 2 ^ 8 → s0 < 2 ^ 9 → vop1Word0 c s0 d / 2 ^ 9 % 2 ^ 8 = c) ∧
    (∀ c s0 s1 d, c < 2 ^ 6 → s0 < 2 ^ 9 → vop2Word0 c s0 s1 d / 2 ^ 25 % 2 ^ 6 = c) ∧
    (∀ c src attrVal d, c < 2 ^ 2 → vintrpWord c src attrVal d / 2 ^ 16 % 2 ^ 2 = c) ∧
    (∀ isGCN12 c o haveOffen haveIdxen haveGlc haveAddr64 haveLds haveSlc, c < 2 ^ 7 →
      o < 2 ^ 12 →
      mubufWord0 isGCN12 c o haveOffen haveIdxen haveGlc haveAddr64 haveLds haveSlc / 2 ^ 18 %
        2 ^ 7 = c) ∧
    (∀ c dm haveUnorm haveGlc haveDa haveR128 haveA16 haveTfe haveLwe haveSlc, c < 2 ^ 7 →
      mimgWord0 c dm haveUnorm haveGlc haveDa haveR128 haveA16 haveTfe haveLwe haveSlc / 2 ^ 18 %
        2 ^ 7 = c) ∧
    (∀ c haveGlc haveSlc haveLds io fm, c < 2 ^ 7 → io < 2 ^ 13 → fm < 2 ^ 2 →
      flatWord0 c haveGlc haveSlc haveLds io fm / 2 ^ 18 % 2 ^ 7 = c) := by
  refine ⟨?_, ?_, ?_, ?_, ?_, ?_, ?_, ?_, ?_, ?_, ?_, ?_, ?_⟩
  · intro c s0 s1 hc h0 h1
    have h := (sopc_classified c s0 s1 hc h0 h1).2
    rw [extractOpcode_eq] at h
    exact h
  · intro c imm16 hc h0
    have h := (sopp_classified c imm16 hc h0).2
    rw [extractOpcode_eq] at h
    exact h
  · intro c s0 d hc h0 hd
    have h := (sop1_classified c s0 d hc h0 hd).2
    rw [extractOpcode_eq] at h
    exact h
  · intro c s0 s1 d hc h0 h1 hd
    exact sop2_opcode_field c s0 s1 d hc h0 h1 hd
  · intro c imm16 d hc h0 hd
    exact sopk_opcode_field c imm16 d hc h0 hd
  · intro c d sb isImm ov o hc hd hsb hov ho
    have h := (smrd_classified c d sb isImm ov o hc hd hsb hov ho).2
    rw [extractOpcode_eq] at h
    simp only [gcnEncodingOpcodeTable] at h
    omega
  · intro c s0 s1 hc h0
    have h := (vopc_classified c s0 s1 hc h0).2
    rw [extractOpcode_eq] at h
    exact h
  · intro c s0 d hc h0
    have h := (vop1_classified c s0 d hc h0).2
    rw [extractOpcode_eq] at h
    exact h
  · intro c s0 s1 d hc h0
    exact vop2_opcode_field c s0 s1 d hc h0
  · intro c src attrVal d hc
    have h := (vintrp_classified c src attrVal d hc).2
    rw [extractOpcode_eq] at h
    exact h
  · intro isGCN12 c o haveOffen haveIdxen haveGlc haveAddr64 haveLds haveSlc hc ho
    exact mubuf_opcode_field isGCN12 c o haveOffen haveIdxen haveGlc haveAddr64 haveLds haveSlc
      hc ho
  · intro c dm haveUnorm haveGlc haveDa haveR128 haveA16 haveTfe haveLwe haveSlc hc
    have h := (mimg_classified c dm haveUnorm haveGlc haveDa haveR128 haveA16 haveTfe haveLwe
      haveSlc hc).2
    rw [extractOpcode_eq] at h
    exact h
  · intro c haveGlc haveSlc haveLds io fm hc hio hfm
    have h := (flat_classified c haveGlc haveSlc haveLds io fm hc hio hfm).2
    rw [extractOpcode_eq] at h
    simp only [gcnEncodingOpcodeTable] at h
    omega

/-- The first word of `s_add_u32 s0, s1, s2` (SOP2 opcode 0) and of a SOP2 instruction with
opcode 127: the field [29:23] holds the opcode. -/
theorem first_word_opcode_field_witness :
    (127 : Nat) < 2 ^ 7 ∧ (1 : Nat) < 2 ^ 8 ∧ (2 : Nat) < 2 ^ 8 ∧ (0 : Nat) < 2 ^ 7 ∧
      sop2Word0 127 1 2 0 / 2 ^ 23 % 2 ^ 7 = 127 :=
  ⟨by norm_num, by norm_num, by norm_num, by norm_num,
    first_word_opcode_field.2.2.2.1 127 1 2 0 (by norm_num) (by norm_num) (by norm_num)
      (by norm_num)⟩

/-! ## Opcode fields that depend on the architecture -/

theorem ds_gcn12_opcode_field (c o : Nat) (haveGds : Bool)
    (hc : c < 2 ^ 8) (ho : o < 2 ^ 16) :
    dsWord0 true c o haveGds / 2 ^ 17 % 2 ^ 8 = c := by
  have hw : dsWord0 true c o haveGds = 0xd8000000 + o + 65536 * (haveGds).toNat + c * 2 ^ 17 := by
    unfold dsWord0
    simp only [Bool.not_true, Bool.false_eq_true, if_false]
    simp only [Nat.shiftLeft_eq, bit_eq_mul, and_ff, and_f, Bool.not_false, Bool.and_true,
      Bool.and_false, Bool.false_eq_true, if_false, Bool.toNat_false, Nat.mul_zero, Nat.or_zero,
      Nat.one_mul]
    have hb_haveGds := Bool.toNat_le (haveGds)
    generalize (haveGds).toNat = t_haveGds at hb_haveGds ⊢
    rw [or_window _ (o) 0 16 (by omega) (by omega) (by omega),
      or_window _ (65536 * t_haveGds) 16 1 (by omega) (by omega) (by omega),
      or_window _ (c * 2 ^ 17) 17 8 (by omega) (by omega) (by omega)]
    omega
  rw [hw]
  have hb_haveGds := Bool.toNat_le (haveGds)
  generalize (haveGds).toNat = t_haveGds at hb_haveGds ⊢
  omega

theorem mtbuf_gcn12_opcode_field (c o : Nat) (haveOffen haveIdxen haveGlc haveAddr64 : Bool) (df nf : Nat)
    (hc : c < 2 ^ 3) (ho : o < 2 ^ 12) (hdf : df < 2 ^ 4) (hnf : nf < 2 ^ 3) :
    mtbufWord0 true c o haveOffen haveIdxen haveGlc haveAddr64 df nf / 2 ^ 15 % 2 ^ 3 = c := by
  have hw : mtbufWord0 true c o haveOffen haveIdxen haveGlc haveAddr64 df nf = 0xe8000000 + o + 4096 * (haveOffen).toNat + 8192 * (haveIdxen).toNat + 16384 * (haveGlc).toNat + c * 2 ^ 15 + df * 2 ^ 19 + nf * 2 ^ 23 := by
    unfold mtbufWord0
    simp only [Bool.not_true, Bool.and_false, if_true]
    simp only [Nat.shiftLeft_eq, bit_eq_mul, and_ff, and_f, Bool.not_false, Bool.and_true,
      Bool.and_false, Bool.false_eq_true, if_false, Bool.toNat_false, Nat.mul_zero, Nat.or_zero,
      Nat.one_mul]
    have hb_haveOffen := Bool.toNat_le (haveOffen)
    generalize (haveOffen).toNat = t_haveOffen at hb_haveOffen ⊢
    have hb_haveIdxen := Bool.toNat_le (haveIdxen)
    generalize (haveIdxen).toNat = t_haveIdxen at hb_haveIdxen ⊢
    have hb_haveGlc := Bool.toNat_le (haveGlc)
    generalize (haveGlc).toNat = t_haveGlc at hb_haveGlc ⊢
    rw [or_window _ (o) 0 12 (by omega) (by omega) (by omega),
      or_window _ (4096 * t_haveOffen) 12 1 (by omega) (by omega) (by omega),
      or_window _ (8192 * t_haveIdxen) 13 1 (by omega) (by omega) (by omega),
      or_window _ (16384 * t_haveGlc) 14 1 (by omega) (by omega) (by omega),
      or_window _ (c * 2 ^ 15) 15 3 (by omega) (by omega) (by omega),
      or_window _ (df * 2 ^ 19) 19 4 (by omega) (by omega) (by omega),
      or_window _ (nf * 2 ^ 23) 23 3 (by omega) (by omega) (by omega)]
    omega
  rw [hw]
  have hb_haveOffen := Bool.toNat_le (haveOffen)
  generalize (haveOffen).toNat = t_haveOffen at hb_haveOffen ⊢
  have hb_haveIdxen := Bool.toNat_le (haveIdxen)
  generalize (haveIdxen).toNat = t_haveIdxen at hb_haveIdxen ⊢
  have hb_haveGlc := Bool.toNat_le (haveGlc)
  generalize (haveGlc).toNat = t_haveGlc at hb_haveGlc ⊢
  omega

theorem vop3b_gcn12_opcode_field (c d sd : Nat) (clamp : Bool)
    (hc : c < 2 ^ 10) (hs : sd < 2 ^ 7) :
    vop3bWord0 true c d sd clamp / 2 ^ 16 % 2 ^ 10 = c := by
  have hw : vop3bWord0 true c d sd clamp = 0xd0000000 + c * 2 ^ 16 + d % 256 + sd * 2 ^ 8 + 32768 * (clamp).toNat := by
    unfold vop3bWord0
    simp only [Bool.not_true, Bool.false_eq_true, if_false]
    simp only [Nat.shiftLeft_eq, bit_eq_mul, and_ff, and_f, Bool.not_false, Bool.and_true,
      Bool.and_false, Bool.false_eq_true, if_false, Bool.toNat_false, Nat.mul_zero, Nat.or_zero,
      Nat.one_mul]
    have hb_clamp := Bool.toNat_le (clamp)
    generalize (clamp).toNat = t_clamp at hb_clamp ⊢
    rw [or_window _ (c * 2 ^ 16) 16 10 (by omega) (by omega) (by omega),
      or_window _ (d % 256) 0 8 (by omega) (by omega) (by omega),
      or_window _ (sd * 2 ^ 8) 8 7 (by omega) (by omega) (by omega),
      or_window _ (32768 * t_clamp) 15 1 (by omega) (by omega) (by omega)]
    omega
  rw [hw]
  have hb_clamp := Bool.toNat_le (clamp)
  generalize (clamp).toNat = t_clamp at hb_clamp ⊢
  omega

theorem bit_le (c : Bool) (K : Nat) : bit c K ≤ K := by
  cases c <;> simp [bit]

theorem vop3a_gcn12_opcode_field (c d : Nat) (clamp vop3p : Bool) (negMod : Nat)
    (abs0 abs1 abs2 : Bool) (opselMod : Nat) (hc : c < 2 ^ 10) (hn : negMod < 2 ^ 8) :
    vop3aWord0GCN12 c d clamp vop3p negMod abs0 abs1 abs2 opselMod / 2 ^ 16 % 2 ^ 10 = c := by
  have hsel : (if vop3p then (negMod >>> 4) <<< 8
      else bit abs0 0x100 ||| bit abs1 0x200 ||| bit abs2 0x400) < 2 ^ 16 := by
    split_ifs
    · rw [Nat.shiftRight_eq_div_pow, Nat.shiftLeft_eq]
      omega
    · have h0 := bit_le abs0 0x100
      have h1 := bit_le abs1 0x200
      have h2 := bit_le abs2 0x400
      exact Nat.or_lt_two_pow (Nat.or_lt_two_pow (by omega) (by omega)) (by omega)
  have hX : ((d &&& 0xff) ||| (bit clamp 0x8000 |||
      ((if vop3p then (negMod >>> 4) <<< 8
        else bit abs0 0x100 ||| bit abs1 0x200 ||| bit abs2 0x400) |||
      (bit (decide (opselMod &&& 64 ≠ 0)) 0x4000 ||| ((opselMod &&& 15) <<< 11))))) < 2 ^ 16 := by
    have h0 := bit_le clamp 0x8000
    have h1 := bit_le (decide (opselMod &&& 64 ≠ 0)) 0x4000
    have h2 : (opselMod &&& 15) <<< 11 < 2 ^ 16 := by
      rw [and_f, Nat.shiftLeft_eq]
      omega
    have h3 : d &&& 0xff < 2 ^ 16 := by
      rw [and_ff]
      omega
    exact Nat.or_lt_two_pow h3 (Nat.or_lt_two_pow (by omega)
      (Nat.or_lt_two_pow hsel (Nat.or_lt_two_pow (by omega) h2)))
  unfold vop3aWord0GCN12
  simp only [Nat.or_assoc] at hX ⊢
  generalize (d &&& 0xff) ||| (bit clamp 0x8000 |||
      ((if vop3p then (negMod >>> 4) <<< 8
        else bit abs0 0x100 ||| (bit abs1 0x200 ||| bit abs2 0x400)) |||
      (bit (decide (opselMod &&& 64 ≠ 0)) 0x4000 ||| ((opselMod &&& 15) <<< 11)))) = X at hX ⊢
  rw [Nat.shiftLeft_eq, or_window (c * 2 ^ 16) X 0 16 (by omega) (by omega) (by omega),
    or_window _ (c * 2 ^ 16 + X) 0 28 (by omega) (by omega) (by omega)]
  omega


/-- C15 (amended): before GCN 1.2 the VOP3A/VOP3B encoder emits two words with the opcode at
bits [25:17]; on GCN 1.2 and later it emits two words with the opcode at bits [25:16],
except for a VOP3A descriptor in the VINTRP form (no `vop3`, `high`, clamp, omod or `op_sel`
modifier and no modifier on the second and third source), for which it emits the single
VINTRP-format word that carries the secondary opcode. The DS encoder always emits two words
with the opcode at [25:18] before GCN 1.2 and at [24:17] from GCN 1.2 on, and the MTBUF
encoder always emits two words with the opcode at [18:16] before GCN 1.2 and at [17:15] from
GCN 1.2 on. -/
theorem two_word_encoders_opcode_field :
    (∀ K isGCN12 gcnInsn dstReg sdstReg src0Op src1Op src2Op modifiers opMods,
      sdstReg.bstart < 2 ^ 7 → opMods.negMod < 2 ^ 8 →
      (isGCN12 = false → gcnInsn.code1 < 2 ^ 9 →
        (parseVOP3Words K isGCN12 gcnInsn dstReg sdstReg src0Op src1Op src2Op modifiers
          opMods).length = 2 ∧
        (parseVOP3Words K isGCN12 gcnInsn dstReg sdstReg src0Op src1Op src2Op modifiers
          opMods).getD 0 0 / 2 ^ 17 % 2 ^ 9 = gcnInsn.code1) ∧
      (isGCN12 = true → gcnInsn.code1 < 2 ^ 10 →
        (gcnInsn.encoding = GCNENC_VOP3B ∨
          vop3NewEncoding K gcnInsn src0Op src1Op src2Op modifiers opMods = true) →
        (parseVOP3Words K isGCN12 gcnInsn dstReg sdstReg src0Op src1Op src2Op modifiers
          opMods).length = 2 ∧
        (parseVOP3Words K isGCN12 gcnInsn dstReg sdstReg src0Op src1Op src2Op modifiers
          opMods).getD 0 0 / 2 ^ 16 % 2 ^ 10 = gcnInsn.code1) ∧
      (isGCN12 = true → gcnInsn.encoding ≠ GCNENC_VOP3B →
        vop3NewEncoding K gcnInsn src0Op src1Op src2Op modifiers opMods = false →
        parseVOP3Words K isGCN12 gcnInsn dstReg sdstReg src0Op src1Op src2Op modifiers opMods =
          [vop3VintrpWord src1Op.range.bstart src0Op.range.bstart gcnInsn.code2
            dstReg.bstart])) ∧
    (∀ isGCN12 code1 offset haveGds addrReg data0Reg data1Reg dstReg,
      code1 < 2 ^ 8 → offset < 2 ^ 16 →
      (parseDSWords isGCN12 code1 offset haveGds addrReg data0Reg data1Reg dstReg).length = 2 ∧
      (parseDSWords isGCN12 code1 offset haveGds addrReg data0Reg data1Reg dstReg).getD 0 0 /
        2 ^ (if isGCN12 then 17 else 18) % 2 ^ 8 = code1) ∧
    (∀ isGCN12 gcnInsn offset haveOffen haveIdxen haveGlc haveAddr64 haveLds haveSlc haveTfe
        dfmt nfmt vaddrReg vdataReg srsrcReg soffsetOp,
      gcnInsn.encoding = GCNENC_MTBUF → gcnInsn.code1 < 2 ^ 3 → offset < 2 ^ 12 →
      dfmt < 2 ^ 4 → nfmt < 2 ^ 3 →
      (parseMUBUFWords isGCN12 gcnInsn offset haveOffen haveIdxen haveGlc haveAddr64 haveLds
        haveSlc haveTfe dfmt nfmt vaddrReg vdataReg srsrcReg soffsetOp).length = 2 ∧
      (parseMUBUFWords isGCN12 gcnInsn offset haveOffen haveIdxen haveGlc haveAddr64 haveLds
        haveSlc haveTfe dfmt nfmt vaddrReg vdataReg srsrcReg soffsetOp).getD 0 0 /
        2 ^ (if isGCN12 then 15 else 16) % 2 ^ 3 = gcnInsn.code1) := by
  refine ⟨?_, ?_, ?_⟩
  · intro K isGCN12 gcnInsn dstReg sdstReg src0Op src1Op src2Op modifiers opMods hs hn
    refine ⟨?_, ?_, ?_⟩
    · intro hg hc
      subst hg
      unfold parseVOP3Words
      by_cases hb : gcnInsn.encoding = GCNENC_VOP3B
      · simp only [hb, if_true, List.length_cons, List.length_nil, List.getD_cons_zero, true_and]
        have h := (vop3b_classified gcnInsn.code1 dstReg.bstart sdstReg.bstart hc hs).2
        rw [extractOpcode_eq] at h
        simp only [gcnEncodingOpcodeTable] at h
        have e : ∀ b, vop3bWord0 false gcnInsn.code1 dstReg.bstart sdstReg.bstart b =
            vop3bWord0 false gcnInsn.code1 dstReg.bstart sdstReg.bstart false := by
          intro b
          simp only [vop3bWord0, Bool.not_false, if_true]
        rw [e]
        exact h
      · simp only [hb, if_false, Bool.not_false, if_true, List.length_cons, List.length_nil,
          List.getD_cons_zero, true_and]
        have h := (vop3a_classified gcnInsn.code1 dstReg.bstart
          (decide (modifiers &&& K.VOP3_CLAMP ≠ 0))
          (decide (src0Op.vopMods &&& K.VOPOP_ABS ≠ 0))
          (decide (src1Op.vopMods &&& K.VOPOP_ABS ≠ 0))
          (decide (src2Op.vopMods &&& K.VOPOP_ABS ≠ 0)) hc).2
        rw [extractOpcode_eq] at h
        exact h
    · intro hg hc hcond
      subst hg
      unfold parseVOP3Words
      by_cases hb : gcnInsn.encoding = GCNENC_VOP3B
      · simp only [hb, if_true, List.length_cons, List.length_nil, List.getD_cons_zero, true_and]
        exact vop3b_gcn12_opcode_field _ _ _ _ hc hs
      · have hv : vop3NewEncoding K gcnInsn src0Op src1Op src2Op modifiers opMods = true := by
          rcases hcond with h | h
          · exact absurd h hb
          · exact h
        simp only [hb, hv, if_false, if_true, Bool.not_true, Bool.false_eq_true,
          List.length_cons, List.length_nil, List.getD_cons_zero, true_and]
        exact vop3a_gcn12_opcode_field _ _ _ _ _ _ _ _ _ hc hn
    · intro hg hb hv
      subst hg
      unfold parseVOP3Words
      simp only [hb, hv, if_false, Bool.not_true, Bool.false_eq_true]
  · intro isGCN12 code1 offset haveGds addrReg data0Reg data1Reg dstReg hc ho
    unfold parseDSWords
    simp only [List.length_cons, List.length_nil, List.getD_cons_zero, true_and]
    cases isGCN12
    · have h := (ds_classified code1 offset haveGds hc ho).2
      rw [extractOpcode_eq] at h
      simpa using h
    · simpa using ds_gcn12_opcode_field code1 offset haveGds hc ho
  · intro isGCN12 gcnInsn offset haveOffen haveIdxen haveGlc haveAddr64 haveLds haveSlc haveTfe
      dfmt nfmt vaddrReg vdataReg srsrcReg soffsetOp he hc ho hdf hnf
    unfold parseMUBUFWords
    have hne : ¬ (GCNENC_MTBUF = GCNENC_MUBUF) := by decide
    simp only [he, hne, if_false, List.length_cons, List.length_nil, List.getD_cons_zero,
      true_and]
    cases isGCN12
    · have h := (mtbuf_classified gcnInsn.code1 offset haveOffen haveIdxen haveGlc haveAddr64
        dfmt nfmt hc ho hdf hnf).2
      rw [extractOpcode_eq] at h
      simpa using h
    · simpa using mtbuf_gcn12_opcode_field gcnInsn.code1 offset haveOffen haveIdxen haveGlc
        haveAddr64 dfmt nfmt hc ho hdf hnf

/-- A DS instruction on GCN 1.2 (`ds_read_b32`-like, opcode 54, offset 16): two words, the
opcode in bits [24:17]. -/
theorem two_word_encoders_opcode_field_witness :
    (54 : Nat) < 2 ^ 8 ∧ (16 : Nat) < 2 ^ 16 ∧
    (parseDSWords true 54 16 false ⟨257, 258, false⟩ ⟨0, 0, false⟩ ⟨0, 0, false⟩
      ⟨258, 259, false⟩).length = 2 ∧
    (parseDSWords true 54 16 false ⟨257, 258, false⟩ ⟨0, 0, false⟩ ⟨0, 0, false⟩
      ⟨258, 259, false⟩).getD 0 0 / 2 ^ (if true = true then 17 else 18) % 2 ^ 8 = 54 :=
  ⟨by norm_num, by norm_num,
    two_word_encoders_opcode_field.2.1 true 54 16 false ⟨257, 258, false⟩ ⟨0, 0, false⟩
      ⟨0, 0, false⟩ ⟨258, 259, false⟩ (by norm_num) (by norm_num)⟩

set_option maxRecDepth 100000 in
/-- C15 (counterexample): on GCN 1.2 the VOP3 encoder emits a single word for a VOP3A
descriptor marked as VINTRP (here with primary opcode 0x270 and secondary opcode 0) that is
written without modifiers, and bits [25:16] of that word do not hold the primary opcode. -/
theorem vop3_vintrp_form_is_one_word :
    parseVOP3Words sampleAsmConsts true ⟨"v_interp_p1_f32", GCNENC_VOP3A, 0x200, 0x270, 0, 4⟩
        ⟨257, 258, false⟩ ⟨0, 0, false⟩ ⟨⟨0, 1, false⟩, 0, 0⟩ ⟨⟨258, 259, false⟩, 0, 0⟩
        ⟨⟨0, 0, false⟩, 0, 0⟩ 0 ⟨0, 0, 0, 0⟩ = [0xd4040002] ∧
    [0xd4040002].length ≠ 2 ∧ 0xd4040002 / 2 ^ 16 % 2 ^ 10 ≠ 0x270 := by
  decide

/-! ## Code-flow entries of the branch encoders -/

/-- C16: when the target of a relative branch is known at assembly time and the instruction
is accepted, the encoder appends exactly one code-flow entry (current output position,
target, kind): for SOPP the kind is JUMP for opcode 2 and CJUMP otherwise, for SOPK it is
CALL for opcode 21 on Vega and CJUMP otherwise; an accepted SOPP instruction without operand
and with opcode 1 or 27 (`s_endpgm`, `s_endpgm_saved`) appends one END entry. -/
theorem branch_code_flow_entry :
    (∀ code1 gcnEncSize p output currentOutPos codeFlow, p.imm16Expr = false →
      (parseSOPPEncodingRel code1 gcnEncSize p output currentOutPos codeFlow).ret = true →
      (parseSOPPEncodingRel code1 gcnEncSize p output currentOutPos codeFlow).codeFlow =
        codeFlow ++ [⟨currentOutPos % 2 ^ 64, p.value % 2 ^ 64,
          if code1 = 2 then AsmCodeFlowType.JUMP else AsmCodeFlowType.CJUMP⟩]) ∧
    (∀ isGCN14 immDst sopkConst code1 gcnEncSize p output currentOutPos codeFlow,
      p.imm16Expr = false →
      (parseSOPKEncodingRel isGCN14 immDst sopkConst code1 gcnEncSize p output currentOutPos
        codeFlow).ret = true →
      (parseSOPKEncodingRel isGCN14 immDst sopkConst code1 gcnEncSize p output currentOutPos
        codeFlow).codeFlow =
        codeFlow ++ [⟨currentOutPos % 2 ^ 64, p.value % 2 ^ 64,
          if isGCN14 = true ∧ code1 = 21 then AsmCodeFlowType.CALL
          else AsmCodeFlowType.CJUMP⟩]) ∧
    (∀ code1 gcnEncSize noGarbage output currentOutPos codeFlow, code1 = 1 ∨ code1 = 27 →
      (parseSOPPEncodingNone code1 gcnEncSize noGarbage output currentOutPos codeFlow).ret =
        true →
      (parseSOPPEncodingNone code1 gcnEncSize noGarbage output currentOutPos codeFlow).codeFlow =
        codeFlow ++ [⟨(currentOutPos + 4) % 2 ^ 64, 0, AsmCodeFlowType.END⟩]) := by
  refine ⟨?_, ?_, ?_⟩
  · intro code1 gcnEncSize p output currentOutPos codeFlow he hret
    unfold parseSOPPEncodingRel at hret ⊢
    simp only [he, Bool.not_false, Bool.true_and] at hret ⊢
    split_ifs at hret ⊢ <;> simp_all
  · intro isGCN14 immDst sopkConst code1 gcnEncSize p output currentOutPos codeFlow he hret
    unfold parseSOPKEncodingRel at hret ⊢
    simp only [he, Bool.not_false, Bool.true_and, Bool.false_eq_true, if_false, List.append_nil,
      Bool.and_false] at hret ⊢
    generalize jumpByteOffset p.value output.length = off at hret ⊢
    by_cases h1 : ((!immDst) = true ∧ (!p.dstCommaOk) = true)
    · rw [if_pos h1] at hret
      exact absurd hret (by simp)
    rw [if_neg h1] at hret ⊢
    by_cases h2 : (!p.jumpArgOk) = true
    · rw [if_pos h2] at hret
      exact absurd hret (by simp)
    rw [if_neg h2] at hret ⊢
    by_cases h3 : (immDst = true ∧ (!p.immDstCommaOk) = true)
    · rw [if_pos h3] at hret
      exact absurd hret (by simp)
    rw [if_neg h3] at hret ⊢
    generalize ((if (!immDst) = true then p.dstGood else true) && !decide (off % 4 ≠ 0) &&
      !decide (off >>> (2 : Nat) > INT16_MAX ∨ off >>> (2 : Nat) < INT16_MIN)) = g1 at hret ⊢
    by_cases h4 : ((!if immDst = true then g1 && p.immDstGood else g1) = true ∨
        (!p.noGarbage) = true)
    · rw [if_pos h4] at hret
      exact absurd hret (by simp)
    rw [if_neg h4] at hret ⊢
    by_cases h5 : (!checkGCNEncodingSize gcnEncSize (if sopkConst = true then 2 else 1)) = true
    · rw [if_pos h5] at hret
      exact absurd hret (by simp)
    rw [if_neg h5]
    have hg : g1 = true := by
      cases immDst <;> cases g1 <;> simp_all
    simp only [hg, and_self, if_true]
  · intro code1 gcnEncSize noGarbage output currentOutPos codeFlow hc hret
    unfold parseSOPPEncodingNone at hret ⊢
    split_ifs at hret ⊢
    all_goals simp_all

set_option maxRecDepth 100000 in
/-- The scenario of `s_cbranch_i_fork s[2:3], L` (SOPK opcode 17) at output position 0 with
the label at 8: the instruction is accepted, the immediate is 1 and the entry (0, 8, CJUMP)
is recorded. -/
theorem branch_code_flow_entry_witness :
    (⟨true, true, ⟨2, 4, false⟩, true, 8, false, true, true, 0, false, ⟨0, 0, false⟩,
      true⟩ : SOPKRelParsed).imm16Expr = false ∧
    parseSOPKEncodingRel false false false 17 GCNEncSize.UNKNOWN
        ⟨true, true, ⟨2, 4, false⟩, true, 8, false, true, true, 0, false, ⟨0, 0, false⟩, true⟩
        [] 0 [] =
      ⟨true, wordsToBytes [0xb8820001], [], [⟨0, 8, AsmCodeFlowType.CJUMP⟩], []⟩ ∧
    (parseSOPKEncodingRel false false false 17 GCNEncSize.UNKNOWN
        ⟨true, true, ⟨2, 4, false⟩, true, 8, false, true, true, 0, false, ⟨0, 0, false⟩, true⟩
        [] 0 []).codeFlow =
      [] ++ [⟨0 % 2 ^ 64, 8 % 2 ^ 64,
        if false = true ∧ 17 = 21 then AsmCodeFlowType.CALL else AsmCodeFlowType.CJUMP⟩] :=
  ⟨rfl, by decide,
    branch_code_flow_entry.2.1 false false false 17 GCNEncSize.UNKNOWN
      ⟨true, true, ⟨2, 4, false⟩, true, 8, false, true, true, 0, false, ⟨0, 0, false⟩, true⟩
      [] 0 [] rfl (by decide)⟩

/-- A branch whose target lies 8 bytes after the instruction gets the immediate 1. -/
theorem jump_plus8_imm16 (n : Nat) (h : n < 2 ^ 62) :
    toUInt16 (jumpByteOffset (n + 8) n >>> (2 : Nat)) = 1 := by
  unfold jumpByteOffset
  rw [toInt64_of_lt n (by omega), toInt64_of_lt (n + 8) (by omega), int_shr2]
  unfold wrapInt64 toUInt16
  split_ifs <;> omega

/-! ## The immediate of `hwreg` -/

theorem or_mod_pow (a b n : Nat) : (a ||| b) % 2 ^ n = a % 2 ^ n ||| b % 2 ^ n := by
  apply Nat.eq_of_testBit_eq
  intro i
  simp only [Nat.testBit_mod_two_pow, Nat.testBit_or]
  cases decide (i < n) <;> simp

/-- The low 16 bits of the first word of `parseSOPKEncoding` are the immediate. -/
theorem sopkWord0_low16 (c imm16 d : Nat) : sopkWord0 c imm16 d % 2 ^ 16 = imm16 % 2 ^ 16 := by
  unfold sopkWord0
  rw [Nat.mod_mod_of_dvd _ (by norm_num : (2 : Nat) ^ 16 ∣ 2 ^ 32), or_mod_pow, or_mod_pow,
    or_mod_pow, Nat.shiftLeft_eq, Nat.shiftLeft_eq]
  have e1 : (0xb0000000 : Nat) % 2 ^ 16 = 0 := by norm_num
  have e2 : d * 2 ^ 16 % 2 ^ 16 = 0 := by omega
  have e3 : c * 2 ^ 23 % 2 ^ 16 = 0 := by omega
  rw [e1, e2, e3, Nat.or_zero, Nat.or_zero, Nat.zero_or]

theorem hwregImm16_eq (id off size : Nat) (hs : 1 ≤ size) :
    hwregImm16 id off size = (id ||| off <<< 6 ||| (size - 1) <<< 11) % 2 ^ 16 := by
  unfold hwregImm16
  rw [or_mod_pow, or_mod_pow, or_mod_pow, or_mod_pow]
  simp only [Nat.shiftLeft_eq]
  have e1 : off * 2 ^ 6 % 2 ^ 64 % 2 ^ 16 = off * 2 ^ 6 % 2 ^ 16 := by omega
  have e2 : (size + (2 ^ 64 - 1)) % 2 ^ 64 * 2 ^ 11 % 2 ^ 64 % 2 ^ 16 =
      (size - 1) * 2 ^ 11 % 2 ^ 16 := by omega
  rw [e1, e2]

theorem hwregImm16_fields (id off size : Nat) (hi : id < 64) (ho : off < 32) (hs : 1 ≤ size)
    (hs2 : size ≤ 32) : hwregImm16 id off size = id + off * 2 ^ 6 + (size - 1) * 2 ^ 11 := by
  rw [hwregImm16_eq id off size hs]
  simp only [Nat.shiftLeft_eq]
  rw [or_window _ (off * 2 ^ 6) 6 5 (by omega) (by omega) (by omega),
    or_window _ ((size - 1) * 2 ^ 11) 11 5 (by omega) (by omega) (by omega)]
  omega

/-- The hwreg path of `parseSOPKEncoding` on parse results without a failure: the routine
returns `true`, reports no error and appends the instruction word with the packed
immediate. -/
theorem parseSOPKEncodingHwreg_accepts (isGCN12 isGCN14 immDst sopkConst : Bool) (code1 : Nat)
    (gcnEncSize : GCNEncSize) (p : SOPKHwregParsed) (output : List Nat) (id : Nat)
    (hdst : immDst = false → p.dstCommaOk = true ∧ p.dstGood = true)
    (hfn : p.funcNameOk = true) (hname : p.funcName = "hwreg") (hop : p.openParen = true)
    (hid : if p.byName = true then
        getEnumeration (if isGCN14 = true then hwregNamesGCN14Map else hwregNamesMap)
          p.regName = some id ∧ (isGCN12 = true ∨ id ≠ 13)
      else p.paramGood = true ∧ id = p.paramId % 2 ^ 32)
    (hc1 : p.comma1Ok = true) (ha2 : p.arg2Ok = true) (hc2 : p.comma2Ok = true)
    (ha3 : p.arg3Ok = true) (hcl : p.closeParen = true)
    (himm : immDst = true → p.immDstCommaOk = true ∧ p.immDstGood = true)
    (hg : p.noGarbage = true)
    (hsz : checkGCNEncodingSize gcnEncSize (if sopkConst = true then 2 else 1) = true) :
    (parseSOPKEncodingHwreg isGCN12 isGCN14 immDst sopkConst code1 gcnEncSize p output).ret =
      true ∧
    (parseSOPKEncodingHwreg isGCN12 isGCN14 immDst sopkConst code1 gcnEncSize p
      output).errors = [] ∧
    (parseSOPKEncodingHwreg isGCN12 isGCN14 immDst sopkConst code1 gcnEncSize p
      output).output =
      output ++ wordsToBytes (sopkWord0 code1
        (hwregImm16 id (p.arg2Value % 2 ^ 64) (p.arg3Value % 2 ^ 64))
        (if immDst = true ∧ (!sopkConst) = true then p.dstReg2
          else if immDst = true then ⟨0, 0, false⟩ else p.dstReg).bstart ::
        if sopkConst = true then
          [if immDst = true ∧ sopkConst = true then p.imm32 % 2 ^ 32 else 0]
        else []) := by
  have hfound : (if p.byName = true then
      (getEnumeration (if isGCN14 = true then hwregNamesGCN14Map else hwregNamesMap)
        p.regName).getD 0 else p.paramId % 2 ^ 32) = id := by
    by_cases hb : p.byName = true
    · rw [if_pos hb] at hid ⊢
      rw [hid.1]
      rfl
    · rw [if_neg hb] at hid ⊢
      exact hid.2.symm
  have hgood1 : (if p.byName = true then
      (if (!immDst) = true then p.dstGood else true) &&
        (getEnumeration (if isGCN14 = true then hwregNamesGCN14Map else hwregNamesMap)
          p.regName).isSome
      else (if (!immDst) = true then p.dstGood else true) && p.paramGood) = true := by
    have h0 : (if (!immDst) = true then p.dstGood else true) = true := by
      cases immDst
      · simpa using (hdst rfl).2
      · rfl
    by_cases hb : p.byName = true
    · rw [if_pos hb] at hid ⊢
      rw [h0, hid.1]
      rfl
    · rw [if_neg hb] at hid ⊢
      rw [h0, hid.1]
      rfl
  have hunk : (p.byName && true && !isGCN12 && decide (id = 13)) = false := by
    by_cases hb : p.byName = true
    · rw [if_pos hb] at hid
      rcases hid.2 with h | h
      · simp [h]
      · simp [h]
    · simp [hb]
  have h1 : ¬((!immDst) = true ∧ (!p.dstCommaOk) = true) := by
    rintro ⟨h, h'⟩
    have := (hdst (by simpa using h)).1
    simp [this] at h'
  have h7 : ¬(immDst = true ∧ (!p.immDstCommaOk) = true) := by
    rintro ⟨h, h'⟩
    have := (himm h).1
    simp [this] at h'
  have h5 : (if immDst = true then true && !false && true && true && p.immDstGood
      else true && !false && true && true) = true := by
    cases hi : immDst
    · simp
    · simp [(himm hi).2]
  unfold parseSOPKEncodingHwreg
  simp only []
  rw [if_neg h1, if_neg (by simp [hfn]), if_neg (by simp [hname, hop]),
    if_neg (by simp [hc1]), if_neg (by simp [hc2]), if_neg (by simp [hcl]), if_neg h7]
  simp only [hfound, hgood1, hunk, ha2, ha3, if_true]
  rw [if_neg (by rw [h5]; simp [hg]), if_neg (by simp [hsz])]
  refine ⟨rfl, ?_, ?_⟩
  · simp
  · simp only [emitWords]
    cases sopkConst <;> simp

/-- The hwreg path of `parseSOPKEncoding` when it returns `true`: the register id was found
(or given with `@`) and the instruction word with the packed immediate has been appended. -/
theorem parseSOPKEncodingHwreg_emits (isGCN12 isGCN14 immDst sopkConst : Bool) (code1 : Nat)
    (gcnEncSize : GCNEncSize) (p : SOPKHwregParsed) (output : List Nat)
    (hret : (parseSOPKEncodingHwreg isGCN12 isGCN14 immDst sopkConst code1 gcnEncSize p
      output).ret = true) :
    ∃ id dst tail,
      (if p.byName = true then
        getEnumeration (if isGCN14 = true then hwregNamesGCN14Map else hwregNamesMap)
          p.regName = some id
        else id = p.paramId % 2 ^ 32) ∧
      (parseSOPKEncodingHwreg isGCN12 isGCN14 immDst sopkConst code1 gcnEncSize p
        output).output =
        output ++ wordsToBytes (sopkWord0 code1
          (hwregImm16 id (p.arg2Value % 2 ^ 64) (p.arg3Value % 2 ^ 64)) dst :: tail) ∧
      sopkWord0 code1 (hwregImm16 id (p.arg2Value % 2 ^ 64) (p.arg3Value % 2 ^ 64)) dst %
        2 ^ 16 = hwregImm16 id (p.arg2Value % 2 ^ 64) (p.arg3Value % 2 ^ 64) := by
  have hlow : ∀ id dst, sopkWord0 code1
      (hwregImm16 id (p.arg2Value % 2 ^ 64) (p.arg3Value % 2 ^ 64)) dst % 2 ^ 16 =
      hwregImm16 id (p.arg2Value % 2 ^ 64) (p.arg3Value % 2 ^ 64) := by
    intro id dst
    rw [sopkWord0_low16]
    exact Nat.mod_eq_of_lt (by unfold hwregImm16; omega)
  unfold parseSOPKEncodingHwreg at hret ⊢
  simp only [] at hret ⊢
  by_cases h1 : ((!immDst) = true ∧ (!p.dstCommaOk) = true)
  · rw [if_pos h1] at hret
    exact absurd hret (by simp)
  rw [if_neg h1] at hret ⊢
  by_cases h2 : (!p.funcNameOk) = true
  · rw [if_pos h2] at hret
    exact absurd hret (by simp)
  rw [if_neg h2] at hret ⊢
  by_cases h3 : (p.funcName ≠ "hwreg" ∨ (!p.openParen) = true)
  · rw [if_pos h3] at hret
    exact absurd hret (by simp)
  rw [if_neg h3] at hret ⊢
  by_cases h4 : (!p.comma1Ok) = true
  · rw [if_pos h4] at hret
    exact absurd hret (by simp)
  rw [if_neg h4] at hret ⊢
  by_cases h5 : (!p.comma2Ok) = true
  · rw [if_pos h5] at hret
    exact absurd hret (by simp)
  rw [if_neg h5] at hret ⊢
  by_cases h6 : (!p.closeParen) = true
  · rw [if_pos h6] at hret
    exact absurd hret (by simp)
  rw [if_neg h6] at hret ⊢
  by_cases h7 : (immDst = true ∧ (!p.immDstCommaOk) = true)
  · rw [if_pos h7] at hret
    exact absurd hret (by simp)
  rw [if_neg h7] at hret ⊢
  generalize hf : getEnumeration (if isGCN14 = true then hwregNamesGCN14Map else hwregNamesMap)
    p.regName = found at hret ⊢
  generalize hg1 : (if p.byName = true then
      (if (!immDst) = true then p.dstGood else true) && found.isSome
    else (if (!immDst) = true then p.dstGood else true) && p.paramGood) = g1 at hret ⊢
  generalize (p.byName && g1 && !isGCN12 &&
    decide ((if p.byName = true then found.getD 0 else p.paramId % 2 ^ 32) = 13)) = u
    at hret ⊢
  by_cases h8 : ((!if immDst = true then g1 && !u && p.arg2Ok && p.arg3Ok && p.immDstGood
      else g1 && !u && p.arg2Ok && p.arg3Ok) = true ∨ (!p.noGarbage) = true)
  · rw [if_pos h8] at hret
    exact absurd hret (by simp)
  rw [if_neg h8] at hret ⊢
  by_cases h9 : (!checkGCNEncodingSize gcnEncSize (if sopkConst = true then 2 else 1)) = true
  · rw [if_pos h9] at hret
    exact absurd hret (by simp)
  rw [if_neg h9]
  have hfacts : g1 = true ∧ p.arg2Ok = true ∧ p.arg3Ok = true := by
    cases immDst <;> cases g1 <;> cases hb2 : p.arg2Ok <;> cases hb3 : p.arg3Ok <;> simp_all
  obtain ⟨hg, ha2, ha3⟩ := hfacts
  refine ⟨if p.byName = true then found.getD 0 else p.paramId % 2 ^ 32,
    (if immDst = true ∧ (!sopkConst) = true then p.dstReg2
      else if immDst = true then ⟨0, 0, false⟩ else p.dstReg).bstart,
    if sopkConst = true then [if immDst = true ∧ sopkConst = true then p.imm32 % 2 ^ 32 else 0]
      else [], ?_, ?_, hlow _ _⟩
  · by_cases hbn : p.byName = true
    · rw [if_pos hbn, if_pos hbn]
      rw [if_pos hbn] at hg1
      rw [hg] at hg1
      cases found with
      | none => simp at hg1
      | some v => rfl
    · rw [if_neg hbn, if_neg hbn]
  · simp only [ha2, ha3, if_true, emitWords]
    cases sopkConst <;> simp

/-- C18: for an SOPK instruction whose immediate is written `hwreg(name, off, size)` and
whose parse steps all succeed (the register name is in the table of the current
architecture with the value `id`, or the id is given with `@`), the routine returns `true`
without an error and appends the instruction word whose low 16 bits are the immediate
`hwregImm16 id off size`; conversely every call that returns `true` has appended such a
word. This immediate is `(id | off<<6 | (size-1)<<11) mod 2^16` for `size >= 1`; for
`id < 64`, `off` in 0..31 and `size` in 1..32 the three fields do not overlap, so distinct
triples give distinct immediates. -/
theorem hwreg_immediate :
    (∀ (isGCN12 isGCN14 immDst sopkConst : Bool) (code1 : Nat) (gcnEncSize : GCNEncSize)
        (p : SOPKHwregParsed) (output : List Nat) (id : Nat),
      (immDst = false → p.dstCommaOk = true ∧ p.dstGood = true) →
      p.funcNameOk = true → p.funcName = "hwreg" → p.openParen = true →
      (if p.byName = true then
        getEnumeration (if isGCN14 = true then hwregNamesGCN14Map else hwregNamesMap)
          p.regName = some id ∧ (isGCN12 = true ∨ id ≠ 13)
      else p.paramGood = true ∧ id = p.paramId % 2 ^ 32) →
      p.comma1Ok = true → p.arg2Ok = true → p.comma2Ok = true → p.arg3Ok = true →
      p.closeParen = true →
      (immDst = true → p.immDstCommaOk = true ∧ p.immDstGood = true) →
      p.noGarbage = true →
      checkGCNEncodingSize gcnEncSize (if sopkConst = true then 2 else 1) = true →
      (parseSOPKEncodingHwreg isGCN12 isGCN14 immDst sopkConst code1 gcnEncSize p
        output).ret = true ∧
      (parseSOPKEncodingHwreg isGCN12 isGCN14 immDst sopkConst code1 gcnEncSize p
        output).errors = [] ∧
      ∃ dst tail,
        (parseSOPKEncodingHwreg isGCN12 isGCN14 immDst sopkConst code1 gcnEncSize p
          output).output =
          output ++ wordsToBytes (sopkWord0 code1
            (hwregImm16 id (p.arg2Value % 2 ^ 64) (p.arg3Value % 2 ^ 64)) dst :: tail) ∧
        sopkWord0 code1 (hwregImm16 id (p.arg2Value % 2 ^ 64) (p.arg3Value % 2 ^ 64)) dst %
          2 ^ 16 = hwregImm16 id (p.arg2Value % 2 ^ 64) (p.arg3Value % 2 ^ 64)) ∧
    (∀ isGCN12 isGCN14 immDst sopkConst code1 gcnEncSize p output,
      (parseSOPKEncodingHwreg isGCN12 isGCN14 immDst sopkConst code1 gcnEncSize p output).ret =
        true →
      ∃ id dst tail,
        (if p.byName = true then
          getEnumeration (if isGCN14 = true then hwregNamesGCN14Map else hwregNamesMap)
            p.regName = some id
          else id = p.paramId % 2 ^ 32) ∧
        (parseSOPKEncodingHwreg isGCN12 isGCN14 immDst sopkConst code1 gcnEncSize p
          output).output =
          output ++ wordsToBytes (sopkWord0 code1
            (hwregImm16 id (p.arg2Value % 2 ^ 64) (p.arg3Value % 2 ^ 64)) dst :: tail) ∧
        sopkWord0 code1 (hwregImm16 id (p.arg2Value % 2 ^ 64) (p.arg3Value % 2 ^ 64)) dst %
          2 ^ 16 = hwregImm16 id (p.arg2Value % 2 ^ 64) (p.arg3Value % 2 ^ 64)) ∧
    (∀ id off size, 1 ≤ size →
      hwregImm16 id off size = (id ||| off <<< 6 ||| (size - 1) <<< 11) % 2 ^ 16) ∧
    (∀ id off size, id < 64 → off < 32 → 1 ≤ size → size ≤ 32 →
      hwregImm16 id off size = id + off * 2 ^ 6 + (size - 1) * 2 ^ 11) ∧
    (∀ id off size id' off' size', id < 64 → off < 32 → 1 ≤ size → size ≤ 32 → id' < 64 →
      off' < 32 → 1 ≤ size' → size' ≤ 32 →
      hwregImm16 id off size = hwregImm16 id' off' size' →
      id = id' ∧ off = off' ∧ size = size') := by
  refine ⟨?_, parseSOPKEncodingHwreg_emits, hwregImm16_eq, hwregImm16_fields, ?_⟩
  · intro isGCN12 isGCN14 immDst sopkConst code1 gcnEncSize p output id hdst hfn hname hop hid
      hc1 ha2 hc2 ha3 hcl himm hg hsz
    obtain ⟨h1, h2, h3⟩ := parseSOPKEncodingHwreg_accepts isGCN12 isGCN14 immDst sopkConst
      code1 gcnEncSize p output id hdst hfn hname hop hid hc1 ha2 hc2 ha3 hcl himm hg hsz
    refine ⟨h1, h2, _, _, h3, ?_⟩
    rw [sopkWord0_low16]
    exact Nat.mod_eq_of_lt (by unfold hwregImm16; omega)
  · intro id off size id' off' size' hi ho hs hs2 hi' ho' hs' hs2' h
    rw [hwregImm16_fields id off size hi ho hs hs2,
      hwregImm16_fields id' off' size' hi' ho' hs' hs2'] at h
    omega

set_option maxRecDepth 100000 in
/-- The instruction `s_getreg_b32 s2, hwreg(trapsts, 5, 8)` (SOPK opcode 18) before GCN 1.2:
the register id is 3, the routine returns `true` and emits the word 0xb9023943, whose low 16
bits are 3 + 5*2^6 + (8-1)*2^11. -/
theorem hwreg_immediate_witness :
    (parseSOPKEncodingHwreg false false false false 18 GCNEncSize.UNKNOWN
      ⟨true, true, ⟨2, 3, false⟩, true, "hwreg", true, true, "trapsts", false, 0, true, true, 5,
        true, true, 8, true, false, false, 0, false, ⟨0, 0, false⟩, true⟩ []).ret = true ∧
    (parseSOPKEncodingHwreg false false false false 18 GCNEncSize.UNKNOWN
      ⟨true, true, ⟨2, 3, false⟩, true, "hwreg", true, true, "trapsts", false, 0, true, true, 5,
        true, true, 8, true, false, false, 0, false, ⟨0, 0, false⟩, true⟩ []).output =
      wordsToBytes [0xb9023943] ∧
    0xb9023943 % 2 ^ 16 = 3 + 5 * 2 ^ 6 + (8 - 1) * 2 ^ 11 ∧
    hwregImm16 3 5 8 = 3 + 5 * 2 ^ 6 + (8 - 1) * 2 ^ 11 :=
  ⟨(hwreg_immediate.1 false false false false 18 GCNEncSize.UNKNOWN
      ⟨true, true, ⟨2, 3, false⟩, true, "hwreg", true, true, "trapsts", false, 0, true, true, 5,
        true, true, 8, true, false, false, 0, false, ⟨0, 0, false⟩, true⟩ [] 3
      (by decide) (by decide) (by decide) (by decide) (by decide) (by decide) (by decide)
      (by decide) (by decide) (by decide) (by decide) (by decide) (by decide)).1,
    by decide, by decide,
    hwreg_immediate.2.2.2.1 3 5 8 (by decide) (by decide) (by decide) (by decide)⟩

/-! ## The immediate of `s_waitcnt` -/

theorem and_15 (w : Nat) : w &&& 15 = w % 2 ^ 4 := Nat.and_pow_two_sub_one_eq_mod w 4

theorem and_63 (w : Nat) : w &&& 63 = w % 2 ^ 6 := Nat.and_pow_two_sub_one_eq_mod w 6

/-- A run of the loop that ends with `good` set has applied the update of every item, in
order, and every item named one of the three counters. -/
theorem waitcntLoop_imm16 (g : Bool) :
    ∀ (items : List WaitCntItem) (st st' : WaitCntState),
      waitcntLoop g st items = some st' → st'.good = true →
      st.good = true ∧
      (∀ it ∈ items, it.name = "vmcnt" ∨ it.name = "lgkmcnt" ∨ it.name = "expcnt") ∧
      st'.imm16 = (items.map (fun it => (it.name, it.value))).foldl
        (fun imm16 l => waitcntUpdate g imm16 l.1 l.2) st.imm16 := by
  intro items
  induction items with
  | nil =>
    intro st st' h hg
    simp only [waitcntLoop, Option.some.injEq] at h
    subst h
    exact ⟨hg, by simp, rfl⟩
  | cons it rest ih =>
    intro st st' h hg
    simp only [waitcntLoop] at h
    cases hi : waitcntIter g st it with
    | none => rw [hi] at h; simp at h
    | some st1 =>
      rw [hi] at h
      obtain ⟨hg1, hk, him⟩ := ih st1 st' h hg
      unfold waitcntIter at hi
      by_cases ho : (!it.openParen) = true
      · rw [if_pos ho] at hi; simp at hi
      rw [if_neg ho] at hi
      by_cases hc : (!it.closeParen) = true
      · rw [if_pos hc] at hi; simp at hi
      rw [if_neg hc] at hi
      simp only [Option.some.injEq] at hi
      subst hi
      simp only [Bool.and_eq_true, Bool.or_eq_true, decide_eq_true_eq] at hg1
      obtain ⟨⟨⟨hsg, _⟩, hkn⟩, hv⟩ := hg1
      refine ⟨hsg, ?_, ?_⟩
      · intro x hx
        rcases List.mem_cons.mp hx with rfl | hx
        · rcases hkn with (h | h) | h
          · exact Or.inl h
          · exact Or.inr (Or.inl h)
          · exact Or.inr (Or.inr h)
        · exact hk x hx
      · rw [him]
        simp only [hv, if_true, List.map_cons, List.foldl_cons]

/-- An accepted `s_waitcnt` is emitted as the SOPP word whose immediate is `waitcntImm16`
of the locks in the order of writing, and every lock names one of the three counters. -/
theorem parseSOPPEncodingLocks_output (g : Bool) (code1 : Nat) (gcnEncSize : GCNEncSize)
    (first : WaitCntItem) (rest : List WaitCntItem) (noGarbage : Bool) (output : List Nat)
    (h : (parseSOPPEncodingLocks g code1 gcnEncSize first rest noGarbage output).ret = true) :
    (∀ it ∈ first :: rest, it.name = "vmcnt" ∨ it.name = "lgkmcnt" ∨ it.name = "expcnt") ∧
    (parseSOPPEncodingLocks g code1 gcnEncSize first rest noGarbage output).output =
      output ++ wordsToBytes [soppWord code1
        (waitcntImm16 g ((first :: rest).map (fun it => (it.name, it.value))))] := by
  unfold parseSOPPEncodingLocks at h ⊢
  by_cases h1 : gcnEncSize = GCNEncSize.BIT64
  · rw [if_pos h1] at h; simp at h
  rw [if_neg h1] at h ⊢
  cases hl : waitcntLoop g ⟨if g = true then 0xcf7f else 0xf7f, true, false, false, false,
      [], []⟩ (first :: rest) with
  | none => rw [hl] at h; simp at h
  | some st =>
    rw [hl] at h
    simp only [] at h ⊢
    by_cases h2 : ((!st.good) = true ∨ (!noGarbage) = true)
    · rw [if_pos h2] at h; simp at h
    rw [if_neg h2]
    have hg : st.good = true := by
      cases hgd : st.good
      · simp [hgd] at h2
      · rfl
    obtain ⟨_, hk, him⟩ := waitcntLoop_imm16 g (first :: rest) _ st hl hg
    exact ⟨hk, by rw [him]; rfl⟩

/-- A word `0xd0000000 | code2<<17 | X` with a 9-bit `code2` and `X` below bit 17 has the
VOP3 encoding bits in [31:26] and `code2` in [25:17]. -/
theorem vop3_long_word_fields (c X : Nat) (hc : c < 2 ^ 9) (hX : X < 2 ^ 17) :
    (0xd0000000 ||| ((c <<< 17) ||| X)) % 2 ^ 32 / 2 ^ 26 = 0x34 ∧
    (0xd0000000 ||| ((c <<< 17) ||| X)) % 2 ^ 32 / 2 ^ 17 % 2 ^ 9 = c := by
  rw [Nat.shiftLeft_eq, or_window (c * 2 ^ 17) X 0 17 (by omega) (by omega) (by omega),
    or_window _ (c * 2 ^ 17 + X) 0 28 (by omega) (by omega) (by omega)]
  omega

/-- The C operator `^` on two `bool` values is true when they differ. -/
theorem bxor_true_iff (a b : Bool) : (a ^^ b) = true ↔ a ≠ b := by
  cases a <;> cases b <;> simp

/-- Before GCN 1.2 and without a sign-extension modifier, the decision of
`parseVOP2Encoding` to use the VOP3 encoding is the disjunction of its six causes. -/
theorem vop2NeedsVOP3_before_gcn12 (K : GCNAsmConsts) (H : VOPHelpers)
    (gcnInsn : GCNAsmInstruction) (p : VOP2Parsed) (gcnEncSize : GCNEncSize)
    (hopsel : p.opMods.opselMod &&& 15 = 0) :
    vop2NeedsVOP3 K H false false gcnInsn p false gcnEncSize = true ↔
      (gcnEncSize = GCNEncSize.BIT64 ∨
        H.isNonVGPR p.src1Op.range ≠
          decide (gcnInsn.mode &&& K.GCN_MASK1 = K.GCN_DS1_SGPR ∨
            gcnInsn.mode &&& K.GCN_MASK1 = K.GCN_SRC1_SGPR) ∨
        p.src0Op.vopMods ≠ 0 ∨ p.src1Op.vopMods ≠ 0 ∨
        cxbyteAndNot p.modifiers K.VOP3_BOUNDCTRL ≠ 0 ∨
        ((gcnInsn.mode &&& K.GCN_MASK1 = K.GCN_DS2_VCC ∨
            gcnInsn.mode &&& K.GCN_MASK1 = K.GCN_DST_VCC) ∧ p.dstCCReg.isVal 106 = false) ∨
        ((gcnInsn.mode &&& K.GCN_MASK1 = K.GCN_DS2_VCC ∨
            gcnInsn.mode &&& K.GCN_MASK1 = K.GCN_SRC2_VCC) ∧ p.srcCCReg.isVal 106 = false)) := by
  unfold vop2NeedsVOP3
  simp only [hopsel, bit, Bool.false_and, Bool.false_eq_true, if_false, Nat.or_zero,
    Bool.not_false, Bool.true_or, Bool.true_and, Bool.or_eq_true, Bool.and_eq_true,
    decide_eq_true_eq, bxor_true_iff, ne_eq, not_true_eq_false, decide_False,
    Bool.or_false, Bool.not_eq_true']
  tauto

/-- Before GCN 1.2 and without a sign-extension modifier, an accepted instruction is emitted
in the VOP3 form when the decision `vop2NeedsVOP3` holds and in the VOP2 form otherwise. -/
theorem parseVOP2Encoding_before_gcn12 (K : GCNAsmConsts) (H : VOPHelpers)
    (gcnInsn : GCNAsmInstruction) (p : VOP2Parsed) (gcnEncSize : GCNEncSize)
    (gcnVOPEnc : GCNVOPEnc) (output : List Nat)
    (hret : (parseVOP2Encoding K H false false gcnInsn p gcnEncSize gcnVOPEnc output).ret = true)
    (hsext : (p.src0Op.vopMods ||| p.src1Op.vopMods) &&& K.VOPOP_SEXT = 0) :
    (parseVOP2Encoding K H false false gcnInsn p gcnEncSize gcnVOPEnc output).output =
      output ++ wordsToBytes
        (if vop2NeedsVOP3 K H false false gcnInsn p false gcnEncSize = true then
          vop2LongWords K false gcnInsn p
        else vop2ShortWords K H gcnInsn p ⟨0, 0, 0, 0, 0, 0, 0, false, false⟩) := by
  have hsx : decide ((p.src0Op.vopMods ||| p.src1Op.vopMods) &&& K.VOPOP_SEXT ≠ 0) = false := by
    simp [hsext]
  unfold parseVOP2Encoding at hret ⊢
  simp only [hsx, Bool.false_and, Bool.or_false, Bool.false_eq_true, if_false] at hret ⊢
  by_cases h1 : ((!p.good) = true ∨ (!p.noGarbage) = true)
  · rw [if_pos h1] at hret
    exact absurd hret (by simp)
  rw [if_neg h1] at hret ⊢
  by_cases h2 : ((p.src0Op.range.isVal 255 || p.src1Op.range.isVal 255) &&
      (H.isSGPR p.src0Op.range || p.src0Op.range.isVal 124 || H.isSGPR p.src1Op.range ||
        p.src1Op.range.isVal 124)) = true
  · rw [if_pos h2] at hret
    exact absurd hret (by simp)
  rw [if_neg h2] at hret ⊢
  by_cases h3 : vop2SgprsReaded H (decide (gcnInsn.mode &&& K.GCN_MASK1 = K.GCN_DS2_VCC ∨
      gcnInsn.mode &&& K.GCN_MASK1 = K.GCN_SRC2_VCC)) p ≥ 2
  · rw [if_pos h3] at hret
    exact absurd hret (by simp)
  rw [if_neg h3] at hret ⊢
  by_cases h4 : (vop2NeedsVOP3 K H false false gcnInsn p false gcnEncSize &&
      decide (p.src0Op.range.start = 255 ∨ p.src1Op.range.start = 255 ∨
        gcnInsn.mode &&& K.GCN_MASK1 = K.GCN_ARG1_IMM ∨
        gcnInsn.mode &&& K.GCN_MASK1 = K.GCN_ARG2_IMM)) = true
  · rw [if_pos h4] at hret
    exact absurd hret (by simp)
  rw [if_neg h4] at hret ⊢
  by_cases h5 : (!H.checkGCNVOPEncoding gcnVOPEnc ⟨0, 0, 0, 0, 0, 0, 0, false, false⟩) = true
  · rw [if_pos h5] at hret
    exact absurd hret (by simp)
  rw [if_neg h5] at hret ⊢
  generalize vop2ShortWords K H gcnInsn p ⟨0, 0, 0, 0, 0, 0, 0, false, false⟩ = sw at hret ⊢
  generalize vop2LongWords K false gcnInsn p = lw at hret ⊢
  by_cases h6 : (!checkGCNEncodingSize gcnEncSize
      (if (!vop2NeedsVOP3 K H false false gcnInsn p false gcnEncSize) = true then sw
        else lw).length) = true
  · rw [if_pos h6] at hret
    exact absurd hret (by simp)
  rw [if_neg h6]
  cases vop2NeedsVOP3 K H false false gcnInsn p false gcnEncSize <;> simp [emitWords]

/-- C11: before GCN 1.2, for an accepted VOP2 instruction without a sign-extension or
`op_sel` modifier, the encoder emits the two-word VOP3 form (bits [31:26] of `0xd0000000`,
secondary opcode in [25:17]) exactly when the mnemonic carries `_e64`, or SRC1 is not a VGPR
although the mnemonic takes a VGPR there (or is a VGPR although it takes an SGPR), or an
operand carries a modifier (abs, neg), or a modifier other than `bound_ctrl` is present
(clamp, omod, `vop3`), or a carry destination or carry source other than VCC is named.
Otherwise it emits the VOP2 form: the VOP2 word with the primary opcode, followed by a
literal word only when an operand is a literal; with register operands it is one word. -/
theorem vop2_promotion_before_gcn12 (K : GCNAsmConsts) (H : VOPHelpers)
    (gcnInsn : GCNAsmInstruction) (p : VOP2Parsed) (gcnEncSize : GCNEncSize)
    (gcnVOPEnc : GCNVOPEnc) (output : List Nat)
    (hret : (parseVOP2Encoding K H false false gcnInsn p gcnEncSize gcnVOPEnc output).ret = true)
    (hsext : (p.src0Op.vopMods ||| p.src1Op.vopMods) &&& K.VOPOP_SEXT = 0)
    (hopsel : p.opMods.opselMod &&& 15 = 0) :
    (vop2NeedsVOP3 K H false false gcnInsn p false gcnEncSize = true ↔
      (gcnEncSize = GCNEncSize.BIT64 ∨
        H.isNonVGPR p.src1Op.range ≠
          decide (gcnInsn.mode &&& K.GCN_MASK1 = K.GCN_DS1_SGPR ∨
            gcnInsn.mode &&& K.GCN_MASK1 = K.GCN_SRC1_SGPR) ∨
        p.src0Op.vopMods ≠ 0 ∨ p.src1Op.vopMods ≠ 0 ∨
        cxbyteAndNot p.modifiers K.VOP3_BOUNDCTRL ≠ 0 ∨
        ((gcnInsn.mode &&& K.GCN_MASK1 = K.GCN_DS2_VCC ∨
            gcnInsn.mode &&& K.GCN_MASK1 = K.GCN_DST_VCC) ∧ p.dstCCReg.isVal 106 = false) ∨
        ((gcnInsn.mode &&& K.GCN_MASK1 = K.GCN_DS2_VCC ∨
            gcnInsn.mode &&& K.GCN_MASK1 = K.GCN_SRC2_VCC) ∧
          p.srcCCReg.isVal 106 = false))) ∧
    (vop2NeedsVOP3 K H false false gcnInsn p false gcnEncSize = true →
      ∃ w0 w1,
        (parseVOP2Encoding K H false false gcnInsn p gcnEncSize gcnVOPEnc output).output =
          output ++ wordsToBytes [w0, w1] ∧
        [w0, w1] = vop2LongWords K false gcnInsn p ∧
        (gcnInsn.code2 < 2 ^ 9 → p.dstCCReg.bstart < 2 ^ 9 →
          w0 / 2 ^ 26 = 0xd0000000 / 2 ^ 26 ∧ w0 / 2 ^ 17 % 2 ^ 9 = gcnInsn.code2)) ∧
    (vop2NeedsVOP3 K H false false gcnInsn p false gcnEncSize = false →
      (parseVOP2Encoding K H false false gcnInsn p gcnEncSize gcnVOPEnc output).output =
        output ++ wordsToBytes
          (vop2Word0 gcnInsn.code1 p.src0Op.range.bstart p.src1Op.range.bstart p.dstReg.bstart ::
            (if p.src0Op.range.isVal 255 = true then [p.src0Op.value % 2 ^ 32]
              else if p.src1Op.range.isVal 255 = true then [p.src1Op.value % 2 ^ 32]
              else if gcnInsn.mode &&& K.GCN_MASK1 = K.GCN_ARG1_IMM ∨
                  gcnInsn.mode &&& K.GCN_MASK1 = K.GCN_ARG2_IMM then [p.immValue % 2 ^ 32]
              else [])) ∧
      (p.src0Op.range.isVal 255 = false → p.src1Op.range.isVal 255 = false →
        ¬(gcnInsn.mode &&& K.GCN_MASK1 = K.GCN_ARG1_IMM ∨
          gcnInsn.mode &&& K.GCN_MASK1 = K.GCN_ARG2_IMM) →
        (parseVOP2Encoding K H false false gcnInsn p gcnEncSize gcnVOPEnc output).output =
          output ++ wordsToBytes [vop2Word0 gcnInsn.code1 p.src0Op.range.bstart
            p.src1Op.range.bstart p.dstReg.bstart])) := by
  have hout := parseVOP2Encoding_before_gcn12 K H gcnInsn p gcnEncSize gcnVOPEnc output hret
    hsext
  refine ⟨vop2NeedsVOP3_before_gcn12 K H gcnInsn p gcnEncSize hopsel, ?_, ?_⟩
  · intro hv
    rw [if_pos hv] at hout
    refine ⟨_, _, hout, rfl, ?_⟩
    intro hc hd
    by_cases hcc : (gcnInsn.mode &&& K.GCN_MASK1 = K.GCN_DS2_VCC ∨
        gcnInsn.mode &&& K.GCN_MASK1 = K.GCN_DST_VCC)
    · simp only [hcc, decide_True, if_true, Bool.false_eq_true, if_false, Nat.or_assoc]
      refine vop3_long_word_fields _ _ hc ?_
      have h0 := bit_le (decide (p.modifiers &&& K.VOP3_CLAMP ≠ 0)) 0x800
      have h1 : p.dstReg.bstart &&& 0xff < 2 ^ 17 := by
        rw [and_ff]
        omega
      have h2 : p.dstCCReg.bstart <<< 8 < 2 ^ 17 := by
        rw [Nat.shiftLeft_eq]
        omega
      exact Nat.or_lt_two_pow (by omega) (Nat.or_lt_two_pow h1 h2)
    · simp only [hcc, decide_False, Bool.false_eq_true, if_false, Nat.or_assoc, hopsel,
        Nat.zero_shiftLeft, Nat.or_zero]
      refine vop3_long_word_fields _ _ hc ?_
      have h0 := bit_le (decide (p.modifiers &&& K.VOP3_CLAMP ≠ 0)) 0x800
      have h1 : p.dstReg.bstart &&& 0xff < 2 ^ 17 := by
        rw [and_ff]
        omega
      have h2 := bit_le (decide (p.src0Op.vopMods &&& K.VOPOP_ABS ≠ 0)) 0x100
      have h3 := bit_le (decide (p.src1Op.vopMods &&& K.VOPOP_ABS ≠ 0)) 0x200
      exact Nat.or_lt_two_pow (by omega) (Nat.or_lt_two_pow h1
        (Nat.or_lt_two_pow (by omega) (by omega)))
  · intro hv
    rw [if_neg (by simp [hv])] at hout
    have hs : vop2ShortWords K H gcnInsn p ⟨0, 0, 0, 0, 0, 0, 0, false, false⟩ =
        vop2Word0 gcnInsn.code1 p.src0Op.range.bstart p.src1Op.range.bstart p.dstReg.bstart ::
          (if p.src0Op.range.isVal 255 = true then [p.src0Op.value % 2 ^ 32]
            else if p.src1Op.range.isVal 255 = true then [p.src1Op.value % 2 ^ 32]
            else if gcnInsn.mode &&& K.GCN_MASK1 = K.GCN_ARG1_IMM ∨
                gcnInsn.mode &&& K.GCN_MASK1 = K.GCN_ARG2_IMM then [p.immValue % 2 ^ 32]
            else []) := by
      unfold vop2ShortWords
      simp only [Bool.false_eq_true, if_false]
      split_ifs <;> rfl
    rw [hs] at hout
    refine ⟨hout, ?_⟩
    intro h0 h1 h2
    rw [hout, h0, h1, if_neg (by simp), if_neg (by simp), if_neg h2]

set_option maxRecDepth 100000 in
/-- The instruction `v_add_f32 v5, s10, v11 mul:2` (VOP2 opcode 3, VOP3 opcode 0x103) before
GCN 1.2: the output modifier is a cause of promotion. -/
theorem vop2_promotion_before_gcn12_witness :
    (parseVOP2Encoding sampleAsmConsts sampleVOPHelpers false false
        ⟨"v_add_f32", GCNENC_VOP2, 0, 3, 0x103, 1⟩
        ⟨true, true, ⟨261, 262, false⟩, ⟨0, 0, false⟩, ⟨0, 0, false⟩, ⟨⟨10, 11, false⟩, 0, 0⟩,
          ⟨⟨267, 268, false⟩, 0, 0⟩, 0, false, false, false, 1,
          ⟨0, 0, 0, 0, 0, 0, 0, false, false⟩, ⟨0, 0, 0, 0⟩⟩
        GCNEncSize.UNKNOWN GCNVOPEnc.NORMAL []).ret = true ∧
    ((0 : Nat) ||| 0) &&& sampleAsmConsts.VOPOP_SEXT = 0 ∧ (0 : Nat) &&& 15 = 0 ∧
    vop2NeedsVOP3 sampleAsmConsts sampleVOPHelpers false false
        ⟨"v_add_f32", GCNENC_VOP2, 0, 3, 0x103, 1⟩
        ⟨true, true, ⟨261, 262, false⟩, ⟨0, 0, false⟩, ⟨0, 0, false⟩, ⟨⟨10, 11, false⟩, 0, 0⟩,
          ⟨⟨267, 268, false⟩, 0, 0⟩, 0, false, false, false, 1,
          ⟨0, 0, 0, 0, 0, 0, 0, false, false⟩, ⟨0, 0, 0, 0⟩⟩
        false GCNEncSize.UNKNOWN = true :=
  ⟨by decide, by decide, by decide,
    (vop2_promotion_before_gcn12 sampleAsmConsts sampleVOPHelpers
      ⟨"v_add_f32", GCNENC_VOP2, 0, 3, 0x103, 1⟩
      ⟨true, true, ⟨261, 262, false⟩, ⟨0, 0, false⟩, ⟨0, 0, false⟩, ⟨⟨10, 11, false⟩, 0, 0⟩,
        ⟨⟨267, 268, false⟩, 0, 0⟩, 0, false, false, false, 1,
        ⟨0, 0, 0, 0, 0, 0, 0, false, false⟩, ⟨0, 0, 0, 0⟩⟩
      GCNEncSize.UNKNOWN GCNVOPEnc.NORMAL [] (by decide) (by decide) (by decide)).1.mpr
      (Or.inr (Or.inr (Or.inr (Or.inr (Or.inl (by decide))))))⟩

set_option maxRecDepth 100000 in
/-- The three instructions of the promotion scenario before GCN 1.2:
`v_add_f32 v5, s10, v11 mul:2` is emitted as the two VOP3 words 0xd2060005, 0x0802160a,
`v_add_f32 v5, v6, v11` as the VOP2 word 0x060a1706, and `v_add_f32_e64 v5, v6, v11` as the
two VOP3 words 0xd2060005, 0x00021706. -/
theorem vop2_promotion_examples :
    parseVOP2Encoding sampleAsmConsts sampleVOPHelpers false false
        ⟨"v_add_f32", GCNENC_VOP2, 0, 3, 0x103, 1⟩
        ⟨true, true, ⟨261, 262, false⟩, ⟨0, 0, false⟩, ⟨0, 0, false⟩, ⟨⟨10, 11, false⟩, 0, 0⟩,
          ⟨⟨267, 268, false⟩, 0, 0⟩, 0, false, false, false, 1,
          ⟨0, 0, 0, 0, 0, 0, 0, false, false⟩, ⟨0, 0, 0, 0⟩⟩
        GCNEncSize.UNKNOWN GCNVOPEnc.NORMAL [] =
      ⟨true, wordsToBytes [0xd2060005, 0x0802160a], [], []⟩ ∧
    parseVOP2Encoding sampleAsmConsts sampleVOPHelpers false false
        ⟨"v_add_f32", GCNENC_VOP2, 0, 3, 0x103, 1⟩
        ⟨true, true, ⟨261, 262, false⟩, ⟨0, 0, false⟩, ⟨0, 0, false⟩, ⟨⟨262, 263, false⟩, 0, 0⟩,
          ⟨⟨267, 268, false⟩, 0, 0⟩, 0, false, false, false, 0,
          ⟨0, 0, 0, 0, 0, 0, 0, false, false⟩, ⟨0, 0, 0, 0⟩⟩
        GCNEncSize.UNKNOWN GCNVOPEnc.NORMAL [] =
      ⟨true, wordsToBytes [0x060a1706], [], []⟩ ∧
    parseVOP2Encoding sampleAsmConsts sampleVOPHelpers false false
        ⟨"v_add_f32", GCNENC_VOP2, 0, 3, 0x103, 1⟩
        ⟨true, true, ⟨261, 262, false⟩, ⟨0, 0, false⟩, ⟨0, 0, false⟩, ⟨⟨262, 263, false⟩, 0, 0⟩,
          ⟨⟨267, 268, false⟩, 0, 0⟩, 0, false, false, false, 0,
          ⟨0, 0, 0, 0, 0, 0, 0, false, false⟩, ⟨0, 0, 0, 0⟩⟩
        GCNEncSize.BIT64 GCNVOPEnc.NORMAL [] =
      ⟨true, wordsToBytes [0xd2060005, 0x00021706], [], []⟩ := by
  decide

/-! ## The merged descriptor table -/

/-- The possible effects of one iteration: the entry is appended; or a VOP3A/VOP3B entry
fills the empty secondary opcode of an earlier entry with the same mnemonic whose old
architecture mask contains its mask; or it is appended as a copy of such an entry whose
secondary opcode is taken; or a VINTRP entry is appended and stores its opcode as the
secondary opcode of an earlier VOP3A entry with the same mnemonic. -/
theorem mergeStep_cases (sorted : List GCNAsmInstruction)
    (out out1 : List (GCNAsmInstruction × Nat)) (x : GCNAsmInstruction)
    (h : mergeStep sorted out x = some out1) :
    out1 = out ++ [(x, x.archMask)] ∨
    (∃ (k : Nat) (e : GCNAsmInstruction × Nat), out[k]? = some e ∧ e.1.mnemonic = x.mnemonic ∧
      (x.encoding = GCNENC_VOP3A ∨ x.encoding = GCNENC_VOP3B) ∧
      e.2 &&& x.archMask = x.archMask ∧ e.1.code2 = UINT16_MAX ∧
      out1 = out.set k ({ e.1 with code2 := x.code1, archMask := e.2 &&& x.archMask }, e.2)) ∨
    (∃ (k : Nat) (e : GCNAsmInstruction × Nat) (m : Nat), out[k]? = some e ∧ e.1.mnemonic = x.mnemonic ∧
      (x.encoding = GCNENC_VOP3A ∨ x.encoding = GCNENC_VOP3B) ∧
      e.2 &&& x.archMask = x.archMask ∧ e.1.code2 ≠ UINT16_MAX ∧
      out1 = out ++ [({ e.1 with archMask := e.2 &&& x.archMask, code2 := x.code1 }, m)]) ∨
    (∃ (k : Nat) (e : GCNAsmInstruction × Nat), out[k]? = some e ∧ e.1.mnemonic = x.mnemonic ∧ x.encoding = GCNENC_VINTRP ∧
      e.1.encoding = GCNENC_VOP3A ∧
      out1 = (out ++ [(x, x.archMask)]).set k ({ e.1 with code2 := x.code1 }, e.2)) := by
  unfold mergeStep at h
  by_cases h3 : (x.encoding = GCNENC_VOP3A ∨ x.encoding = GCNENC_VOP3B)
  · rw [if_pos h3] at h
    by_cases hl : out.length = 0
    · rw [if_pos hl] at h
      exact absurd h (by simp)
    rw [if_neg hl] at h
    generalize scanBack out _ (out.length - 1) = r at h
    cases r with
    | none => exact absurd h (by simp)
    | some k =>
      simp only [] at h
      generalize he : out[k]? = oe at h
      cases oe with
      | none => exact absurd h (by simp)
      | some e =>
        simp only [] at h
        by_cases hf : (e.1.mnemonic = x.mnemonic ∧ e.2 &&& x.archMask = x.archMask)
        · rw [if_pos hf] at h
          by_cases hc : e.1.code2 = UINT16_MAX
          · rw [if_pos hc] at h
            simp only [Option.some.injEq] at h
            exact Or.inr (Or.inl ⟨k, e, he, hf.1, h3, hf.2, hc, h.symm⟩)
          · rw [if_neg hc] at h
            simp only [Option.some.injEq] at h
            exact Or.inr (Or.inr (Or.inl ⟨k, e, _, he, hf.1, h3, hf.2, hc, h.symm⟩))
        · rw [if_neg hf] at h
          simp only [Option.some.injEq] at h
          exact Or.inl h.symm
  · rw [if_neg h3] at h
    by_cases hv : x.encoding = GCNENC_VINTRP
    · rw [if_pos hv] at h
      by_cases hl : out.length = 0
      · rw [if_pos hl] at h
        exact absurd h (by simp)
      rw [if_neg hl] at h
      generalize scanBack out _ (out.length - 1) = r at h
      cases r with
      | none => exact absurd h (by simp)
      | some k =>
        simp only [] at h
        generalize he : out[k]? = oe at h
        cases oe with
        | none => exact absurd h (by simp)
        | some e =>
          simp only [] at h
          by_cases hf : (e.1.mnemonic = x.mnemonic ∧ e.1.encoding = GCNENC_VOP3A)
          · rw [if_pos hf] at h
            simp only [Option.some.injEq] at h
            exact Or.inr (Or.inr (Or.inr ⟨k, e, he, hf.1, hv, hf.2, h.symm⟩))
          · rw [if_neg hf] at h
            simp only [Option.some.injEq] at h
            exact Or.inl h.symm
    · rw [if_neg hv] at h
      simp only [Option.some.injEq] at h
      exact Or.inl h.symm

/-- Two strings with the same character codes are equal. -/
theorem cstr_inj (a b : String) (h : cstr a = cstr b) : a = b := by
  unfold cstr at h
  have hinj : Function.Injective Char.toNat :=
    Function.LeftInverse.injective (g := Char.ofNat) (fun c => Char.ofNat_toNat c)
  exact String.ext (List.map_injective_iff.2 hinj h)

/-- The numeric value of an encoding family determines the family. -/
theorem encoding_value_inj (a b : GCNEncoding) (h : a.value = b.value) : a = b := by
  cases a <;> cases b <;> first | rfl | exact absurd h (by decide)

/-- The comparator of `initializeGCNAssembler` is the lexicographic order of the triple
(mnemonic, encoding, architecture mask). -/
theorem instrBefore_iff (a b : GCNAsmInstruction) :
    instrBefore a b = true ↔
      toLex (cstr a.mnemonic, toLex (a.encoding.value, a.archMask)) <
        toLex (cstr b.mnemonic, toLex (b.encoding.value, b.archMask)) := by
  rw [Prod.Lex.lt_iff]
  simp only [Prod.Lex.lt_iff]
  unfold instrBefore strcmpLess
  simp only [Bool.or_eq_true, Bool.and_eq_true, decide_eq_true_eq]
  constructor
  · rintro ((h | ⟨h1, h2⟩) | ⟨⟨h1, h2⟩, h3⟩)
    · exact Or.inl h
    · exact Or.inr ⟨by rw [h1], Or.inl h2⟩
    · exact Or.inr ⟨by rw [h1], Or.inr ⟨by rw [h2], h3⟩⟩
  · rintro (h | ⟨h1, (h2 | ⟨h2, h3⟩)⟩)
    · exact Or.inl (Or.inl h)
    · exact Or.inl (Or.inr ⟨cstr_inj _ _ h1, h2⟩)
    · exact Or.inr ⟨⟨cstr_inj _ _ h1, encoding_value_inj _ _ h2⟩, h3⟩

/-- The first entry left by `dropWhile` fails the test. -/
theorem dropWhile_head_not {α : Type} (p : α → Bool) :
    ∀ (l : List α) (x : α) (rest : List α), l.dropWhile p = x :: rest → p x = false := by
  intro l
  induction l with
  | nil => intro x rest h; simp at h
  | cons y ys ih =>
    intro x rest h
    by_cases hy : p y = true
    · rw [List.dropWhile_cons, if_pos hy] at h
      exact ih x rest h
    · rw [List.dropWhile_cons, if_neg hy] at h
      simp only [List.cons.injEq] at h
      rw [← h.1]
      simpa using hy

/-- The comparison of the tail of a name with a lower-case suffix is the suffix test on the
lower-cased name. -/
theorem strcasecmpEq_drop (name suffix : List Char) (hs : suffix.map Char.toLower = suffix) :
    strcasecmpEq (name.drop (name.length - suffix.length)) suffix =
      suffix.isSuffixOf (name.map Char.toLower) := by
  unfold strcasecmpEq
  rw [hs, Bool.eq_iff_iff, beq_iff_eq, List.isSuffixOf_iff_suffix, List.suffix_iff_eq_drop,
    List.length_map, List.map_drop]
  exact eq_comm

/-- The two index reads of the `v_` test against the pattern match of `startsWithV`. -/
theorem startsWithV_eq (toLower : Char → Char) (name : List Char) (hl : name.length > 6) :
    (toLower (name.getD 0 (Char.ofNat 0)) = 'v' ∧ name.getD 1 (Char.ofNat 0) = '_') ↔
      startsWithV toLower name = true := by
  match name, hl with
  | c0 :: c1 :: rest, _ => simp [startsWithV]
  | [_], h => simp at h
  | [], h => simp at h

theorem assembleSuffixes_eq_spec (toLower : Char → Char) (name : List Char) :
    assembleSuffixes toLower name = suffixHandlingSpec toLower name := by
  unfold assembleSuffixes suffixHandlingSpec endsWithNoCase
  have e4 : ∀ s : String, s.toList.map Char.toLower = s.toList → s.toList.length = 4 →
      name.length > 4 → strcasecmpEq (name.drop (name.length - 4)) s.toList =
        s.toList.isSuffixOf (name.map Char.toLower) := by
    intro s hs hl hn
    rw [← hl]
    exact strcasecmpEq_drop name s.toList hs
  have e5 : ∀ s : String, s.toList.map Char.toLower = s.toList → s.toList.length = 5 →
      name.length > 5 → strcasecmpEq (name.drop (name.length - 5)) s.toList =
        s.toList.isSuffixOf (name.map Char.toLower) := by
    intro s hs hl hn
    rw [← hl]
    exact strcasecmpEq_drop name s.toList hs
  have h64 := e4 "_e64" (by decide) (by decide)
  have h32 := e4 "_e32" (by decide) (by decide)
  have hdpp := e4 "_dpp" (by decide) (by decide)
  have hsdwa := e5 "_sdwa" (by decide) (by decide)
  have hv := startsWithV_eq toLower name
  dsimp only
  by_cases l4 : name.length > 4
  · rw [h64 l4, h32 l4, hdpp l4]
    by_cases l6 : name.length > 6
    · rw [hsdwa (by omega)]
      simp only [hv l6, ← and_assoc]
    · have l7 : ¬ name.length > 7 := by omega
      simp only [l6, l7, false_and, if_false]
  · have l6 : ¬ name.length > 6 := by omega
    have l7 : ¬ name.length > 7 := by omega
    simp only [l4, l6, l7, false_and, if_false]

theorem checkMnemonicSuffixes_eq (toLower : Char → Char) (name : List Char) :
    checkMnemonicSuffixes toLower name = (assembleSuffixes toLower name).mnemonic := by
  unfold checkMnemonicSuffixes assembleSuffixes
  simp only []
  by_cases h1 : name.length > 4 ∧ strcasecmpEq (name.drop (name.length - 4)) "_e64".toList
  · rw [if_pos h1, if_pos ⟨h1.1, Or.inl h1.2⟩]
  · rw [if_neg h1]
    by_cases h2 : name.length > 4 ∧ strcasecmpEq (name.drop (name.length - 4)) "_e32".toList
    · rw [if_pos h2, if_pos ⟨h2.1, Or.inr h2.2⟩]
    · rw [if_neg h2, if_neg (by tauto)]
      split_ifs <;> rfl

/-- C21: the suffix handling of `GCNAssembler::assemble` is the function of the input name
that the specification words: `_e64` or `_e32` at the end of a name longer than 4 characters
is stripped and forces the size; otherwise `_dpp` at the end of a name longer than 6
characters that starts with `v_` is stripped and selects DPP; otherwise `_sdwa` at the end of
a name longer than 7 characters that starts with `v_` is stripped and selects SDWA; every
other name is kept without a hint, so a name that does not start with `v_` and does not end in
`_e64` or `_e32` is never stripped; and `checkMnemonic` searches the same stripped name. -/
theorem mnemonic_suffix_handling (toLower : Char → Char) (name : List Char) :
    assembleSuffixes toLower name = suffixHandlingSpec toLower name ∧
    checkMnemonicSuffixes toLower name = (assembleSuffixes toLower name).mnemonic ∧
    (startsWithV toLower name = false → endsWithNoCase name "_e64" = false →
      endsWithNoCase name "_e32" = false →
        assembleSuffixes toLower name = ⟨name, GCNEncSize.UNKNOWN, GCNVOPEnc.NORMAL⟩) ∧
    (∃ k, k ≤ 5 ∧ (assembleSuffixes toLower name).mnemonic = name.take (name.length - k) ∧
      (k ≠ 0 → name.length > k)) := by
  refine ⟨assembleSuffixes_eq_spec toLower name, checkMnemonicSuffixes_eq toLower name, ?_, ?_⟩
  · intro hv h64 h32
    rw [assembleSuffixes_eq_spec]
    unfold suffixHandlingSpec
    simp [hv, h64, h32]
  · rw [assembleSuffixes_eq_spec]
    unfold suffixHandlingSpec
    split_ifs with h1 h2 h3 h4
    · exact ⟨4, by omega, rfl, fun _ => h1.1⟩
    · exact ⟨4, by omega, rfl, fun _ => h2.1⟩
    · exact ⟨4, by omega, rfl, fun _ => by omega⟩
    · exact ⟨5, by omega, rfl, fun _ => by omega⟩
    · exact ⟨0, by omega, by simp, fun h => absurd rfl h⟩

set_option maxRecDepth 100000 in
/-- The names `v_add_f32_e64`, `V_MOV_B32_E32`, `v_mov_b32_dpp`, `v_mov_b32_sdwa`,
`s_mov_b32_dpp`, `_e64` and `v__dpp` through the suffix handling. -/
theorem mnemonic_suffix_examples :
    assembleSuffixes Char.toLower "v_add_f32_e64".toList =
      ⟨"v_add_f32".toList, GCNEncSize.BIT64, GCNVOPEnc.NORMAL⟩ ∧
    assembleSuffixes Char.toLower "V_MOV_B32_E32".toList =
      ⟨"V_MOV_B32".toList, GCNEncSize.BIT32, GCNVOPEnc.NORMAL⟩ ∧
    assembleSuffixes Char.toLower "v_mov_b32_dpp".toList =
      ⟨"v_mov_b32".toList, GCNEncSize.UNKNOWN, GCNVOPEnc.DPP⟩ ∧
    assembleSuffixes Char.toLower "v_mov_b32_sdwa".toList =
      ⟨"v_mov_b32".toList, GCNEncSize.UNKNOWN, GCNVOPEnc.SDWA⟩ ∧
    assembleSuffixes Char.toLower "s_mov_b32_dpp".toList =
      ⟨"s_mov_b32_dpp".toList, GCNEncSize.UNKNOWN, GCNVOPEnc.NORMAL⟩ ∧
    assembleSuffixes Char.toLower "_e64".toList =
      ⟨"_e64".toList, GCNEncSize.UNKNOWN, GCNVOPEnc.NORMAL⟩ ∧
    assembleSuffixes Char.toLower "v__dpp".toList =
      ⟨"v__dpp".toList, GCNEncSize.UNKNOWN, GCNVOPEnc.NORMAL⟩ ∧
    checkMnemonicSuffixes Char.toLower "v_mov_b32_sdwa".toList = "v_mov_b32".toList := by
  decide

set_option maxRecDepth 100000 in
/-- The name `s_mov_b32_dpp` has no leading `v_` and keeps its `_dpp`. -/
theorem mnemonic_suffix_handling_witness :
    startsWithV Char.toLower "s_mov_b32_dpp".toList = false ∧
    assembleSuffixes Char.toLower "s_mov_b32_dpp".toList =
      ⟨"s_mov_b32_dpp".toList, GCNEncSize.UNKNOWN, GCNVOPEnc.NORMAL⟩ :=
  ⟨by decide,
    (mnemonic_suffix_handling Char.toLower "s_mov_b32_dpp".toList).2.2.1 (by decide)
      (by decide) (by decide)⟩

/-! ## VOP2, VOP1, VOPC: a literal in the VOP3 form -/

/-- With the VOP3 form required and SRC0 in the literal slot, `parseVOP1Encoding` fails and
leaves the output as it was; the error is `Literal in VOP3 encoding is illegal` when the
operands parse and neither an SDWA nor a DPP word is in play. -/
theorem parseVOP1Encoding_literal_vop3 (K : GCNAsmConsts) (H : VOPHelpers)
    (isGCN12 isGCN14 : Bool) (gcnInsn : GCNAsmInstruction) (p : VOP1Parsed)
    (gcnEncSize : GCNEncSize) (gcnVOPEnc : GCNVOPEnc) (output : List Nat)
    (hv : vop1FinalVOP3 K isGCN12 isGCN14 p gcnEncSize gcnVOPEnc = true)
    (hlit : p.src0Op.range.isVal 255 = true) :
    (parseVOP1Encoding K H isGCN12 isGCN14 gcnInsn p gcnEncSize gcnVOPEnc output).ret = false ∧
    (parseVOP1Encoding K H isGCN12 isGCN14 gcnInsn p gcnEncSize gcnVOPEnc output).output =
      output ∧
    (p.good = true → p.noGarbage = true → p.extraMods.needSDWA = false →
      p.extraMods.needDPP = false → p.src0Op.vopMods &&& K.VOPOP_SEXT = 0 →
      gcnVOPEnc = GCNVOPEnc.NORMAL →
      (parseVOP1Encoding K H isGCN12 isGCN14 gcnInsn p gcnEncSize gcnVOPEnc output).errors =
        ["Literal in VOP3 encoding is illegal"]) := by
  unfold vop1FinalVOP3 at hv
  unfold parseVOP1Encoding
  by_cases hg : !p.good ∨ !p.noGarbage
  · rw [if_pos hg]
    refine ⟨rfl, rfl, fun h1 h2 => ?_⟩
    rw [h1, h2] at hg
    simp at hg
  · rw [if_neg hg]
    cases isGCN12
    · simp only [Bool.false_and, Bool.false_eq_true, if_false] at hv ⊢
      simp only [hv, hlit, Bool.and_self, if_true, implies_true, and_self]
    · simp only [Bool.true_and, if_true] at hv ⊢
      split_ifs at hv with h1 h2
      · simp only [if_pos h1]
        generalize H.checkGCNVOPExtraModifers _ _ _ _ _ _ = oc
        refine ⟨?_, ?_, fun _ _ e1 e2 e3 e4 => ?_⟩
        · cases oc with
          | none => rfl
          | some e => simp only [Option.map_some', hv, hlit, Bool.and_self, if_true]
        · cases oc with
          | none => rfl
          | some e => simp only [Option.map_some', hv, hlit, Bool.and_self, if_true]
        · rw [e1, e2, e3, e4] at h1
          simp at h1
      · simp only [if_neg h1, if_pos h2, hlit, Bool.and_self, if_true, implies_true,
          and_self]
      · simp only [if_neg h1, if_neg h2, hv, hlit, Bool.and_self, if_true, implies_true,
          and_self]

/-- With the VOP3 form required and a source in the literal slot, `parseVOPCEncoding` fails
and leaves the output as it was; the error is `Literal in VOP3 encoding is illegal` when the
operands parse, the two checks on SGPR sources are passed and neither an SDWA nor a DPP word
is in play. -/
theorem parseVOPCEncoding_literal_vop3 (K : GCNAsmConsts) (H : VOPHelpers)
    (isGCN12 isGCN14 : Bool) (gcnInsn : GCNAsmInstruction) (p : VOPCParsed)
    (gcnEncSize : GCNEncSize) (gcnVOPEnc : GCNVOPEnc) (output : List Nat)
    (hv : vopcFinalVOP3 K H isGCN12 isGCN14 p gcnEncSize gcnVOPEnc = true)
    (hlit : (p.src0Op.range.isVal 255 || p.src1Op.range.isVal 255) = true) :
    (parseVOPCEncoding K H isGCN12 isGCN14 gcnInsn p gcnEncSize gcnVOPEnc output).ret = false ∧
    (parseVOPCEncoding K H isGCN12 isGCN14 gcnInsn p gcnEncSize gcnVOPEnc output).output =
      output ∧
    (p.good = true → p.noGarbage = true → p.extraMods.needSDWA = false →
      p.extraMods.needDPP = false →
      (p.src0Op.vopMods ||| p.src1Op.vopMods) &&& K.VOPOP_SEXT = 0 →
      gcnVOPEnc = GCNVOPEnc.NORMAL →
      (H.isSGPR p.src0Op.range || p.src0Op.range.isVal 124 ||
        H.isSGPR p.src1Op.range || p.src1Op.range.isVal 124) = false →
      (parseVOPCEncoding K H isGCN12 isGCN14 gcnInsn p gcnEncSize gcnVOPEnc output).errors =
        ["Literal in VOP3 encoding is illegal"]) := by
  unfold vopcFinalVOP3 at hv
  unfold parseVOPCEncoding
  by_cases hg : !p.good ∨ !p.noGarbage
  · rw [if_pos hg]
    refine ⟨rfl, rfl, fun h1 h2 => ?_⟩
    rw [h1, h2] at hg
    simp at hg
  · rw [if_neg hg]
    by_cases hs : ((p.src0Op.range.isVal 255 || p.src1Op.range.isVal 255) &&
        (H.isSGPR p.src0Op.range || p.src0Op.range.isVal 124 ||
          H.isSGPR p.src1Op.range || p.src1Op.range.isVal 124)) = true
    · dsimp only
      rw [if_pos hs]
      refine ⟨rfl, rfl, fun _ _ _ _ _ _ e => ?_⟩
      rw [e] at hs
      simp at hs
    · dsimp only
      rw [if_neg hs]
      by_cases hn : (H.isSGPR p.src0Op.range && H.isSGPR p.src1Op.range &&
          !regRangeCanEqual H p.src0Op.range p.src1Op.range) = true
      · rw [if_pos hn]
        refine ⟨rfl, rfl, fun _ _ _ _ _ _ e => ?_⟩
        simp only [Bool.or_eq_false_iff] at e
        rw [e.1.1.1] at hn
        simp at hn
      · rw [if_neg hn]
        cases isGCN12
        · simp only [Bool.false_and, Bool.false_eq_true, if_false] at hv ⊢
          simp only [hv, hlit, Bool.and_self, if_true, implies_true, and_self]
        · simp only [Bool.true_and, if_true] at hv ⊢
          split_ifs at hv with h1 h2
          · simp only [if_pos h1]
            generalize H.checkGCNVOPExtraModifers _ _ _ _ _ _ = oc
            refine ⟨?_, ?_, fun _ _ e1 e2 e3 e4 => ?_⟩
            · cases oc with
              | none => rfl
              | some e => simp only [Option.map_some', hv, hlit, Bool.and_self, if_true]
            · cases oc with
              | none => rfl
              | some e => simp only [Option.map_some', hv, hlit, Bool.and_self, if_true]
            · rw [e1, e2, e3, e4] at h1
              simp at h1
          · simp only [if_neg h1, if_pos h2, hlit, Bool.and_self, if_true, implies_true,
              and_self]
          · simp only [if_neg h1, if_neg h2, hv, hlit, Bool.and_self, if_true, implies_true,
              and_self]

/-- With the VOP3 form required and a source in the literal slot or an inline 32-bit immediate
in the mnemonic, `parseVOP2Encoding` fails and leaves the output as it was; the error is
`Literal in VOP3 encoding is illegal` when the operands parse, the checks on SGPR sources and
on `abs` in the VOP3B form are passed and neither an SDWA nor a DPP word is in play. -/
theorem parseVOP2Encoding_literal_vop3 (K : GCNAsmConsts) (H : VOPHelpers)
    (isGCN12 isGCN14 : Bool) (gcnInsn : GCNAsmInstruction) (p : VOP2Parsed)
    (gcnEncSize : GCNEncSize) (gcnVOPEnc : GCNVOPEnc) (output : List Nat)
    (hv : vop2FinalVOP3 K H isGCN12 isGCN14 gcnInsn p gcnEncSize gcnVOPEnc = true)
    (hlit : p.src0Op.range.start = 255 ∨ p.src1Op.range.start = 255 ∨
      gcnInsn.mode &&& K.GCN_MASK1 = K.GCN_ARG1_IMM ∨
      gcnInsn.mode &&& K.GCN_MASK1 = K.GCN_ARG2_IMM) :
    (parseVOP2Encoding K H isGCN12 isGCN14 gcnInsn p gcnEncSize gcnVOPEnc output).ret = false ∧
    (parseVOP2Encoding K H isGCN12 isGCN14 gcnInsn p gcnEncSize gcnVOPEnc output).output =
      output ∧
    (p.good = true → p.noGarbage = true → p.extraMods.needSDWA = false →
      p.extraMods.needDPP = false →
      (p.src0Op.vopMods ||| p.src1Op.vopMods) &&& K.VOPOP_SEXT = 0 →
      gcnVOPEnc = GCNVOPEnc.NORMAL →
      ((p.src0Op.range.isVal 255 || p.src1Op.range.isVal 255) &&
        (H.isSGPR p.src0Op.range || p.src0Op.range.isVal 124 ||
          H.isSGPR p.src1Op.range || p.src1Op.range.isVal 124)) = false →
      vop2SgprsReaded H (decide (gcnInsn.mode &&& K.GCN_MASK1 = K.GCN_DS2_VCC ∨
        gcnInsn.mode &&& K.GCN_MASK1 = K.GCN_SRC2_VCC)) p < 2 →
      (isGCN12 && decide (gcnInsn.mode &&& K.GCN_MASK1 = K.GCN_DS2_VCC ∨
        gcnInsn.mode &&& K.GCN_MASK1 = K.GCN_DST_VCC) &&
        decide ((p.src0Op.vopMods ||| p.src1Op.vopMods) &&& K.VOPOP_ABS ≠ 0)) = false →
      (parseVOP2Encoding K H isGCN12 isGCN14 gcnInsn p gcnEncSize gcnVOPEnc output).errors =
        ["Literal in VOP3 encoding is illegal"]) := by
  unfold vop2FinalVOP3 at hv
  unfold parseVOP2Encoding
  have hlit' : decide (p.src0Op.range.start = 255 ∨ p.src1Op.range.start = 255 ∨
      gcnInsn.mode &&& K.GCN_MASK1 = K.GCN_ARG1_IMM ∨
      gcnInsn.mode &&& K.GCN_MASK1 = K.GCN_ARG2_IMM) = true := decide_eq_true hlit
  by_cases hg : !p.good ∨ !p.noGarbage
  · rw [if_pos hg]
    refine ⟨rfl, rfl, fun h1 h2 => ?_⟩
    rw [h1, h2] at hg
    simp at hg
  · rw [if_neg hg]
    by_cases hs : ((p.src0Op.range.isVal 255 || p.src1Op.range.isVal 255) &&
        (H.isSGPR p.src0Op.range || p.src0Op.range.isVal 124 ||
          H.isSGPR p.src1Op.range || p.src1Op.range.isVal 124)) = true
    · dsimp only
      rw [if_pos hs]
      refine ⟨rfl, rfl, fun _ _ _ _ _ _ e => ?_⟩
      rw [e] at hs
      simp at hs
    · dsimp only
      rw [if_neg hs]
      by_cases hn : vop2SgprsReaded H (decide (gcnInsn.mode &&& K.GCN_MASK1 = K.GCN_DS2_VCC ∨
          gcnInsn.mode &&& K.GCN_MASK1 = K.GCN_SRC2_VCC)) p ≥ 2
      · rw [if_pos hn]
        refine ⟨rfl, rfl, fun _ _ _ _ _ _ _ e => ?_⟩
        omega
      · rw [if_neg hn]
        cases isGCN12
        · simp only [Bool.false_and, Bool.false_eq_true, if_false] at hv ⊢
          simp only [hv, hlit', Bool.and_self, if_true, implies_true, and_self]
        · simp only [Bool.true_and, if_true] at hv ⊢
          split_ifs at hv with h1 h2
          · simp only [if_pos h1]
            generalize H.checkGCNVOPExtraModifers _ _ _ _ _ _ = oc
            refine ⟨?_, ?_, fun _ _ e1 e2 e3 e4 => ?_⟩
            · cases oc with
              | none => rfl
              | some e =>
                simp only [Option.map_some', hv, hlit', Bool.and_self, if_true]
                split_ifs <;> rfl
            · cases oc with
              | none => rfl
              | some e =>
                simp only [Option.map_some', hv, hlit', Bool.and_self, if_true]
                split_ifs <;> rfl
            · rw [e1, e2, e3, e4] at h1
              simp at h1
          · simp only [if_neg h1, if_pos h2, hlit', Bool.and_self, if_true]
            refine ⟨?_, ?_, fun _ _ _ _ _ _ _ _ e => ?_⟩
            · split_ifs <;> rfl
            · split_ifs <;> rfl
            · simp only [Bool.true_and] at e
              simp only [Bool.true_and, e, Bool.false_eq_true, if_false]
          · simp only [if_neg h1, if_neg h2, hv, hlit', Bool.and_self, if_true]
            refine ⟨?_, ?_, fun _ _ _ _ _ _ _ _ e => ?_⟩
            · split_ifs <;> rfl
            · split_ifs <;> rfl
            · simp only [Bool.true_and] at e
              simp only [Bool.true_and, e, Bool.false_eq_true, if_false]
/-- C22: when the VOP3 form is required and a source operand is in the literal slot (code
255) or, for VOP2, the mnemonic carries an inline 32-bit immediate, the VOP2, VOP1 and VOPC
encoders fail and append no byte to the output; the error is `Literal in VOP3 encoding is
illegal` when the operands parse, neither an SDWA nor a DPP word is in play and the checks
that come first (a literal together with an SGPR or M0, more than one SGPR to read, `abs` in
the VOP3B form) are passed. -/
theorem literal_in_vop3_encoding (K : GCNAsmConsts) (H : VOPHelpers) (isGCN12 isGCN14 : Bool)
    (gcnInsn : GCNAsmInstruction) (gcnEncSize : GCNEncSize) (gcnVOPEnc : GCNVOPEnc)
    (output : List Nat) (p2 : VOP2Parsed) (p1 : VOP1Parsed) (pc : VOPCParsed) :
    (vop2FinalVOP3 K H isGCN12 isGCN14 gcnInsn p2 gcnEncSize gcnVOPEnc = true →
      (p2.src0Op.range.start = 255 ∨ p2.src1Op.range.start = 255 ∨
        gcnInsn.mode &&& K.GCN_MASK1 = K.GCN_ARG1_IMM ∨
        gcnInsn.mode &&& K.GCN_MASK1 = K.GCN_ARG2_IMM) →
      (parseVOP2Encoding K H isGCN12 isGCN14 gcnInsn p2 gcnEncSize gcnVOPEnc output).ret =
        false ∧
      (parseVOP2Encoding K H isGCN12 isGCN14 gcnInsn p2 gcnEncSize gcnVOPEnc output).output =
        output ∧
      (p2.good = true → p2.noGarbage = true → p2.extraMods.needSDWA = false →
        p2.extraMods.needDPP = false →
        (p2.src0Op.vopMods ||| p2.src1Op.vopMods) &&& K.VOPOP_SEXT = 0 →
        gcnVOPEnc = GCNVOPEnc.NORMAL →
        ((p2.src0Op.range.isVal 255 || p2.src1Op.range.isVal 255) &&
          (H.isSGPR p2.src0Op.range || p2.src0Op.range.isVal 124 ||
            H.isSGPR p2.src1Op.range || p2.src1Op.range.isVal 124)) = false →
        vop2SgprsReaded H (decide (gcnInsn.mode &&& K.GCN_MASK1 = K.GCN_DS2_VCC ∨
          gcnInsn.mode &&& K.GCN_MASK1 = K.GCN_SRC2_VCC)) p2 < 2 →
        (isGCN12 && decide (gcnInsn.mode &&& K.GCN_MASK1 = K.GCN_DS2_VCC ∨
          gcnInsn.mode &&& K.GCN_MASK1 = K.GCN_DST_VCC) &&
          decide ((p2.src0Op.vopMods ||| p2.src1Op.vopMods) &&& K.VOPOP_ABS ≠ 0)) = false →
        (parseVOP2Encoding K H isGCN12 isGCN14 gcnInsn p2 gcnEncSize gcnVOPEnc output).errors =
          ["Literal in VOP3 encoding is illegal"])) ∧
    (vop1FinalVOP3 K isGCN12 isGCN14 p1 gcnEncSize gcnVOPEnc = true →
      p1.src0Op.range.isVal 255 = true →
      (parseVOP1Encoding K H isGCN12 isGCN14 gcnInsn p1 gcnEncSize gcnVOPEnc output).ret =
        false ∧
      (parseVOP1Encoding K H isGCN12 isGCN14 gcnInsn p1 gcnEncSize gcnVOPEnc output).output =
        output ∧
      (p1.good = true → p1.noGarbage = true → p1.extraMods.needSDWA = false →
        p1.extraMods.needDPP = false → p1.src0Op.vopMods &&& K.VOPOP_SEXT = 0 →
        gcnVOPEnc = GCNVOPEnc.NORMAL →
        (parseVOP1Encoding K H isGCN12 isGCN14 gcnInsn p1 gcnEncSize gcnVOPEnc output).errors =
          ["Literal in VOP3 encoding is illegal"])) ∧
    (vopcFinalVOP3 K H isGCN12 isGCN14 pc gcnEncSize gcnVOPEnc = true →
      (pc.src0Op.range.isVal 255 || pc.src1Op.range.isVal 255) = true →
      (parseVOPCEncoding K H isGCN12 isGCN14 gcnInsn pc gcnEncSize gcnVOPEnc output).ret =
        false ∧
      (parseVOPCEncoding K H isGCN12 isGCN14 gcnInsn pc gcnEncSize gcnVOPEnc output).output =
        output ∧
      (pc.good = true → pc.noGarbage = true → pc.extraMods.needSDWA = false →
        pc.extraMods.needDPP = false →
        (pc.src0Op.vopMods ||| pc.src1Op.vopMods) &&& K.VOPOP_SEXT = 0 →
        gcnVOPEnc = GCNVOPEnc.NORMAL →
        (H.isSGPR pc.src0Op.range || pc.src0Op.range.isVal 124 ||
          H.isSGPR pc.src1Op.range || pc.src1Op.range.isVal 124) = false →
        (parseVOPCEncoding K H isGCN12 isGCN14 gcnInsn pc gcnEncSize gcnVOPEnc output).errors =
          ["Literal in VOP3 encoding is illegal"])) :=
  ⟨parseVOP2Encoding_literal_vop3 K H isGCN12 isGCN14 gcnInsn p2 gcnEncSize gcnVOPEnc output,
    parseVOP1Encoding_literal_vop3 K H isGCN12 isGCN14 gcnInsn p1 gcnEncSize gcnVOPEnc output,
    parseVOPCEncoding_literal_vop3 K H isGCN12 isGCN14 gcnInsn pc gcnEncSize gcnVOPEnc output⟩

set_option maxRecDepth 100000 in
/-- The instruction `v_add_f32 v0, 0x12345678, v1 clamp` before GCN 1.2 needs the VOP3 form
for its `clamp` and is refused for its literal. -/
theorem literal_in_vop3_encoding_witness :
    (parseVOP2Encoding sampleAsmConsts sampleVOPHelpers false false
        ⟨"v_add_f32", GCNENC_VOP2, 0, 3, 0x103, 1⟩
        ⟨true, true, ⟨256, 257, false⟩, ⟨0, 0, false⟩, ⟨0, 0, false⟩,
          ⟨⟨255, 0, false⟩, 0x12345678, 0⟩, ⟨⟨257, 258, false⟩, 0, 0⟩, 0, false, false,
          false, 16, ⟨0, 0, 0, 0, 0, 0, 0, false, false⟩, ⟨0, 0, 0, 0⟩⟩
        GCNEncSize.UNKNOWN GCNVOPEnc.NORMAL [1, 2, 3, 4]).ret = false ∧
    (parseVOP2Encoding sampleAsmConsts sampleVOPHelpers false false
        ⟨"v_add_f32", GCNENC_VOP2, 0, 3, 0x103, 1⟩
        ⟨true, true, ⟨256, 257, false⟩, ⟨0, 0, false⟩, ⟨0, 0, false⟩,
          ⟨⟨255, 0, false⟩, 0x12345678, 0⟩, ⟨⟨257, 258, false⟩, 0, 0⟩, 0, false, false,
          false, 16, ⟨0, 0, 0, 0, 0, 0, 0, false, false⟩, ⟨0, 0, 0, 0⟩⟩
        GCNEncSize.UNKNOWN GCNVOPEnc.NORMAL [1, 2, 3, 4]).output = [1, 2, 3, 4] ∧
    (parseVOP2Encoding sampleAsmConsts sampleVOPHelpers false false
        ⟨"v_add_f32", GCNENC_VOP2, 0, 3, 0x103, 1⟩
        ⟨true, true, ⟨256, 257, false⟩, ⟨0, 0, false⟩, ⟨0, 0, false⟩,
          ⟨⟨255, 0, false⟩, 0x12345678, 0⟩, ⟨⟨257, 258, false⟩, 0, 0⟩, 0, false, false,
          false, 16, ⟨0, 0, 0, 0, 0, 0, 0, false, false⟩, ⟨0, 0, 0, 0⟩⟩
        GCNEncSize.UNKNOWN GCNVOPEnc.NORMAL [1, 2, 3, 4]).errors =
      ["Literal in VOP3 encoding is illegal"] :=
  ⟨((literal_in_vop3_encoding sampleAsmConsts sampleVOPHelpers false false
        ⟨"v_add_f32", GCNENC_VOP2, 0, 3, 0x103, 1⟩ GCNEncSize.UNKNOWN GCNVOPEnc.NORMAL
        [1, 2, 3, 4]
        ⟨true, true, ⟨256, 257, false⟩, ⟨0, 0, false⟩, ⟨0, 0, false⟩,
          ⟨⟨255, 0, false⟩, 0x12345678, 0⟩, ⟨⟨257, 258, false⟩, 0, 0⟩, 0, false, false,
          false, 16, ⟨0, 0, 0, 0, 0, 0, 0, false, false⟩, ⟨0, 0, 0, 0⟩⟩
        ⟨true, true, ⟨256, 257, false⟩, ⟨⟨255, 0, false⟩, 1, 0⟩, true, false, 16,
          ⟨0, 0, 0, 0, 0, 0, 0, false, false⟩, ⟨0, 0, 0, 0⟩⟩
        ⟨true, true, ⟨106, 108, false⟩, ⟨⟨255, 0, false⟩, 1, 0⟩, ⟨⟨257, 258, false⟩, 0, 0⟩,
          false, false, 16, ⟨0, 0, 0, 0, 0, 0, 0, false, false⟩, ⟨0, 0, 0, 0⟩⟩).1
      (by decide) (Or.inl rfl)).1,
    ((literal_in_vop3_encoding sampleAsmConsts sampleVOPHelpers false false
        ⟨"v_add_f32", GCNENC_VOP2, 0, 3, 0x103, 1⟩ GCNEncSize.UNKNOWN GCNVOPEnc.NORMAL
        [1, 2, 3, 4]
        ⟨true, true, ⟨256, 257, false⟩, ⟨0, 0, false⟩, ⟨0, 0, false⟩,
          ⟨⟨255, 0, false⟩, 0x12345678, 0⟩, ⟨⟨257, 258, false⟩, 0, 0⟩, 0, false, false,
          false, 16, ⟨0, 0, 0, 0, 0, 0, 0, false, false⟩, ⟨0, 0, 0, 0⟩⟩
        ⟨true, true, ⟨256, 257, false⟩, ⟨⟨255, 0, false⟩, 1, 0⟩, true, false, 16,
          ⟨0, 0, 0, 0, 0, 0, 0, false, false⟩, ⟨0, 0, 0, 0⟩⟩
        ⟨true, true, ⟨106, 108, false⟩, ⟨⟨255, 0, false⟩, 1, 0⟩, ⟨⟨257, 258, false⟩, 0, 0⟩,
          false, false, 16, ⟨0, 0, 0, 0, 0, 0, 0, false, false⟩, ⟨0, 0, 0, 0⟩⟩).1
      (by decide) (Or.inl rfl)).2.1,
    ((literal_in_vop3_encoding sampleAsmConsts sampleVOPHelpers false false
        ⟨"v_add_f32", GCNENC_VOP2, 0, 3, 0x103, 1⟩ GCNEncSize.UNKNOWN GCNVOPEnc.NORMAL
        [1, 2, 3, 4]
        ⟨true, true, ⟨256, 257, false⟩, ⟨0, 0, false⟩, ⟨0, 0, false⟩,
          ⟨⟨255, 0, false⟩, 0x12345678, 0⟩, ⟨⟨257, 258, false⟩, 0, 0⟩, 0, false, false,
          false, 16, ⟨0, 0, 0, 0, 0, 0, 0, false, false⟩, ⟨0, 0, 0, 0⟩⟩
        ⟨true, true, ⟨256, 257, false⟩, ⟨⟨255, 0, false⟩, 1, 0⟩, true, false, 16,
          ⟨0, 0, 0, 0, 0, 0, 0, false, false⟩, ⟨0, 0, 0, 0⟩⟩
        ⟨true, true, ⟨106, 108, false⟩, ⟨⟨255, 0, false⟩, 1, 0⟩, ⟨⟨257, 258, false⟩, 0, 0⟩,
          false, false, 16, ⟨0, 0, 0, 0, 0, 0, 0, false, false⟩, ⟨0, 0, 0, 0⟩⟩).1
      (by decide) (Or.inl rfl)).2.2 rfl rfl rfl rfl (by decide) rfl (by decide) (by decide)
      (by decide)⟩

set_option maxRecDepth 100000 in
/-- The instructions `v_add_f32 v0, 0x12345678, s1` and `v_cmp_lt_f32 vcc, 0x12345678, s1`
before GCN 1.2 need the VOP3 form for the SGPR in SRC1 and have a literal in SRC0, but the
encoders refuse them with `Literal with SGPR or M0 is illegal`, the check that comes
first. -/
theorem literal_with_sgpr_reported_first :
    vop2FinalVOP3 sampleAsmConsts sampleVOPHelpers false false
        ⟨"v_add_f32", GCNENC_VOP2, 0, 3, 0x103, 1⟩
        ⟨true, true, ⟨256, 257, false⟩, ⟨0, 0, false⟩, ⟨0, 0, false⟩,
          ⟨⟨255, 0, false⟩, 0x12345678, 0⟩, ⟨⟨1, 2, false⟩, 0, 0⟩, 0, false, false,
          false, 0, ⟨0, 0, 0, 0, 0, 0, 0, false, false⟩, ⟨0, 0, 0, 0⟩⟩
        GCNEncSize.UNKNOWN GCNVOPEnc.NORMAL = true ∧
    parseVOP2Encoding sampleAsmConsts sampleVOPHelpers false false
        ⟨"v_add_f32", GCNENC_VOP2, 0, 3, 0x103, 1⟩
        ⟨true, true, ⟨256, 257, false⟩, ⟨0, 0, false⟩, ⟨0, 0, false⟩,
          ⟨⟨255, 0, false⟩, 0x12345678, 0⟩, ⟨⟨1, 2, false⟩, 0, 0⟩, 0, false, false,
          false, 0, ⟨0, 0, 0, 0, 0, 0, 0, false, false⟩, ⟨0, 0, 0, 0⟩⟩
        GCNEncSize.UNKNOWN GCNVOPEnc.NORMAL [] =
      ⟨false, [], [], ["Literal with SGPR or M0 is illegal"]⟩ ∧
    vopcFinalVOP3 sampleAsmConsts sampleVOPHelpers false false
        ⟨true, true, ⟨106, 108, false⟩, ⟨⟨255, 0, false⟩, 0x12345678, 0⟩,
          ⟨⟨1, 2, false⟩, 0, 0⟩, false, false, 0, ⟨0, 0, 0, 0, 0, 0, 0, false, false⟩,
          ⟨0, 0, 0, 0⟩⟩
        GCNEncSize.UNKNOWN GCNVOPEnc.NORMAL = true ∧
    parseVOPCEncoding sampleAsmConsts sampleVOPHelpers false false
        ⟨"v_cmp_lt_f32", GCNENC_VOPC, 0, 1, 1, 1⟩
        ⟨true, true, ⟨106, 108, false⟩, ⟨⟨255, 0, false⟩, 0x12345678, 0⟩,
          ⟨⟨1, 2, false⟩, 0, 0⟩, false, false, 0, ⟨0, 0, 0, 0, 0, 0, 0, false, false⟩,
          ⟨0, 0, 0, 0⟩⟩
        GCNEncSize.UNKNOWN GCNVOPEnc.NORMAL [] =
      ⟨false, [], [], ["Literal with SGPR or M0 is illegal"]⟩ := by
  decide

/-! ## VOP3: more than one SGPR to read -/

/-- For two fixed registers `regRangeCanEqual` compares the start codes. -/
theorem regRangeCanEqual_fixed (H : VOPHelpers) (r1 r2 : RegRange) (h1 : r1.regVar = false)
    (h2 : r2.regVar = false) : regRangeCanEqual H r1 r2 = decide (r1.start = r2.start) := by
  unfold regRangeCanEqual RegRange.isRegVar
  rw [h1, h2]
  simp only [bne_self_eq_false, Bool.false_and, Bool.false_eq_true, if_false, BEq.refl,
    Bool.true_and]
  exact Bool.eq_iff_iff.2 (by simp)

/-- The count of three flags with the tests on three start codes reaches two exactly when two
flagged codes differ, provided that equal codes carry equal flags. -/
theorem sgpr_count_two (a b c : Nat) (h1 h2 g0 g1 g2 : Bool) (h21 : h2 = true → h1 = true)
    (s01 : a = b → g0 = g1) (s02 : a = c → g0 = g2) (s12 : b = c → g1 = g2) :
    (if g0 then 1 else 0) + (if h1 && g1 && decide (a ≠ b) then 1 else 0) +
        (if h2 && g2 && decide (a ≠ c) && decide (b ≠ c) then 1 else 0) ≥ 2 ↔
      ((g0 = true ∧ h1 = true ∧ g1 = true ∧ a ≠ b) ∨
        (g0 = true ∧ h2 = true ∧ g2 = true ∧ a ≠ c) ∨
        (h1 = true ∧ g1 = true ∧ h2 = true ∧ g2 = true ∧ b ≠ c)) := by
  by_cases e01 : a = b
  · subst e01
    by_cases e02 : a = c
    · subst e02
      revert h21 s01 s02 s12
      cases h1 <;> cases h2 <;> cases g0 <;> cases g1 <;> cases g2 <;> simp
    · revert h21 s01 s02 s12
      cases h1 <;> cases h2 <;> cases g0 <;> cases g1 <;> cases g2 <;> simp [e02]
  · by_cases e02 : a = c
    · subst e02
      have e10 : ¬ b = a := fun h => e01 h.symm
      revert h21 s01 s02 s12
      cases h1 <;> cases h2 <;> cases g0 <;> cases g1 <;> cases g2 <;> simp [e01, e10]
    · by_cases e12 : b = c
      · subst e12
        revert h21 s01 s02 s12
        cases h1 <;> cases h2 <;> cases g0 <;> cases g1 <;> cases g2 <;> simp [e01]
      · revert h21 s01 s02 s12
        cases h1 <;> cases h2 <;> cases g0 <;> cases g1 <;> cases g2 <;> simp [e01, e02, e12]

/-- The SGPR count of `parseVOP3Encoding` for three fixed registers. -/
theorem vop3NumSgprToRead_fixed (H : VOPHelpers) (p : VOP3Parsed)
    (hf0 : p.src0Op.range.regVar = false) (hf1 : p.src1Op.range.regVar = false)
    (hf2 : p.src2Op.range.regVar = false) :
    vop3NumSgprToRead H p =
      (if H.isSGPR p.src0Op.range then 1 else 0) +
      (if p.haveSrc1 && H.isSGPR p.src1Op.range &&
          decide (p.src0Op.range.start ≠ p.src1Op.range.start) then 1 else 0) +
      (if p.haveSrc2 && H.isSGPR p.src2Op.range &&
          decide (p.src0Op.range.start ≠ p.src2Op.range.start) &&
          decide (p.src1Op.range.start ≠ p.src2Op.range.start) then 1 else 0) := by
  unfold vop3NumSgprToRead
  simp only [regRangeCanEqual_fixed H _ _ hf0 hf1, regRangeCanEqual_fixed H _ _ hf0 hf2,
    regRangeCanEqual_fixed H _ _ hf1 hf2, RegRange.isRegVar, hf0, hf1, hf2]
  by_cases e02 : p.src0Op.range.start = p.src2Op.range.start <;>
    by_cases e12 : p.src1Op.range.start = p.src2Op.range.start <;>
    by_cases e01 : p.src0Op.range.start = p.src1Op.range.start <;>
    cases p.haveSrc1 <;> cases p.haveSrc2 <;> cases H.isSGPR p.src0Op.range <;>
    cases H.isSGPR p.src1Op.range <;> cases H.isSGPR p.src2Op.range <;>
    simp [e02, e12, e01]

/-- C23: for a VOP3 instruction that is not of the VINTRP kind, is given no forced VOP
encoding, parses, and has fixed registers in its three source operands, `parseVOP3Encoding`
fails with `More than one SGPR to read in instruction` exactly when two of the SGPR sources
among SRC0, SRC1 (if present) and SRC2 (if present) start at different registers; in that
case nothing is appended to the output; otherwise, in particular when all SGPR sources name
the same register, the check is passed and the instruction words are emitted whenever their
number agrees with the forced size. -/
theorem vop3_more_than_one_sgpr (K : GCNAsmConsts) (H : VOPHelpers) (isGCN12 : Bool)
    (gcnInsn : GCNAsmInstruction) (p : VOP3Parsed) (gcnEncSize : GCNEncSize)
    (output : List Nat)
    (hmode : gcnInsn.mode &&& K.GCN_MASK2 ≠ K.GCN_VOP3_VINTRP)
    (hgood : p.good = true) (hng : p.noGarbage = true)
    (hf0 : p.src0Op.range.regVar = false) (hf1 : p.src1Op.range.regVar = false)
    (hf2 : p.src2Op.range.regVar = false)
    (h21 : p.haveSrc2 = true → p.haveSrc1 = true)
    (hS : ∀ r1 r2 : RegRange, r1.regVar = false → r2.regVar = false → r1.start = r2.start →
      H.isSGPR r1 = H.isSGPR r2) :
    ((parseVOP3Encoding K H isGCN12 gcnInsn p gcnEncSize GCNVOPEnc.NORMAL output).errors =
        ["More than one SGPR to read in instruction"] ↔
      ((H.isSGPR p.src0Op.range = true ∧ p.haveSrc1 = true ∧ H.isSGPR p.src1Op.range = true ∧
          p.src0Op.range.start ≠ p.src1Op.range.start) ∨
        (H.isSGPR p.src0Op.range = true ∧ p.haveSrc2 = true ∧ H.isSGPR p.src2Op.range = true ∧
          p.src0Op.range.start ≠ p.src2Op.range.start) ∨
        (p.haveSrc1 = true ∧ H.isSGPR p.src1Op.range = true ∧ p.haveSrc2 = true ∧
          H.isSGPR p.src2Op.range = true ∧
          p.src1Op.range.start ≠ p.src2Op.range.start))) ∧
    ((parseVOP3Encoding K H isGCN12 gcnInsn p gcnEncSize GCNVOPEnc.NORMAL output).errors =
        ["More than one SGPR to read in instruction"] →
      (parseVOP3Encoding K H isGCN12 gcnInsn p gcnEncSize GCNVOPEnc.NORMAL output).ret = false ∧
      (parseVOP3Encoding K H isGCN12 gcnInsn p gcnEncSize GCNVOPEnc.NORMAL output).output =
        output) ∧
    ((parseVOP3Encoding K H isGCN12 gcnInsn p gcnEncSize GCNVOPEnc.NORMAL output).errors ≠
        ["More than one SGPR to read in instruction"] →
      (parseVOP3Encoding K H isGCN12 gcnInsn p gcnEncSize GCNVOPEnc.NORMAL output).ret =
        checkGCNEncodingSize gcnEncSize (parseVOP3Words K isGCN12 gcnInsn p.dstReg p.sdstReg
          p.src0Op p.src1Op p.src2Op p.modifiers p.opMods).length ∧
      ((parseVOP3Encoding K H isGCN12 gcnInsn p gcnEncSize GCNVOPEnc.NORMAL output).ret = true →
        (parseVOP3Encoding K H isGCN12 gcnInsn p gcnEncSize GCNVOPEnc.NORMAL output).output =
          emitWords output (parseVOP3Words K isGCN12 gcnInsn p.dstReg p.sdstReg
            p.src0Op p.src1Op p.src2Op p.modifiers p.opMods))) := by
  have hcount : vop3NumSgprToRead H p ≥ 2 ↔
      ((H.isSGPR p.src0Op.range = true ∧ p.haveSrc1 = true ∧ H.isSGPR p.src1Op.range = true ∧
          p.src0Op.range.start ≠ p.src1Op.range.start) ∨
        (H.isSGPR p.src0Op.range = true ∧ p.haveSrc2 = true ∧ H.isSGPR p.src2Op.range = true ∧
          p.src0Op.range.start ≠ p.src2Op.range.start) ∨
        (p.haveSrc1 = true ∧ H.isSGPR p.src1Op.range = true ∧ p.haveSrc2 = true ∧
          H.isSGPR p.src2Op.range = true ∧
          p.src1Op.range.start ≠ p.src2Op.range.start)) := by
    rw [vop3NumSgprToRead_fixed H p hf0 hf1 hf2]
    exact sgpr_count_two _ _ _ _ _ _ _ _ h21 (hS _ _ hf0 hf1) (hS _ _ hf0 hf2)
      (hS _ _ hf1 hf2)
  unfold parseVOP3Encoding
  simp only [ne_eq, not_true_eq_false, if_false, hgood, hng, Bool.not_true, Bool.false_eq_true,
    or_self, hmode, not_false_eq_true, true_and]
  by_cases hc : vop3NumSgprToRead H p ≥ 2
  · rw [if_pos hc]
    exact ⟨⟨fun _ => hcount.1 hc, fun _ => rfl⟩, fun _ => ⟨rfl, rfl⟩, fun h => absurd rfl h⟩
  · simp only [if_neg hc]
    generalize parseVOP3Words K isGCN12 gcnInsn p.dstReg p.sdstReg p.src0Op p.src1Op p.src2Op
      p.modifiers p.opMods = words
    have hn : ¬ ((H.isSGPR p.src0Op.range = true ∧ p.haveSrc1 = true ∧
          H.isSGPR p.src1Op.range = true ∧ p.src0Op.range.start ≠ p.src1Op.range.start) ∨
        (H.isSGPR p.src0Op.range = true ∧ p.haveSrc2 = true ∧ H.isSGPR p.src2Op.range = true ∧
          p.src0Op.range.start ≠ p.src2Op.range.start) ∨
        (p.haveSrc1 = true ∧ H.isSGPR p.src1Op.range = true ∧ p.haveSrc2 = true ∧
          H.isSGPR p.src2Op.range = true ∧
          p.src1Op.range.start ≠ p.src2Op.range.start)) := fun h => hc (hcount.2 h)
    cases hsz : checkGCNEncodingSize gcnEncSize words.length <;>
      simp [hn]

set_option maxRecDepth 100000 in
/-- The instruction `v_mad_f32 v0, s1, s2, v3` names two different SGPRs and is refused. -/
theorem vop3_more_than_one_sgpr_witness :
    (parseVOP3Encoding sampleAsmConsts sampleVOPHelpers false
        ⟨"v_mad_f32", GCNENC_VOP3A, 0, 0x141, 0, 1⟩
        ⟨true, true, ⟨256, 257, false⟩, ⟨0, 0, false⟩, ⟨⟨1, 2, false⟩, 0, 0⟩,
          ⟨⟨2, 3, false⟩, 0, 0⟩, ⟨⟨259, 260, false⟩, 0, 0⟩, true, true, 0, ⟨0, 0, 0, 0⟩⟩
        GCNEncSize.UNKNOWN GCNVOPEnc.NORMAL []).errors =
      ["More than one SGPR to read in instruction"] :=
  (vop3_more_than_one_sgpr sampleAsmConsts sampleVOPHelpers false
      ⟨"v_mad_f32", GCNENC_VOP3A, 0, 0x141, 0, 1⟩
      ⟨true, true, ⟨256, 257, false⟩, ⟨0, 0, false⟩, ⟨⟨1, 2, false⟩, 0, 0⟩,
        ⟨⟨2, 3, false⟩, 0, 0⟩, ⟨⟨259, 260, false⟩, 0, 0⟩, true, true, 0, ⟨0, 0, 0, 0⟩⟩
      GCNEncSize.UNKNOWN [] (by decide) rfl rfl rfl rfl rfl (fun _ => rfl)
      (fun r1 r2 h1 h2 h => by simp [sampleVOPHelpers, h1, h2, h])).1.2
    (Or.inl ⟨by decide, rfl, by decide, by decide⟩)

set_option maxRecDepth 100000 in
/-- The instructions `v_mad_f32 v0, s1, s1, v3` and `v_mad_f32 v0, s1, v2, s1` name one SGPR
twice and are encoded; `v_mad_f32 v0, s1, v2, s2` is refused. -/
theorem vop3_sgpr_examples :
    (parseVOP3Encoding sampleAsmConsts sampleVOPHelpers false
        ⟨"v_mad_f32", GCNENC_VOP3A, 0, 0x141, 0, 1⟩
        ⟨true, true, ⟨256, 257, false⟩, ⟨0, 0, false⟩, ⟨⟨1, 2, false⟩, 0, 0⟩,
          ⟨⟨1, 2, false⟩, 0, 0⟩, ⟨⟨259, 260, false⟩, 0, 0⟩, true, true, 0, ⟨0, 0, 0, 0⟩⟩
        GCNEncSize.UNKNOWN GCNVOPEnc.NORMAL []) =
      ⟨true, wordsToBytes [0xd2820000, 0x040c0201], [], []⟩ ∧
    (parseVOP3Encoding sampleAsmConsts sampleVOPHelpers false
        ⟨"v_mad_f32", GCNENC_VOP3A, 0, 0x141, 0, 1⟩
        ⟨true, true, ⟨256, 257, false⟩, ⟨0, 0, false⟩, ⟨⟨1, 2, false⟩, 0, 0⟩,
          ⟨⟨258, 259, false⟩, 0, 0⟩, ⟨⟨1, 2, false⟩, 0, 0⟩, true, true, 0, ⟨0, 0, 0, 0⟩⟩
        GCNEncSize.UNKNOWN GCNVOPEnc.NORMAL []) =
      ⟨true, wordsToBytes [0xd2820000, 0x00060401], [], []⟩ ∧
    (parseVOP3Encoding sampleAsmConsts sampleVOPHelpers false
        ⟨"v_mad_f32", GCNENC_VOP3A, 0, 0x141, 0, 1⟩
        ⟨true, true, ⟨256, 257, false⟩, ⟨0, 0, false⟩, ⟨⟨1, 2, false⟩, 0, 0⟩,
          ⟨⟨258, 259, false⟩, 0, 0⟩, ⟨⟨2, 3, false⟩, 0, 0⟩, true, true, 0, ⟨0, 0, 0, 0⟩⟩
        GCNEncSize.UNKNOWN GCNVOPEnc.NORMAL []) =
      ⟨false, [], [], ["More than one SGPR to read in instruction"]⟩ := by
  decide

/-! ## resolveCode: the SMEM immediate and the truncation of absolute values -/

theorem and_3f (w : Nat) : w &&& 0x3f = w % 2 ^ 6 := Nat.and_pow_two_sub_one_eq_mod w 6

theorem and_fffff (w : Nat) : w &&& 0xfffff = w % 2 ^ 20 := Nat.and_pow_two_sub_one_eq_mod w 20

/-- The first word after `resolveCode` has patched a 7-bit SMEM immediate. -/
theorem resolveCode_SMEMIMM_word (targetSectionId : Nat) (m : Nat → Nat)
    (offset value : Nat) :
    ULEV32 (resolveCode targetSectionId m offset GCNTGT_SMEMIMM ASMSECT_ABS
        value).sectionData offset =
      ULEV32 m offset % 2 ^ 6 + (value % 2 ^ 7) * 2 ^ 6 + (ULEV32 m offset / 2 ^ 13) * 2 ^ 13 := by
  simp only [resolveCode, resolveDone, ne_eq, not_true_eq_false, if_false]
  rw [ULEV32_setByte2]
  simp only [getByte, setByte_apply, if_neg (show ¬ (offset + 1 = offset) by omega), and_e0,
    and_3f, and_1f, and_ff, Nat.shiftRight_eq_div_pow, Nat.shiftLeft_eq]
  rw [or_window (m offset % 2 ^ 6) (value * 2 ^ 6 % 256) 6 2 (by omega) (by omega) (by omega),
    or_window _ (value / 2 ^ 2 % 2 ^ 5) 0 5 (by omega) (by omega) (by omega)]
  unfold ULEV32 getByte
  omega

/-- The bytes outside the first two are untouched by the patch of a 7-bit SMEM immediate. -/
theorem resolveCode_SMEMIMM_other (targetSectionId : Nat) (m : Nat → Nat)
    (offset value j : Nat) (h0 : j ≠ offset) (h1 : j ≠ offset + 1) :
    (resolveCode targetSectionId m offset GCNTGT_SMEMIMM ASMSECT_ABS value).sectionData j =
      m j := by
  simp only [resolveCode, resolveDone, ne_eq, not_true_eq_false, if_false]
  exact setByte2_other m offset _ _ j h0 h1

/-- The data field of the first SMEM word. -/
theorem smemWord0_data (code1 data sbase : Nat) (imm haveGlc haveNv haveOffset : Bool)
    (hd : data < 2 ^ 7) (hs : sbase < 2 ^ 7) :
    smemWord0 code1 data sbase imm haveGlc haveNv haveOffset / 2 ^ 6 % 2 ^ 7 = data := by
  unfold smemWord0
  simp only [Nat.shiftRight_eq_div_pow, Nat.shiftLeft_eq]
  have e : ∀ x y : Nat,
      (x ||| y) / 2 ^ 6 % 2 ^ 7 = (x / 2 ^ 6 % 2 ^ 7) ||| (y / 2 ^ 6 % 2 ^ 7) := by
    intro x y
    apply Nat.eq_of_testBit_eq
    intro i
    simp only [← Nat.shiftRight_eq_div_pow, Nat.testBit_mod_two_pow, Nat.testBit_or,
      Nat.testBit_shiftRight]
    cases decide (i < 7) <;> simp
  have e32 : ∀ x : Nat, x % 2 ^ 32 / 2 ^ 6 % 2 ^ 7 = x / 2 ^ 6 % 2 ^ 7 := by
    intro x
    omega
  rw [e32]
  simp only [e]
  have h1 : (0xc0000000 : Nat) / 2 ^ 6 % 2 ^ 7 = 0 := by decide
  have h2 : code1 * 2 ^ 18 / 2 ^ 6 % 2 ^ 7 = 0 := by omega
  have h3 : data * 2 ^ 6 / 2 ^ 6 % 2 ^ 7 = data := by omega
  have h4 : sbase / 2 ^ 1 / 2 ^ 6 % 2 ^ 7 = 0 := by omega
  have h5 : ∀ c : Bool, bit c 0x20000 / 2 ^ 6 % 2 ^ 7 = 0 := by decide
  have h6 : ∀ c : Bool, bit c 0x10000 / 2 ^ 6 % 2 ^ 7 = 0 := by decide
  have h7 : ∀ c : Bool, bit c 0x8000 / 2 ^ 6 % 2 ^ 7 = 0 := by decide
  have h8 : ∀ c : Bool, bit c 0x4000 / 2 ^ 6 % 2 ^ 7 = 0 := by decide
  rw [h1, h2, h3, h4, h5, h6, h7, h8]
  simp

/-- C24: `resolveCode` for the 7-bit SMEM immediate with an absolute value succeeds and stores
the low 7 bits of the value in bits [12:6] of the first instruction word; the bits [5:0] and
[31:13] of that word and all bytes outside its first two are unchanged. The SMEM encoder puts
its immediate data operand at the same position, bits [12:6] of the first word. -/
theorem smem_immediate_field (targetSectionId : Nat) (m : Nat → Nat) (offset value : Nat) :
    (resolveCode targetSectionId m offset GCNTGT_SMEMIMM ASMSECT_ABS value).ret = true ∧
    ULEV32 (resolveCode targetSectionId m offset GCNTGT_SMEMIMM ASMSECT_ABS
        value).sectionData offset / 2 ^ 6 % 2 ^ 7 = value % 2 ^ 7 ∧
    ULEV32 (resolveCode targetSectionId m offset GCNTGT_SMEMIMM ASMSECT_ABS
        value).sectionData offset % 2 ^ 6 = ULEV32 m offset % 2 ^ 6 ∧
    ULEV32 (resolveCode targetSectionId m offset GCNTGT_SMEMIMM ASMSECT_ABS
        value).sectionData offset / 2 ^ 13 = ULEV32 m offset / 2 ^ 13 ∧
    (∀ j, j ≠ offset → j ≠ offset + 1 →
      (resolveCode targetSectionId m offset GCNTGT_SMEMIMM ASMSECT_ABS value).sectionData j =
        m j) ∧
    (∀ (code1 data sbase : Nat) (imm haveGlc haveNv haveOffset : Bool),
      data < 2 ^ 7 → sbase < 2 ^ 7 →
        smemWord0 code1 data sbase imm haveGlc haveNv haveOffset / 2 ^ 6 % 2 ^ 7 = data) := by
  refine ⟨?_, ?_, ?_, ?_, fun j h0 h1 => resolveCode_SMEMIMM_other _ m offset value j h0 h1,
    fun code1 data sbase imm haveGlc haveNv haveOffset hd hs =>
      smemWord0_data code1 data sbase imm haveGlc haveNv haveOffset hd hs⟩
  · simp only [resolveCode, resolveDone, ne_eq, not_true_eq_false, if_false]
  all_goals
    rw [resolveCode_SMEMIMM_word]
    omega

set_option maxRecDepth 100000 in
/-- The SMEM word 0xc0020002 with the immediate data 0x55: the data field of the encoder and
the field patched by `resolveCode` at offset 0 of a zeroed section. -/
theorem smem_immediate_field_witness :
    smemWord0 0 0x55 4 true false false false / 2 ^ 6 % 2 ^ 7 = 0x55 ∧
    ULEV32 (resolveCode 0 (memOfBytes []) 0 GCNTGT_SMEMIMM ASMSECT_ABS 0x55).sectionData 0 /
      2 ^ 6 % 2 ^ 7 = 0x55 % 2 ^ 7 :=
  ⟨(smem_immediate_field 0 (memOfBytes []) 0 0x55).2.2.2.2.2 0 0x55 4 true false false false
      (by decide) (by decide),
    (smem_immediate_field 0 (memOfBytes []) 0 0x55).2.1⟩

set_option maxRecDepth 100000 in
/-- The immediate 1 patched into a zeroed word gives 0x40: `resolveCode` sets bit 6, which is
outside the bits [13:7], and leaves the bits [13:7] zero; the encoder word for the immediate
data 1 carries the same bit 6. -/
theorem smem_immediate_starts_at_bit6 :
    (resolveCode 0 (memOfBytes [0, 0, 0, 0]) 0 GCNTGT_SMEMIMM ASMSECT_ABS 1).ret = true ∧
    bytesOfMem (resolveCode 0 (memOfBytes [0, 0, 0, 0]) 0 GCNTGT_SMEMIMM ASMSECT_ABS
      1).sectionData 4 = wordsToBytes [0x40] ∧
    ULEV32 (resolveCode 0 (memOfBytes [0, 0, 0, 0]) 0 GCNTGT_SMEMIMM ASMSECT_ABS
      1).sectionData 0 / 2 ^ 7 % 2 ^ 7 ≠ 1 ∧
    ULEV32 (resolveCode 0 (memOfBytes [0, 0, 0, 0]) 0 GCNTGT_SMEMIMM ASMSECT_ABS
      1).sectionData 0 % 2 ^ 7 ≠ ULEV32 (memOfBytes [0, 0, 0, 0]) 0 % 2 ^ 7 ∧
    smemWord0 0 1 0 false false false false = 0xc0000040 := by
  decide

/-- The byte at `i` after a byte store at `i`. -/
theorem setByte_at (m : Nat → Nat) (i v : Nat) : setByte m i v i = v % 2 ^ 8 := by
  simp only [setByte_apply, if_true]
  norm_num

/-- A jump that `resolveCode` accepts at a site offset below 2^62 has a byte distance
`value - offset - 4` between -2^17 and 2^17 - 4. -/
theorem resolveCode_SOPJMP_in_range (targetSectionId : Nat) (m : Nat → Nat)
    (offset sectionId value : Nat) (ho : offset < 2 ^ 62)
    (hret : (resolveCode targetSectionId m offset GCNTGT_SOPJMP sectionId value).ret = true) :
    - 2 ^ 17 ≤ toInt64 value - (offset : Int) - 4 ∧
      toInt64 value - (offset : Int) - 4 ≤ 2 ^ 17 - 4 := by
  simp only [resolveCode, resolveFail, INT16_MAX, INT16_MIN, int_shr2] at hret
  rcases sopjmp_outOffset value offset ho with ⟨hw, hr⟩ | ⟨hw, hr, hl⟩ <;> rw [hw] at hret <;>
    generalize toInt64 value - (offset : Int) - 4 = d at *
  · by_cases h1 : sectionId ≠ targetSectionId
    · rw [if_pos h1] at hret
      exact absurd hret (by simp)
    · rw [if_neg h1] at hret
      by_cases h2 : d % 4 ≠ 0
      · rw [if_pos h2] at hret
        exact absurd hret (by simp)
      · rw [if_neg h2] at hret
        by_cases h3 : d / 4 > 32767 ∨ d / 4 < -32768
        · rw [if_pos h3] at hret
          exact absurd hret (by simp)
        · omega
  · by_cases h1 : sectionId ≠ targetSectionId
    · rw [if_pos h1] at hret
      exact absurd hret (by simp)
    · rw [if_neg h1] at hret
      by_cases h2 : (d + 2 ^ 64) % 4 ≠ 0
      · rw [if_pos h2] at hret
        exact absurd hret (by simp)
      · rw [if_neg h2] at hret
        have h4 : (d + 2 ^ 64) / 4 > 32767 ∨ (d + 2 ^ 64) / 4 < -32768 := by omega
        rw [if_pos h4] at hret
        exact absurd hret (by simp)

/-- C25: for every relocation kind other than the jump, `resolveCode` with an absolute value
succeeds whatever the value is and stores the value modulo 2^w in the field, with w = 32 for
the literal, 16 for the SOPK immediate and the DS offset, 8 for the SMRD offset, the DS
half offsets and the SOPC immediate, 12 for the MUBUF/MTBUF offset, 20 or 21 for the SMEM
offset, 7 for the SMEM immediate and 12 or 13 for the FLAT instruction offset; the range of
the value is only handed to `printWarningForRange` and no error is raised. The jump is the
kind that fails on a value out of range: at a site offset below 2^62 it succeeds only for a
word distance `value - offset - 4` between -2^17 and 2^17 - 4. -/
theorem resolveCode_truncates_absolute_values (targetSectionId : Nat) (m : Nat → Nat)
    (offset value : Nat) :
    ((resolveCode targetSectionId m offset GCNTGT_LITIMM ASMSECT_ABS value).ret = true ∧
      (resolveCode targetSectionId m offset GCNTGT_LITIMM ASMSECT_ABS value).errors = [] ∧
      (resolveCode targetSectionId m offset GCNTGT_LITIMM ASMSECT_ABS value).rangeChecks =
        [⟨32, value, RangeSigness.dflt⟩] ∧
      ULEV32 (resolveCode targetSectionId m offset GCNTGT_LITIMM ASMSECT_ABS
        value).sectionData (offset + 4) = value % 2 ^ 32) ∧
    ((resolveCode targetSectionId m offset GCNTGT_SOPKSIMM16 ASMSECT_ABS value).ret = true ∧
      (resolveCode targetSectionId m offset GCNTGT_SOPKSIMM16 ASMSECT_ABS value).errors = [] ∧
      (resolveCode targetSectionId m offset GCNTGT_SOPKSIMM16 ASMSECT_ABS value).rangeChecks =
        [⟨16, value, RangeSigness.dflt⟩] ∧
      ULEV16 (resolveCode targetSectionId m offset GCNTGT_SOPKSIMM16 ASMSECT_ABS
        value).sectionData offset = value % 2 ^ 16) ∧
    ((resolveCode targetSectionId m offset GCNTGT_DSOFFSET16 ASMSECT_ABS value).ret = true ∧
      (resolveCode targetSectionId m offset GCNTGT_DSOFFSET16 ASMSECT_ABS value).errors = [] ∧
      (resolveCode targetSectionId m offset GCNTGT_DSOFFSET16 ASMSECT_ABS value).rangeChecks =
        [⟨16, value, RangeSigness.WS_UNSIGNED⟩] ∧
      ULEV16 (resolveCode targetSectionId m offset GCNTGT_DSOFFSET16 ASMSECT_ABS
        value).sectionData offset = value % 2 ^ 16) ∧
    ((resolveCode targetSectionId m offset GCNTGT_SMRDOFFSET ASMSECT_ABS value).ret = true ∧
      (resolveCode targetSectionId m offset GCNTGT_SMRDOFFSET ASMSECT_ABS value).errors = [] ∧
      (resolveCode targetSectionId m offset GCNTGT_SMRDOFFSET ASMSECT_ABS value).rangeChecks =
        [⟨8, value, RangeSigness.WS_UNSIGNED⟩] ∧
      (resolveCode targetSectionId m offset GCNTGT_SMRDOFFSET ASMSECT_ABS
        value).sectionData offset = value % 2 ^ 8) ∧
    ((resolveCode targetSectionId m offset GCNTGT_DSOFFSET8_0 ASMSECT_ABS value).ret = true ∧
      (resolveCode targetSectionId m offset GCNTGT_DSOFFSET8_0 ASMSECT_ABS value).errors = [] ∧
      (resolveCode targetSectionId m offset GCNTGT_DSOFFSET8_0 ASMSECT_ABS value).rangeChecks =
        [⟨8, value, RangeSigness.WS_UNSIGNED⟩] ∧
      (resolveCode targetSectionId m offset GCNTGT_DSOFFSET8_0 ASMSECT_ABS
        value).sectionData offset = value % 2 ^ 8) ∧
    ((resolveCode targetSectionId m offset GCNTGT_DSOFFSET8_1 ASMSECT_ABS value).ret = true ∧
      (resolveCode targetSectionId m offset GCNTGT_DSOFFSET8_1 ASMSECT_ABS value).errors = [] ∧
      (resolveCode targetSectionId m offset GCNTGT_DSOFFSET8_1 ASMSECT_ABS value).rangeChecks =
        [⟨8, value, RangeSigness.WS_UNSIGNED⟩] ∧
      (resolveCode targetSectionId m offset GCNTGT_DSOFFSET8_1 ASMSECT_ABS
        value).sectionData (offset + 1) = value % 2 ^ 8) ∧
    ((resolveCode targetSectionId m offset GCNTGT_SOPCIMM8 ASMSECT_ABS value).ret = true ∧
      (resolveCode targetSectionId m offset GCNTGT_SOPCIMM8 ASMSECT_ABS value).errors = [] ∧
      (resolveCode targetSectionId m offset GCNTGT_SOPCIMM8 ASMSECT_ABS value).rangeChecks =
        [⟨8, value, RangeSigness.WS_UNSIGNED⟩] ∧
      (resolveCode targetSectionId m offset GCNTGT_SOPCIMM8 ASMSECT_ABS
        value).sectionData (offset + 1) = value % 2 ^ 8) ∧
    ((resolveCode targetSectionId m offset GCNTGT_MXBUFOFFSET ASMSECT_ABS value).ret = true ∧
      (resolveCode targetSectionId m offset GCNTGT_MXBUFOFFSET ASMSECT_ABS value).errors = [] ∧
      (resolveCode targetSectionId m offset GCNTGT_MXBUFOFFSET ASMSECT_ABS value).rangeChecks =
        [⟨12, value, RangeSigness.WS_UNSIGNED⟩] ∧
      ULEV32 (resolveCode targetSectionId m offset GCNTGT_MXBUFOFFSET ASMSECT_ABS
        value).sectionData offset % 2 ^ 12 = value % 2 ^ 12) ∧
    ((resolveCode targetSectionId m offset GCNTGT_SMEMOFFSET ASMSECT_ABS value).ret = true ∧
      (resolveCode targetSectionId m offset GCNTGT_SMEMOFFSET ASMSECT_ABS value).errors = [] ∧
      (resolveCode targetSectionId m offset GCNTGT_SMEMOFFSET ASMSECT_ABS value).rangeChecks =
        [⟨20, value, RangeSigness.WS_UNSIGNED⟩] ∧
      ULEV32 (resolveCode targetSectionId m offset GCNTGT_SMEMOFFSET ASMSECT_ABS
        value).sectionData (offset + 4) = value % 2 ^ 20) ∧
    ((resolveCode targetSectionId m offset GCNTGT_SMEMOFFSETVEGA ASMSECT_ABS value).ret = true ∧
      (resolveCode targetSectionId m offset GCNTGT_SMEMOFFSETVEGA ASMSECT_ABS
        value).errors = [] ∧
      (resolveCode targetSectionId m offset GCNTGT_SMEMOFFSETVEGA ASMSECT_ABS
        value).rangeChecks = [⟨21, value, RangeSigness.WS_BOTH⟩] ∧
      ULEV32 (resolveCode targetSectionId m offset GCNTGT_SMEMOFFSETVEGA ASMSECT_ABS
        value).sectionData (offset + 4) % 2 ^ 21 = value % 2 ^ 21) ∧
    ((resolveCode targetSectionId m offset GCNTGT_SMEMIMM ASMSECT_ABS value).ret = true ∧
      (resolveCode targetSectionId m offset GCNTGT_SMEMIMM ASMSECT_ABS value).errors = [] ∧
      (resolveCode targetSectionId m offset GCNTGT_SMEMIMM ASMSECT_ABS value).rangeChecks =
        [⟨7, value, RangeSigness.WS_UNSIGNED⟩] ∧
      ULEV32 (resolveCode targetSectionId m offset GCNTGT_SMEMIMM ASMSECT_ABS
        value).sectionData offset / 2 ^ 6 % 2 ^ 7 = value % 2 ^ 7) ∧
    ((resolveCode targetSectionId m offset GCNTGT_INSTOFFSET ASMSECT_ABS value).ret = true ∧
      (resolveCode targetSectionId m offset GCNTGT_INSTOFFSET ASMSECT_ABS value).errors = [] ∧
      (resolveCode targetSectionId m offset GCNTGT_INSTOFFSET ASMSECT_ABS value).rangeChecks =
        [⟨12, value, RangeSigness.WS_UNSIGNED⟩] ∧
      ULEV32 (resolveCode targetSectionId m offset GCNTGT_INSTOFFSET ASMSECT_ABS
        value).sectionData offset % 2 ^ 12 = value % 2 ^ 12) ∧
    ((resolveCode targetSectionId m offset GCNTGT_INSTOFFSET_S ASMSECT_ABS value).ret = true ∧
      (resolveCode targetSectionId m offset GCNTGT_INSTOFFSET_S ASMSECT_ABS
        value).errors = [] ∧
      (resolveCode targetSectionId m offset GCNTGT_INSTOFFSET_S ASMSECT_ABS
        value).rangeChecks = [⟨13, value, RangeSigness.WS_BOTH⟩] ∧
      ULEV32 (resolveCode targetSectionId m offset GCNTGT_INSTOFFSET_S ASMSECT_ABS
        value).sectionData offset % 2 ^ 13 = value % 2 ^ 13) ∧
    (offset < 2 ^ 62 →
      (resolveCode targetSectionId m offset GCNTGT_SOPJMP targetSectionId value).ret = true →
        - 2 ^ 17 ≤ toInt64 value - (offset : Int) - 4 ∧
          toInt64 value - (offset : Int) - 4 ≤ 2 ^ 17 - 4) := by
  have hr : ∀ t, t ≠ GCNTGT_SOPJMP → t ≠ AsmExprTargetType.other →
      (resolveCode targetSectionId m offset t ASMSECT_ABS value).ret = true ∧
      (resolveCode targetSectionId m offset t ASMSECT_ABS value).errors = [] := by
    intro t h1 h2
    cases t <;>
      first
        | exact absurd rfl h1
        | exact absurd rfl h2
        | simp only [resolveCode, resolveDone, ne_eq, not_true_eq_false, if_false, and_self]
  refine ⟨⟨(hr _ (by decide) (by decide)).1, (hr _ (by decide) (by decide)).2, ?_, ?_⟩,
    ⟨(hr _ (by decide) (by decide)).1, (hr _ (by decide) (by decide)).2, ?_, ?_⟩,
    ⟨(hr _ (by decide) (by decide)).1, (hr _ (by decide) (by decide)).2, ?_, ?_⟩,
    ⟨(hr _ (by decide) (by decide)).1, (hr _ (by decide) (by decide)).2, ?_, ?_⟩,
    ⟨(hr _ (by decide) (by decide)).1, (hr _ (by decide) (by decide)).2, ?_, ?_⟩,
    ⟨(hr _ (by decide) (by decide)).1, (hr _ (by decide) (by decide)).2, ?_, ?_⟩,
    ⟨(hr _ (by decide) (by decide)).1, (hr _ (by decide) (by decide)).2, ?_, ?_⟩,
    ⟨(hr _ (by decide) (by decide)).1, (hr _ (by decide) (by decide)).2, ?_, ?_⟩,
    ⟨(hr _ (by decide) (by decide)).1, (hr _ (by decide) (by decide)).2, ?_, ?_⟩,
    ⟨(hr _ (by decide) (by decide)).1, (hr _ (by decide) (by decide)).2, ?_, ?_⟩,
    ⟨(hr _ (by decide) (by decide)).1, (hr _ (by decide) (by decide)).2, ?_, ?_⟩,
    ⟨(hr _ (by decide) (by decide)).1, (hr _ (by decide) (by decide)).2, ?_, ?_⟩,
    ⟨(hr _ (by decide) (by decide)).1, (hr _ (by decide) (by decide)).2, ?_, ?_⟩, ?_⟩
  -- LITIMM
  · simp only [resolveCode, resolveDone, ne_eq, not_true_eq_false, if_false]
  · simp only [resolveCode, resolveDone, ne_eq, not_true_eq_false, if_false]
    exact ULEV32_SULEV32 m (offset + 4) value
  -- SOPKSIMM16
  · simp only [resolveCode, resolveDone, ne_eq, not_true_eq_false, if_false]
  · simp only [resolveCode, resolveDone, ne_eq, not_true_eq_false, if_false]
    exact ULEV16_SULEV16 m offset value
  -- DSOFFSET16
  · simp only [resolveCode, resolveDone, ne_eq, not_true_eq_false, if_false]
  · simp only [resolveCode, resolveDone, ne_eq, not_true_eq_false, if_false]
    exact ULEV16_SULEV16 m offset value
  -- SMRDOFFSET
  · simp only [resolveCode, resolveDone, ne_eq, not_true_eq_false, if_false]
  · simp only [resolveCode, resolveDone, ne_eq, not_true_eq_false, if_false]
    exact setByte_at m offset value
  -- DSOFFSET8_0
  · simp only [resolveCode, resolveDone, ne_eq, not_true_eq_false, if_false]
  · simp only [resolveCode, resolveDone, ne_eq, not_true_eq_false, if_false]
    exact setByte_at m offset value
  -- DSOFFSET8_1
  · simp only [resolveCode, resolveDone, ne_eq, not_true_eq_false, if_false]
  · simp only [resolveCode, resolveDone, ne_eq, not_true_eq_false, if_false]
    exact setByte_at m (offset + 1) value
  -- SOPCIMM8
  · simp only [resolveCode, resolveDone, ne_eq, not_true_eq_false, if_false]
  · simp only [resolveCode, resolveDone, ne_eq, not_true_eq_false, if_false]
    exact setByte_at m (offset + 1) value
  -- MXBUFOFFSET
  · simp only [resolveCode, resolveDone, ne_eq, not_true_eq_false, if_false]
  · exact (resolveCode_MXBUFOFFSET_frame targetSectionId m offset ASMSECT_ABS value).1
      (hr _ (by decide) (by decide)).1
  -- SMEMOFFSET
  · simp only [resolveCode, resolveDone, ne_eq, not_true_eq_false, if_false]
  · simp only [resolveCode, resolveDone, ne_eq, not_true_eq_false, if_false]
    rw [ULEV32_SULEV32, and_fffff]
    omega
  -- SMEMOFFSETVEGA
  · simp only [resolveCode, resolveDone, ne_eq, not_true_eq_false, if_false]
  · exact (resolveCode_SMEMOFFSETVEGA_frame targetSectionId m offset ASMSECT_ABS value).1
      (hr _ (by decide) (by decide)).1
  -- SMEMIMM
  · simp only [resolveCode, resolveDone, ne_eq, not_true_eq_false, if_false]
  · rw [resolveCode_SMEMIMM_word]
    omega
  -- INSTOFFSET
  · simp only [resolveCode, resolveDone, ne_eq, not_true_eq_false, if_false]
  · exact (resolveCode_INSTOFFSET_frame targetSectionId m offset ASMSECT_ABS value).1
      (hr _ (by decide) (by decide)).1
  -- INSTOFFSET_S
  · simp only [resolveCode, resolveDone, ne_eq, not_true_eq_false, if_false]
  · exact (resolveCode_INSTOFFSET_S_frame targetSectionId m offset ASMSECT_ABS value).1
      (hr _ (by decide) (by decide)).1
  -- SOPJMP
  · intro ho hret
    exact resolveCode_SOPJMP_in_range targetSectionId m offset targetSectionId value ho hret

set_option maxRecDepth 100000 in
/-- The jump to the byte 0x40000 from the site 0 is out of range and fails, while the same
value as a 16-bit SOPK immediate is stored as 0x40000 mod 2^16 = 0. -/
theorem resolveCode_truncates_absolute_values_witness :
    (0 : Nat) < 2 ^ 62 ∧
    (resolveCode 0 (memOfBytes []) 0 GCNTGT_SOPJMP 0 0x100).ret = true ∧
    (- 2 ^ 17 ≤ toInt64 0x100 - ((0 : Nat) : Int) - 4 ∧
      toInt64 0x100 - ((0 : Nat) : Int) - 4 ≤ 2 ^ 17 - 4) ∧
    (resolveCode 0 (memOfBytes []) 0 GCNTGT_SOPJMP 0 0x40000).ret = false ∧
    (resolveCode 0 (memOfBytes []) 0 GCNTGT_SOPKSIMM16 ASMSECT_ABS 0x40000).ret = true :=
  ⟨by decide, by decide,
    (resolveCode_truncates_absolute_values 0 (memOfBytes []) 0 0x100).2.2.2.2.2.2.2.2.2.2.2.2.2
      (by decide) (by decide),
    by decide, by decide⟩

/-! ## decodeGCNOperand: special registers and inline integer constants -/

set_option maxRecDepth 100000 in
/-- C26: the text of the special registers. `decodeGCNOperand` prints `vcc`, `tba` and `tma`
for the codes 106, 108, 110 taken as a 64-bit operand, the `_lo` and `_hi` halves of `vcc`
and `exec` for the single registers 106, 107, 126, 127, `m0` for 124, `vccz`, `execz`, `scc`,
`lds` for 251..254 and `ttmp0`..`ttmp11` for 112..123; but code 126 taken as a 64-bit operand
gives the three characters `exe`, not `exec`. -/
theorem exec_pair_text_truncated :
    decodeGCNOperand (fun _ => []) 126 2 0 false = cstr "exe" ∧
    decodeGCNOperand (fun _ => []) 126 2 0 false ≠ cstr "exec" ∧
    decodeGCNOperand (fun _ => []) 106 2 0 false = cstr "vcc" ∧
    decodeGCNOperand (fun _ => []) 108 2 0 false = cstr "tba" ∧
    decodeGCNOperand (fun _ => []) 110 2 0 false = cstr "tma" ∧
    decodeGCNOperand (fun _ => []) 106 1 0 false = cstr "vcc_lo" ∧
    decodeGCNOperand (fun _ => []) 107 1 0 false = cstr "vcc_hi" ∧
    decodeGCNOperand (fun _ => []) 126 1 0 false = cstr "exec_lo" ∧
    decodeGCNOperand (fun _ => []) 127 1 0 false = cstr "exec_hi" ∧
    decodeGCNOperand (fun _ => []) 124 1 0 false = cstr "m0" ∧
    decodeGCNOperand (fun _ => []) 251 1 0 false = cstr "vccz" ∧
    decodeGCNOperand (fun _ => []) 252 1 0 false = cstr "execz" ∧
    decodeGCNOperand (fun _ => []) 253 1 0 false = cstr "scc" ∧
    decodeGCNOperand (fun _ => []) 254 1 0 false = cstr "lds" ∧
    (List.range 12).map (fun k => decodeGCNOperand (fun _ => []) (112 + k) 1 0 false) =
      [cstr "ttmp0", cstr "ttmp1", cstr "ttmp2", cstr "ttmp3", cstr "ttmp4", cstr "ttmp5",
        cstr "ttmp6", cstr "ttmp7", cstr "ttmp8", cstr "ttmp9", cstr "ttmp10",
        cstr "ttmp11"] := by
  decide

set_option maxRecDepth 100000 in
/-- C27: the text of the inline integer constants. The codes 128 + k for 0 ≤ k ≤ 64 print
the decimal digits of k and the codes 202..208 print `-10`..`-16`; but the codes 193..201,
which stand for -1..-9, print `-1` followed by the character with code `op - 154`: 193 gives
`-1'` and 201 gives `-1/`, not `-1` and `-9`. -/
theorem negative_one_digit_constants_misprinted :
    decodeGCNOperand (fun _ => []) 193 1 0 false = cstr "-1'" ∧
    decodeGCNOperand (fun _ => []) 193 1 0 false ≠ cstr "-1" ∧
    decodeGCNOperand (fun _ => []) 201 1 0 false = cstr "-1/" ∧
    decodeGCNOperand (fun _ => []) 201 1 0 false ≠ cstr "-9" ∧
    (List.range 9).map (fun k => decodeGCNOperand (fun _ => []) (193 + k) 1 0 false) =
      (List.range 9).map (fun k => [cc '-', cc '1', 39 + k]) ∧
    (List.range 7).map (fun k => decodeGCNOperand (fun _ => []) (202 + k) 1 0 false) =
      [cstr "-10", cstr "-11", cstr "-12", cstr "-13", cstr "-14", cstr "-15", cstr "-16"] ∧
    (List.range 65).map (fun k => decodeGCNOperand (fun _ => []) (128 + k) 1 0 false) =
      (List.range 65).map
        (fun k => if k < 10 then [cc '0' + k] else [cc '0' + k / 10, cc '0' + k % 10]) := by
  decide

/-! ## Register-usage records: the divided VDATA range and the TFE lane -/

theorem setRVU_same (r : Nat → AsmRegVarUsage) (i : Nat) (u : AsmRegVarUsage) :
    setRVU r i u i = u := by
  simp [setRVU]

theorem setRVU_other (r : Nat → AsmRegVarUsage) (i j : Nat) (u : AsmRegVarUsage) (h : j ≠ i) :
    setRVU r i u j = r j := by
  simp [setRVU, Function.update_noteq h]

/-- The records after the block "check fcmpswap": record 0 keeps the first half of its range
and its other fields, record 4 is the read-only record of the second half, the other records
are untouched. -/
theorem splitHalfWrite_spec (C : RVUConsts) (r : Nat → AsmRegVarUsage) (s n : Nat)
    (hs : (r 0).rstart = s) (he : (r 0).rend = s + n) (hb : s + n < 2 ^ 16) :
    splitHalfWrite C r 0 = { r 0 with rend := s + n / 2 } ∧
    splitHalfWrite C r 4 =
      { r 0 with
        regField := GCNFIELD_M_VDATAH, rstart := s + n / 2, rend := s + n,
        rwFlags := C.ASMRVU_READ % 256 } ∧
    ∀ j, j ≠ 0 → j ≠ 4 → splitHalfWrite C r j = r j := by
  have e1 : sub16 (s + n) s = n := by
    unfold sub16
    omega
  have e2 : add16 s (n >>> 1) = s + n / 2 := by
    unfold add16
    rw [Nat.shiftRight_eq_div_pow]
    omega
  have e3 : add16 s n = s + n := by
    unfold add16
    omega
  unfold splitHalfWrite
  simp only [hs, he, e1, e2, e3]
  refine ⟨?_, ?_, fun j h0 h4 => ?_⟩
  · rw [setRVU_other _ _ _ _ (by decide), setRVU_same]
  · rw [setRVU_same]
  · rw [setRVU_other _ _ _ _ h4, setRVU_other _ _ _ _ h0]

/-- The records after the block "fix for tfe" applied to the VDATA record `rvuId` that ends
at `e`: record 5 is the read and write record tagged `GCNFIELD_M_VDATALAST`, with the range
`[e - 1, e)` for a register variable and the stored range `[start of record 0, e - 1)` for
fixed registers; the VDATA record ends at `e - 1`; the other records are untouched. -/
theorem fixForTfe_spec (C : RVUConsts) (rvuId : Nat) (r : Nat → AsmRegVarUsage) (e : Nat)
    (hid : rvuId ≠ 5) (he : (r rvuId).rend = e) (h1 : 1 ≤ e) (hb : e < 2 ^ 16) :
    fixForTfe C rvuId r 5 =
      { r rvuId with
        rstart := if (r rvuId).regVar then e - 1 else (r 0).rstart,
        rend := if (r rvuId).regVar then e else e - 1,
        rwFlags := (C.ASMRVU_READ ||| C.ASMRVU_WRITE) % 256,
        regField := GCNFIELD_M_VDATALAST } ∧
    fixForTfe C rvuId r rvuId = { r rvuId with rend := e - 1 } ∧
    ∀ j, j ≠ 5 → j ≠ rvuId → fixForTfe C rvuId r j = r j := by
  have e1 : sub16 e 1 = e - 1 := by
    unfold sub16
    omega
  have h5 : (5 : Nat) ≠ rvuId := fun h => hid h.symm
  unfold fixForTfe
  simp only [he, e1]
  refine ⟨?_, ?_, fun j h5' hj => ?_⟩
  · rw [setRVU_other _ _ _ _ h5, setRVU_same]
    cases hv : (r rvuId).regVar
    · by_cases h0 : (0 : Nat) = 5
      · exact absurd h0 (by decide)
      · simp [setRVU_other _ _ _ _ h0]
    · simp
  · rw [setRVU_same, setRVU_other _ _ _ _ hid, setRVU_other _ _ _ _ hid, he, e1]
  · rw [setRVU_other _ _ _ _ hj, setRVU_other _ _ _ _ h5', setRVU_other _ _ _ _ h5']

/-- The records of `parseMIMGEncoding` before the block "fix for tfe", for a VDATA record
`[s, s + n)` with a field tag: record 0 carries the access flags and, when the range is
divided, only the first half; record 4 is the second half when the range is divided and
untouched otherwise; record 5 is untouched. -/
theorem mimgUsagesBeforeTfe_spec (C : RVUConsts) (gcnInsn : GCNAsmInstruction)
    (p : MIMGParsed) (rvus : Nat → AsmRegVarUsage) (s n : Nat) (w r d : Bool)
    (hw : w = (decide (gcnInsn.mode &&& C.GCN_MLOAD ≠ 0) ||
      (decide (gcnInsn.mode &&& C.GCN_MATOMIC ≠ 0) && p.haveGlc)))
    (hr : r = (decide (gcnInsn.mode &&& C.GCN_MLOAD = 0) ||
      decide (gcnInsn.mode &&& C.GCN_MATOMIC ≠ 0)))
    (hd : d = (decide (gcnInsn.mode &&& C.GCN_MHALFWRITE ≠ 0) && w))
    (hfield : (rvus 0).regField ≠ ASMFIELD_NONE)
    (hs : (rvus 0).rstart = s) (he : (rvus 0).rend = s + n) (hb : s + n < 2 ^ 16) :
    (mimgUsagesBeforeTfe C gcnInsn p rvus).2 = d ∧
    (mimgUsagesBeforeTfe C gcnInsn p rvus).1 0 =
      { rvus 0 with
        rwFlags := (bit w C.ASMRVU_WRITE ||| bit r C.ASMRVU_READ) % 256,
        rend := if d then s + n / 2 else s + n } ∧
    (mimgUsagesBeforeTfe C gcnInsn p rvus).1 4 =
      (if d then
        { rvus 0 with
          regField := GCNFIELD_M_VDATAH, rstart := s + n / 2, rend := s + n,
          rwFlags := C.ASMRVU_READ % 256 }
      else rvus 4) ∧
    (mimgUsagesBeforeTfe C gcnInsn p rvus).1 5 = rvus 5 := by
  unfold mimgUsagesBeforeTfe
  simp only [← hw, ← hr]
  generalize hr1 : setRVU rvus 0
    { rvus 0 with rwFlags := (bit w C.ASMRVU_WRITE ||| bit r C.ASMRVU_READ) % 256 } = r1
  have h10 : r1 0 =
      { rvus 0 with rwFlags := (bit w C.ASMRVU_WRITE ||| bit r C.ASMRVU_READ) % 256 } := by
    rw [← hr1, setRVU_same]
  have h1j : ∀ j, j ≠ 0 → r1 j = rvus j := by
    intro j hj
    rw [← hr1, setRVU_other _ _ _ _ hj]
  generalize hr1a : (if (r1 2).regVar = true then setRVU r1 2 { r1 2 with align := 4 }
    else r1) = r1a
  have ha0 : r1a 0 = r1 0 := by
    rw [← hr1a]
    split_ifs
    · rw [setRVU_other _ _ _ _ (by decide)]
    · rfl
  have ha4 : r1a 4 = r1 4 := by
    rw [← hr1a]
    split_ifs
    · rw [setRVU_other _ _ _ _ (by decide)]
    · rfl
  have ha5 : r1a 5 = r1 5 := by
    rw [← hr1a]
    split_ifs
    · rw [setRVU_other _ _ _ _ (by decide)]
    · rfl
  have hf : (r1a 0).regField ≠ ASMFIELD_NONE := by
    rw [ha0, h10]
    exact hfield
  have hd' : (decide (gcnInsn.mode &&& C.GCN_MHALFWRITE ≠ 0) && w &&
      decide ((r1a 0).regField ≠ ASMFIELD_NONE)) = d := by
    rw [hd, decide_eq_true hf, Bool.and_true]
  rw [hd']
  have hs' : (r1a 0).rstart = s := by rw [ha0, h10]; exact hs
  have he' : (r1a 0).rend = s + n := by rw [ha0, h10]; exact he
  obtain ⟨k0, k4, kj⟩ := splitHalfWrite_spec C r1a s n hs' he' hb
  cases d
  · simp only [Bool.false_eq_true, if_false, true_and]
    rw [ha0, h10, ha4, h1j 4 (by decide), ha5, h1j 5 (by decide)]
    simp only [and_self, and_true]
    rw [← he]
  · simp only [if_true, true_and]
    rw [k0, k4, kj 5 (by decide) (by decide), ha0, h10, ha5, h1j 5 (by decide)]
    exact ⟨rfl, rfl, rfl⟩

/-- The records of `parseMUBUFEncoding` before the test of `good`, for a VDATA record
`[s, s + n)` with a field tag: record 0 carries the access flags and, when the range is
divided, only the first half; record 4 is the second half when the range is divided and
untouched otherwise; record 5 is untouched. -/
theorem mubufUsagesBeforeCheck_spec (C : RVUConsts) (gcnInsn : GCNAsmInstruction)
    (p : MUBUFParsed) (rvus : Nat → AsmRegVarUsage) (s n : Nat) (w r d : Bool)
    (hw : w = (p.haveVdata && (decide (gcnInsn.mode &&& C.GCN_MLOAD ≠ 0) ||
      (decide (gcnInsn.mode &&& C.GCN_MATOMIC ≠ 0) && p.haveGlc))))
    (hr : r = (p.haveVdata && (decide (gcnInsn.mode &&& C.GCN_MLOAD = 0) ||
      decide (gcnInsn.mode &&& C.GCN_MATOMIC ≠ 0))))
    (hd : d = (decide (gcnInsn.mode &&& C.GCN_MHALFWRITE ≠ 0) && w && !p.haveLds))
    (hfield : (rvus 0).regField ≠ ASMFIELD_NONE)
    (hs : (rvus 0).rstart = s) (he : (rvus 0).rend = s + n) (hb : s + n < 2 ^ 16) :
    (mubufUsagesBeforeCheck C gcnInsn p rvus).2 = d ∧
    (mubufUsagesBeforeCheck C gcnInsn p rvus).1 0 =
      { rvus 0 with
        rwFlags := (bit w C.ASMRVU_WRITE ||| bit r C.ASMRVU_READ) % 256,
        rend := if d then s + n / 2 else s + n } ∧
    (mubufUsagesBeforeCheck C gcnInsn p rvus).1 4 =
      (if d then
        { rvus 0 with
          regField := GCNFIELD_M_VDATAH, rstart := s + n / 2, rend := s + n,
          rwFlags := C.ASMRVU_READ % 256 }
      else rvus 4) ∧
    (mubufUsagesBeforeCheck C gcnInsn p rvus).1 5 = rvus 5 := by
  unfold mubufUsagesBeforeCheck
  simp only [← hw, ← hr]
  generalize hr1 : setRVU rvus 0
    { rvus 0 with rwFlags := (bit w C.ASMRVU_WRITE ||| bit r C.ASMRVU_READ) % 256 } = r1
  have h10 : r1 0 =
      { rvus 0 with rwFlags := (bit w C.ASMRVU_WRITE ||| bit r C.ASMRVU_READ) % 256 } := by
    rw [← hr1, setRVU_same]
  have h1j : ∀ j, j ≠ 0 → r1 j = rvus j := by
    intro j hj
    rw [← hr1, setRVU_other _ _ _ _ hj]
  have hf : (r1 0).regField ≠ ASMFIELD_NONE := by
    rw [h10]
    exact hfield
  have hd' : (decide (gcnInsn.mode &&& C.GCN_MHALFWRITE ≠ 0) && w && !p.haveLds &&
      decide ((r1 0).regField ≠ ASMFIELD_NONE)) = d := by
    rw [hd, decide_eq_true hf, Bool.and_true]
  rw [hd']
  have hs' : (r1 0).rstart = s := by rw [h10]; exact hs
  have he' : (r1 0).rend = s + n := by rw [h10]; exact he
  obtain ⟨k0, k4, kj⟩ := splitHalfWrite_spec C r1 s n hs' he' hb
  have hv : ∀ (r2 : Nat → AsmRegVarUsage) (j : Nat), j ≠ 1 →
      (if (!p.haveAddr64 && !p.haveOffen && !p.haveIdxen) = true then
        setRVU r2 1 { r2 1 with regField := ASMFIELD_NONE } else r2) j = r2 j := by
    intro r2 j hj
    split_ifs
    · rw [setRVU_other _ _ _ _ hj]
    · rfl
  cases d
  · simp only [Bool.false_eq_true, if_false, true_and]
    rw [hv _ 0 (by decide), hv _ 4 (by decide), hv _ 5 (by decide), h10, h1j 4 (by decide),
      h1j 5 (by decide)]
    simp only [and_self, and_true]
    rw [← he]
  · simp only [if_true, true_and]
    rw [hv _ 0 (by decide), hv _ 4 (by decide), hv _ 5 (by decide), k0, k4,
      kj 5 (by decide) (by decide), h10, h1j 5 (by decide)]
    exact ⟨rfl, rfl, rfl⟩
/-- A successful call of `parseMUBUFEncoding`: the forced size is not 32 bits, LDS and TFE are
not both set, and the records are those before the test of `good` after the two blocks
"ignore vdata if LDS" and "fix for tfe". -/
theorem parseMUBUFEncoding_ok (C : RVUConsts) (isGCN12 : Bool) (gcnInsn : GCNAsmInstruction)
    (p : MUBUFParsed) (gcnEncSize : GCNEncSize) (output : List Nat)
    (rvus : Nat → AsmRegVarUsage)
    (h : (parseMUBUFEncoding C isGCN12 gcnInsn p gcnEncSize output rvus).ret = true) :
    (p.haveTfe && p.haveLds) = false ∧
    (parseMUBUFEncoding C isGCN12 gcnInsn p gcnEncSize output rvus).instrRVUs =
      (if (p.haveTfe &&
          ((mubufUsagesBeforeCheck C gcnInsn p rvus).2 ||
            decide (((if p.haveLds then
                setRVU (mubufUsagesBeforeCheck C gcnInsn p rvus).1 0
                  { (mubufUsagesBeforeCheck C gcnInsn p rvus).1 0 with
                    regField := ASMFIELD_NONE }
              else (mubufUsagesBeforeCheck C gcnInsn p rvus).1) 0).rwFlags ≠
                (C.ASMRVU_READ ||| C.ASMRVU_WRITE))) &&
          decide (((if p.haveLds then
              setRVU (mubufUsagesBeforeCheck C gcnInsn p rvus).1 0
                { (mubufUsagesBeforeCheck C gcnInsn p rvus).1 0 with
                  regField := ASMFIELD_NONE }
            else (mubufUsagesBeforeCheck C gcnInsn p rvus).1) 0).regField ≠
              ASMFIELD_NONE)) = true then
        fixForTfe C (if (mubufUsagesBeforeCheck C gcnInsn p rvus).2 then 4 else 0)
          (if p.haveLds then
            setRVU (mubufUsagesBeforeCheck C gcnInsn p rvus).1 0
              { (mubufUsagesBeforeCheck C gcnInsn p rvus).1 0 with regField := ASMFIELD_NONE }
          else (mubufUsagesBeforeCheck C gcnInsn p rvus).1)
      else
        (if p.haveLds then
          setRVU (mubufUsagesBeforeCheck C gcnInsn p rvus).1 0
            { (mubufUsagesBeforeCheck C gcnInsn p rvus).1 0 with regField := ASMFIELD_NONE }
        else (mubufUsagesBeforeCheck C gcnInsn p rvus).1)) := by
  unfold parseMUBUFEncoding at h ⊢
  by_cases h1 : gcnEncSize = GCNEncSize.BIT32
  · rw [if_pos h1] at h
    exact absurd h (by simp)
  · rw [if_neg h1] at h ⊢
    dsimp only at h ⊢
    by_cases h2 : !p.good ∨ !p.noGarbage
    · rw [if_pos h2] at h
      exact absurd h (by simp)
    · rw [if_neg h2] at h ⊢
      by_cases h3 : (p.haveAddr64 && (p.haveOffen || p.haveIdxen)) = true
      · rw [if_pos h3] at h
        exact absurd h (by simp)
      · rw [if_neg h3] at h ⊢
        by_cases h4 : (p.haveTfe && p.haveLds) = true
        · rw [if_pos h4] at h
          exact absurd h (by simp)
        · rw [if_neg h4]
          exact ⟨by simpa using h4, rfl⟩

/-- A successful call of `parseMIMGEncoding` leaves the records of `mimgUsages`. -/
theorem parseMIMGEncoding_ok (C : RVUConsts) (gcnInsn : GCNAsmInstruction) (p : MIMGParsed)
    (gcnEncSize : GCNEncSize) (output : List Nat) (rvus : Nat → AsmRegVarUsage)
    (h : (parseMIMGEncoding C gcnInsn p gcnEncSize output rvus).ret = true) :
    (parseMIMGEncoding C gcnInsn p gcnEncSize output rvus).instrRVUs =
      mimgUsages C gcnInsn p rvus := by
  unfold parseMIMGEncoding at h ⊢
  by_cases h1 : gcnEncSize = GCNEncSize.BIT32
  · rw [if_pos h1] at h
    exact absurd h (by simp)
  · rw [if_neg h1] at h ⊢
    dsimp only at h ⊢
    split_ifs <;> rfl

/-- C28: for a half-write atomic that returns data (a MUBUF or MTBUF descriptor with the
`glc` modifier and without `lds`, or a MIMG descriptor with `glc`) and has no `tfe` modifier,
a successful call of the encoder leaves two records for the VDATA range `[s, s + n)`:
record 0 covers the first half `[s, s + n/2)` with read and write access, record 4 covers the
second half `[s + n/2, s + n)` with read access only and the tag `GCNFIELD_M_VDATAH`; the two
ranges are disjoint and together cover exactly the parsed range. -/
theorem halfwrite_vdata_divided (C : RVUConsts) (isGCN12 : Bool) (gcnInsn : GCNAsmInstruction)
    (p : MUBUFParsed) (q : MIMGParsed) (gcnEncSize : GCNEncSize) (output : List Nat)
    (rvus : Nat → AsmRegVarUsage) (s n : Nat)
    (hhalf : gcnInsn.mode &&& C.GCN_MHALFWRITE ≠ 0)
    (hatomic : gcnInsn.mode &&& C.GCN_MATOMIC ≠ 0)
    (hfield : (rvus 0).regField ≠ ASMFIELD_NONE)
    (hs : (rvus 0).rstart = s) (he : (rvus 0).rend = s + n) (hb : s + n < 2 ^ 16) :
    (p.haveVdata = true → p.haveGlc = true → p.haveLds = false → p.haveTfe = false →
      (parseMUBUFEncoding C isGCN12 gcnInsn p gcnEncSize output rvus).ret = true →
      (parseMUBUFEncoding C isGCN12 gcnInsn p gcnEncSize output rvus).instrRVUs 0 =
        { rvus 0 with
          rwFlags := (C.ASMRVU_WRITE ||| C.ASMRVU_READ) % 256, rend := s + n / 2 } ∧
      (parseMUBUFEncoding C isGCN12 gcnInsn p gcnEncSize output rvus).instrRVUs 4 =
        { rvus 0 with
          regField := GCNFIELD_M_VDATAH, rstart := s + n / 2, rend := s + n,
          rwFlags := C.ASMRVU_READ % 256 } ∧
      (parseMUBUFEncoding C isGCN12 gcnInsn p gcnEncSize output rvus).instrRVUs 5 = rvus 5) ∧
    (q.haveGlc = true → q.haveTfe = false →
      (parseMIMGEncoding C gcnInsn q gcnEncSize output rvus).ret = true →
      (parseMIMGEncoding C gcnInsn q gcnEncSize output rvus).instrRVUs 0 =
        { rvus 0 with
          rwFlags := (C.ASMRVU_WRITE ||| C.ASMRVU_READ) % 256, rend := s + n / 2 } ∧
      (parseMIMGEncoding C gcnInsn q gcnEncSize output rvus).instrRVUs 4 =
        { rvus 0 with
          regField := GCNFIELD_M_VDATAH, rstart := s + n / 2, rend := s + n,
          rwFlags := C.ASMRVU_READ % 256 } ∧
      (parseMIMGEncoding C gcnInsn q gcnEncSize output rvus).instrRVUs 5 = rvus 5) ∧
    (∀ v, (s ≤ v ∧ v < s + n) ↔ ((s ≤ v ∧ v < s + n / 2) ∨ (s + n / 2 ≤ v ∧ v < s + n))) ∧
    (∀ v, ¬ ((s ≤ v ∧ v < s + n / 2) ∧ (s + n / 2 ≤ v ∧ v < s + n))) := by
  refine ⟨fun hv hg hl ht hret => ?_, fun hg ht hret => ?_, fun v => by omega,
    fun v => by omega⟩
  · obtain ⟨_, hR⟩ := parseMUBUFEncoding_ok C isGCN12 gcnInsn p gcnEncSize output rvus hret
    rw [hR]
    obtain ⟨k2, k0, k4, k5⟩ := mubufUsagesBeforeCheck_spec C gcnInsn p rvus s n true true true
      (by simp [hv, hg, hatomic]) (by simp [hv, hatomic]) (by simp [hhalf, hl]) hfield hs he hb
    simp only [ht, hl, Bool.false_and, Bool.false_eq_true, if_false]
    rw [k0, k4, k5]
    simp [bit]
  · rw [parseMIMGEncoding_ok C gcnInsn q gcnEncSize output rvus hret]
    obtain ⟨k2, k0, k4, k5⟩ := mimgUsagesBeforeTfe_spec C gcnInsn q rvus s n true true true
      (by simp [hg, hatomic]) (by simp [hatomic]) (by simp [hhalf]) hfield hs he hb
    unfold mimgUsages
    simp only [ht, Bool.false_and, Bool.false_eq_true, if_false]
    rw [k0, k4, k5]
    simp [bit]

set_option maxRecDepth 100000 in
/-- The instruction `buffer_atomic_cmpswap v[1:2], v5, s[8:11], s3 offen glc`: the VDATA
record `[257, 259)` is divided into `[257, 258)` and `[258, 259)`. -/
theorem halfwrite_vdata_divided_witness :
    (parseMUBUFEncoding sampleRVUConsts false ⟨"buffer_atomic_cmpswap", GCNENC_MUBUF, 0x6000,
        0x31, 0, 1⟩
      ⟨true, true, ⟨261, 262, false⟩, ⟨257, 259, false⟩, ⟨8, 12, false⟩,
        ⟨⟨3, 4, false⟩, 0, 0⟩, true, 0, false, true, false, true, false, false, false, false,
        0, 0⟩
      GCNEncSize.UNKNOWN []
      (fun i =>
        if i = 0 then ⟨false, 257, 259, GCNFIELD_M_VDATA, 1, 0⟩
        else if i = 1 then ⟨false, 261, 262, GCNFIELD_M_VADDR, 1, 0⟩
        else ⟨false, 0, 0, ASMFIELD_NONE, 0, 0⟩)).instrRVUs 4 =
      ⟨false, 258, 259, GCNFIELD_M_VDATAH, 1, 0⟩ :=
  ((halfwrite_vdata_divided sampleRVUConsts false
      ⟨"buffer_atomic_cmpswap", GCNENC_MUBUF, 0x6000, 0x31, 0, 1⟩
      ⟨true, true, ⟨261, 262, false⟩, ⟨257, 259, false⟩, ⟨8, 12, false⟩,
        ⟨⟨3, 4, false⟩, 0, 0⟩, true, 0, false, true, false, true, false, false, false, false,
        0, 0⟩
      ⟨true, true, ⟨261, 262, false⟩, ⟨257, 259, false⟩, ⟨8, 16, false⟩, ⟨0, 0, false⟩, 1,
        true, true, false, false, false, false, false, false, false⟩
      GCNEncSize.UNKNOWN []
      (fun i =>
        if i = 0 then ⟨false, 257, 259, GCNFIELD_M_VDATA, 1, 0⟩
        else if i = 1 then ⟨false, 261, 262, GCNFIELD_M_VADDR, 1, 0⟩
        else ⟨false, 0, 0, ASMFIELD_NONE, 0, 0⟩)
      257 2 (by decide) (by decide) (by decide) rfl rfl (by decide)).1
    rfl rfl rfl rfl (by decide)).2.1

set_option maxRecDepth 100000 in
/-- The instruction `flat_atomic_cmpswap v0, v[2:3], v[4:5] glc`, a half-write atomic that
returns data: the records that the operand parsing left (VDST `[256, 257)` written, ADDR
`[258, 260)` read, DATA `[260, 262)` read) pass the FLAT routine unchanged, so the data range
stays one read-only record and no record has read and write access. -/
theorem flat_cmpswap_data_not_divided :
    (List.range 6).map (flatUsages sampleRVUConsts
        ⟨"flat_atomic_cmpswap", GCNENC_FLAT, 0x6000, 0x31, 0, 1⟩ true true false
        (fun i =>
          if i = 0 then ⟨false, 256, 257, GCNFIELD_FLAT_VDST, 2, 0⟩
          else if i = 1 then ⟨false, 258, 260, GCNFIELD_FLAT_ADDR, 1, 0⟩
          else if i = 2 then ⟨false, 260, 262, GCNFIELD_FLAT_DATA, 1, 0⟩
          else ⟨false, 0, 0, ASMFIELD_NONE, 0, 0⟩)) =
      [⟨false, 256, 257, GCNFIELD_FLAT_VDST, 2, 0⟩, ⟨false, 258, 260, GCNFIELD_FLAT_ADDR, 1, 0⟩,
        ⟨false, 260, 262, GCNFIELD_FLAT_DATA, 1, 0⟩, ⟨false, 0, 0, ASMFIELD_NONE, 0, 0⟩,
        ⟨false, 0, 0, ASMFIELD_NONE, 0, 0⟩, ⟨false, 0, 0, ASMFIELD_NONE, 0, 0⟩] := by
  decide
/-- The access flags of record 0 differ from `ASMRVU_READ|ASMRVU_WRITE` exactly when VDATA is
not both read and written, for read and write bits that fit a byte and are distinct from
their union. -/
theorem rwFlags_ne_iff (C : RVUConsts) (w r : Bool)
    (hlt : C.ASMRVU_READ ||| C.ASMRVU_WRITE < 256)
    (hW : C.ASMRVU_WRITE % 256 ≠ C.ASMRVU_READ ||| C.ASMRVU_WRITE)
    (hR : C.ASMRVU_READ % 256 ≠ C.ASMRVU_READ ||| C.ASMRVU_WRITE)
    (h0 : C.ASMRVU_READ ||| C.ASMRVU_WRITE ≠ 0) :
    decide ((bit w C.ASMRVU_WRITE ||| bit r C.ASMRVU_READ) % 256 ≠
      (C.ASMRVU_READ ||| C.ASMRVU_WRITE)) = !(w && r) := by
  cases w <;> cases r <;> simp only [bit, Bool.false_eq_true, if_false, if_true, Nat.zero_or,
    Nat.or_zero, Bool.and_self, Bool.and_false, Bool.and_true, Bool.not_false, Bool.not_true,
    decide_eq_true_eq, decide_eq_false_iff_not, not_not, ne_eq, Nat.zero_mod]
  · exact fun h => h0 h.symm
  · exact hR
  · exact hW
  · rw [Nat.lor_comm, Nat.mod_eq_of_lt hlt]

/-- The bits [15:8] of the second word of `parseMUBUFEncoding` are the low byte of the VDATA
register code. -/
theorem mubuf_word1_vdata (isGCN12 : Bool) (gcnInsn : GCNAsmInstruction) (offset : Nat)
    (haveOffen haveIdxen haveGlc haveAddr64 haveLds haveSlc haveTfe : Bool) (dfmt nfmt : Nat)
    (vaddrReg vdataReg srsrcReg : RegRange) (soffsetOp : GCNOperand) :
    ((parseMUBUFWords isGCN12 gcnInsn offset haveOffen haveIdxen haveGlc haveAddr64 haveLds
      haveSlc haveTfe dfmt nfmt vaddrReg vdataReg srsrcReg soffsetOp).getD 1 0 >>> 8) &&&
        0xff = vdataReg.bstart % 256 := by
  unfold parseMUBUFWords
  simp only [List.getD_cons_succ, List.getD_cons_zero]
  apply Nat.eq_of_testBit_eq
  intro i
  have h256 : (256 : Nat) = 2 ^ 8 := by norm_num
  have hff : (0xff : Nat) = 2 ^ 8 - 1 := by norm_num
  rw [hff, Nat.and_pow_two_sub_one_eq_mod, h256, Nat.testBit_mod_two_pow,
    Nat.testBit_mod_two_pow, Nat.testBit_shiftRight]
  by_cases hi : i < 8
  · have h32 : 8 + i < 32 := by omega
    simp only [hi, decide_True, Bool.true_and, Nat.testBit_mod_two_pow, h32, Nat.testBit_or,
      Nat.testBit_shiftLeft, Nat.testBit_and]
    have e1 : (0xff : Nat).testBit (8 + i) = false := by
      rw [hff, Nat.testBit_two_pow_sub_one]
      simp
    have e2 : (0xff : Nat).testBit (8 + i - 8) = true := by
      rw [hff, Nat.testBit_two_pow_sub_one]
      simp
      omega
    have e3 : ∀ c : Bool, (bit c 4194304).testBit (8 + i) = false := by
      intro c
      have h22 : (4194304 : Nat) = 2 ^ 22 := by norm_num
      cases c
      · simp [bit]
      · simp only [bit, if_true, h22, Nat.testBit_two_pow]
        simp
        omega
    have e4 : ∀ c : Bool, (bit c 8388608).testBit (8 + i) = false := by
      intro c
      have h23 : (8388608 : Nat) = 2 ^ 23 := by norm_num
      cases c
      · simp [bit]
      · simp only [bit, if_true, h23, Nat.testBit_two_pow]
        simp
        omega
    have e5 : (0xff : Nat).testBit i = true := by
      rw [hff, Nat.testBit_two_pow_sub_one]
      simp [hi]
    have g16 : ¬ (8 + i ≥ 16) := by omega
    have g24 : ¬ (8 + i ≥ 24) := by omega
    have g8 : 8 + i ≥ 8 := by omega
    simp [e1, e2, e3, e4, e5, g16, g24, g8]
  · simp [hi]

/-- The stored record of the TFE lane of fixed registers, `[s, s + n - 1)` with the tag
`GCNFIELD_M_VDATALAST`, is decoded by `getRegPair` from the flags of `getRwFlags` and the
second instruction word as the register `[s + n - 1, s + n)`. -/
theorem vdatalast_decoded (C : RVUConsts) (isGCN12 : Bool) (code1 code2 s n : Nat)
    (hsh : C.ASMRVU_REGSIZE_SHIFT ≤ 4) (hs : 256 ≤ s) (hn2 : 2 ≤ n) (hn : n ≤ 17)
    (hb : s + n ≤ 512) (hc : (code2 >>> 8) &&& 0xff = s % 256) :
    (getRwFlags C GCNFIELD_M_VDATALAST s (s + n - 1)).bind
      (getRegPair C isGCN12 code1 code2 GCNFIELD_M_VDATALAST) = some (s + n - 1, s + n) := by
  unfold getRwFlags
  simp only [Option.some_bind]
  unfold getRegPair
  simp only [hc]
  have e1 : sub16 (sub16 (s + n - 1) s) 1 = n - 2 := by
    unfold sub16
    omega
  rw [e1]
  have hpow : 2 ^ C.ASMRVU_REGSIZE_SHIFT ≤ 16 := by
    calc 2 ^ C.ASMRVU_REGSIZE_SHIFT ≤ 2 ^ 4 := Nat.pow_le_pow_right (by norm_num) hsh
      _ = 16 := by norm_num
  have hpos : 0 < 2 ^ C.ASMRVU_REGSIZE_SHIFT := Nat.two_pow_pos _
  have e2 : (((n - 2) <<< C.ASMRVU_REGSIZE_SHIFT) % 256) >>> C.ASMRVU_REGSIZE_SHIFT =
      n - 2 := by
    rw [Nat.shiftLeft_eq, Nat.shiftRight_eq_div_pow]
    have hlt : (n - 2) * 2 ^ C.ASMRVU_REGSIZE_SHIFT < 256 := by
      calc (n - 2) * 2 ^ C.ASMRVU_REGSIZE_SHIFT ≤ 15 * 16 :=
            Nat.mul_le_mul (by omega) hpow
        _ < 256 := by norm_num
    rw [Nat.mod_eq_of_lt hlt, Nat.mul_div_cancel _ hpos]
  rw [e2]
  have e3 : (n - 2) &&& 15 = n - 2 := by
    have h15 : (15 : Nat) = 2 ^ 4 - 1 := by norm_num
    rw [h15, Nat.and_pow_two_sub_one_eq_mod]
    omega
  rw [e3]
  simp only [add16, Option.some.injEq, Prod.mk.injEq]
  omega

/-- The records after the block "fix for tfe" applied to the records `r3` that precede it,
for a VDATA range `[s, s + n)` that was divided (`d`) or not: record 5 is the TFE lane and
the last VDATA record ends one register earlier. -/
theorem tfe_fix_on_vdata (C : RVUConsts) (rvus r3 : Nat → AsmRegVarUsage) (s n : Nat)
    (w r d : Bool) (hn : 1 ≤ n) (hb : s + n < 2 ^ 16)
    (k0 : r3 0 =
      { rvus 0 with
        rwFlags := (bit w C.ASMRVU_WRITE ||| bit r C.ASMRVU_READ) % 256,
        rend := if d then s + n / 2 else s + n })
    (k4 : r3 4 =
      (if d then
        { rvus 0 with
          regField := GCNFIELD_M_VDATAH, rstart := s + n / 2, rend := s + n,
          rwFlags := C.ASMRVU_READ % 256 }
      else rvus 4))
    (hs : (rvus 0).rstart = s) :
    fixForTfe C (if d then 4 else 0) r3 5 =
      { rvus 0 with
        regField := GCNFIELD_M_VDATALAST,
        rwFlags := (C.ASMRVU_READ ||| C.ASMRVU_WRITE) % 256,
        rstart := if (rvus 0).regVar then s + n - 1 else s,
        rend := if (rvus 0).regVar then s + n else s + n - 1 } ∧
    (fixForTfe C (if d then 4 else 0) r3 (if d then 4 else 0)).rend = s + n - 1 ∧
    (fixForTfe C (if d then 4 else 0) r3 (if d then 4 else 0)).rstart =
      (if d then s + n / 2 else s) := by
  have hs0 : (r3 0).rstart = s := by rw [k0]; exact hs
  cases d
  · simp only [Bool.false_eq_true, if_false] at k0 k4 ⊢
    have he : (r3 0).rend = s + n := by rw [k0]
    obtain ⟨f5, fid, _⟩ := fixForTfe_spec C 0 r3 (s + n) (by decide) he (by omega) hb
    rw [f5, fid, hs0, k0]
    exact ⟨rfl, rfl, rfl⟩
  · simp only [if_true] at k0 k4 ⊢
    have he : (r3 4).rend = s + n := by rw [k4]
    obtain ⟨f5, fid, _⟩ := fixForTfe_spec C 4 r3 (s + n) (by decide) he (by omega) hb
    rw [f5, fid, hs0, k4]
    exact ⟨rfl, rfl, rfl⟩

/-- C29: a MUBUF, MTBUF or MIMG instruction that is assembled with the `tfe` modifier and
whose VDATA record `[s, s + n)` has a field tag gains the record 5 of the TFE lane exactly
when the VDATA range was divided or is not both read and written: record 5 then has read and
write access and the tag `GCNFIELD_M_VDATALAST`, it is the register `[s + n - 1, s + n)` for
a register variable and the stored range `[s, s + n - 1)` for fixed registers, which
`getRegPair` decodes from the second instruction word as `[s + n - 1, s + n)`; the VDATA
record that precedes it (record 4 of a divided range, record 0 otherwise) ends at
`s + n - 1`. When VDATA is read and written as a whole (an atomic with `glc` that is not a
half-write atomic) no record is added and record 0 keeps the full range with read and write
access. -/
theorem tfe_lane_record (C : RVUConsts) (isGCN12 : Bool) (gcnInsn : GCNAsmInstruction)
    (p : MUBUFParsed) (q : MIMGParsed) (gcnEncSize : GCNEncSize) (output : List Nat)
    (rvus : Nat → AsmRegVarUsage) (s n : Nat) (wm rm dm wi ri di : Bool)
    (hlt : C.ASMRVU_READ ||| C.ASMRVU_WRITE < 256)
    (hW : C.ASMRVU_WRITE % 256 ≠ C.ASMRVU_READ ||| C.ASMRVU_WRITE)
    (hR : C.ASMRVU_READ % 256 ≠ C.ASMRVU_READ ||| C.ASMRVU_WRITE)
    (h0 : C.ASMRVU_READ ||| C.ASMRVU_WRITE ≠ 0)
    (hfield : (rvus 0).regField ≠ ASMFIELD_NONE)
    (hs : (rvus 0).rstart = s) (he : (rvus 0).rend = s + n) (hn : 1 ≤ n)
    (hb : s + n < 2 ^ 16)
    (hwm : wm = (p.haveVdata && (decide (gcnInsn.mode &&& C.GCN_MLOAD ≠ 0) ||
      (decide (gcnInsn.mode &&& C.GCN_MATOMIC ≠ 0) && p.haveGlc))))
    (hrm : rm = (p.haveVdata && (decide (gcnInsn.mode &&& C.GCN_MLOAD = 0) ||
      decide (gcnInsn.mode &&& C.GCN_MATOMIC ≠ 0))))
    (hdm : dm = (decide (gcnInsn.mode &&& C.GCN_MHALFWRITE ≠ 0) && wm && !p.haveLds))
    (hwi : wi = (decide (gcnInsn.mode &&& C.GCN_MLOAD ≠ 0) ||
      (decide (gcnInsn.mode &&& C.GCN_MATOMIC ≠ 0) && q.haveGlc)))
    (hri : ri = (decide (gcnInsn.mode &&& C.GCN_MLOAD = 0) ||
      decide (gcnInsn.mode &&& C.GCN_MATOMIC ≠ 0)))
    (hdi : di = (decide (gcnInsn.mode &&& C.GCN_MHALFWRITE ≠ 0) && wi)) :
    (p.haveTfe = true →
      (parseMUBUFEncoding C isGCN12 gcnInsn p gcnEncSize output rvus).ret = true →
      ((dm || !(wm && rm)) = true →
        (parseMUBUFEncoding C isGCN12 gcnInsn p gcnEncSize output rvus).instrRVUs 5 =
          { rvus 0 with
            regField := GCNFIELD_M_VDATALAST,
            rwFlags := (C.ASMRVU_READ ||| C.ASMRVU_WRITE) % 256,
            rstart := if (rvus 0).regVar then s + n - 1 else s,
            rend := if (rvus 0).regVar then s + n else s + n - 1 } ∧
        ((parseMUBUFEncoding C isGCN12 gcnInsn p gcnEncSize output rvus).instrRVUs
          (if dm then 4 else 0)).rend = s + n - 1 ∧
        ((parseMUBUFEncoding C isGCN12 gcnInsn p gcnEncSize output rvus).instrRVUs
          (if dm then 4 else 0)).rstart = (if dm then s + n / 2 else s)) ∧
      ((dm || !(wm && rm)) = false →
        (parseMUBUFEncoding C isGCN12 gcnInsn p gcnEncSize output rvus).instrRVUs 5 = rvus 5 ∧
        (parseMUBUFEncoding C isGCN12 gcnInsn p gcnEncSize output rvus).instrRVUs 0 =
          { rvus 0 with rwFlags := C.ASMRVU_READ ||| C.ASMRVU_WRITE })) ∧
    (q.haveTfe = true →
      (parseMIMGEncoding C gcnInsn q gcnEncSize output rvus).ret = true →
      ((di || !(wi && ri)) = true →
        (parseMIMGEncoding C gcnInsn q gcnEncSize output rvus).instrRVUs 5 =
          { rvus 0 with
            regField := GCNFIELD_M_VDATALAST,
            rwFlags := (C.ASMRVU_READ ||| C.ASMRVU_WRITE) % 256,
            rstart := if (rvus 0).regVar then s + n - 1 else s,
            rend := if (rvus 0).regVar then s + n else s + n - 1 } ∧
        ((parseMIMGEncoding C gcnInsn q gcnEncSize output rvus).instrRVUs
          (if di then 4 else 0)).rend = s + n - 1 ∧
        ((parseMIMGEncoding C gcnInsn q gcnEncSize output rvus).instrRVUs
          (if di then 4 else 0)).rstart = (if di then s + n / 2 else s)) ∧
      ((di || !(wi && ri)) = false →
        (parseMIMGEncoding C gcnInsn q gcnEncSize output rvus).instrRVUs 5 = rvus 5 ∧
        (parseMIMGEncoding C gcnInsn q gcnEncSize output rvus).instrRVUs 0 =
          { rvus 0 with rwFlags := C.ASMRVU_READ ||| C.ASMRVU_WRITE })) ∧
    (∀ code1 code2 : Nat, C.ASMRVU_REGSIZE_SHIFT ≤ 4 → 256 ≤ s → 2 ≤ n → n ≤ 17 →
      s + n ≤ 512 →
      (code2 >>> 8) &&& 0xff = s % 256 →
      (getRwFlags C GCNFIELD_M_VDATALAST s (s + n - 1)).bind
        (getRegPair C isGCN12 code1 code2 GCNFIELD_M_VDATALAST) = some (s + n - 1, s + n)) ∧
    ((parseMUBUFWords isGCN12 gcnInsn p.offset p.haveOffen p.haveIdxen p.haveGlc p.haveAddr64
      p.haveLds p.haveSlc p.haveTfe p.dfmt p.nfmt p.vaddrReg p.vdataReg p.srsrcReg
      p.soffsetOp).getD 1 0 >>> 8) &&& 0xff = p.vdataReg.bstart % 256 := by
  refine ⟨fun ht hret => ?_, fun ht hret => ?_,
    fun code1 code2 h1 h2 h3 h4 h5 h6 =>
      vdatalast_decoded C isGCN12 code1 code2 s n h1 h2 h3 h4 h5 h6,
    mubuf_word1_vdata _ _ _ _ _ _ _ _ _ _ _ _ _ _ _ _⟩
  · obtain ⟨hx, hRes⟩ := parseMUBUFEncoding_ok C isGCN12 gcnInsn p gcnEncSize output rvus hret
    rw [ht, Bool.true_and] at hx
    rw [hRes]
    obtain ⟨k2, k0, k4, k5⟩ := mubufUsagesBeforeCheck_spec C gcnInsn p rvus s n wm rm dm
      hwm hrm hdm hfield hs he hb
    simp only [hx, ht, Bool.false_eq_true, if_false, Bool.true_and, k2]
    have hc : ((dm || decide (((mubufUsagesBeforeCheck C gcnInsn p rvus).1 0).rwFlags ≠
          (C.ASMRVU_READ ||| C.ASMRVU_WRITE))) &&
        decide (((mubufUsagesBeforeCheck C gcnInsn p rvus).1 0).regField ≠ ASMFIELD_NONE)) =
        (dm || !(wm && rm)) := by
      rw [k0]
      simp only []
      rw [rwFlags_ne_iff C wm rm hlt hW hR h0, decide_eq_true hfield, Bool.and_true]
    rw [hc]
    refine ⟨fun hcond => ?_, fun hcond => ?_⟩
    · rw [if_pos hcond]
      exact tfe_fix_on_vdata C rvus _ s n wm rm dm hn hb k0 k4 hs
    · rw [hcond]
      simp only [Bool.false_eq_true, if_false]
      simp only [Bool.or_eq_false_iff, Bool.not_eq_false', Bool.and_eq_true] at hcond
      rw [k5, k0, hcond.1, hcond.2.1, hcond.2.2]
      simp only [bit, if_true, Bool.false_eq_true, if_false, true_and]
      rw [Nat.lor_comm, Nat.mod_eq_of_lt hlt, ← he]
  · rw [parseMIMGEncoding_ok C gcnInsn q gcnEncSize output rvus hret]
    obtain ⟨k2, k0, k4, k5⟩ := mimgUsagesBeforeTfe_spec C gcnInsn q rvus s n wi ri di
      hwi hri hdi hfield hs he hb
    unfold mimgUsages
    simp only [ht, Bool.true_and, k2]
    have hc : ((di || decide (((mimgUsagesBeforeTfe C gcnInsn q rvus).1 0).rwFlags ≠
          (C.ASMRVU_READ ||| C.ASMRVU_WRITE))) &&
        decide (((mimgUsagesBeforeTfe C gcnInsn q rvus).1 0).regField ≠ ASMFIELD_NONE)) =
        (di || !(wi && ri)) := by
      rw [k0]
      simp only []
      rw [rwFlags_ne_iff C wi ri hlt hW hR h0, decide_eq_true hfield, Bool.and_true]
    rw [hc]
    refine ⟨fun hcond => ?_, fun hcond => ?_⟩
    · rw [if_pos hcond]
      exact tfe_fix_on_vdata C rvus _ s n wi ri di hn hb k0 k4 hs
    · rw [hcond]
      simp only [Bool.false_eq_true, if_false]
      simp only [Bool.or_eq_false_iff, Bool.not_eq_false', Bool.and_eq_true] at hcond
      rw [k5, k0, hcond.1, hcond.2.1, hcond.2.2]
      simp only [bit, if_true, Bool.false_eq_true, if_false, true_and]
      rw [Nat.lor_comm, Nat.mod_eq_of_lt hlt, ← he]
set_option maxRecDepth 100000 in
/-- The instruction `buffer_load_dword v[1:2], v5, s[8:11], s3 offen tfe`: the record of the
TFE lane is stored as `[257, 258)` with the tag `GCNFIELD_M_VDATALAST`, and the VDATA record
ends at 258. -/
theorem tfe_lane_record_witness :
    (parseMUBUFEncoding sampleRVUConsts false ⟨"buffer_load_dword", GCNENC_MUBUF, 0x1000,
        0xc, 0, 1⟩
      ⟨true, true, ⟨261, 262, false⟩, ⟨257, 259, false⟩, ⟨8, 12, false⟩,
        ⟨⟨3, 4, false⟩, 0, 0⟩, true, 0, false, true, false, false, false, false, false, true,
        0, 0⟩
      GCNEncSize.UNKNOWN []
      (fun i =>
        if i = 0 then ⟨false, 257, 259, GCNFIELD_M_VDATA, 1, 0⟩
        else if i = 1 then ⟨false, 261, 262, GCNFIELD_M_VADDR, 1, 0⟩
        else ⟨false, 0, 0, ASMFIELD_NONE, 0, 0⟩)).instrRVUs 5 =
      ⟨false, 257, 258, GCNFIELD_M_VDATALAST, 3, 0⟩ ∧
    (getRwFlags sampleRVUConsts GCNFIELD_M_VDATALAST 257 (257 + 2 - 1)).bind
      (getRegPair sampleRVUConsts false 0xe0301000 0x03820105 GCNFIELD_M_VDATALAST) =
        some (257 + 2 - 1, 257 + 2) :=
  ⟨(((tfe_lane_record sampleRVUConsts false
      ⟨"buffer_load_dword", GCNENC_MUBUF, 0x1000, 0xc, 0, 1⟩
      ⟨true, true, ⟨261, 262, false⟩, ⟨257, 259, false⟩, ⟨8, 12, false⟩,
        ⟨⟨3, 4, false⟩, 0, 0⟩, true, 0, false, true, false, false, false, false, false, true,
        0, 0⟩
      ⟨true, true, ⟨261, 262, false⟩, ⟨257, 259, false⟩, ⟨8, 16, false⟩, ⟨0, 0, false⟩, 1,
        true, false, false, false, false, true, false, false, false⟩
      GCNEncSize.UNKNOWN []
      (fun i =>
        if i = 0 then ⟨false, 257, 259, GCNFIELD_M_VDATA, 1, 0⟩
        else if i = 1 then ⟨false, 261, 262, GCNFIELD_M_VADDR, 1, 0⟩
        else ⟨false, 0, 0, ASMFIELD_NONE, 0, 0⟩)
      257 2 true false false true false false
      (by decide) (by decide) (by decide) (by decide) (by decide) rfl rfl (by decide)
      (by decide) (by decide) (by decide) (by decide) (by decide) (by decide)
      (by decide)).1 rfl (by decide)).1 rfl).1,
    (tfe_lane_record sampleRVUConsts false
      ⟨"buffer_load_dword", GCNENC_MUBUF, 0x1000, 0xc, 0, 1⟩
      ⟨true, true, ⟨261, 262, false⟩, ⟨257, 259, false⟩, ⟨8, 12, false⟩,
        ⟨⟨3, 4, false⟩, 0, 0⟩, true, 0, false, true, false, false, false, false, false, true,
        0, 0⟩
      ⟨true, true, ⟨261, 262, false⟩, ⟨257, 259, false⟩, ⟨8, 16, false⟩, ⟨0, 0, false⟩, 1,
        true, false, false, false, false, true, false, false, false⟩
      GCNEncSize.UNKNOWN []
      (fun i =>
        if i = 0 then ⟨false, 257, 259, GCNFIELD_M_VDATA, 1, 0⟩
        else if i = 1 then ⟨false, 261, 262, GCNFIELD_M_VADDR, 1, 0⟩
        else ⟨false, 0, 0, ASMFIELD_NONE, 0, 0⟩)
      257 2 true false false true false false
      (by decide) (by decide) (by decide) (by decide) (by decide) rfl rfl (by decide)
      (by decide) (by decide) (by decide) (by decide) (by decide) (by decide)
      (by decide)).2.2.1 0xe0301000 0x03820105 (by decide) (by decide) (by decide) (by decide)
      (by decide) (by decide)⟩

set_option maxRecDepth 100000 in
/-- The instruction `buffer_atomic_add v[1:2], v5, s[8:11], s3 offen glc tfe` assembles, its
VDATA is read and written as a whole, and no record of the TFE lane is added: record 5 stays
empty and record 0 keeps the range `[257, 259)`, which includes the last register. -/
theorem atomic_tfe_no_lane_record :
    (parseMUBUFEncoding sampleRVUConsts false ⟨"buffer_atomic_add", GCNENC_MUBUF, 0x2000,
        0x32, 0, 1⟩
      ⟨true, true, ⟨261, 262, false⟩, ⟨257, 259, false⟩, ⟨8, 12, false⟩,
        ⟨⟨3, 4, false⟩, 0, 0⟩, true, 0, false, true, false, true, false, false, false, true,
        0, 0⟩
      GCNEncSize.UNKNOWN []
      (fun i =>
        if i = 0 then ⟨false, 257, 259, GCNFIELD_M_VDATA, 1, 0⟩
        else if i = 1 then ⟨false, 261, 262, GCNFIELD_M_VADDR, 1, 0⟩
        else ⟨false, 0, 0, ASMFIELD_NONE, 0, 0⟩)).ret = true ∧
    (List.range 6).map (parseMUBUFEncoding sampleRVUConsts false
      ⟨"buffer_atomic_add", GCNENC_MUBUF, 0x2000, 0x32, 0, 1⟩
      ⟨true, true, ⟨261, 262, false⟩, ⟨257, 259, false⟩, ⟨8, 12, false⟩,
        ⟨⟨3, 4, false⟩, 0, 0⟩, true, 0, false, true, false, true, false, false, false, true,
        0, 0⟩
      GCNEncSize.UNKNOWN []
      (fun i =>
        if i = 0 then ⟨false, 257, 259, GCNFIELD_M_VDATA, 1, 0⟩
        else if i = 1 then ⟨false, 261, 262, GCNFIELD_M_VADDR, 1, 0⟩
        else ⟨false, 0, 0, ASMFIELD_NONE, 0, 0⟩)).instrRVUs =
      [⟨false, 257, 259, GCNFIELD_M_VDATA, 3, 0⟩, ⟨false, 261, 262, GCNFIELD_M_VADDR, 1, 0⟩,
        ⟨false, 0, 0, ASMFIELD_NONE, 0, 0⟩, ⟨false, 0, 0, ASMFIELD_NONE, 0, 0⟩,
        ⟨false, 0, 0, ASMFIELD_NONE, 0, 0⟩, ⟨false, 0, 0, ASMFIELD_NONE, 0, 0⟩] := by
  decide

/-! ## Register-usage records: MUBUF with LDS -/

/-- C30: when a MUBUF instruction with the `lds` modifier assembles, record 0 of VDATA has no
field tag and the records 4 (second half) and 5 (TFE lane) are those found on entry, which
are empty for an instruction that starts from reset records; and with `lds` and `tfe`
together the encoder fails and appends no byte, with the error `Both LDS and TFE is illegal`
when the forced size is not 32 bits, the operands parse and `addr64` does not come with
`offen` or `idxen`. -/
theorem mubuf_lds_suppresses_vdata (C : RVUConsts) (isGCN12 : Bool)
    (gcnInsn : GCNAsmInstruction) (p : MUBUFParsed) (gcnEncSize : GCNEncSize)
    (output : List Nat) (rvus : Nat → AsmRegVarUsage) (hlds : p.haveLds = true) :
    ((parseMUBUFEncoding C isGCN12 gcnInsn p gcnEncSize output rvus).ret = true →
      ((parseMUBUFEncoding C isGCN12 gcnInsn p gcnEncSize output rvus).instrRVUs 0).regField =
        ASMFIELD_NONE ∧
      (parseMUBUFEncoding C isGCN12 gcnInsn p gcnEncSize output rvus).instrRVUs 4 = rvus 4 ∧
      (parseMUBUFEncoding C isGCN12 gcnInsn p gcnEncSize output rvus).instrRVUs 5 = rvus 5 ∧
      (parseMUBUFEncoding C isGCN12 gcnInsn p gcnEncSize output rvus).output =
        emitWords output (parseMUBUFWords isGCN12 gcnInsn p.offset p.haveOffen p.haveIdxen
          p.haveGlc p.haveAddr64 p.haveLds p.haveSlc p.haveTfe p.dfmt p.nfmt p.vaddrReg
          p.vdataReg p.srsrcReg p.soffsetOp)) ∧
    ((rvus 4).regField = ASMFIELD_NONE → (rvus 5).regField = ASMFIELD_NONE →
      (parseMUBUFEncoding C isGCN12 gcnInsn p gcnEncSize output rvus).ret = true →
      ∀ i, i = 0 ∨ i = 4 ∨ i = 5 →
        ((parseMUBUFEncoding C isGCN12 gcnInsn p gcnEncSize output rvus).instrRVUs
          i).regField = ASMFIELD_NONE) ∧
    (p.haveTfe = true →
      (parseMUBUFEncoding C isGCN12 gcnInsn p gcnEncSize output rvus).ret = false ∧
      (parseMUBUFEncoding C isGCN12 gcnInsn p gcnEncSize output rvus).output = output ∧
      (gcnEncSize ≠ GCNEncSize.BIT32 → p.good = true → p.noGarbage = true →
        (p.haveAddr64 && (p.haveOffen || p.haveIdxen)) = false →
        (parseMUBUFEncoding C isGCN12 gcnInsn p gcnEncSize output rvus).errors =
          ["Both LDS and TFE is illegal"])) := by
  have key : (parseMUBUFEncoding C isGCN12 gcnInsn p gcnEncSize output rvus).ret = true →
      ((parseMUBUFEncoding C isGCN12 gcnInsn p gcnEncSize output rvus).instrRVUs 0).regField =
        ASMFIELD_NONE ∧
      (parseMUBUFEncoding C isGCN12 gcnInsn p gcnEncSize output rvus).instrRVUs 4 = rvus 4 ∧
      (parseMUBUFEncoding C isGCN12 gcnInsn p gcnEncSize output rvus).instrRVUs 5 = rvus 5 := by
    intro hret
    obtain ⟨hx, hRes⟩ := parseMUBUFEncoding_ok C isGCN12 gcnInsn p gcnEncSize output rvus hret
    rw [hlds, Bool.and_true] at hx
    rw [hRes]
    simp only [hx, hlds, Bool.false_and, Bool.false_eq_true, if_false, if_true]
    rw [setRVU_same, setRVU_other _ _ _ _ (by decide), setRVU_other _ _ _ _ (by decide)]
    refine ⟨rfl, ?_, ?_⟩
    all_goals
      unfold mubufUsagesBeforeCheck
      simp only [hlds, Bool.not_true, Bool.and_false, Bool.false_and, Bool.false_eq_true,
        if_false]
      split_ifs
      all_goals
        simp only [setRVU, ne_eq, OfNat.ofNat_ne_zero, OfNat.ofNat_ne_one, not_false_eq_true,
          Function.update_noteq]
  refine ⟨fun hret => ⟨(key hret).1, (key hret).2.1, (key hret).2.2, ?_⟩,
    fun h4 h5 hret i hi => ?_, fun ht => ?_⟩
  · unfold parseMUBUFEncoding at hret ⊢
    by_cases h1 : gcnEncSize = GCNEncSize.BIT32
    · rw [if_pos h1] at hret
      exact absurd hret (by simp)
    · rw [if_neg h1] at hret ⊢
      dsimp only at hret ⊢
      split_ifs at hret ⊢
      all_goals rfl
  · rcases hi with hi | hi | hi
    · rw [hi]
      exact (key hret).1
    · rw [hi, (key hret).2.1]
      exact h4
    · rw [hi, (key hret).2.2]
      exact h5
  · unfold parseMUBUFEncoding
    by_cases h1 : gcnEncSize = GCNEncSize.BIT32
    · rw [if_pos h1]
      exact ⟨rfl, rfl, fun h => absurd h1 h⟩
    · rw [if_neg h1]
      dsimp only
      by_cases h2 : !p.good ∨ !p.noGarbage
      · rw [if_pos h2]
        refine ⟨rfl, rfl, fun _ hg hn => ?_⟩
        rw [hg, hn] at h2
        simp at h2
      · rw [if_neg h2]
        by_cases h3 : (p.haveAddr64 && (p.haveOffen || p.haveIdxen)) = true
        · rw [if_pos h3]
          refine ⟨rfl, rfl, fun _ _ _ h => ?_⟩
          rw [h] at h3
          exact absurd h3 (by simp)
        · rw [if_neg h3, if_pos (by rw [ht, hlds]; rfl)]
          exact ⟨rfl, rfl, fun _ _ _ _ => rfl⟩

set_option maxRecDepth 100000 in
/-- The instruction `buffer_load_dword v1, v5, s[8:11], s3 offen lds` assembles and leaves no
record for VDATA. -/
theorem mubuf_lds_suppresses_vdata_witness :
    ((parseMUBUFEncoding sampleRVUConsts false ⟨"buffer_load_dword", GCNENC_MUBUF, 0x1000,
        0xc, 0, 1⟩
      ⟨true, true, ⟨261, 262, false⟩, ⟨257, 258, false⟩, ⟨8, 12, false⟩,
        ⟨⟨3, 4, false⟩, 0, 0⟩, true, 0, false, true, false, false, false, true, false, false,
        0, 0⟩
      GCNEncSize.UNKNOWN []
      (fun i =>
        if i = 0 then ⟨false, 257, 258, GCNFIELD_M_VDATA, 1, 0⟩
        else if i = 1 then ⟨false, 261, 262, GCNFIELD_M_VADDR, 1, 0⟩
        else ⟨false, 0, 0, ASMFIELD_NONE, 0, 0⟩)).instrRVUs 0).regField = ASMFIELD_NONE ∧
    (parseMUBUFEncoding sampleRVUConsts false ⟨"buffer_load_dword", GCNENC_MUBUF, 0x1000,
        0xc, 0, 1⟩
      ⟨true, true, ⟨261, 262, false⟩, ⟨257, 259, false⟩, ⟨8, 12, false⟩,
        ⟨⟨3, 4, false⟩, 0, 0⟩, true, 0, false, true, false, false, false, true, false, true,
        0, 0⟩
      GCNEncSize.UNKNOWN [7]
      (fun i =>
        if i = 0 then ⟨false, 257, 259, GCNFIELD_M_VDATA, 1, 0⟩
        else if i = 1 then ⟨false, 261, 262, GCNFIELD_M_VADDR, 1, 0⟩
        else ⟨false, 0, 0, ASMFIELD_NONE, 0, 0⟩)).errors = ["Both LDS and TFE is illegal"] :=
  ⟨((mubuf_lds_suppresses_vdata sampleRVUConsts false
      ⟨"buffer_load_dword", GCNENC_MUBUF, 0x1000, 0xc, 0, 1⟩
      ⟨true, true, ⟨261, 262, false⟩, ⟨257, 258, false⟩, ⟨8, 12, false⟩,
        ⟨⟨3, 4, false⟩, 0, 0⟩, true, 0, false, true, false, false, false, true, false, false,
        0, 0⟩
      GCNEncSize.UNKNOWN []
      (fun i =>
        if i = 0 then ⟨false, 257, 258, GCNFIELD_M_VDATA, 1, 0⟩
        else if i = 1 then ⟨false, 261, 262, GCNFIELD_M_VADDR, 1, 0⟩
        else ⟨false, 0, 0, ASMFIELD_NONE, 0, 0⟩) rfl).1 (by decide)).1,
    ((mubuf_lds_suppresses_vdata sampleRVUConsts false
      ⟨"buffer_load_dword", GCNENC_MUBUF, 0x1000, 0xc, 0, 1⟩
      ⟨true, true, ⟨261, 262, false⟩, ⟨257, 259, false⟩, ⟨8, 12, false⟩,
        ⟨⟨3, 4, false⟩, 0, 0⟩, true, 0, false, true, false, false, false, true, false, true,
        0, 0⟩
      GCNEncSize.UNKNOWN [7]
      (fun i =>
        if i = 0 then ⟨false, 257, 259, GCNFIELD_M_VDATA, 1, 0⟩
        else if i = 1 then ⟨false, 261, 262, GCNFIELD_M_VADDR, 1, 0⟩
        else ⟨false, 0, 0, ASMFIELD_NONE, 0, 0⟩) rfl).2.2 rfl).2.2 (by decide) rfl rfl rfl⟩

/-! ## Inline constants promoted to literals -/

/-- The eight single-precision patterns of the table `constImmFloatLiterals` denote 0.5,
-0.5, 1.0, -1.0, 2.0, -2.0, 4.0 and -4.0. -/
theorem constImmFloatLiterals_values :
    (constImmFloatLiterals.take 8).map ieee754SingleValue =
      [1 / 2, -(1 / 2), 1, -1, 2, -2, 4, -4] := by
  simp only [constImmFloatLiterals, List.take, List.map, ieee754SingleValue]
  norm_num

/-- C31: `tryPromoteConstImmToLiteral` turns an inline constant of a fixed operand into a
literal of the same value. The operand code `n` in 128..192 becomes the literal slot 255 with
the value `n - 128`; `n` in 193..208 becomes 255 with the value `2^32 - (n - 192)`, the 32-bit
two's complement of `-(n - 192)`; `n` in 240..247 becomes 255 with the patterns 0x3f000000,
0xbf000000, 0x3f800000, 0xbf800000, 0x40000000, 0xc0000000, 0x40800000, 0xc0800000, which are
the IEEE-754 single-precision patterns of 0.5, -0.5, 1.0, -1.0, 2.0, -2.0, 4.0, -4.0;
`n = 248` becomes 255 with the value 0x3e22f983 on GCN 1.2 and later; every other operand (a
register variable, a register, a code outside these ranges, 248 before GCN 1.2) is left
unchanged. The end of the range and the operand modifiers are kept in every case. -/
theorem inline_constant_promoted_to_literal (op : GCNOperand) (isGCN12 : Bool) :
    (op.range.regVar = false → 128 ≤ op.range.start → op.range.start ≤ 192 →
      tryPromoteConstImmToLiteral op isGCN12 =
        { op with value := op.range.start - 128,
                  range := { op.range with start := 255 } }) ∧
    (op.range.regVar = false → 193 ≤ op.range.start → op.range.start ≤ 208 →
      tryPromoteConstImmToLiteral op isGCN12 =
        { op with value := 2 ^ 32 - (op.range.start - 192),
                  range := { op.range with start := 255 } }) ∧
    (op.range.regVar = false → 240 ≤ op.range.start → op.range.start ≤ 247 →
      tryPromoteConstImmToLiteral op isGCN12 =
        { op with value := [0x3f000000, 0xbf000000, 0x3f800000, 0xbf800000, 0x40000000,
                    0xc0000000, 0x40800000, 0xc0800000].getD (op.range.start - 240) 0,
                  range := { op.range with start := 255 } } ∧
      ieee754SingleValue (tryPromoteConstImmToLiteral op isGCN12).value =
        [1 / 2, -(1 / 2), 1, -1, 2, -2, 4, -4].getD (op.range.start - 240) 0) ∧
    (op.range.regVar = false → op.range.start = 248 → isGCN12 = true →
      tryPromoteConstImmToLiteral op isGCN12 =
        { op with value := 0x3e22f983, range := { op.range with start := 255 } }) ∧
    (op.range.regVar = true ∨ op.range.start < 128 ∨
        (208 < op.range.start ∧ op.range.start < 240) ∨
        (op.range.start = 248 ∧ isGCN12 = false) ∨ 248 < op.range.start →
      tryPromoteConstImmToLiteral op isGCN12 = op) := by
  obtain ⟨⟨n, e, rv⟩, v, m⟩ := op
  simp only []
  refine ⟨fun hr h1 h2 => ?_, fun hr h1 h2 => ?_, fun hr h1 h2 => ?_, fun hr h1 h2 => ?_,
    fun h => ?_⟩
  · subst hr
    unfold tryPromoteConstImmToLiteral
    simp only [RegRange.isRegVar]
    rw [if_pos (by simp; omega), if_pos (by omega)]
    have : toUInt32 ((n : Int) - 128) = n - 128 := by
      unfold toUInt32
      omega
    rw [this]
  · subst hr
    unfold tryPromoteConstImmToLiteral
    simp only [RegRange.isRegVar]
    rw [if_pos (by simp; omega), if_neg (by omega)]
    have : toUInt32 (192 - (n : Int)) = 2 ^ 32 - (n - 192) := by
      unfold toUInt32
      omega
    rw [this]
  · subst hr
    have hpromoted : tryPromoteConstImmToLiteral ⟨⟨n, e, false⟩, v, m⟩ isGCN12 =
        ⟨⟨255, e, false⟩, [0x3f000000, 0xbf000000, 0x3f800000, 0xbf800000, 0x40000000,
          0xc0000000, 0x40800000, 0xc0800000].getD (n - 240) 0, m⟩ := by
      unfold tryPromoteConstImmToLiteral
      simp only [RegRange.isRegVar]
      rw [if_neg (by simp; omega), if_pos (by simp; omega)]
      have hk : n - 240 < 8 := by omega
      have : constImmFloatLiterals.getD (n - 240) 0 =
          [0x3f000000, 0xbf000000, 0x3f800000, 0xbf800000, 0x40000000,
            0xc0000000, 0x40800000, 0xc0800000].getD (n - 240) 0 := by
        generalize n - 240 = k at hk
        interval_cases k <;> rfl
      rw [this]
    refine ⟨hpromoted, ?_⟩
    rw [hpromoted]
    have hv := constImmFloatLiterals_values
    simp only [constImmFloatLiterals, List.take, List.map, List.cons.injEq, and_true] at hv
    obtain ⟨v0, v1, v2, v3, v4, v5, v6, v7⟩ := hv
    have hk : n - 240 < 8 := by omega
    generalize n - 240 = k at hk
    interval_cases k
    · exact v0
    · exact v1
    · exact v2
    · exact v3
    · exact v4
    · exact v5
    · exact v6
    · exact v7
  · subst hr
    subst h1
    subst h2
    unfold tryPromoteConstImmToLiteral
    simp only [RegRange.isRegVar]
    rw [if_neg (by simp), if_pos (by simp)]
    simp [constImmFloatLiterals]
  · unfold tryPromoteConstImmToLiteral
    simp only [RegRange.isRegVar]
    rw [if_neg, if_neg]
    · rcases h with h | h | h | h | h
      · simp [h]
      · simp; intro _; omega
      · simp; intro _; omega
      · simp [h.1, h.2]
      · simp; intro _; omega
    · rcases h with h | h | h | h | h
      · simp [h]
      · simp; intro _; omega
      · simp; intro _; omega
      · simp [h.1]
      · simp; intro _; omega

/-- The inline constant -3 (operand code 195) of a fixed operand becomes the literal
0xfffffffd. -/
theorem inline_constant_promoted_to_literal_witness :
    (⟨⟨195, 196, false⟩, 0, 0⟩ : GCNOperand).range.regVar = false ∧
    193 ≤ (⟨⟨195, 196, false⟩, 0, 0⟩ : GCNOperand).range.start ∧
    (⟨⟨195, 196, false⟩, 0, 0⟩ : GCNOperand).range.start ≤ 208 ∧
    tryPromoteConstImmToLiteral ⟨⟨195, 196, false⟩, 0, 0⟩ false =
      ⟨⟨255, 196, false⟩, 0xfffffffd, 0⟩ :=
  ⟨rfl, by decide, by decide,
    (inline_constant_promoted_to_literal ⟨⟨195, 196, false⟩, 0, 0⟩ false).2.1 rfl (by decide)
      (by decide)⟩

/-! ## The merged descriptor table: the order of the mnemonics and the lookup -/

/-- The table after `std::sort` is in ascending order of the comparator, hence in ascending
order of the mnemonics. -/
theorem sortTable_mnemonics (table : List GCNAsmInstruction) :
    (sortTable table).Pairwise (fun a b => ¬ cstr b.mnemonic < cstr a.mnemonic) := by
  have hr : ∀ a b : GCNAsmInstruction, instrBefore b a = false ↔
      toLex (cstr a.mnemonic, toLex (a.encoding.value, a.archMask)) ≤
        toLex (cstr b.mnemonic, toLex (b.encoding.value, b.archMask)) := by
    intro a b
    rw [← not_lt, ← instrBefore_iff]
    simp
  haveI : IsTotal GCNAsmInstruction (fun a b => instrBefore b a = false) :=
    ⟨fun a b => by
      simp only [hr]
      exact le_total _ _⟩
  haveI : IsTrans GCNAsmInstruction (fun a b => instrBefore b a = false) :=
    ⟨fun a b c => by
      simp only [hr]
      exact le_trans⟩
  have hs := List.sorted_insertionSort (fun a b : GCNAsmInstruction => instrBefore b a = false)
    table
  unfold sortTable
  refine List.Pairwise.imp ?_ hs
  intro a b hab
  have h1 := (hr a b).1 hab
  intro hlt
  have : toLex (cstr b.mnemonic, toLex (b.encoding.value, b.archMask)) <
      toLex (cstr a.mnemonic, toLex (a.encoding.value, a.archMask)) := by
    rw [Prod.Lex.lt_iff]
    exact Or.inl hlt
  exact absurd h1 (not_le.mpr this)

/-- Replacing an entry of a list by one with the same image leaves the images unchanged. -/
theorem map_set_same {α β : Type} (f : α → β) :
    ∀ (l : List α) (k : Nat) (e e1 : α), l[k]? = some e → f e1 = f e →
      (l.set k e1).map f = l.map f := by
  intro l
  induction l with
  | nil => intro k e e1 h _; simp at h
  | cons x xs ih =>
    intro k e e1 h hf
    cases k with
    | zero =>
      simp only [List.getElem?_cons_zero, Option.some.injEq] at h
      subst h
      simp [hf]
    | succ k =>
      simp only [List.getElem?_cons_succ] at h
      simp only [List.set_cons_succ, List.map_cons, List.cons.injEq, true_and]
      exact ih k e e1 h hf

/-- One iteration of the merge loop leaves the mnemonics of the table unchanged or appends
the mnemonic of the processed entry. -/
theorem mergeStep_mnemonic_list (sorted : List GCNAsmInstruction)
    (out out1 : List (GCNAsmInstruction × Nat)) (x : GCNAsmInstruction)
    (h : mergeStep sorted out x = some out1) :
    out1.map (fun d => d.1.mnemonic) = out.map (fun d => d.1.mnemonic) ∨
    out1.map (fun d => d.1.mnemonic) = out.map (fun d => d.1.mnemonic) ++ [x.mnemonic] := by
  rcases mergeStep_cases sorted out out1 x h with h1 | ⟨k, e, hk, hm, _, _, _, h1⟩ |
    ⟨k, e, m, hk, hm, _, _, _, h1⟩ | ⟨k, e, hk, hm, _, _, h1⟩
  · right
    rw [h1]
    simp
  · left
    rw [h1]
    exact map_set_same (fun d : GCNAsmInstruction × Nat => d.1.mnemonic) out k e _ hk rfl
  · right
    rw [h1]
    simp [hm]
  · right
    rw [h1]
    have hk1 : (out ++ [(x, x.archMask)])[k]? = some e := by
      have hlt : k < out.length := (List.getElem?_eq_some.1 hk).1
      rw [List.getElem?_append_left hlt]
      exact hk
    have hset := map_set_same (fun d : GCNAsmInstruction × Nat => d.1.mnemonic)
      (out ++ [(x, x.archMask)]) k e ({ e.1 with code2 := x.code1 }, e.2) hk1 rfl
    rw [hset]
    simp

/-- The mnemonics of the table built by the merge loop are, in their order, among those of
the table built before followed by those of the processed entries. -/
theorem mergeLoop_mnemonic_sublist (sorted : List GCNAsmInstruction) :
    ∀ (l : List GCNAsmInstruction) (out o : List (GCNAsmInstruction × Nat)),
      mergeLoop sorted l out = some o →
      (o.map (fun d => d.1.mnemonic)).Sublist
        (out.map (fun d => d.1.mnemonic) ++ l.map (fun x => x.mnemonic)) := by
  intro l
  induction l with
  | nil =>
    intro out o h
    unfold mergeLoop at h
    simp only [Option.some.injEq] at h
    subst h
    simp
  | cons x rest ih =>
    intro out o h
    unfold mergeLoop at h
    cases hs : mergeStep sorted out x with
    | none => rw [hs] at h; simp at h
    | some out1 =>
      rw [hs] at h
      simp only [] at h
      have h1 := ih out1 o h
      rcases mergeStep_mnemonic_list sorted out out1 x hs with h2 | h2
      · rw [h2] at h1
        refine h1.trans ?_
        exact List.Sublist.append (List.Sublist.refl _) (List.sublist_cons_self _ _)
      · rw [h2] at h1
        simpa using h1

/-- The table that `initializeGCNAssembler` returns is in ascending order of the
mnemonics. -/
theorem initializeGCNAssembler_mnemonics (gcnInstrsTable : List GCNInstruction)
    (table : List GCNAsmInstruction) (h : initializeGCNAssembler gcnInstrsTable = some table) :
    table.Pairwise (fun a b => ¬ cstr b.mnemonic < cstr a.mnemonic) := by
  unfold initializeGCNAssembler at h
  cases ho : mergeLoop (sortTable (loadTable gcnInstrsTable))
      (sortTable (loadTable gcnInstrsTable)) [] with
  | none => rw [ho] at h; simp at h
  | some o =>
    rw [ho] at h
    simp only [Option.map_some', Option.some.injEq] at h
    subst h
    have hsub := mergeLoop_mnemonic_sublist _ _ _ _ ho
    simp only [List.map_nil, List.nil_append] at hsub
    have hsorted := sortTable_mnemonics (loadTable gcnInstrsTable)
    have h1 : ((sortTable (loadTable gcnInstrsTable)).map (fun x => x.mnemonic)).Pairwise
        (fun a b => ¬ cstr b < cstr a) := List.pairwise_map.2 hsorted
    have h2 := List.Pairwise.sublist hsub h1
    rw [List.pairwise_map] at h2
    rw [List.pairwise_map]
    exact h2

/-- The forward scan over a list in ascending order of the mnemonics whose entries do not
precede the mnemonic searched for: when the list holds a descriptor of the mnemonic that is
valid for the architecture, the scan stops at such a descriptor. -/
theorem skipNotMatched_finds (mnemonic : String) (curArchMask : Nat) :
    ∀ (l : List GCNAsmInstruction),
      l.Pairwise (fun a b => ¬ cstr b.mnemonic < cstr a.mnemonic) →
      (∀ y ∈ l, ¬ cstr y.mnemonic < cstr mnemonic) →
      (∃ d ∈ l, d.mnemonic = mnemonic ∧ d.archMask &&& curArchMask ≠ 0) →
      ∃ x rest, skipNotMatched mnemonic curArchMask l = x :: rest ∧ x ∈ l ∧
        x.mnemonic = mnemonic ∧ x.archMask &&& curArchMask ≠ 0 := by
  intro l
  induction l with
  | nil =>
    intro _ _ ⟨d, hd, _⟩
    simp at hd
  | cons x rest ih =>
    intro hp hall ⟨d, hd, hdm, hdv⟩
    unfold skipNotMatched
    by_cases hx : x.mnemonic = mnemonic ∧ x.archMask &&& curArchMask = 0
    · rw [if_pos hx]
      have hdr : d ∈ rest := by
        rcases List.mem_cons.1 hd with h | h
        · subst h
          exact absurd hx.2 hdv
        · exact h
      obtain ⟨y, r1, h1, h2, h3, h4⟩ := ih (List.Pairwise.of_cons hp)
        (fun y hy => hall y (List.mem_cons_of_mem _ hy)) ⟨d, hdr, hdm, hdv⟩
      exact ⟨y, r1, h1, List.mem_cons_of_mem _ h2, h3, h4⟩
    · rw [if_neg hx]
      have hxm : x.mnemonic = mnemonic := by
        rcases List.mem_cons.1 hd with h | h
        · subst h
          exact hdm
        · have h1 : ¬ cstr d.mnemonic < cstr x.mnemonic := List.rel_of_pairwise_cons hp h
          have h2 : ¬ cstr x.mnemonic < cstr mnemonic := hall x (List.mem_cons_self _ _)
          rw [hdm] at h1
          exact cstr_inj _ _ (le_antisymm (not_lt.mp h1) (not_lt.mp h2))
      have hxv : x.archMask &&& curArchMask ≠ 0 := fun h0 => hx ⟨hxm, h0⟩
      exact ⟨x, rest, rfl, List.mem_cons_self _ _, hxm, hxv⟩

/-- The entries from the first one that fails a test on are those left by `dropWhile`. -/
theorem drop_takeWhile_length {α : Type} (p : α → Bool) :
    ∀ l : List α, l.drop (l.takeWhile p).length = l.dropWhile p := by
  intro l
  induction l with
  | nil => rfl
  | cons x xs ih =>
    by_cases hx : p x = true
    · simp [List.takeWhile_cons, List.dropWhile_cons, hx, ih]
    · simp [List.takeWhile_cons, List.dropWhile_cons, hx]

/-- The lookup of `assemble` on a table in ascending order of the mnemonics, when
`binaryFind` returns the first entry that carries the mnemonic: a descriptor of the mnemonic
that is valid for the architecture is found whenever the table holds one. -/
theorem findInstruction_finds (binaryFind : List GCNAsmInstruction → String → Nat)
    (table : List GCNAsmInstruction) (mnemonic : String) (curArchMask : Nat)
    (hp : table.Pairwise (fun a b => ¬ cstr b.mnemonic < cstr a.mnemonic))
    (hfind : binaryFind table mnemonic =
      (table.takeWhile (fun x => decide (x.mnemonic ≠ mnemonic))).length)
    (hd : ∃ d ∈ table, d.mnemonic = mnemonic ∧ d.archMask &&& curArchMask ≠ 0) :
    ∃ d, findInstruction binaryFind table mnemonic curArchMask = some d ∧ d ∈ table ∧
      d.mnemonic = mnemonic ∧ d.archMask &&& curArchMask ≠ 0 := by
  obtain ⟨d, hdt, hdm, hdv⟩ := hd
  have hsplit := List.takeWhile_append_dropWhile (fun x => decide (x.mnemonic ≠ mnemonic)) table
  have hdl : d ∈ table.dropWhile (fun x => decide (x.mnemonic ≠ mnemonic)) := by
    rw [← hsplit] at hdt
    rcases List.mem_append.1 hdt with h | h
    · have := List.mem_takeWhile_imp h
      simp only [decide_eq_true_eq] at this
      exact absurd hdm this
    · exact h
  have hsub : (table.dropWhile (fun x => decide (x.mnemonic ≠ mnemonic))).Sublist table :=
    List.dropWhile_sublist _
  have hpl := List.Pairwise.sublist hsub hp
  unfold findInstruction
  simp only [hfind, drop_takeWhile_length]
  cases hl : table.dropWhile (fun x => decide (x.mnemonic ≠ mnemonic)) with
  | nil => rw [hl] at hdl; simp at hdl
  | cons x0 rest =>
    rw [hl] at hdl hpl hsub
    have hx0 : x0.mnemonic = mnemonic := by
      have h0 := dropWhile_head_not (fun x => decide (x.mnemonic ≠ mnemonic)) table x0 rest hl
      simpa using h0
    have hall : ∀ y ∈ x0 :: rest, ¬ cstr y.mnemonic < cstr mnemonic := by
      intro y hy
      rcases List.mem_cons.1 hy with h | h
      · subst h
        rw [hx0]
        exact lt_irrefl _
      · rw [← hx0]
        exact List.rel_of_pairwise_cons hpl h
    obtain ⟨x, r1, h1, h2, h3, h4⟩ :=
      skipNotMatched_finds mnemonic curArchMask (x0 :: rest) hpl hall ⟨d, hdl, hdm, hdv⟩
    have hit : (if x0.archMask &&& curArchMask = 0 then skipNotMatched mnemonic curArchMask rest
        else x0 :: rest) = x :: r1 := by
      have hs : skipNotMatched mnemonic curArchMask (x0 :: rest) =
          if x0.mnemonic = mnemonic ∧ x0.archMask &&& curArchMask = 0 then
            skipNotMatched mnemonic curArchMask rest
          else x0 :: rest := rfl
      rw [← h1, hs]
      by_cases hv : x0.archMask &&& curArchMask = 0
      · rw [if_pos hv, if_pos ⟨hx0, hv⟩]
      · rw [if_neg hv, if_neg (fun hh => hv hh.2)]
    simp only [hit]
    refine ⟨x, ?_, hsub.subset h2, h3, h4⟩
    rw [if_neg (by simp [h3])]

/-- C32: the table that `initializeGCNAssembler` returns is in ascending order of the
mnemonics (no entry is followed by an entry with a smaller mnemonic), so the descriptors of
one mnemonic are contiguous; and when `binaryFind` returns the first entry that carries the
mnemonic, the lookup of `assemble` (binary search, then the forward scan over the entries of
the mnemonic) finds a descriptor of the mnemonic that is valid for the current architecture
whenever the table holds one. The order by encoding family and by architecture mask, which
`std::sort` establishes, is not kept by the merge loop. -/
theorem merged_table_sorted_by_mnemonic (gcnInstrsTable : List GCNInstruction)
    (table : List GCNAsmInstruction)
    (h : initializeGCNAssembler gcnInstrsTable = some table) :
    table.Pairwise (fun a b => strcmpLess b.mnemonic a.mnemonic = false) ∧
    (∀ (i j k : Nat) (a b c : GCNAsmInstruction), i ≤ j → j ≤ k → table[i]? = some a → table[j]? = some b →
      table[k]? = some c → a.mnemonic = c.mnemonic → b.mnemonic = a.mnemonic) ∧
    (∀ (binaryFind : List GCNAsmInstruction → String → Nat) (mnemonic : String)
      (curArchMask : Nat),
      binaryFind table mnemonic =
        (table.takeWhile (fun x => decide (x.mnemonic ≠ mnemonic))).length →
      (∃ d ∈ table, d.mnemonic = mnemonic ∧ d.archMask &&& curArchMask ≠ 0) →
      ∃ d, findInstruction binaryFind table mnemonic curArchMask = some d ∧ d ∈ table ∧
        d.mnemonic = mnemonic ∧ d.archMask &&& curArchMask ≠ 0) := by
  have hp := initializeGCNAssembler_mnemonics gcnInstrsTable table h
  refine ⟨?_, ?_, ?_⟩
  · refine List.Pairwise.imp ?_ hp
    intro a b hab
    unfold strcmpLess
    simpa using hab
  · intro i j k a b c hij hjk ha hb hc hac
    have hrel : ∀ (i j : Nat) (a b : GCNAsmInstruction), i ≤ j → table[i]? = some a →
        table[j]? = some b → ¬ cstr b.mnemonic < cstr a.mnemonic := by
      intro i j a b hij ha hb
      rcases Nat.eq_or_lt_of_le hij with heq | hlt
      · subst heq
        rw [ha] at hb
        simp only [Option.some.injEq] at hb
        subst hb
        exact lt_irrefl _
      · obtain ⟨hi, hai⟩ := List.getElem?_eq_some.1 ha
        obtain ⟨hj, hbj⟩ := List.getElem?_eq_some.1 hb
        have := List.pairwise_iff_getElem.1 hp i j hi hj hlt
        rw [hai, hbj] at this
        exact this
    have h1 := hrel i j a b hij ha hb
    have h2 := hrel j k b c hjk hb hc
    rw [← hac] at h2
    exact cstr_inj _ _ (le_antisymm (not_lt.mp h2) (not_lt.mp h1))
  · intro binaryFind mnemonic curArchMask hfind hd
    exact findInstruction_finds binaryFind table mnemonic curArchMask hp hfind hd

set_option maxRecDepth 100000 in
/-- The table with `s_nop` (SOPP), `v_mov_b32` (VOP1, every architecture of the mask 7) and
its VOP3A form for the architectures 3: the routine returns the two descriptors, the second
with both opcodes, and the lookup of `v_mov_b32` for the architecture 1 selects it. -/
theorem merged_table_sorted_by_mnemonic_witness :
    initializeGCNAssembler [⟨some "v_mov_b32", GCNENC_VOP1, 0, 1, 7⟩,
        ⟨some "v_mov_b32", GCNENC_VOP3A, 0, 385, 3⟩, ⟨some "s_nop", GCNENC_SOPP, 0, 0, 7⟩,
        ⟨none, GCNENC_NONE, 0, 0, 0⟩] =
      some [⟨"s_nop", GCNENC_SOPP, 0, 0, 0xffff, 7⟩, ⟨"v_mov_b32", GCNENC_VOP1, 0, 1, 385, 3⟩] ∧
    ∃ d, findInstruction (fun _ _ => 1)
        [⟨"s_nop", GCNENC_SOPP, 0, 0, 0xffff, 7⟩, ⟨"v_mov_b32", GCNENC_VOP1, 0, 1, 385, 3⟩]
        "v_mov_b32" 1 = some d ∧
      d ∈ [(⟨"s_nop", GCNENC_SOPP, 0, 0, 0xffff, 7⟩ : GCNAsmInstruction),
        ⟨"v_mov_b32", GCNENC_VOP1, 0, 1, 385, 3⟩] ∧
      d.mnemonic = "v_mov_b32" ∧ d.archMask &&& 1 ≠ 0 :=
  ⟨by decide,
    (merged_table_sorted_by_mnemonic
      [⟨some "v_mov_b32", GCNENC_VOP1, 0, 1, 7⟩, ⟨some "v_mov_b32", GCNENC_VOP3A, 0, 385, 3⟩,
        ⟨some "s_nop", GCNENC_SOPP, 0, 0, 7⟩, ⟨none, GCNENC_NONE, 0, 0, 0⟩]
      [⟨"s_nop", GCNENC_SOPP, 0, 0, 0xffff, 7⟩, ⟨"v_mov_b32", GCNENC_VOP1, 0, 1, 385, 3⟩]
      (by decide)).2.2 (fun _ _ => 1) "v_mov_b32" 1 (by decide)
      ⟨⟨"v_mov_b32", GCNENC_VOP1, 0, 1, 385, 3⟩, by decide, by decide, by decide⟩⟩

set_option maxRecDepth 100000 in
/-- The table that `initializeGCNAssembler` returns need not be in the order of the
comparator. For `v_op` with the VOP2 opcode 10 on the architecture 2, the VOP2 opcode 20 on
the architectures 5 and the VOP3A opcode 0x120 on the architecture 1, the VOP3A entry is
merged into the second descriptor, whose mask becomes 1 and is then below the mask 2 of the
first. For `v_op` with a VOP2 entry (architectures 3), VOP3A entries (architectures 1 and 4)
and a VOP3B entry (architecture 2), the VOP3B entry is appended as a copy of the VOP2
descriptor behind the VOP3A descriptor. In both tables the comparator puts a later entry
before an earlier one. -/
theorem merged_table_not_sorted_by_mask :
    initializeGCNAssembler [⟨some "v_op", GCNENC_VOP2, 0, 10, 2⟩,
        ⟨some "v_op", GCNENC_VOP2, 0, 20, 5⟩, ⟨some "v_op", GCNENC_VOP3A, 0, 0x120, 1⟩,
        ⟨none, GCNENC_NONE, 0, 0, 0⟩] =
      some [⟨"v_op", GCNENC_VOP2, 0, 10, 0xffff, 2⟩, ⟨"v_op", GCNENC_VOP2, 0, 20, 0x120, 1⟩] ∧
    instrBefore ⟨"v_op", GCNENC_VOP2, 0, 20, 0x120, 1⟩ ⟨"v_op", GCNENC_VOP2, 0, 10, 0xffff, 2⟩ =
      true ∧
    initializeGCNAssembler [⟨some "s_nop", GCNENC_SOPP, 0, 0, 7⟩,
        ⟨some "v_op", GCNENC_VOP2, 0, 10, 3⟩, ⟨some "v_op", GCNENC_VOP3A, 0, 0x110, 1⟩,
        ⟨some "v_op", GCNENC_VOP3A, 0, 0x120, 4⟩, ⟨some "v_op", GCNENC_VOP3B, 0, 0x130, 2⟩,
        ⟨none, GCNENC_NONE, 0, 0, 0⟩] =
      some [⟨"s_nop", GCNENC_SOPP, 0, 0, 0xffff, 7⟩, ⟨"v_op", GCNENC_VOP2, 0, 10, 0x110, 1⟩,
        ⟨"v_op", GCNENC_VOP3A, 0, 0x120, 0xffff, 4⟩, ⟨"v_op", GCNENC_VOP2, 0, 10, 0x130, 2⟩] ∧
    instrBefore ⟨"v_op", GCNENC_VOP2, 0, 10, 0x130, 2⟩
      ⟨"v_op", GCNENC_VOP3A, 0, 0x120, 0xffff, 4⟩ = true := by
  decide

/-! ## `fillAlignment`: the number of bytes written -/

set_option maxRecDepth 100000 in
/-- C33: `fillAlignment(5, output)` for the five bytes in front of the aligned address 8
(`output` is the address 3) writes three zero bytes at 3..5 and the word 0xBF800000 at 6..9:
seven bytes, two of them beyond `output + size`, and the word is not aligned. For the size 3
(`output` 5) it writes the single byte 5 and leaves 6 and 7 as they were; for the size 1
(`output` 7) it writes the bytes 7, 8 and 9. Only a size that is 0 or 2 modulo 4 gets exactly
`size` bytes (size 6 at `output` 2). The memory holds 0xAA before each call. -/
theorem fillAlignment_wrong_zero_run :
    bytesOfMem (fillAlignment 5 3 (fun _ => 0xaa)) 12 =
      [0xaa, 0xaa, 0xaa, 0, 0, 0, 0, 0, 0x80, 0xbf, 0xaa, 0xaa] ∧
    bytesOfMem (fillAlignment 3 5 (fun _ => 0xaa)) 12 =
      [0xaa, 0xaa, 0xaa, 0xaa, 0xaa, 0, 0xaa, 0xaa, 0xaa, 0xaa, 0xaa, 0xaa] ∧
    bytesOfMem (fillAlignment 1 7 (fun _ => 0xaa)) 12 =
      [0xaa, 0xaa, 0xaa, 0xaa, 0xaa, 0xaa, 0xaa, 0, 0, 0, 0xaa, 0xaa] ∧
    bytesOfMem (fillAlignment 6 2 (fun _ => 0xaa)) 12 =
      [0xaa, 0xaa, 0, 0, 0, 0, 0x80, 0xbf, 0xaa, 0xaa, 0xaa, 0xaa] := by
  decide

/-! ## The scalar branch encoders: a failing call and the code-flow list -/

set_option maxRecDepth 100000 in
/-- C34: `s_branch L` with the known target 8, followed by trailing garbage, makes
`parseSOPPEncoding` return false with the output unchanged, but the code-flow list has
received the entry (0, 8, JUMP); `s_endpgm` followed by garbage leaves the entry (4, 0, END);
`s_cbranch_i_fork s[2:3], L` with trailing garbage, and the same instruction under a forced
64-bit size, make `parseSOPKEncoding` return false with the output unchanged and the entry
(0, 8, CJUMP) added. -/
theorem failed_branch_leaves_code_flow_entry :
    parseSOPPEncodingRel 2 GCNEncSize.UNKNOWN ⟨true, 8, false, false⟩ [] 0 [] =
      ⟨false, [], none, [⟨0, 8, AsmCodeFlowType.JUMP⟩], []⟩ ∧
    parseSOPPEncodingNone 1 GCNEncSize.UNKNOWN false [] 0 [] =
      ⟨false, [], none, [⟨4, 0, AsmCodeFlowType.END⟩], []⟩ ∧
    parseSOPKEncodingRel false false false 17 GCNEncSize.UNKNOWN
        ⟨true, true, ⟨2, 4, false⟩, true, 8, false, true, true, 0, false, ⟨0, 0, false⟩, false⟩
        [] 0 [] =
      ⟨false, [], [], [⟨0, 8, AsmCodeFlowType.CJUMP⟩], []⟩ ∧
    parseSOPKEncodingRel false false false 17 GCNEncSize.BIT64
        ⟨true, true, ⟨2, 4, false⟩, true, 8, false, true, true, 0, false, ⟨0, 0, false⟩, true⟩
        [] 0 [] =
      ⟨false, [], [], [⟨0, 8, AsmCodeFlowType.CJUMP⟩], []⟩ := by
  decide

/-! ## A relative branch resolved later: the kind of the code-flow entry -/

set_option maxRecDepth 100000 in
/-- C35: `s_call_b64 s[2:3], L` (SOPK opcode 21) on GCN 1.4 at the offset 0 with the target 8.
When the target is known the encoder emits the word 0xba820001 and records the entry
(0, 8, CALL). When the target is resolved later the encoder emits 0xba820000 with a
`GCNTGT_SOPJMP` relocation and records nothing; `resolveCode` then patches the word to
0xba820001 and records the entry (0, 8, CJUMP): the same offset and target, but not the kind
CALL. -/
theorem call_resolved_later_recorded_as_cjump :
    parseSOPKEncodingRel true false false 21 GCNEncSize.UNKNOWN
        ⟨true, true, ⟨2, 4, false⟩, true, 8, false, true, true, 0, false, ⟨0, 0, false⟩, true⟩
        [] 0 [] =
      ⟨true, wordsToBytes [0xba820001], [], [⟨0, 8, AsmCodeFlowType.CALL⟩], []⟩ ∧
    parseSOPKEncodingRel true false false 21 GCNEncSize.UNKNOWN
        ⟨true, true, ⟨2, 4, false⟩, true, 0, true, true, true, 0, false, ⟨0, 0, false⟩, true⟩
        [] 0 [] =
      ⟨true, wordsToBytes [0xba820000], [(GCNTGT_SOPJMP, 0)], [], []⟩ ∧
    (resolveCode 0 (memOfBytes (wordsToBytes [0xba820000])) 0 GCNTGT_SOPJMP 0 8).ret = true ∧
    bytesOfMem
        (resolveCode 0 (memOfBytes (wordsToBytes [0xba820000])) 0 GCNTGT_SOPJMP 0
          8).sectionData 4 =
      wordsToBytes [0xba820001] ∧
    (resolveCode 0 (memOfBytes (wordsToBytes [0xba820000])) 0 GCNTGT_SOPJMP 0 8).codeFlow =
      [(0, ⟨0, 8, AsmCodeFlowType.CJUMP⟩)] := by
  decide

/-! ## `getInstructionSize` against the bytes of the SOPC encoder -/

set_option maxRecDepth 100000 in
/-- C36: `s_set_gpr_idx_on s0, 0xff` (SOPC opcode 17 of GCN 1.2, a descriptor with
`GCN_SRC1_IMM`) is emitted as the single word 0xbf11ff00, four bytes, and
`getInstructionSize` returns 8 for these bytes: it takes the immediate 0xff in the SRC1 field
for the literal marker. For `s_cmp_eq_i32 s0, s1` and for `s_cmp_eq_i32 s0, 0x12345` the
result is the number of bytes emitted. -/
theorem getInstructionSize_sopc_immediate :
    parseSOPCEncoding true true 17 ⟨true, ⟨⟨0, 1, false⟩, 0, 0⟩, ⟨⟨0xff, 0, false⟩, 0, 0⟩,
        false, false⟩ GCNEncSize.UNKNOWN [] =
      ⟨true, wordsToBytes [0xbf11ff00], none⟩ ∧
    getInstructionSize false true 4 (wordsToBytes [0xbf11ff00]) = 8 ∧
    parseSOPCEncoding true false 0 ⟨true, ⟨⟨0, 1, false⟩, 0, 0⟩, ⟨⟨1, 2, false⟩, 0, 0⟩,
        false, false⟩ GCNEncSize.UNKNOWN [] =
      ⟨true, wordsToBytes [0xbf000100], none⟩ ∧
    getInstructionSize false true 4 (wordsToBytes [0xbf000100]) = 4 ∧
    parseSOPCEncoding true false 0 ⟨true, ⟨⟨0, 1, false⟩, 0, 0⟩,
        ⟨⟨255, 0, false⟩, 0x12345, 0⟩, false, false⟩ GCNEncSize.UNKNOWN [] =
      ⟨true, wordsToBytes [0xbf00ff00, 0x12345], none⟩ ∧
    getInstructionSize false true 8 (wordsToBytes [0xbf00ff00, 0x12345]) = 8 := by
  decide

/-! ## `initializeGCNDisassembler`: where the descriptors are stored -/

set_option maxRecDepth 100000 in
/-- C39: for the instruction table with `s_add_u32` (SOP2, opcode 0) and `s_sub_u32` (SOP2,
opcode 1), `initializeGCNDisassembler` stores both descriptors at the index 0x200, the offset
of the SOP2 space: the entry at 0x200 + 1 keeps its null mnemonic and the entry at 0x200 + 0
is `s_sub_u32`. With this table `disassemble` prints the word 0x80020100 of
`s_add_u32 s2, s0, s1` as `s_sub_u32 s2, s0, s1` and reads a null mnemonic for the word
0x80820100 of `s_sub_u32 s2, s0, s1`. -/
theorem by_code_table_ignores_opcode :
    (initializeGCNDisassembler [⟨some "s_add_u32", GCNENC_SOP2, 0, 0, 1⟩,
        ⟨some "s_sub_u32", GCNENC_SOP2, 0, 1, 1⟩, ⟨none, GCNENC_NONE, 0, 0, 0⟩]
      (0x200 + 1)).mnemonic = none ∧
    (initializeGCNDisassembler [⟨some "s_add_u32", GCNENC_SOP2, 0, 0, 1⟩,
        ⟨some "s_sub_u32", GCNENC_SOP2, 0, 1, 1⟩, ⟨none, GCNENC_NONE, 0, 0, 0⟩]
      (0x200 + 0)).mnemonic = some "s_sub_u32" ∧
    (disassemble
        ⟨initializeGCNDisassembler [⟨some "s_add_u32", GCNENC_SOP2, 0, 0, 1⟩,
          ⟨some "s_sub_u32", GCNENC_SOP2, 0, 1, 1⟩, ⟨none, GCNENC_NONE, 0, 0, 0⟩],
          sampleModeConsts, true, fun _ => []⟩
        (wordsToBytes [0x80020100]) []).text = cstr "        s_sub_u32 s2, s0, s1\n" ∧
    (disassemble
        ⟨initializeGCNDisassembler [⟨some "s_add_u32", GCNENC_SOP2, 0, 0, 1⟩,
          ⟨some "s_sub_u32", GCNENC_SOP2, 0, 1, 1⟩, ⟨none, GCNENC_NONE, 0, 0, 0⟩],
          sampleModeConsts, true, fun _ => []⟩
        (wordsToBytes [0x80820100]) []).fault = some DisasmFault.nullMnemonic := by
  decide

/-! ## The second word of a two-word instruction at the end of the buffer -/

set_option maxRecDepth 100000 in
/-- C40: the buffer of the two words 0xd8000000, 0x00000000 is one complete DS instruction,
and `disassemble` throws `Instruction outside code space!` on it, as it does for a first word
of the FLAT, MUBUF, MTBUF, MIMG and EXP families followed by one word: the check of these
families is `pos+1 >= codeWordsNum` with `pos` already at the second word. The VOP3 word
0xd0000000 followed by one word is fetched as a whole (the position after it is 2), and the
DS instruction is fetched once a third word follows it. -/
theorem two_word_instruction_at_end_throws :
    (disassemble sampleEnv (wordsToBytes [0xd8000000, 0]) []).fault =
      some (DisasmFault.exception "Instruction outside code space!") ∧
    [0xd8000000, 0xdc000000, 0xe0000000, 0xe8000000, 0xf0000000, 0xf8000000].map
        (fun w => (determineEncoding (wordsToBytes [w, 0]) 2 w 1).toOption.map
          (fun f => f.pos)) =
      [none, none, none, none, none, none] ∧
    (determineEncoding (wordsToBytes [0xd0000000, 0]) 2 0xd0000000 1).toOption.map
        (fun f => (f.gcnEncoding, f.pos)) = some (GCNENC_VOP3A, 2) ∧
    (determineEncoding (wordsToBytes [0xd8000000, 0, 0]) 3 0xd8000000 1).toOption.map
        (fun f => (f.gcnEncoding, f.pos)) = some (GCNENC_DS, 2) := by
  decide

/-! ## `getRegPair`: the field tags of the encoders and the size of the decoded range -/

set_option maxRecDepth 100000 in
/-- C37: `getRegPair` has no label for `GCNFIELD_FLAT_SADDR`, the tag under which
`parseFLATEncoding` records the scalar address of a FLAT instruction: for the words
0xdc508000, 0x01040002 of `global_load_dword v1, v2, s[4:5]` (GCN 1.4) and the flags of the
two-register read it raises `Unknown GCNField`. Of the 43 field tags under which the encoder
routines record a usage this is the only one it does not decode; the second-half destination
of SMEM (`GCNFIELD_SMRD_SDSTH`) and the SDWA scalar source (`GCNFIELD_DPPSDWA_SSRC0`) are
decoded. -/
theorem getRegPair_unknown_flat_saddr :
    getRwFlags sampleRVUConsts GCNFIELD_FLAT_SADDR 4 6 = some 8 ∧
    getRegPair sampleRVUConsts true 0xdc508000 0x01040002 GCNFIELD_FLAT_SADDR (8 ||| 1) =
      none ∧
    encoderFieldTags.length = 43 ∧
    encoderFieldTags.filter
        (fun regField =>
          (getRegPair sampleRVUConsts true 0xdc508000 0x01040002 regField (8 ||| 1)).isNone) =
      [GCNFIELD_FLAT_SADDR] ∧
    (getRegPair sampleRVUConsts true 0xc0020102 0 GCNFIELD_SMRD_SDSTH 1).isSome = true ∧
    (getRegPair sampleRVUConsts true 0x7e0002f9 0x00000004 GCNFIELD_DPPSDWA_SSRC0 1).isSome =
      true := by
  decide

/-- The size field of the flag byte: a size code below 16 that is shifted to the position
`ASMRVU_REGSIZE_SHIFT ≤ 4` is read back unchanged. -/
theorem size_field_decoded (sh k : Nat) (hsh : sh ≤ 4) (hk : k ≤ 15) :
    ((((k <<< sh) % 256) >>> sh) &&& 15) = k := by
  have hpow : 2 ^ sh ≤ 16 := by
    calc 2 ^ sh ≤ 2 ^ 4 := Nat.pow_le_pow_right (by norm_num) hsh
      _ = 16 := by norm_num
  have hpos : 0 < 2 ^ sh := Nat.two_pow_pos _
  rw [Nat.shiftLeft_eq, Nat.shiftRight_eq_div_pow]
  have hlt : k * 2 ^ sh < 256 := by
    calc k * 2 ^ sh ≤ 15 * 16 := Nat.mul_le_mul hk hpow
      _ < 256 := by norm_num
  rw [Nat.mod_eq_of_lt hlt, Nat.mul_div_cancel _ hpos, and_15]
  omega

/-- A range that starts at a masked field of an instruction word does not wrap. -/
theorem and_add16_sub (a m n : Nat) (h : m + n < 2 ^ 16) :
    add16 (a &&& m) n - (a &&& m) = n := by
  have := @Nat.and_le_right a m
  unfold add16
  omega

/-- The low seven bits of a word. -/
theorem and_7f (w : Nat) : w &&& 0x7f = w % 2 ^ 7 := Nat.and_pow_two_sub_one_eq_mod w 7

/-- The loop of the label `GCNFIELD_SMRD_SDST` counts the doublings that reach the size:
0, 1, 2, 3, 4 for the sizes 1, 2, 4, 8, 16. -/
theorem rwFlagsSizeLoop_pow2 (k : Nat) (hk : k ≤ 4) :
    rwFlagsSizeLoop (2 ^ k) 17 1 0 = some k := by
  interval_cases k <;> decide

set_option maxHeartbeats 400000 in
/-- C38: the size round trip of the usage flags. When the size field of four bits lies within
the flag byte (`ASMRVU_REGSIZE_SHIFT ≤ 4`), `rend` is a 16-bit number and the second
instruction word a 32-bit number, then for every ordinary register field and every range
size `rend - rstart` that is legal for it (`GCNFIELD_SMRD_SBASE`: 2 or 4; `GCNFIELD_SMRD_SDST`:
1, 2, 4, 8 or 16; `GCNFIELD_M_SRSRC`: 4 or 8; `GCNFIELD_MIMG_SSAMP`: 4; every other field
that `getRegPair` decodes and that is not derived from another record: 1 to 16),
`getRwFlags` returns flags, `getRegPair` returns a pair `(s, e)` for these flags, and
`e - s = rend - rstart`. -/
theorem usage_flags_size_round_trip (C : RVUConsts) (isGCN12 : Bool) (code1 code2 : Nat)
    (regField : AsmRegField) (rstart rend : Nat)
    (hshift : C.ASMRVU_REGSIZE_SHIFT ≤ 4) (hc2 : code2 < 2 ^ 32) (hrend : rend < 2 ^ 16)
    (hlegal : legalRangeSize regField (rend - rstart) = true) :
    ∃ s e, (getRwFlags C regField rstart rend).bind
        (getRegPair C isGCN12 code1 code2 regField) = some (s, e) ∧
      e - s = rend - rstart := by
  have hsub : ∀ n, rend - rstart = n → 1 ≤ n →
      sub16 (sub16 rend rstart) 1 = n - 1 := by
    intro n hn h1
    unfold sub16
    omega
  cases regField
  case GCNFIELD_SMRD_SBASE =>
    unfold legalRangeSize at hlegal
    simp only [Bool.or_eq_true, beq_iff_eq] at hlegal
    have hk : sub16 (sub16 rend rstart) 1 >>> 1 = (rend - rstart) / 2 - 1 := by
      rw [hsub _ rfl (by omega), Nat.shiftRight_eq_div_pow]
      omega
    have hd := size_field_decoded C.ASMRVU_REGSIZE_SHIFT ((rend - rstart) / 2 - 1) hshift
      (by omega)
    unfold getRwFlags getRegPair
    simp only [Option.some_bind, hk, hd]
    refine ⟨_, _, rfl, ?_⟩
    have hsz : ((((rend - rstart) / 2 - 1 + 1) % 256) <<< 1) % 256 = rend - rstart := by
      rw [Nat.shiftLeft_eq]
      omega
    rw [hsz]
    cases isGCN12
    · exact and_add16_sub _ _ _ (by omega)
    · exact and_add16_sub _ _ _ (by omega)
  case GCNFIELD_SMRD_SDST =>
    unfold legalRangeSize at hlegal
    simp only [Bool.or_eq_true, beq_iff_eq] at hlegal
    obtain ⟨k, hk4, hkn⟩ : ∃ k, k ≤ 4 ∧ rend - rstart = 2 ^ k := by
      rcases hlegal with (((h | h) | h) | h) | h
      · exact ⟨0, by omega, by rw [h]; rfl⟩
      · exact ⟨1, by omega, by rw [h]; rfl⟩
      · exact ⟨2, by omega, by rw [h]; rfl⟩
      · exact ⟨3, by omega, by rw [h]; rfl⟩
      · exact ⟨4, by omega, by rw [h]; rfl⟩
    have hpos : 1 ≤ 2 ^ k := Nat.one_le_two_pow
    have hle : 2 ^ k ≤ 16 := by
      calc 2 ^ k ≤ 2 ^ 4 := Nat.pow_le_pow_right (by norm_num) hk4
        _ = 16 := by norm_num
    have hsz : add16 (sub16 (sub16 rend rstart) 1) 1 = 2 ^ k := by
      rw [hsub _ hkn hpos]
      unfold add16
      omega
    have hd := size_field_decoded C.ASMRVU_REGSIZE_SHIFT k hshift (by omega)
    unfold getRwFlags getRegPair
    simp only [hsz, rwFlagsSizeLoop_pow2 k hk4, Option.map_some', Option.some_bind, hd]
    refine ⟨_, _, rfl, ?_⟩
    have hsz2 : (1 <<< ((k + 1) % 256 - 1)) % 256 = rend - rstart := by
      have h1 : (k + 1) % 256 - 1 = k := by omega
      rw [h1, Nat.shiftLeft_eq, Nat.one_mul, hkn]
      exact Nat.mod_eq_of_lt (by omega)
    rw [hsz2, hkn]
    cases isGCN12
    · exact and_add16_sub _ _ _ (by omega)
    · exact and_add16_sub _ _ _ (by omega)
  case GCNFIELD_M_SRSRC =>
    unfold legalRangeSize at hlegal
    simp only [Bool.or_eq_true, beq_iff_eq] at hlegal
    have hk : sub16 (sub16 rend rstart) 1 >>> 2 = (rend - rstart) / 4 - 1 := by
      rw [hsub _ rfl (by omega), Nat.shiftRight_eq_div_pow]
      omega
    have hd := size_field_decoded C.ASMRVU_REGSIZE_SHIFT ((rend - rstart) / 4 - 1) hshift
      (by omega)
    unfold getRwFlags getRegPair
    simp only [Option.some_bind, hk, hd]
    refine ⟨_, _, rfl, ?_⟩
    have hsz : ((((rend - rstart) / 4 - 1 + 1) % 256) <<< 2) % 256 = rend - rstart := by
      rw [Nat.shiftLeft_eq]
      omega
    rw [hsz]
    exact and_add16_sub _ _ _ (by omega)
  case GCNFIELD_MIMG_SSAMP =>
    unfold legalRangeSize at hlegal
    simp only [beq_iff_eq] at hlegal
    have hk : sub16 (sub16 rend rstart) 1 >>> 2 = (rend - rstart) / 4 - 1 := by
      rw [hsub _ rfl (by omega), Nat.shiftRight_eq_div_pow]
      omega
    have hd := size_field_decoded C.ASMRVU_REGSIZE_SHIFT ((rend - rstart) / 4 - 1) hshift
      (by omega)
    unfold getRwFlags getRegPair
    simp only [Option.some_bind, hk, hd]
    refine ⟨_, _, rfl, ?_⟩
    have hsz : ((((rend - rstart) / 4 - 1 + 1) % 256) <<< 2) % 256 = rend - rstart := by
      rw [Nat.shiftLeft_eq]
      omega
    rw [hsz]
    exact and_add16_sub _ _ _ (by omega)
  all_goals
    first
    | (unfold legalRangeSize at hlegal
       simp only [Bool.false_eq_true] at hlegal
       done)
    | (unfold legalRangeSize at hlegal
       simp only [Bool.and_eq_true, decide_eq_true_eq] at hlegal
       have hd := size_field_decoded C.ASMRVU_REGSIZE_SHIFT (rend - rstart - 1) hshift
         (by omega)
       have hsz : (rend - rstart - 1 + 1) % 256 = rend - rstart := by omega
       unfold getRwFlags getRegPair
       simp only [Option.some_bind, hsub _ rfl hlegal.1, hd, hsz]
       refine ⟨_, _, rfl, ?_⟩
       simp only [add16, and_ff, and_1ff, and_7f, Nat.shiftRight_eq_div_pow]
       first
       | omega
       | (split_ifs <;> omega))

/-- The four-register resource `s[8:11]` of a buffer instruction with the second word
0x03820105: the flags are 0 and the decoded pair is (8, 12). -/
theorem usage_flags_size_round_trip_witness :
    sampleRVUConsts.ASMRVU_REGSIZE_SHIFT ≤ 4 ∧ 0x03820105 < 2 ^ 32 ∧ 12 < 2 ^ 16 ∧
    legalRangeSize GCNFIELD_M_SRSRC (12 - 8) = true ∧
    (getRwFlags sampleRVUConsts GCNFIELD_M_SRSRC 8 12).bind
      (getRegPair sampleRVUConsts false 0xe0301000 0x03820105 GCNFIELD_M_SRSRC) =
        some (8, 12) ∧
    ∃ s e, (getRwFlags sampleRVUConsts GCNFIELD_M_SRSRC 8 12).bind
        (getRegPair sampleRVUConsts false 0xe0301000 0x03820105 GCNFIELD_M_SRSRC) =
          some (s, e) ∧
      e - s = 12 - 8 :=
  ⟨by decide, by decide, by decide, by decide, by decide,
    usage_flags_size_round_trip sampleRVUConsts false 0xe0301000 0x03820105 GCNFIELD_M_SRSRC
      8 12 (by decide) (by decide) (by decide) (by decide)⟩

end CLRX
